import Mathlib

/-! # DashEngine character movement: a shallow embedding

The definitions below transcribe
`Source/DashEngine/Private/DashCharacterMovementComponent.cpp`.

* `float` values are exact rationals (`ℚ`); every finite float is one.
* The engine's square roots are not rational functions, so `FMath::Sqrt`
  and `FMath::InvSqrt` are taken as a parameter (`FMath`); theorems state
  the accuracy they need of it.
* Calls into the engine whose code is not part of the repository (collision
  queries, root motion, mode changes, ...) are fields of `FEngine`, functions
  of the component state, so that every answer sequence can be represented.
-/

namespace DashEngine

/-! ## Engine constants -/

/-- Modelled from the spec: engine constant `SMALL_NUMBER` (1e-8), the tolerance
below which safe-normalize returns zero for near-zero vectors. -/
def SMALL_NUMBER : ℚ := 1 / 100000000

/-- Modelled from the spec: engine constant `KINDA_SMALL_NUMBER` (1e-4). -/
def KINDA_SMALL_NUMBER : ℚ := 1 / 10000

/-- Modelled from the spec: `minTickTime`, the engine constant
`UCharacterMovementComponent::MIN_TICK_TIME` (1e-6). -/
def MIN_TICK_TIME : ℚ := 1 / 1000000

/-- Modelled from the spec: engine constant `SWEEP_EDGE_REJECT_DISTANCE` (0.15),
the `edgeRejectDistance` of the floor finder. -/
def SWEEP_EDGE_REJECT_DISTANCE : ℚ := 15 / 100

/-- Modelled from the spec: engine constant
`UCharacterMovementComponent::MAX_FLOOR_DIST` (2.4). -/
def MAX_FLOOR_DIST : ℚ := 24 / 10

/-- Modelled from the spec: engine constant
`UCharacterMovementComponent::MIN_FLOOR_DIST` (1.9). -/
def MIN_FLOOR_DIST : ℚ := 19 / 10

/-- Modelled from the spec: engine constant `THRESH_NORMALS_ARE_PARALLEL`
(0.999845), the near-parallel threshold. -/
def THRESH_NORMALS_ARE_PARALLEL : ℚ := 999845 / 1000000

/-- Modelled from the spec: engine constant
`UCharacterMovementComponent::BRAKE_TO_STOP_VELOCITY` (10). -/
def BRAKE_TO_STOP_VELOCITY : ℚ := 10

/-- Modelled from the spec: engine constant `MAX_STEP_SIDE_Z` (0.08). -/
def MAX_STEP_SIDE_Z : ℚ := 8 / 100

/-! ## Vector math (`FVector`, `FQuat`, `FMath`) -/

/-- The engine's square roots, `FMath::Sqrt` and `FMath::InvSqrt`. -/
structure FMath where
  Sqrt : ℚ → ℚ
  InvSqrt : ℚ → ℚ

/-- `FMath::Square`. -/
def Square (x : ℚ) : ℚ := x * x

/-- `FMath::Max3`. -/
def Max3 (a b c : ℚ) : ℚ := max (max a b) c

/-- The engine's 3D vector. -/
structure FVector where
  X : ℚ
  Y : ℚ
  Z : ℚ
deriving DecidableEq, Repr

namespace FVector

/-- `FVector::ZeroVector`. -/
def ZeroVector : FVector := ⟨0, 0, 0⟩

instance : Inhabited FVector := ⟨ZeroVector⟩

instance : Add FVector := ⟨fun a b => ⟨a.X + b.X, a.Y + b.Y, a.Z + b.Z⟩⟩

instance : Sub FVector := ⟨fun a b => ⟨a.X - b.X, a.Y - b.Y, a.Z - b.Z⟩⟩

instance : Neg FVector := ⟨fun a => ⟨-a.X, -a.Y, -a.Z⟩⟩

/-- `FVector::operator*(float)`. -/
instance : HMul FVector ℚ FVector := ⟨fun a s => ⟨a.X * s, a.Y * s, a.Z * s⟩⟩

/-- `operator*(float, const FVector&)`. -/
instance : HMul ℚ FVector FVector := ⟨fun s a => ⟨a.X * s, a.Y * s, a.Z * s⟩⟩

/-- `FVector::operator/(float)`: multiplies by the reciprocal. -/
instance : HDiv FVector ℚ FVector := ⟨fun a s => ⟨a.X * (1 / s), a.Y * (1 / s), a.Z * (1 / s)⟩⟩

/-- `FVector::operator|`, the dot product. -/
def Dot (a b : FVector) : ℚ := a.X * b.X + a.Y * b.Y + a.Z * b.Z

/-- `FVector::operator^`, the cross product. -/
def Cross (a b : FVector) : FVector :=
  ⟨a.Y * b.Z - a.Z * b.Y, a.Z * b.X - a.X * b.Z, a.X * b.Y - a.Y * b.X⟩

/-- `FVector::SizeSquared`. -/
def SizeSquared (v : FVector) : ℚ := v.X * v.X + v.Y * v.Y + v.Z * v.Z

/-- `FVector::Size`. -/
def Size (M : FMath) (v : FVector) : ℚ := M.Sqrt (v.X * v.X + v.Y * v.Y + v.Z * v.Z)

/-- `FVector::IsZero`: exact comparison of the three components with zero. -/
def IsZero (v : FVector) : Bool := v.X == 0 && v.Y == 0 && v.Z == 0

/-- `FVector::IsNearlyZero` with its default tolerance `KINDA_SMALL_NUMBER`. -/
def IsNearlyZero (v : FVector) : Bool :=
  decide (|v.X| ≤ KINDA_SMALL_NUMBER) && decide (|v.Y| ≤ KINDA_SMALL_NUMBER)
    && decide (|v.Z| ≤ KINDA_SMALL_NUMBER)

/-- Modelled from the spec: `FVector::GetSafeNormal` with its default tolerance
`SMALL_NUMBER`; safe-normalize returns zero for near-zero vectors, a vector
whose squared length is exactly one is returned as it is, and every other
vector is scaled by the inverse square root of its squared length. -/
def GetSafeNormal (M : FMath) (v : FVector) : FVector :=
  let SquareSum := v.X * v.X + v.Y * v.Y + v.Z * v.Z
  if SquareSum = 1 then v
  else if SquareSum < SMALL_NUMBER then ZeroVector
  else
    let Scale := M.InvSqrt SquareSum
    ⟨v.X * Scale, v.Y * Scale, v.Z * Scale⟩

/-- Modelled from the spec: `FVector::GetClampedToMaxSize`, the clamp of a
vector to a maximal length that keeps its direction. -/
def GetClampedToMaxSize (M : FMath) (v : FVector) (MaxSize : ℚ) : FVector :=
  if MaxSize < KINDA_SMALL_NUMBER then ZeroVector
  else
    let VSq := v.SizeSquared
    if VSq > Square MaxSize then
      let Scale := MaxSize * M.InvSqrt VSq
      ⟨v.X * Scale, v.Y * Scale, v.Z * Scale⟩
    else v

/-- `FVector::ProjectOnToNormal`. -/
def ProjectOnToNormal (v Normal : FVector) : FVector := Normal * (Dot v Normal)

/-- `FVector::VectorPlaneProject`: plane projection of `V` for a plane normal. -/
def VectorPlaneProject (V PlaneNormal : FVector) : FVector := V - V.ProjectOnToNormal PlaneNormal

end FVector

/-- The engine's quaternion. -/
structure FQuat where
  X : ℚ
  Y : ℚ
  Z : ℚ
  W : ℚ
deriving DecidableEq, Repr

/-- `FQuat::Identity`. -/
def FQuat.Identity : FQuat := ⟨0, 0, 0, 1⟩

instance : Inhabited FQuat := ⟨FQuat.Identity⟩

/-- `FQuat::RotateVector` specialised to `(0,0,1)` as `GetComponentAxisZ` spells it out. -/
def FQuat.AxisZ (q : FQuat) : FVector :=
  let QuatVector : FVector := ⟨q.X, q.Y, q.Z⟩
  (⟨q.Y * q.W * 2, q.X * q.W * (-2), Square q.W - QuatVector.SizeSquared⟩ : FVector)
    + QuatVector * (q.Z * 2)

/-- `FQuat::RotateVector` specialised to `(1,0,0)` as `GetComponentAxisX` spells it out. -/
def FQuat.AxisX (q : FQuat) : FVector :=
  let QuatVector : FVector := ⟨q.X, q.Y, q.Z⟩
  (⟨Square q.W - QuatVector.SizeSquared, q.Z * q.W * 2, q.Y * q.W * (-2)⟩ : FVector)
    + QuatVector * (q.X * 2)

/-! ## Data model -/

/-- `EMovementMode`. -/
inductive EMovementMode where
  | MOVE_None
  | MOVE_Walking
  | MOVE_NavWalking
  | MOVE_Falling
  | MOVE_Swimming
  | MOVE_Flying
  | MOVE_Custom
deriving DecidableEq, Repr

/-- `ENetRole`. -/
inductive ENetRole where
  | ROLE_None
  | ROLE_SimulatedProxy
  | ROLE_AutonomousProxy
  | ROLE_Authority
deriving DecidableEq, Repr

/-- A primitive component of the world as the movement code sees it: its
per-surface walkable slope override (`GetWalkableSlopeOverride().ModifyWalkableFloorZ`),
its location, and the answers of `IsQueryCollisionEnabled` and
`MovementBaseUtility::IsDynamicBase`. -/
structure UPrimitiveComponent where
  ModifyWalkableFloorZ : ℚ → ℚ
  ComponentLocation : FVector
  bQueryCollisionEnabled : Bool
  bDynamicBase : Bool

/-- `FHitResult`, the hit record of the geometry queries. -/
structure FHitResult where
  bBlockingHit : Bool
  bStartPenetrating : Bool
  Time : ℚ
  Location : FVector
  ImpactPoint : FVector
  Normal : FVector
  ImpactNormal : FVector
  TraceStart : FVector
  TraceEnd : FVector
  Component : Option UPrimitiveComponent
  BoneName : Nat

/-- `FHitResult(float InTime)`: the cleared hit with the given time. -/
def FHitResult.Init (InTime : ℚ) : FHitResult :=
  { bBlockingHit := false, bStartPenetrating := false, Time := InTime,
    Location := FVector.ZeroVector, ImpactPoint := FVector.ZeroVector,
    Normal := FVector.ZeroVector, ImpactNormal := FVector.ZeroVector,
    TraceStart := FVector.ZeroVector, TraceEnd := FVector.ZeroVector,
    Component := none, BoneName := 0 }

instance : Inhabited FHitResult := ⟨FHitResult.Init 1⟩

/-- `FHitResult::IsValidBlockingHit`. -/
def FHitResult.IsValidBlockingHit (Hit : FHitResult) : Bool :=
  Hit.bBlockingHit && !Hit.bStartPenetrating

/-- `FFindFloorResult`. -/
structure FFindFloorResult where
  bBlockingHit : Bool
  bWalkableFloor : Bool
  bLineTrace : Bool
  FloorDist : ℚ
  LineDist : ℚ
  HitResult : FHitResult

/-- `FFindFloorResult::Clear` applied to a fresh result. -/
def FFindFloorResult.Cleared : FFindFloorResult :=
  { bBlockingHit := false, bWalkableFloor := false, bLineTrace := false,
    FloorDist := 0, LineDist := 0, HitResult := FHitResult.Init 1 }

instance : Inhabited FFindFloorResult := ⟨FFindFloorResult.Cleared⟩

/-- `FFindFloorResult::IsWalkableFloor`. -/
def FFindFloorResult.IsWalkableFloor (F : FFindFloorResult) : Bool :=
  F.bBlockingHit && F.bWalkableFloor

/-- `FFindFloorResult::SetFromSweep`. -/
def FFindFloorResult.SetFromSweep (_F : FFindFloorResult) (InHit : FHitResult)
    (InSweepFloorDist : ℚ) (bIsWalkableFloor : Bool) : FFindFloorResult :=
  { bBlockingHit := InHit.IsValidBlockingHit, bWalkableFloor := bIsWalkableFloor,
    bLineTrace := false, FloorDist := InSweepFloorDist, LineDist := 0, HitResult := InHit }

/-- `FFindFloorResult::SetFromLineTrace`: takes effect only when the sweep result
kept so far and the line hit are both blocking; the line hit replaces the stored
hit (normals, flags, component) but time, impact point, location and the trace
end points of the sweep are kept. -/
def FFindFloorResult.SetFromLineTrace (F : FFindFloorResult) (InHit : FHitResult)
    (InSweepFloorDist InLineDist : ℚ) (bIsWalkableFloor : Bool) : FFindFloorResult :=
  if F.HitResult.bBlockingHit && InHit.bBlockingHit then
    { bBlockingHit := F.bBlockingHit, bWalkableFloor := bIsWalkableFloor, bLineTrace := true,
      FloorDist := InSweepFloorDist, LineDist := InLineDist,
      HitResult :=
        { InHit with
          Time := F.HitResult.Time, ImpactPoint := F.HitResult.ImpactPoint,
          Location := F.HitResult.Location, TraceStart := F.HitResult.TraceStart,
          TraceEnd := F.HitResult.TraceEnd } }
  else F

/-- The scene component moved by the movement component (`UpdatedComponent`). -/
structure USceneComponent where
  ComponentLocation : FVector
  ComponentQuat : FQuat
  bQueryCollisionEnabled : Bool
deriving DecidableEq, Repr

instance : Inhabited USceneComponent := ⟨⟨FVector.ZeroVector, FQuat.Identity, true⟩⟩

/-- The owning character (`CharacterOwner`): whether it has a controller, its
network role and the scaled size of its capsule; `bIsCrouched`, the unscaled size
of its capsule and the shape scale (`GetShapeScale()`); and the unscaled capsule
size of the default object of its class
(`CharacterOwner->GetClass()->GetDefaultObject<ACharacter>()`). -/
structure ACharacter where
  Controller : Bool
  LocalRole : ENetRole
  ScaledCapsuleRadius : ℚ
  ScaledCapsuleHalfHeight : ℚ
  bIsCrouched : Bool := false
  UnscaledCapsuleRadius : ℚ := 34
  UnscaledCapsuleHalfHeight : ℚ := 88
  ShapeScale : ℚ := 1
  DefaultUnscaledCapsuleRadius : ℚ := 34
  DefaultUnscaledCapsuleHalfHeight : ℚ := 88
deriving DecidableEq, Repr

instance : Inhabited ACharacter :=
  ⟨{ Controller := true, LocalRole := ENetRole.ROLE_Authority, ScaledCapsuleRadius := 34,
     ScaledCapsuleHalfHeight := 88 }⟩

/-- The state of `UDashCharacterMovementComponent` (with the members it inherits
from the engine's `UCharacterMovementComponent`) that the modelled functions
read or write. `WorldGravityZ` is the value of `UPawnMovementComponent::GetGravityZ()`;
`MaxSpeed`, `MaxAcceleration` and `MinAnalogSpeed` are the values of `GetMaxSpeed()`,
`GetMaxAcceleration()` and `GetMinAnalogSpeed()`; `bHasAnimRootMotion` and
`bHasOverrideVelocity` are the values of `HasAnimRootMotion()` and
`CurrentRootMotion.HasOverrideVelocity()`; `bCanWalkOffLedges` is `CanWalkOffLedges()`;
`World` stands for the engine state behind the collision queries and callbacks;
`bHasAdditiveVelocity` is the value of `CurrentRootMotion.HasAdditiveVelocity()`,
`bComponentTickEnabled` of `IsComponentTickEnabled()`, `NetMode` of `GetNetMode()`
(`NM_Standalone` is 0). The members after `World` start with the engine's defaults. -/
structure UDashCharacterMovementComponent where
  MovementMode : EMovementMode
  Velocity : FVector
  Acceleration : FVector
  UpdatedComponent : Option USceneComponent
  CharacterOwner : Option ACharacter
  CurrentFloor : FFindFloorResult
  MovementBase : Option UPrimitiveComponent
  bJustTeleported : Bool
  GravityScale : ℚ
  WorldGravityZ : ℚ
  CustomGravityDirection : FVector
  bDirtyCustomGravityDirection : Bool
  GravityPoint : FVector
  OldGravityPoint : FVector
  OldGravityScale : ℚ
  bAlignComponentToFloor : Bool
  bAlignComponentToGravity : Bool
  bAlignCustomGravityToFloor : Bool
  bDisableGravityReplication : Bool
  WalkableFloorZ : ℚ
  MaxStepHeight : ℚ
  bMaintainHorizontalGroundVelocity : Bool
  bUseFlatBaseForFloorChecks : Bool
  bCanWalkOffLedges : Bool
  bForceMaxAccel : Bool
  AnalogInputModifier : ℚ
  bUseSeparateBrakingFriction : Bool
  BrakingFriction : ℚ
  BrakingFrictionFactor : ℚ
  BrakingSubStepTime : ℚ
  bUseRVOAvoidance : Bool
  bHasRequestedVelocity : Bool
  MaxSpeed : ℚ
  MaxAcceleration : ℚ
  MinAnalogSpeed : ℚ
  GroundFriction : ℚ
  BrakingDecelerationWalking : ℚ
  MaxSimulationIterations : Int
  bRunPhysicsWithNoController : Bool
  bHasAnimRootMotion : Bool
  bHasOverrideVelocity : Bool
  World : Nat
  bHasAdditiveVelocity : Bool := false
  bNotifyApex : Bool := false
  FallingLateralFriction : ℚ := 0
  BrakingDecelerationFalling : ℚ := 0
  AirControl : ℚ := 1 / 20
  AirControlBoostMultiplier : ℚ := 2
  AirControlBoostVelocityThreshold : ℚ := 25
  bComponentTickEnabled : Bool := true
  LastUpdateLocation : FVector := FVector.ZeroVector
  LastUpdateRotation : FQuat := FQuat.Identity
  LastUpdateVelocity : FVector := FVector.ZeroVector
  NetMode : Nat := 0
  CrouchedHalfHeight : ℚ := 40
  bCrouchMaintainsBaseLocation : Bool := false
  bShrinkProxyCapsule : Bool := false
  bForceNextFloorCheck : Bool := true

namespace UDashCharacterMovementComponent

/-- `HasValidData`: the updated component and the character owner exist. -/
def HasValidData (C : UDashCharacterMovementComponent) : Bool :=
  C.UpdatedComponent.isSome && C.CharacterOwner.isSome

/-- `UpdatedComponent->GetComponentLocation()`. -/
def GetComponentLocation (C : UDashCharacterMovementComponent) : FVector :=
  (C.UpdatedComponent.getD default).ComponentLocation

/-- `UpdatedComponent->GetComponentQuat()`. -/
def GetComponentQuat (C : UDashCharacterMovementComponent) : FQuat :=
  (C.UpdatedComponent.getD default).ComponentQuat

/-- `GetComponentAxisZ`: the capsule up axis. -/
def GetComponentAxisZ (C : UDashCharacterMovementComponent) : FVector :=
  C.GetComponentQuat.AxisZ

/-- `GetComponentAxisX`. -/
def GetComponentAxisX (C : UDashCharacterMovementComponent) : FVector :=
  C.GetComponentQuat.AxisX

/-- `IsMovingOnGround`. -/
def IsMovingOnGround (C : UDashCharacterMovementComponent) : Bool :=
  (C.MovementMode == EMovementMode.MOVE_Walking || C.MovementMode == EMovementMode.MOVE_NavWalking)
    && C.UpdatedComponent.isSome

/-- `IsFalling`. -/
def IsFalling (C : UDashCharacterMovementComponent) : Bool :=
  C.MovementMode == EMovementMode.MOVE_Falling && C.UpdatedComponent.isSome

/-- `IsSwimming`. -/
def IsSwimming (C : UDashCharacterMovementComponent) : Bool :=
  C.MovementMode == EMovementMode.MOVE_Swimming && C.UpdatedComponent.isSome

/-! ## Gravity model -/

/-- `UCharacterMovementComponent::GetGravityZ`: the world gravity scaled by `GravityScale`. -/
def GetGravityZ (C : UDashCharacterMovementComponent) : ℚ :=
  C.WorldGravityZ * C.GravityScale

/-- `GetGravity`. -/
def GetGravity (M : FMath) (C : UDashCharacterMovementComponent) : FVector :=
  if !C.CustomGravityDirection.IsZero then
    C.CustomGravityDirection * (|C.WorldGravityZ| * C.GravityScale)
  else
    match C.UpdatedComponent with
    | some U =>
      if !C.GravityPoint.IsZero then
        let GravityDir := C.GravityPoint - U.ComponentLocation
        if !GravityDir.IsZero then
          GravityDir.GetSafeNormal M * (|C.WorldGravityZ| * C.GravityScale)
        else ⟨0, 0, C.GetGravityZ⟩
      else ⟨0, 0, C.GetGravityZ⟩
    | none => ⟨0, 0, C.GetGravityZ⟩

/-- The sign factor `(x > 0.0f) ? 1.0f : -1.0f`. -/
def SignOf (x : ℚ) : ℚ := if x > 0 then 1 else -1

/-- The world-axis branch of `GetGravityDirection` for a non-zero gravity scale. -/
def GetGravityDirectionWorld (C : UDashCharacterMovementComponent) (bAvoidZeroGravity : Bool) :
    FVector :=
  let WorldGravityZ := C.WorldGravityZ
  if bAvoidZeroGravity || WorldGravityZ != 0 then
    ⟨0, 0, SignOf WorldGravityZ * SignOf C.GravityScale⟩
  else FVector.ZeroVector

/-- `GetGravityDirection`. -/
def GetGravityDirection (M : FMath) (C : UDashCharacterMovementComponent)
    (bAvoidZeroGravity : Bool) : FVector :=
  if C.GravityScale ≠ 0 then
    if !C.CustomGravityDirection.IsZero then
      C.CustomGravityDirection * SignOf C.GravityScale
    else
      match C.UpdatedComponent with
      | some U =>
        if !C.GravityPoint.IsZero then
          let GravityDir := C.GravityPoint - U.ComponentLocation
          if !bAvoidZeroGravity || !GravityDir.IsZero then
            GravityDir.GetSafeNormal M * SignOf C.GravityScale
          else C.GetGravityDirectionWorld bAvoidZeroGravity
        else C.GetGravityDirectionWorld bAvoidZeroGravity
      | none => C.GetGravityDirectionWorld bAvoidZeroGravity
  else if bAvoidZeroGravity then
    if !C.CustomGravityDirection.IsZero then C.CustomGravityDirection
    else
      match C.UpdatedComponent with
      | some U =>
        if !C.GravityPoint.IsZero then
          let GravityDir := C.GravityPoint - U.ComponentLocation
          if !GravityDir.IsZero then GravityDir.GetSafeNormal M
          else ⟨0, 0, SignOf C.WorldGravityZ⟩
        else ⟨0, 0, SignOf C.WorldGravityZ⟩
      | none => ⟨0, 0, SignOf C.WorldGravityZ⟩
  else FVector.ZeroVector

/-- `GetGravityMagnitude`. -/
def GetGravityMagnitude (C : UDashCharacterMovementComponent) : ℚ := |C.GetGravityZ|

/-- `SetCustomGravityDirection`. -/
def SetCustomGravityDirection (C : UDashCharacterMovementComponent)
    (NewCustomGravityDirection : FVector) : UDashCharacterMovementComponent :=
  { C with
    bDirtyCustomGravityDirection := decide (C.CustomGravityDirection ≠ NewCustomGravityDirection),
    CustomGravityDirection := NewCustomGravityDirection }

/-- `SetGravityDirection`. -/
def SetGravityDirection (M : FMath) (C : UDashCharacterMovementComponent)
    (NewGravityDirection : FVector) : UDashCharacterMovementComponent :=
  C.SetCustomGravityDirection (NewGravityDirection.GetSafeNormal M)

end UDashCharacterMovementComponent

namespace UDashCharacterMovementComponent

/-! ## Walkability and floor finding -/

/-- The walkable floor threshold used for a hit: `GetWalkableFloorZ()` after the
hit component's slope override, if the hit has a component. -/
def TestWalkableZ (C : UDashCharacterMovementComponent) (Hit : FHitResult) : ℚ :=
  match Hit.Component with
  | some HitComponent => HitComponent.ModifyWalkableFloorZ C.WalkableFloorZ
  | none => C.WalkableFloorZ

/-- `IsWalkable`. -/
def IsWalkable (C : UDashCharacterMovementComponent) (Hit : FHitResult) : Bool :=
  if !Hit.IsValidBlockingHit then
    false
  else
    let TestWalkableZ := C.TestWalkableZ Hit
    if FVector.Dot Hit.ImpactNormal C.GetComponentAxisZ < TestWalkableZ then false
    else true

/-- `IsWithinEdgeToleranceEx`. -/
def IsWithinEdgeToleranceEx (CapsuleLocation CapsuleDown : FVector) (CapsuleRadius : ℚ)
    (TestImpactPoint : FVector) : Bool :=
  let DistFromCenterSq :=
    (CapsuleLocation + CapsuleDown * (FVector.Dot (TestImpactPoint - CapsuleLocation) CapsuleDown)
      - TestImpactPoint).SizeSquared
  let ReducedRadiusSq := Square (max KINDA_SMALL_NUMBER (CapsuleRadius - SWEEP_EDGE_REJECT_DISTANCE))
  decide (DistFromCenterSq < ReducedRadiusSq)

/-- `IsWithinEdgeTolerance`. -/
def IsWithinEdgeTolerance (C : UDashCharacterMovementComponent) (CapsuleLocation TestImpactPoint : FVector)
    (CapsuleRadius : ℚ) : Bool :=
  IsWithinEdgeToleranceEx CapsuleLocation (C.GetComponentAxisZ * (-1 : ℚ)) CapsuleRadius TestImpactPoint

end UDashCharacterMovementComponent

/-- `FCollisionShape`: a capsule or a box. -/
inductive FCollisionShape where
  | Capsule (Radius HalfHeight : ℚ)
  | Box (HalfExtent : FVector)
deriving DecidableEq, Repr

/-- `FCollisionShape::GetCapsuleRadius`. -/
def FCollisionShape.GetCapsuleRadius : FCollisionShape → ℚ
  | .Capsule Radius _ => Radius
  | .Box _ => 0

/-- `FCollisionShape::GetCapsuleHalfHeight`. -/
def FCollisionShape.GetCapsuleHalfHeight : FCollisionShape → ℚ
  | .Capsule _ HalfHeight => HalfHeight
  | .Box _ => 0

/-- The orientation handed to a sweep: the component rotation, or one of the two
box rotations of the flat-base floor test (rotated by 45 degrees about the capsule
up axis, or not rotated). -/
inductive ESweepRotation where
  | Component (Q : FQuat)
  | BoxRotated45 (BoxUp : FVector)
  | BoxUnrotated (BoxUp : FVector)
deriving DecidableEq, Repr

/-- The geometry query interface: `UWorld::SweepSingleByChannel` and
`UWorld::LineTraceSingleByChannel`, each answering with the returned flag and the
hit it wrote. The first argument is the engine state behind the queries. -/
structure FGeometryQueries where
  SweepSingleByChannel : Nat → FVector → FVector → ESweepRotation → FCollisionShape → Bool × FHitResult
  LineTraceSingleByChannel : Nat → FVector → FVector → Bool × FHitResult

namespace UDashCharacterMovementComponent

/-- `FloorSweepTest`: the flag returned and the hit written. -/
def FloorSweepTest (G : FGeometryQueries) (C : UDashCharacterMovementComponent)
    (Start End : FVector) (CollisionShape : FCollisionShape) : Bool × FHitResult :=
  if !C.bUseFlatBaseForFloorChecks then
    G.SweepSingleByChannel C.World Start End (ESweepRotation.Component C.GetComponentQuat) CollisionShape
  else
    let CapsuleRadius := CollisionShape.GetCapsuleRadius
    let CapsuleHeight := CollisionShape.GetCapsuleHalfHeight
    let BoxShape := FCollisionShape.Box
      ⟨CapsuleRadius * (707 / 1000), CapsuleRadius * (707 / 1000), CapsuleHeight⟩
    let BoxUp := C.GetComponentAxisZ
    let First := G.SweepSingleByChannel C.World Start End (ESweepRotation.BoxRotated45 BoxUp) BoxShape
    if !First.1 then
      G.SweepSingleByChannel C.World Start End (ESweepRotation.BoxUnrotated BoxUp) BoxShape
    else First

/-- Which query produced the floor reported by `ComputeFloorDist`. -/
inductive EFloorSource where
  | NoFloor
  | SuppliedSweep
  | FirstSweep
  | ShrunkSweep
  | LineTrace
deriving DecidableEq, Repr

/-- The outcome of `ComputeFloorDist`: the floor result written to `OutFloorResult`,
together with a record of what happened on the way: which queries were issued,
the answer of the last floor sweep, the floor result as the sweep stage left it,
and the query that produced a reported walkable floor. -/
structure FComputeFloorDistOutcome where
  OutFloorResult : FFindFloorResult
  bSweepPerformed : Bool
  bShrunkSweepPerformed : Bool
  bLineTracePerformed : Bool
  SweepHit : Option (Bool × FHitResult)
  SweepStage : FFindFloorResult
  Source : EFloorSource

/-- The exit `No hits were acceptable.` of `ComputeFloorDist`. -/
def ComputeFloorDistNoFloor (SweepDistance : ℚ) (OutFloorResult SweepStage : FFindFloorResult)
    (bSweep bShrunk bLine : Bool) (SweepHit : Option (Bool × FHitResult)) :
    FComputeFloorDistOutcome :=
  { OutFloorResult := { OutFloorResult with bWalkableFloor := false, FloorDist := SweepDistance },
    bSweepPerformed := bSweep, bShrunkSweepPerformed := bShrunk, bLineTracePerformed := bLine,
    SweepHit := SweepHit, SweepStage := SweepStage, Source := EFloorSource.NoFloor }

/-- The distance of a line or sweep hit below the capsule base:
`FMath::Max(-MaxPenetrationAdjust, Hit.Time * TraceDist - ShrinkHeight)`. -/
def FloorHitDistance (PawnRadius HitTime TraceDist ShrinkHeight : ℚ) : ℚ :=
  max (-(max MAX_FLOOR_DIST PawnRadius)) (HitTime * TraceDist - ShrinkHeight)

/-- `ComputeFloorDist` after the line trace, which returned `bBlockingHit` and wrote `Hit`. -/
def ComputeFloorDistLineHit (C : UDashCharacterMovementComponent)
    (LineDistance SweepDistance : ℚ) (PawnRadius PawnHalfHeight : ℚ)
    (OutFloorResult : FFindFloorResult) (bSweep bShrunk : Bool)
    (SweepHit : Option (Bool × FHitResult)) (bBlockingHit : Bool) (Hit : FHitResult) :
    FComputeFloorDistOutcome :=
  if bBlockingHit then
    if Hit.Time > 0 then
      if FloorHitDistance PawnRadius Hit.Time (LineDistance + PawnHalfHeight) PawnHalfHeight ≤ LineDistance
          && C.IsWalkable Hit then
        { OutFloorResult :=
            FFindFloorResult.SetFromLineTrace { OutFloorResult with bBlockingHit := true } Hit
              OutFloorResult.FloorDist
              (FloorHitDistance PawnRadius Hit.Time (LineDistance + PawnHalfHeight) PawnHalfHeight)
              true,
          bSweepPerformed := bSweep, bShrunkSweepPerformed := bShrunk, bLineTracePerformed := true,
          SweepHit := SweepHit, SweepStage := OutFloorResult, Source := EFloorSource.LineTrace }
      else
        ComputeFloorDistNoFloor SweepDistance { OutFloorResult with bBlockingHit := true }
          OutFloorResult bSweep bShrunk true SweepHit
    else ComputeFloorDistNoFloor SweepDistance OutFloorResult OutFloorResult bSweep bShrunk true SweepHit
  else ComputeFloorDistNoFloor SweepDistance OutFloorResult OutFloorResult bSweep bShrunk true SweepHit

/-- The line trace of `ComputeFloorDist`: from the capsule centre along the capsule
down axis over `LineDistance` plus the capsule half height. -/
def FloorLineTrace (G : FGeometryQueries) (C : UDashCharacterMovementComponent)
    (CapsuleLocation CapsuleDown : FVector) (LineDistance PawnHalfHeight : ℚ) : Bool × FHitResult :=
  G.LineTraceSingleByChannel C.World CapsuleLocation
    (CapsuleLocation + CapsuleDown * (LineDistance + PawnHalfHeight))

/-- The line trace stage of `ComputeFloorDist` (from the comment `Line trace.` to
the end of the function), entered with the floor result of the sweep stage. -/
def ComputeFloorDistLineTrace (G : FGeometryQueries) (C : UDashCharacterMovementComponent)
    (CapsuleLocation : FVector) (LineDistance SweepDistance : ℚ) (PawnRadius PawnHalfHeight : ℚ)
    (CapsuleDown : FVector) (OutFloorResult : FFindFloorResult)
    (bSweep bShrunk : Bool) (SweepHit : Option (Bool × FHitResult)) : FComputeFloorDistOutcome :=
  if LineDistance > 0 then
    ComputeFloorDistLineHit C LineDistance SweepDistance PawnRadius PawnHalfHeight OutFloorResult
      bSweep bShrunk SweepHit
      (C.FloorLineTrace G CapsuleLocation CapsuleDown LineDistance PawnHalfHeight).1
      (C.FloorLineTrace G CapsuleLocation CapsuleDown LineDistance PawnHalfHeight).2
  else ComputeFloorDistNoFloor SweepDistance OutFloorResult OutFloorResult bSweep bShrunk false SweepHit

/-- The part of `ComputeFloorDist` after the sweep stage: the early return when
the sweep missed everything, then the line trace stage. -/
def ComputeFloorDistAfterSweep (G : FGeometryQueries) (C : UDashCharacterMovementComponent)
    (CapsuleLocation : FVector) (LineDistance SweepDistance : ℚ) (PawnRadius PawnHalfHeight : ℚ)
    (CapsuleDown : FVector) (OutFloorResult : FFindFloorResult)
    (bSweep bShrunk : Bool) (SweepHit : Option (Bool × FHitResult)) : FComputeFloorDistOutcome :=
  if !OutFloorResult.bBlockingHit && !OutFloorResult.HitResult.bStartPenetrating then
    { OutFloorResult := { OutFloorResult with FloorDist := SweepDistance },
      bSweepPerformed := bSweep, bShrunkSweepPerformed := bShrunk, bLineTracePerformed := false,
      SweepHit := SweepHit, SweepStage := OutFloorResult, Source := EFloorSource.NoFloor }
  else
    ComputeFloorDistLineTrace G C CapsuleLocation LineDistance SweepDistance PawnRadius PawnHalfHeight
      CapsuleDown OutFloorResult bSweep bShrunk SweepHit

/-- `ComputeFloorDist` after the floor sweeps: `Hit` is the hit of the last sweep,
made over `TraceDist` with the capsule shortened by `ShrinkHeight`; `bShrunk` tells
whether the first hit was rejected and the sweep repeated with the shrunken capsule. -/
def ComputeFloorDistSweepHit (G : FGeometryQueries) (C : UDashCharacterMovementComponent)
    (CapsuleLocation : FVector) (LineDistance SweepDistance : ℚ) (PawnRadius PawnHalfHeight : ℚ)
    (CapsuleDown : FVector) (bShrunk : Bool) (Swept : Bool × FHitResult)
    (TraceDist ShrinkHeight : ℚ) : FComputeFloorDistOutcome :=
  if Swept.2.IsValidBlockingHit && C.IsWalkable Swept.2
      && decide (FloorHitDistance PawnRadius Swept.2.Time TraceDist ShrinkHeight ≤ SweepDistance) then
    { OutFloorResult :=
        { FFindFloorResult.SetFromSweep FFindFloorResult.Cleared Swept.2
            (FloorHitDistance PawnRadius Swept.2.Time TraceDist ShrinkHeight) false with
          bWalkableFloor := true },
      bSweepPerformed := true, bShrunkSweepPerformed := bShrunk, bLineTracePerformed := false,
      SweepHit := some Swept,
      SweepStage :=
        { FFindFloorResult.SetFromSweep FFindFloorResult.Cleared Swept.2
            (FloorHitDistance PawnRadius Swept.2.Time TraceDist ShrinkHeight) false with
          bWalkableFloor := true },
      Source := if bShrunk then EFloorSource.ShrunkSweep else EFloorSource.FirstSweep }
  else
    ComputeFloorDistAfterSweep G C CapsuleLocation LineDistance SweepDistance PawnRadius
      PawnHalfHeight CapsuleDown
      (FFindFloorResult.SetFromSweep FFindFloorResult.Cleared Swept.2
        (FloorHitDistance PawnRadius Swept.2.Time TraceDist ShrinkHeight) false)
      true bShrunk (some Swept)

/-- The shrunken capsule of the second floor sweep: radius and half height. -/
def ShrunkCapsule (SweepRadius PawnRadius PawnHalfHeight : ℚ) : FCollisionShape :=
  FCollisionShape.Capsule
    (max 0 (SweepRadius - SWEEP_EDGE_REJECT_DISTANCE - KINDA_SMALL_NUMBER))
    (max (PawnHalfHeight - (PawnHalfHeight - PawnRadius) * (1 - 1 / 10))
      (max 0 (SweepRadius - SWEEP_EDGE_REJECT_DISTANCE - KINDA_SMALL_NUMBER)))

/-- `ComputeFloorDist` after the first floor sweep, which returned `Swept.1` and
wrote `Swept.2`. -/
def ComputeFloorDistFirstSweep (G : FGeometryQueries) (C : UDashCharacterMovementComponent)
    (CapsuleLocation : FVector) (LineDistance SweepDistance : ℚ) (SweepRadius : ℚ)
    (PawnRadius PawnHalfHeight : ℚ) (CapsuleDown : FVector) (Swept : Bool × FHitResult) :
    FComputeFloorDistOutcome :=
  if Swept.1 then
    if Swept.2.bStartPenetrating
        || !IsWithinEdgeToleranceEx CapsuleLocation CapsuleDown SweepRadius Swept.2.ImpactPoint then
      ComputeFloorDistSweepHit G C CapsuleLocation LineDistance SweepDistance PawnRadius PawnHalfHeight
        CapsuleDown true
        (C.FloorSweepTest G CapsuleLocation
          (CapsuleLocation
            + CapsuleDown * (SweepDistance + (PawnHalfHeight - PawnRadius) * (1 - 1 / 10)))
          (ShrunkCapsule SweepRadius PawnRadius PawnHalfHeight))
        (SweepDistance + (PawnHalfHeight - PawnRadius) * (1 - 1 / 10))
        ((PawnHalfHeight - PawnRadius) * (1 - 1 / 10))
    else
      ComputeFloorDistSweepHit G C CapsuleLocation LineDistance SweepDistance PawnRadius PawnHalfHeight
        CapsuleDown false Swept
        (SweepDistance + (PawnHalfHeight - PawnRadius) * (1 - 9 / 10))
        ((PawnHalfHeight - PawnRadius) * (1 - 9 / 10))
  else
    ComputeFloorDistAfterSweep G C CapsuleLocation LineDistance SweepDistance PawnRadius
      PawnHalfHeight CapsuleDown FFindFloorResult.Cleared true false (some Swept)

/-- The part of `ComputeFloorDist` from the check `SweepDistance < LineDistance`
on: the sweep stage (skipped when `bSkipSweep`), then the rest. `OutFloorResult` is
the cleared result, or the one set from a supplied sweep that was not walkable. -/
def ComputeFloorDistSweep (G : FGeometryQueries) (C : UDashCharacterMovementComponent)
    (CapsuleLocation : FVector) (LineDistance SweepDistance : ℚ) (SweepRadius : ℚ)
    (PawnRadius PawnHalfHeight : ℚ) (CapsuleDown : FVector) (OutFloorResult : FFindFloorResult)
    (bSkipSweep : Bool) : FComputeFloorDistOutcome :=
  if SweepDistance < LineDistance then
    { OutFloorResult := OutFloorResult, bSweepPerformed := false, bShrunkSweepPerformed := false,
      bLineTracePerformed := false, SweepHit := none, SweepStage := OutFloorResult,
      Source := EFloorSource.NoFloor }
  else if bSkipSweep then
    ComputeFloorDistAfterSweep G C CapsuleLocation LineDistance SweepDistance PawnRadius
      PawnHalfHeight CapsuleDown OutFloorResult false false none
  else if decide (SweepDistance > 0) && decide (SweepRadius > 0) then
    ComputeFloorDistFirstSweep G C CapsuleLocation LineDistance SweepDistance SweepRadius PawnRadius
      PawnHalfHeight CapsuleDown
      (C.FloorSweepTest G CapsuleLocation
        (CapsuleLocation + CapsuleDown * (SweepDistance + (PawnHalfHeight - PawnRadius) * (1 - 9 / 10)))
        (FCollisionShape.Capsule SweepRadius
          (PawnHalfHeight - (PawnHalfHeight - PawnRadius) * (1 - 9 / 10))))
  else
    ComputeFloorDistAfterSweep G C CapsuleLocation LineDistance SweepDistance PawnRadius
      PawnHalfHeight CapsuleDown OutFloorResult false false none

/-- Whether `ComputeFloorDist` takes the supplied downward sweep result for its
sweep: it is a valid blocking hit of a sweep along the capsule down axis whose
impact point is within the edge tolerance. -/
def UsesSuppliedSweep (M : FMath) (C : UDashCharacterMovementComponent) (Supplied : FHitResult) : Bool :=
  Supplied.IsValidBlockingHit
    && decide (FVector.Dot (C.GetComponentAxisZ * (-1 : ℚ))
        ((Supplied.TraceEnd - Supplied.TraceStart).GetSafeNormal M) ≥ THRESH_NORMALS_ARE_PARALLEL)
    && IsWithinEdgeToleranceEx Supplied.Location (C.GetComponentAxisZ * (-1 : ℚ))
        (C.CharacterOwner.getD default).ScaledCapsuleRadius Supplied.ImpactPoint

/-- `ComputeFloorDist` after the supplied downward sweep result has been looked
at: `Supplied` is the supplied result if it is used. -/
def ComputeFloorDistSupplied (M : FMath) (G : FGeometryQueries) (C : UDashCharacterMovementComponent)
    (CapsuleLocation : FVector) (LineDistance SweepDistance : ℚ) (SweepRadius : ℚ)
    (Supplied : Option FHitResult) : FComputeFloorDistOutcome :=
  match Supplied with
  | some Hit =>
    if C.IsWalkable Hit then
      { OutFloorResult :=
          FFindFloorResult.SetFromSweep FFindFloorResult.Cleared Hit
            ((CapsuleLocation - Hit.Location).Size M) true,
        bSweepPerformed := false, bShrunkSweepPerformed := false, bLineTracePerformed := false,
        SweepHit := none,
        SweepStage :=
          FFindFloorResult.SetFromSweep FFindFloorResult.Cleared Hit
            ((CapsuleLocation - Hit.Location).Size M) true,
        Source := EFloorSource.SuppliedSweep }
    else
      ComputeFloorDistSweep G C CapsuleLocation LineDistance SweepDistance SweepRadius
        (C.CharacterOwner.getD default).ScaledCapsuleRadius
        (C.CharacterOwner.getD default).ScaledCapsuleHalfHeight (C.GetComponentAxisZ * (-1 : ℚ))
        (FFindFloorResult.SetFromSweep FFindFloorResult.Cleared Hit
          ((CapsuleLocation - Hit.Location).Size M) false)
        true
  | none =>
    ComputeFloorDistSweep G C CapsuleLocation LineDistance SweepDistance SweepRadius
      (C.CharacterOwner.getD default).ScaledCapsuleRadius
      (C.CharacterOwner.getD default).ScaledCapsuleHalfHeight (C.GetComponentAxisZ * (-1 : ℚ))
      FFindFloorResult.Cleared false

/-- `ComputeFloorDist`. -/
def ComputeFloorDist (M : FMath) (G : FGeometryQueries) (C : UDashCharacterMovementComponent)
    (CapsuleLocation : FVector) (LineDistance SweepDistance : ℚ) (SweepRadius : ℚ)
    (DownwardSweepResult : Option FHitResult) : FComputeFloorDistOutcome :=
  if !(C.UpdatedComponent.getD default).bQueryCollisionEnabled then
    { OutFloorResult := FFindFloorResult.Cleared, bSweepPerformed := false,
      bShrunkSweepPerformed := false, bLineTracePerformed := false, SweepHit := none,
      SweepStage := FFindFloorResult.Cleared, Source := EFloorSource.NoFloor }
  else
    ComputeFloorDistSupplied M G C CapsuleLocation LineDistance SweepDistance SweepRadius
      (DownwardSweepResult.filter (C.UsesSuppliedSweep M))

end UDashCharacterMovementComponent

/-- `FStepDownResult`. -/
structure FStepDownResult where
  bComputedFloor : Bool
  FloorResult : FFindFloorResult

instance : Inhabited FStepDownResult := ⟨⟨false, FFindFloorResult.Cleared⟩⟩

/-- What `ApplyRequestedMove` hands back: the returned flag, `OutAcceleration`,
`OutRequestedSpeed` and the component state it leaves. -/
structure FRequestedMove where
  bApplied : Bool
  OutAcceleration : FVector
  OutRequestedSpeed : ℚ
  Component : UDashCharacterMovementComponent

/-- The engine calls made by the modelled functions whose code is not modelled
here: members of the engine's `UCharacterMovementComponent` and helpers of this
component taken at their interface. Each is a function of the component state (its
`World` field included) and returns the state it leaves. -/
structure FEngine where
  GetSimulationTimeStep : UDashCharacterMovementComponent → ℚ → Int → ℚ
  RestorePreAdditiveRootMotionVelocity : UDashCharacterMovementComponent → UDashCharacterMovementComponent
  ApplyRootMotionToVelocity : UDashCharacterMovementComponent → ℚ → UDashCharacterMovementComponent
  SetMovementMode : UDashCharacterMovementComponent → EMovementMode → UDashCharacterMovementComponent
  StartNewPhysics : UDashCharacterMovementComponent → ℚ → Int → UDashCharacterMovementComponent
  MoveAlongFloor : UDashCharacterMovementComponent → FVector → ℚ →
    UDashCharacterMovementComponent × FStepDownResult
  StartSwimming : UDashCharacterMovementComponent → FVector → FVector → ℚ → ℚ → Int →
    UDashCharacterMovementComponent
  FindFloor : UDashCharacterMovementComponent → FVector → FFindFloorResult → Bool →
    Option FHitResult → FFindFloorResult
  GetLedgeMove : UDashCharacterMovementComponent → FVector → FVector → FVector → FVector
  RevertMove : UDashCharacterMovementComponent → FVector → Option UPrimitiveComponent → FVector →
    FFindFloorResult → Bool → UDashCharacterMovementComponent
  CheckFall : UDashCharacterMovementComponent → FFindFloorResult → FHitResult → FVector → FVector →
    ℚ → ℚ → Int → Bool → Bool × UDashCharacterMovementComponent
  ShouldCatchAir : UDashCharacterMovementComponent → FFindFloorResult → FFindFloorResult → Bool
  OnWalkingOffLedge : UDashCharacterMovementComponent → FVector → FVector → FVector → ℚ →
    UDashCharacterMovementComponent
  StartFalling : UDashCharacterMovementComponent → Int → ℚ → ℚ → FVector → FVector →
    UDashCharacterMovementComponent
  AdjustFloorHeight : UDashCharacterMovementComponent → UDashCharacterMovementComponent
  SetBase : UDashCharacterMovementComponent → Option UPrimitiveComponent → Nat →
    UDashCharacterMovementComponent
  GetPenetrationAdjustment : UDashCharacterMovementComponent → FHitResult → FVector
  ResolvePenetration : UDashCharacterMovementComponent → FVector → FHitResult → FQuat →
    UDashCharacterMovementComponent
  ApplyRequestedMove : UDashCharacterMovementComponent → ℚ → ℚ → ℚ → ℚ → ℚ → FRequestedMove
  CalcAvoidanceVelocity : UDashCharacterMovementComponent → ℚ → UDashCharacterMovementComponent
  CanStepUp : UDashCharacterMovementComponent → FHitResult → Bool
  MoveUpdatedComponent : UDashCharacterMovementComponent → FVector → FQuat → Bool →
    UDashCharacterMovementComponent × FHitResult
  HandleImpact : UDashCharacterMovementComponent → FHitResult → ℚ → FVector →
    UDashCharacterMovementComponent
  SlideAlongSurface : UDashCharacterMovementComponent → FVector → ℚ → FVector → FHitResult → Bool →
    ℚ × UDashCharacterMovementComponent × FHitResult

namespace UDashCharacterMovementComponent

/-! ## Velocity update -/

/-- Modelled from the spec: `UMovementComponent::IsExceedingMaxSpeed` of the engine,
the test whether the speed already exceeds `maxSpeed` (with its one percent
tolerance on the squared speed). -/
def IsExceedingMaxSpeed (C : UDashCharacterMovementComponent) (MaxSpeed : ℚ) : Bool :=
  let MaxSpeed := max 0 MaxSpeed
  let MaxSpeedSquared := Square MaxSpeed
  let OverVelocityPercent : ℚ := 101 / 100
  decide (C.Velocity.SizeSquared > MaxSpeedSquared * OverVelocityPercent)

/-- `FMath::Clamp`. -/
def Clamp (X Min Max : ℚ) : ℚ := if X < Min then Min else if X < Max then X else Max

/-- The sub-stepping loop of `ApplyVelocityBraking`: the velocity it ends with and
whether it ended by the `Don't reverse direction` return. -/
def ApplyVelocityBrakingLoop (Friction : ℚ) (bZeroFriction : Bool) (RevAccel OldVel : FVector)
    (MaxTimeStep : ℚ) : Nat → ℚ → FVector → FVector × Bool
  | 0, _, Velocity => (Velocity, false)
  | fuel + 1, RemainingTime, Velocity =>
    if RemainingTime ≥ MIN_TICK_TIME then
      let dt := if RemainingTime > MaxTimeStep && !bZeroFriction then
          min MaxTimeStep (RemainingTime * (1 / 2))
        else RemainingTime
      let RemainingTime := RemainingTime - dt
      let Velocity := Velocity + ((-Friction) * Velocity + RevAccel) * dt
      if FVector.Dot Velocity OldVel ≤ 0 then (FVector.ZeroVector, true)
      else ApplyVelocityBrakingLoop Friction bZeroFriction RevAccel OldVel MaxTimeStep fuel
        RemainingTime Velocity
    else (Velocity, false)

/-- A number of passes that the sub-stepping loop of `ApplyVelocityBraking` cannot
exceed: every pass but the last takes at least half of the smallest sub-step
(1/150 s) off the remaining time. -/
def BrakingFuel (DeltaTime : ℚ) : Nat := Nat.ceil (DeltaTime * 150) + 2

/-- The constant deceleration of `ApplyVelocityBraking`, against the direction of
motion: `bZeroBraking ? FVector::ZeroVector : (-BrakingDeceleration * Velocity.GetSafeNormal())`. -/
def BrakingRevAccel (M : FMath) (Velocity : FVector) (BrakingDeceleration : ℚ)
    (bZeroBraking : Bool) : FVector :=
  if bZeroBraking then FVector.ZeroVector else (-BrakingDeceleration) * Velocity.GetSafeNormal M

/-- Modelled from the spec: `UCharacterMovementComponent::ApplyVelocityBraking` of
the engine, which is not part of the repository: braking as a decay of the
velocity toward zero by friction and by a constant deceleration of at most
`brakingDeceleration * dt` against the direction of motion, sub-stepped, never
reversing direction, and stopping below a small speed. -/
def ApplyVelocityBraking (M : FMath) (C : UDashCharacterMovementComponent)
    (DeltaTime Friction BrakingDeceleration : ℚ) : UDashCharacterMovementComponent :=
  if C.Velocity.IsZero || !C.HasValidData || C.bHasAnimRootMotion || DeltaTime < MIN_TICK_TIME then C
  else
    let FrictionFactor := max 0 C.BrakingFrictionFactor
    let Friction := max 0 (Friction * FrictionFactor)
    let BrakingDeceleration := max 0 BrakingDeceleration
    let bZeroFriction : Bool := Friction == 0
    let bZeroBraking : Bool := BrakingDeceleration == 0
    if bZeroFriction && bZeroBraking then C
    else
      let OldVel := C.Velocity
      let MaxTimeStep := Clamp C.BrakingSubStepTime (1 / 75) (1 / 20)
      let RevAccel := BrakingRevAccel M C.Velocity BrakingDeceleration bZeroBraking
      let Looped := ApplyVelocityBrakingLoop Friction bZeroFriction RevAccel OldVel MaxTimeStep
        (BrakingFuel DeltaTime) DeltaTime C.Velocity
      if Looped.2 then { C with Velocity := Looped.1 }
      else
        let VSizeSq := Looped.1.SizeSquared
        if VSizeSq ≤ KINDA_SMALL_NUMBER
            || (!bZeroBraking && VSizeSq ≤ Square BRAKE_TO_STOP_VELOCITY) then
          { C with Velocity := FVector.ZeroVector }
        else { C with Velocity := Looped.1 }

/-- Modelled from the spec: the path-following entry point `ApplyRequestedMove` of
the engine. Without a requested velocity it reports no request and changes
nothing; with one, the engine decides. -/
def ApplyRequestedMove (E : FEngine) (C : UDashCharacterMovementComponent)
    (DeltaTime MaxAccel MaxSpeed Friction BrakingDeceleration : ℚ) : FRequestedMove :=
  if C.bHasRequestedVelocity then
    E.ApplyRequestedMove C DeltaTime MaxAccel MaxSpeed Friction BrakingDeceleration
  else
    { bApplied := false, OutAcceleration := FVector.ZeroVector, OutRequestedSpeed := 0,
      Component := C }

/-- Whether the owner exists and is a simulated proxy. -/
def IsSimulatedProxy (C : UDashCharacterMovementComponent) : Bool :=
  match C.CharacterOwner with
  | some Owner => Owner.LocalRole == ENetRole.ROLE_SimulatedProxy
  | none => false

/-- The block `if (bForceMaxAccel)` of `CalcVelocity`: `Force acceleration at full
speed`, in the direction of the acceleration, else of the velocity, else of the
pawn's forward vector. -/
def CalcVelocityForceMaxAccel (M : FMath) (C : UDashCharacterMovementComponent) (MaxAccel : ℚ) :
    UDashCharacterMovementComponent :=
  if C.bForceMaxAccel then
    { C with
      Acceleration :=
        if C.Acceleration.SizeSquared > SMALL_NUMBER then C.Acceleration.GetSafeNormal M * MaxAccel
        else
          MaxAccel * (if C.Velocity.SizeSquared < SMALL_NUMBER then C.GetComponentAxisX
            else C.Velocity.GetSafeNormal M),
      AnalogInputModifier := 1 }
  else C

/-- The block `Apply braking or deceleration` of `CalcVelocity`; `bVelocityOverMax`
is the constant `false` of the source. -/
def CalcVelocityBrake (M : FMath) (C : UDashCharacterMovementComponent)
    (DeltaTime Friction BrakingDeceleration MaxSpeed : ℚ) (bZeroRequestedAcceleration : Bool) :
    UDashCharacterMovementComponent :=
  let bZeroAcceleration := C.Acceleration.IsZero
  let bVelocityOverMax := false
  if (bZeroAcceleration && bZeroRequestedAcceleration) || bVelocityOverMax then
    let OldVelocity := C.Velocity
    let ActualBrakingFriction := if C.bUseSeparateBrakingFriction then C.BrakingFriction else Friction
    let Braked := ApplyVelocityBraking M C DeltaTime ActualBrakingFriction BrakingDeceleration
    if bVelocityOverMax && decide (Braked.Velocity.SizeSquared < Square MaxSpeed)
        && decide (FVector.Dot Braked.Acceleration OldVelocity > 0) then
      { Braked with Velocity := OldVelocity.GetSafeNormal M * MaxSpeed }
    else Braked
  else if !bZeroAcceleration then
    let AccelDir := C.Acceleration.GetSafeNormal M
    let VelSize := C.Velocity.Size M
    { C with
      Velocity := C.Velocity - (C.Velocity - AccelDir * VelSize) * min (DeltaTime * Friction) 1 }
  else C

/-- The block `Apply fluid friction` of `CalcVelocity`. -/
def CalcVelocityFluid (C : UDashCharacterMovementComponent) (DeltaTime Friction : ℚ)
    (bFluid : Bool) : UDashCharacterMovementComponent :=
  if bFluid then { C with Velocity := C.Velocity * (1 - min (Friction * DeltaTime) 1) } else C

/-- The block `Apply acceleration` of `CalcVelocity`. -/
def CalcVelocityAccelerate (M : FMath) (C : UDashCharacterMovementComponent)
    (DeltaTime MaxSpeed : ℚ) (RequestedAcceleration : FVector) : UDashCharacterMovementComponent :=
  let NewMaxSpeed := if C.IsExceedingMaxSpeed MaxSpeed then C.Velocity.Size M else MaxSpeed
  { C with
    Velocity :=
      (C.Velocity + C.Acceleration * DeltaTime + RequestedAcceleration * DeltaTime).GetClampedToMaxSize
        M NewMaxSpeed }

/-- `CalcVelocity`. -/
def CalcVelocity (M : FMath) (E : FEngine) (C : UDashCharacterMovementComponent)
    (DeltaTime Friction : ℚ) (bFluid : Bool) (BrakingDeceleration : ℚ) :
    UDashCharacterMovementComponent :=
  if !C.HasValidData || C.bHasAnimRootMotion || DeltaTime < MIN_TICK_TIME || C.IsSimulatedProxy then C
  else
    let Friction := max 0 Friction
    let MaxAccel := C.MaxAcceleration
    let MaxSpeed := C.MaxSpeed
    let Requested := C.ApplyRequestedMove E DeltaTime MaxAccel MaxSpeed Friction BrakingDeceleration
    let bZeroRequestedAcceleration := !Requested.bApplied
    let RequestedAcceleration :=
      if Requested.bApplied then Requested.OutAcceleration.GetClampedToMaxSize M MaxAccel
      else Requested.OutAcceleration
    let RequestedSpeed := Requested.OutRequestedSpeed
    let C2 := CalcVelocityForceMaxAccel M Requested.Component MaxAccel
    let MaxSpeed := Max3 RequestedSpeed (MaxSpeed * C2.AnalogInputModifier) C2.MinAnalogSpeed
    let C3 := CalcVelocityBrake M C2 DeltaTime Friction BrakingDeceleration MaxSpeed
      bZeroRequestedAcceleration
    let C4 := CalcVelocityFluid C3 DeltaTime Friction bFluid
    let C5 := CalcVelocityAccelerate M C4 DeltaTime MaxSpeed RequestedAcceleration
    if C5.bUseRVOAvoidance then E.CalcAvoidanceVelocity C5 DeltaTime else C5

/-- `MaintainHorizontalGroundVelocity`. -/
def MaintainHorizontalGroundVelocity (M : FMath) (C : UDashCharacterMovementComponent) :
    UDashCharacterMovementComponent :=
  if C.bMaintainHorizontalGroundVelocity then
    { C with Velocity := FVector.VectorPlaneProject C.Velocity C.GetComponentAxisZ }
  else
    { C with
      Velocity :=
        (FVector.VectorPlaneProject C.Velocity C.GetComponentAxisZ).GetSafeNormal M * C.Velocity.Size M }

end UDashCharacterMovementComponent

/-! ## Step up -/

/-- The engine's `FScopedMovementUpdate`: the location and rotation of the updated
component when the scope was opened. -/
structure FScopedMovementUpdate where
  InitialLocation : FVector
  InitialQuat : FQuat

/-- Modelled from the spec: `FScopedMovementUpdate::RevertMove` of the engine; all
sub-moves of the scope are reverted together, the updated component goes back to
the location and rotation it had when the scope was opened. -/
def FScopedMovementUpdate.RevertMove (Scope : FScopedMovementUpdate)
    (C : UDashCharacterMovementComponent) : UDashCharacterMovementComponent :=
  { C with
    UpdatedComponent := C.UpdatedComponent.map fun U =>
      { U with ComponentLocation := Scope.InitialLocation, ComponentQuat := Scope.InitialQuat } }

/-- What `StepUp` hands back: the returned flag, the component state and the value
written to `OutStepDownResult` (if anything was written). -/
structure FStepUpOutcome where
  bSteppedUp : Bool
  Component : UDashCharacterMovementComponent
  OutStepDownResult : Option FStepDownResult

namespace UDashCharacterMovementComponent

/-- A failing exit of `StepUp` inside the movement scope:
`ScopedStepUpMovement.RevertMove(); return false;`. -/
def StepUpRevert (Scope : FScopedMovementUpdate) (C : UDashCharacterMovementComponent) :
    FStepUpOutcome :=
  { bSteppedUp := false, Component := Scope.RevertMove C, OutStepDownResult := none }

/-- The successful exit of `StepUp`: the step down result is copied out and
`bJustTeleported |= !bMaintainHorizontalGroundVelocity`. -/
def StepUpSuccess (C : UDashCharacterMovementComponent) (bOutStepDownResult : Bool)
    (StepDownResult : FStepDownResult) : FStepUpOutcome :=
  { bSteppedUp := true,
    Component := { C with bJustTeleported := C.bJustTeleported || !C.bMaintainHorizontalGroundVelocity },
    OutStepDownResult := if bOutStepDownResult then some StepDownResult else none }

/-- `StepUp` after the step down move, whose hit is `Hit`: the checks of the
landing, to the end of the function. -/
def StepUpLanding (E : FEngine) (Scope : FScopedMovementUpdate)
    (C : UDashCharacterMovementComponent) (Hit : FHitResult) (Delta : FVector)
    (bOutStepDownResult : Bool) (OldLocation CapsuleDown PawnFloorPoint : FVector)
    (PawnRadius StepSideZ : ℚ) : FStepUpOutcome :=
  if Hit.bStartPenetrating then StepUpRevert Scope C
  else if Hit.IsValidBlockingHit then
    if FVector.Dot (PawnFloorPoint - Hit.ImpactPoint) CapsuleDown > C.MaxStepHeight then
      StepUpRevert Scope C
    else if !C.IsWalkable Hit && decide (FVector.Dot Delta Hit.ImpactNormal < 0) then
      StepUpRevert Scope C
    else if !C.IsWalkable Hit && decide (FVector.Dot (OldLocation - Hit.Location) CapsuleDown > 0) then
      StepUpRevert Scope C
    else if !IsWithinEdgeToleranceEx Hit.Location CapsuleDown PawnRadius Hit.ImpactPoint then
      StepUpRevert Scope C
    else if decide (FVector.Dot (PawnFloorPoint - Hit.ImpactPoint) CapsuleDown > 0)
        && !E.CanStepUp C Hit then
      StepUpRevert Scope C
    else if bOutStepDownResult then
      if decide (FVector.Dot (OldLocation - Hit.Location) CapsuleDown > 0)
          && !(E.FindFloor C C.GetComponentLocation FFindFloorResult.Cleared false (some Hit)).bBlockingHit
          && decide (StepSideZ < MAX_STEP_SIDE_Z) then
        StepUpRevert Scope C
      else
        StepUpSuccess C bOutStepDownResult
          { bComputedFloor := true,
            FloorResult := E.FindFloor C C.GetComponentLocation FFindFloorResult.Cleared false (some Hit) }
    else StepUpSuccess C bOutStepDownResult default
  else StepUpSuccess C bOutStepDownResult default

/-- `StepUp` from the comment `Step down.` to its end. -/
def StepUpStepDown (E : FEngine) (Scope : FScopedMovementUpdate)
    (C : UDashCharacterMovementComponent) (GravDir Delta : FVector) (bOutStepDownResult : Bool)
    (OldLocation CapsuleDown PawnFloorPoint : FVector) (PawnRadius StepTravelDownHeight StepSideZ : ℚ) :
    FStepUpOutcome :=
  StepUpLanding E Scope
    (E.MoveUpdatedComponent C (GravDir * StepTravelDownHeight) C.GetComponentQuat true).1
    (E.MoveUpdatedComponent C (GravDir * StepTravelDownHeight) C.GetComponentQuat true).2
    Delta bOutStepDownResult OldLocation CapsuleDown PawnFloorPoint PawnRadius StepSideZ

/-- `StepUp` after the slide along the wall hit by the forward move, which
returned `ForwardSlideAmount`. -/
def StepUpAfterSlide (E : FEngine) (Scope : FScopedMovementUpdate)
    (C : UDashCharacterMovementComponent) (GravDir Delta : FVector) (bOutStepDownResult : Bool)
    (OldLocation CapsuleDown PawnFloorPoint : FVector) (PawnRadius StepTravelDownHeight StepSideZ : ℚ)
    (ForwardHitTime ForwardSlideAmount : ℚ) : FStepUpOutcome :=
  if C.IsFalling then StepUpRevert Scope C
  else if ForwardHitTime == 0 && ForwardSlideAmount == 0 then StepUpRevert Scope C
  else
    StepUpStepDown E Scope C GravDir Delta bOutStepDownResult OldLocation CapsuleDown
      PawnFloorPoint PawnRadius StepTravelDownHeight StepSideZ

/-- `StepUp` after the impacts of a blocked forward move have been handled. -/
def StepUpAfterImpact (E : FEngine) (Scope : FScopedMovementUpdate)
    (C : UDashCharacterMovementComponent) (Hit : FHitResult) (GravDir Delta : FVector)
    (bOutStepDownResult : Bool) (OldLocation CapsuleDown PawnFloorPoint : FVector)
    (PawnRadius StepTravelDownHeight StepSideZ : ℚ) : FStepUpOutcome :=
  if C.IsFalling then
    { bSteppedUp := true, Component := C, OutStepDownResult := none }
  else
    StepUpAfterSlide E Scope (E.SlideAlongSurface C Delta (1 - Hit.Time) Hit.Normal Hit true).2.1
      GravDir Delta bOutStepDownResult OldLocation CapsuleDown PawnFloorPoint PawnRadius
      StepTravelDownHeight StepSideZ Hit.Time
      (E.SlideAlongSurface C Delta (1 - Hit.Time) Hit.Normal Hit true).1

/-- `StepUp` after the forward move, whose hit is `Hit`. -/
def StepUpAfterForward (E : FEngine) (Scope : FScopedMovementUpdate)
    (C : UDashCharacterMovementComponent) (Hit : FHitResult) (GravDir Delta : FVector)
    (bOutStepDownResult : Bool) (OldLocation CapsuleDown PawnFloorPoint : FVector)
    (PawnRadius StepTravelDownHeight StepSideZ : ℚ) (SweepUpHit : FHitResult) : FStepUpOutcome :=
  if Hit.bBlockingHit then
    if Hit.bStartPenetrating then StepUpRevert Scope C
    else
      StepUpAfterImpact E Scope
        (E.HandleImpact
          (if SweepUpHit.bBlockingHit && Hit.bBlockingHit then
            E.HandleImpact C SweepUpHit 0 FVector.ZeroVector
          else C)
          Hit 0 FVector.ZeroVector)
        Hit GravDir Delta bOutStepDownResult OldLocation CapsuleDown PawnFloorPoint PawnRadius
        StepTravelDownHeight StepSideZ
  else
    StepUpStepDown E Scope C GravDir Delta bOutStepDownResult OldLocation CapsuleDown
      PawnFloorPoint PawnRadius StepTravelDownHeight StepSideZ

/-- `StepUp` from the comment `Step forward.` on. -/
def StepUpForward (E : FEngine) (Scope : FScopedMovementUpdate)
    (C : UDashCharacterMovementComponent) (GravDir Delta : FVector) (bOutStepDownResult : Bool)
    (OldLocation CapsuleDown PawnFloorPoint : FVector) (PawnRadius StepTravelDownHeight StepSideZ : ℚ)
    (PawnRotation : FQuat) (SweepUpHit : FHitResult) : FStepUpOutcome :=
  StepUpAfterForward E Scope (E.MoveUpdatedComponent C Delta PawnRotation true).1
    (E.MoveUpdatedComponent C Delta PawnRotation true).2 GravDir Delta bOutStepDownResult
    OldLocation CapsuleDown PawnFloorPoint PawnRadius StepTravelDownHeight StepSideZ SweepUpHit

/-- `StepUp`; `bOutStepDownResult` tells whether `OutStepDownResult` is non-null. -/
def StepUp (E : FEngine) (C : UDashCharacterMovementComponent) (GravDir Delta : FVector)
    (InHit : FHitResult) (bOutStepDownResult : Bool) : FStepUpOutcome :=
  if !E.CanStepUp C InHit || C.MaxStepHeight ≤ 0 then
    { bSteppedUp := false, Component := C, OutStepDownResult := none }
  else
    let OldLocation := C.GetComponentLocation
    let PawnRadius := (C.CharacterOwner.getD default).ScaledCapsuleRadius
    let PawnHalfHeight := (C.CharacterOwner.getD default).ScaledCapsuleHalfHeight
    let CapsuleDown := C.GetComponentAxisZ * (-1 : ℚ)
    let BottomPoint := OldLocation + CapsuleDown * PawnHalfHeight
    let TopPoint := OldLocation - CapsuleDown * max 0 (PawnHalfHeight - PawnRadius)
    let Segment := TopPoint - BottomPoint
    let Alpha := FVector.Dot (InHit.ImpactPoint - BottomPoint) Segment / Segment.SizeSquared
    if Alpha > 1 || Alpha ≤ 0 then
      { bSteppedUp := false, Component := C, OutStepDownResult := none }
    else
      let StepSideZ := FVector.Dot InHit.ImpactNormal GravDir * (-1)
      let PawnInitialFloorBase := OldLocation + CapsuleDown * PawnHalfHeight
      let bOnFloor := C.IsMovingOnGround && C.CurrentFloor.IsWalkableFloor
      let FloorDist := max 0 C.CurrentFloor.FloorDist
      let StepTravelUpHeight := if bOnFloor then max (C.MaxStepHeight - FloorDist) 0 else C.MaxStepHeight
      let StepTravelDownHeight := if bOnFloor then C.MaxStepHeight + MAX_FLOOR_DIST * 2 else C.MaxStepHeight
      let bHitVerticalFace := !IsWithinEdgeToleranceEx InHit.Location CapsuleDown PawnRadius InHit.ImpactPoint
      let PawnFloorPoint :=
        if bOnFloor then
          if !C.CurrentFloor.bLineTrace && !bHitVerticalFace then C.CurrentFloor.HitResult.ImpactPoint
          else PawnInitialFloorBase + CapsuleDown * C.CurrentFloor.FloorDist
        else PawnInitialFloorBase
      let Scope : FScopedMovementUpdate := ⟨C.GetComponentLocation, C.GetComponentQuat⟩
      let PawnRotation := C.GetComponentQuat
      let Moved := E.MoveUpdatedComponent C (GravDir * (-StepTravelUpHeight)) PawnRotation true
      let SweepUpHit := Moved.2
      if SweepUpHit.bStartPenetrating then StepUpRevert Scope Moved.1
      else
        StepUpForward E Scope Moved.1 GravDir Delta bOutStepDownResult OldLocation CapsuleDown
          PawnFloorPoint PawnRadius StepTravelDownHeight StepSideZ PawnRotation SweepUpHit

end UDashCharacterMovementComponent

/-! ## Walking -/

/-- How a call of `PhysWalking` came to its end. -/
inductive EPhysWalkingExit where
  | TickTooSmall
  | NoController
  | NoQueryCollision
  | RootMotionFalling
  | JumpedDuringMove
  | EnteredWater
  | FallAccepted
  | CaughtAir
  | LoopLeft
deriving DecidableEq, Repr

/-- How the last pass of the sub-stepping loop of `PhysWalking` ended: no pass was
made, the pass ended with the ledge retry (`continue`), with the ledge revert
(`break`), or it ran to the end of the loop body. -/
inductive EPhysWalkingPass where
  | NoPass
  | LedgeRetry
  | LedgeRevert
  | RanToEnd
deriving DecidableEq, Repr

/-- The local variables of `PhysWalking` that live across passes of its loop,
with the component state and the way the last pass ended. -/
structure FPhysWalkingLoop where
  Component : UDashCharacterMovementComponent
  remainingTime : ℚ
  Iterations : Int
  bCheckedFall : Bool
  bTriedLedgeMove : Bool
  LastPass : EPhysWalkingPass

/-- What a call of `PhysWalking` leaves: the component state, the way the call
ended, and the loop variables at that point. -/
structure FPhysWalkingOutcome where
  Component : UDashCharacterMovementComponent
  Exit : EPhysWalkingExit
  Iterations : Int
  bCheckedFall : Bool
  LastPass : EPhysWalkingPass

/-- The result of one pass of the loop of `PhysWalking`: the function returned,
the loop goes on (`continue` or the end of the body), or the loop was left by
`break`. -/
inductive FPhysWalkingStep where
  | Returned (Out : FPhysWalkingOutcome)
  | Next (L : FPhysWalkingLoop)
  | Break (L : FPhysWalkingLoop)

namespace UDashCharacterMovementComponent

/-- The condition on owner and controller under which `PhysWalking` simulates:
`CharacterOwner && (CharacterOwner->Controller || bRunPhysicsWithNoController ||
HasAnimRootMotion() || CurrentRootMotion.HasOverrideVelocity() ||
CharacterOwner->GetLocalRole() == ROLE_SimulatedProxy)`. -/
def CanRunWalkingPhysics (C : UDashCharacterMovementComponent) : Bool :=
  match C.CharacterOwner with
  | some Owner =>
    Owner.Controller || C.bRunPhysicsWithNoController || C.bHasAnimRootMotion
      || C.bHasOverrideVelocity || Owner.LocalRole == ENetRole.ROLE_SimulatedProxy
  | none => false

/-- `bMustJump` of `PhysWalking` without the teleport and zero-delta disjuncts:
`OldBase == NULL || (!OldBase->IsQueryCollisionEnabled() && MovementBaseUtility::IsDynamicBase(OldBase))`. -/
def MustJumpOffBase (OldBase : Option UPrimitiveComponent) : Bool :=
  match OldBase with
  | none => true
  | some Base => !Base.bQueryCollisionEnabled && Base.bDynamicBase

/-- The values a pass of the loop of `PhysWalking` saves at its start or computes
before the move and uses afterwards. -/
structure FPhysWalkingSaved where
  Iterations : Int
  timeTick : ℚ
  OldBase : Option UPrimitiveComponent
  PreviousBaseLocation : FVector
  OldLocation : FVector
  OldFloor : FFindFloorResult
  OldVelocity : FVector
  Delta : FVector
  bZeroDelta : Bool

/-- `return` from inside a pass of the loop of `PhysWalking`. -/
def PhysWalkingReturn (L : FPhysWalkingLoop) (S : FPhysWalkingSaved)
    (C : UDashCharacterMovementComponent) (Exit : EPhysWalkingExit) : FPhysWalkingStep :=
  FPhysWalkingStep.Returned
    { Component := C, Exit := Exit, Iterations := S.Iterations, bCheckedFall := L.bCheckedFall,
      LastPass := L.LastPass }

/-- The end of a pass of the loop of `PhysWalking`, after the fall check has been
declined or skipped: the velocity is made to reflect the move, and the loop is
left if the capsule has not moved. -/
def PhysWalkingEndOfPass (L : FPhysWalkingLoop) (S : FPhysWalkingSaved) (remainingTime : ℚ)
    (bCheckedFall : Bool) (C : UDashCharacterMovementComponent) : FPhysWalkingStep :=
  if (if C.IsMovingOnGround && !C.bJustTeleported && !C.bHasAnimRootMotion
          && !C.bHasOverrideVelocity && decide (S.timeTick ≥ MIN_TICK_TIME) then
        { C with Velocity := (C.GetComponentLocation - S.OldLocation) / S.timeTick }
      else C).GetComponentLocation = S.OldLocation then
    FPhysWalkingStep.Break
      { Component :=
          if C.IsMovingOnGround && !C.bJustTeleported && !C.bHasAnimRootMotion
              && !C.bHasOverrideVelocity && decide (S.timeTick ≥ MIN_TICK_TIME) then
            { C with Velocity := (C.GetComponentLocation - S.OldLocation) / S.timeTick }
          else C,
        remainingTime := 0, Iterations := S.Iterations, bCheckedFall := bCheckedFall,
        bTriedLedgeMove := L.bTriedLedgeMove, LastPass := EPhysWalkingPass.RanToEnd }
  else
    FPhysWalkingStep.Next
      { Component :=
          if C.IsMovingOnGround && !C.bJustTeleported && !C.bHasAnimRootMotion
              && !C.bHasOverrideVelocity && decide (S.timeTick ≥ MIN_TICK_TIME) then
            { C with Velocity := (C.GetComponentLocation - S.OldLocation) / S.timeTick }
          else C,
        remainingTime := remainingTime, Iterations := S.Iterations, bCheckedFall := bCheckedFall,
        bTriedLedgeMove := L.bTriedLedgeMove, LastPass := EPhysWalkingPass.RanToEnd }

/-- A pass of the loop of `PhysWalking` from the comment `See if we need to start
falling.` on. -/
def PhysWalkingFallCheck (E : FEngine) (L : FPhysWalkingLoop) (S : FPhysWalkingSaved)
    (remainingTime : ℚ) (C : UDashCharacterMovementComponent) : FPhysWalkingStep :=
  if !C.CurrentFloor.IsWalkableFloor && !C.CurrentFloor.HitResult.bStartPenetrating then
    if C.bJustTeleported || S.bZeroDelta || MustJumpOffBase S.OldBase || !L.bCheckedFall then
      if (E.CheckFall C S.OldFloor C.CurrentFloor.HitResult S.Delta S.OldLocation remainingTime
            S.timeTick S.Iterations
            (C.bJustTeleported || S.bZeroDelta || MustJumpOffBase S.OldBase)).1 then
        PhysWalkingReturn L S
          (E.CheckFall C S.OldFloor C.CurrentFloor.HitResult S.Delta S.OldLocation remainingTime
            S.timeTick S.Iterations
            (C.bJustTeleported || S.bZeroDelta || MustJumpOffBase S.OldBase)).2
          EPhysWalkingExit.FallAccepted
      else
        PhysWalkingEndOfPass L S remainingTime true
          (E.CheckFall C S.OldFloor C.CurrentFloor.HitResult S.Delta S.OldLocation remainingTime
            S.timeTick S.Iterations
            (C.bJustTeleported || S.bZeroDelta || MustJumpOffBase S.OldBase)).2
    else PhysWalkingEndOfPass L S remainingTime true C
  else PhysWalkingEndOfPass L S remainingTime L.bCheckedFall C

/-- The state after the floor of a pass of `PhysWalking` has been found walkable
and not catching air (`AdjustFloorHeight(); SetBase(...)`), or found to start in
penetration with no time left (`ResolvePenetration`), or neither. -/
def PhysWalkingSettle (E : FEngine) (remainingTime : ℚ) (C : UDashCharacterMovementComponent) :
    UDashCharacterMovementComponent :=
  if C.CurrentFloor.IsWalkableFloor then
    E.SetBase (E.AdjustFloorHeight C) (E.AdjustFloorHeight C).CurrentFloor.HitResult.Component
      (E.AdjustFloorHeight C).CurrentFloor.HitResult.BoneName
  else if C.CurrentFloor.HitResult.bStartPenetrating && decide (remainingTime ≤ 0) then
    E.ResolvePenetration C
      (E.GetPenetrationAdjustment C
        { C.CurrentFloor.HitResult with
          TraceEnd := C.CurrentFloor.HitResult.TraceStart + C.GetComponentAxisZ * MAX_FLOOR_DIST })
      { C.CurrentFloor.HitResult with
        TraceEnd := C.CurrentFloor.HitResult.TraceStart + C.GetComponentAxisZ * MAX_FLOOR_DIST }
      C.GetComponentQuat
  else C

/-- A pass of the loop of `PhysWalking` from the comment `Validate the floor
check.` on (the branch without a ledge to check). -/
def PhysWalkingValidate (E : FEngine) (L : FPhysWalkingLoop) (S : FPhysWalkingSaved)
    (remainingTime : ℚ) (C : UDashCharacterMovementComponent) : FPhysWalkingStep :=
  if C.CurrentFloor.IsWalkableFloor && E.ShouldCatchAir C S.OldFloor C.CurrentFloor then
    PhysWalkingReturn L S
      (if (E.OnWalkingOffLedge C S.OldFloor.HitResult.ImpactNormal S.OldFloor.HitResult.Normal
            S.OldLocation S.timeTick).IsMovingOnGround then
        E.StartFalling
          (E.OnWalkingOffLedge C S.OldFloor.HitResult.ImpactNormal S.OldFloor.HitResult.Normal
            S.OldLocation S.timeTick)
          S.Iterations remainingTime S.timeTick S.Delta S.OldLocation
      else
        E.OnWalkingOffLedge C S.OldFloor.HitResult.ImpactNormal S.OldFloor.HitResult.Normal
          S.OldLocation S.timeTick)
      EPhysWalkingExit.CaughtAir
  else if (PhysWalkingSettle E remainingTime C).IsSwimming then
    PhysWalkingReturn L S
      (E.StartSwimming (PhysWalkingSettle E remainingTime C) S.OldLocation
        (PhysWalkingSettle E remainingTime C).Velocity S.timeTick remainingTime S.Iterations)
      EPhysWalkingExit.EnteredWater
  else PhysWalkingFallCheck E L S remainingTime (PhysWalkingSettle E remainingTime C)

/-- A pass of the loop of `PhysWalking` in the branch `Check for ledges here.`,
entered when walking off ledges is not allowed and the floor found is not
walkable. -/
def PhysWalkingLedge (E : FEngine) (L : FPhysWalkingLoop) (S : FPhysWalkingSaved)
    (remainingTime : ℚ) (C : UDashCharacterMovementComponent) : FPhysWalkingStep :=
  if !(if L.bTriedLedgeMove then FVector.ZeroVector
        else E.GetLedgeMove C S.OldLocation S.Delta (C.GetComponentAxisZ * (-1 : ℚ))).IsZero then
    FPhysWalkingStep.Next
      { Component :=
          { E.RevertMove C S.OldLocation S.OldBase S.PreviousBaseLocation S.OldFloor false with
            Velocity :=
              (if L.bTriedLedgeMove then FVector.ZeroVector
                else E.GetLedgeMove C S.OldLocation S.Delta (C.GetComponentAxisZ * (-1 : ℚ)))
                / S.timeTick },
        remainingTime := remainingTime + S.timeTick, Iterations := S.Iterations,
        bCheckedFall := L.bCheckedFall, bTriedLedgeMove := true,
        LastPass := EPhysWalkingPass.LedgeRetry }
  else if S.bZeroDelta || MustJumpOffBase S.OldBase || !L.bCheckedFall then
    if (E.CheckFall C S.OldFloor C.CurrentFloor.HitResult S.Delta S.OldLocation remainingTime
          S.timeTick S.Iterations (S.bZeroDelta || MustJumpOffBase S.OldBase)).1 then
      PhysWalkingReturn L S
        (E.CheckFall C S.OldFloor C.CurrentFloor.HitResult S.Delta S.OldLocation remainingTime
          S.timeTick S.Iterations (S.bZeroDelta || MustJumpOffBase S.OldBase)).2
        EPhysWalkingExit.FallAccepted
    else
      FPhysWalkingStep.Break
        { Component :=
            E.RevertMove
              (E.CheckFall C S.OldFloor C.CurrentFloor.HitResult S.Delta S.OldLocation remainingTime
                S.timeTick S.Iterations (S.bZeroDelta || MustJumpOffBase S.OldBase)).2
              S.OldLocation S.OldBase S.PreviousBaseLocation S.OldFloor true,
          remainingTime := 0, Iterations := S.Iterations, bCheckedFall := true,
          bTriedLedgeMove := L.bTriedLedgeMove, LastPass := EPhysWalkingPass.LedgeRevert }
  else
    FPhysWalkingStep.Break
      { Component := E.RevertMove C S.OldLocation S.OldBase S.PreviousBaseLocation S.OldFloor true,
        remainingTime := 0, Iterations := S.Iterations, bCheckedFall := true,
        bTriedLedgeMove := L.bTriedLedgeMove, LastPass := EPhysWalkingPass.LedgeRevert }

/-- A pass of the loop of `PhysWalking` from the comment `Update floor` on: `C` is
the state after the move, `StepDownResult` what the move wrote. -/
def PhysWalkingAfterMove (E : FEngine) (L : FPhysWalkingLoop) (S : FPhysWalkingSaved)
    (remainingTime : ℚ) (C : UDashCharacterMovementComponent) (StepDownResult : FStepDownResult) :
    FPhysWalkingStep :=
  let C := if StepDownResult.bComputedFloor then { C with CurrentFloor := StepDownResult.FloorResult }
    else { C with CurrentFloor := E.FindFloor C C.GetComponentLocation C.CurrentFloor S.bZeroDelta none }
  if !C.bCanWalkOffLedges && !C.CurrentFloor.IsWalkableFloor then
    PhysWalkingLedge E L S remainingTime C
  else PhysWalkingValidate E L S remainingTime C

/-- A pass of the loop of `PhysWalking` from the comment `Compute move parameters.`
on: `C` is the state after the velocity update. -/
def PhysWalkingMove (M : FMath) (E : FEngine) (L : FPhysWalkingLoop) (S : FPhysWalkingSaved)
    (remainingTime : ℚ) (C : UDashCharacterMovementComponent) : FPhysWalkingStep :=
  if S.bZeroDelta then PhysWalkingAfterMove E L S 0 C default
  else if (E.MoveAlongFloor C C.Velocity S.timeTick).1.IsFalling then
    PhysWalkingReturn L S
      (E.StartNewPhysics (E.MoveAlongFloor C C.Velocity S.timeTick).1
        (if S.Delta.Size M > KINDA_SMALL_NUMBER then
          remainingTime + S.timeTick * (1 - min 1
            ((FVector.VectorPlaneProject
                ((E.MoveAlongFloor C C.Velocity S.timeTick).1.GetComponentLocation - S.OldLocation)
                (E.MoveAlongFloor C C.Velocity S.timeTick).1.GetComponentAxisZ).Size M
              / S.Delta.Size M))
        else remainingTime)
        S.Iterations)
      EPhysWalkingExit.JumpedDuringMove
  else if (E.MoveAlongFloor C C.Velocity S.timeTick).1.IsSwimming then
    PhysWalkingReturn L S
      (E.StartSwimming (E.MoveAlongFloor C C.Velocity S.timeTick).1 S.OldLocation S.OldVelocity
        S.timeTick remainingTime S.Iterations)
      EPhysWalkingExit.EnteredWater
  else
    PhysWalkingAfterMove E L S remainingTime (E.MoveAlongFloor C C.Velocity S.timeTick).1
      (E.MoveAlongFloor C C.Velocity S.timeTick).2

/-- The velocity update at the start of a pass of the loop of `PhysWalking`, from
`RestorePreAdditiveRootMotionVelocity()` to `ApplyRootMotionToVelocityOVERRIDEN(timeTick)`. -/
def PhysWalkingVelocity (M : FMath) (E : FEngine) (timeTick : ℚ)
    (C : UDashCharacterMovementComponent) : UDashCharacterMovementComponent :=
  let C := E.RestorePreAdditiveRootMotionVelocity C
  let C := C.MaintainHorizontalGroundVelocity M
  let C := { C with Acceleration := FVector.VectorPlaneProject C.Acceleration C.GetComponentAxisZ }
  let C := if !C.bHasAnimRootMotion && !C.bHasOverrideVelocity then
      C.CalcVelocity M E timeTick C.GroundFriction false C.BrakingDecelerationWalking
    else C
  E.ApplyRootMotionToVelocity C timeTick

/-- The values saved by a pass of the loop of `PhysWalking`. -/
def PhysWalkingSave (M : FMath) (E : FEngine) (L : FPhysWalkingLoop) : FPhysWalkingSaved :=
  let Iterations := L.Iterations + 1
  let C := { L.Component with bJustTeleported := false }
  let timeTick := E.GetSimulationTimeStep C L.remainingTime Iterations
  { Iterations := Iterations, timeTick := timeTick, OldBase := C.MovementBase,
    PreviousBaseLocation := match C.MovementBase with
      | some Base => Base.ComponentLocation
      | none => FVector.ZeroVector,
    OldLocation := C.GetComponentLocation, OldFloor := C.CurrentFloor,
    OldVelocity := ((E.RestorePreAdditiveRootMotionVelocity C).MaintainHorizontalGroundVelocity M).Velocity,
    Delta := timeTick * (PhysWalkingVelocity M E timeTick C).Velocity,
    bZeroDelta := (timeTick * (PhysWalkingVelocity M E timeTick C).Velocity).IsNearlyZero }

/-- One pass of the loop of `PhysWalking`, entered with the loop condition true. -/
def PhysWalkingPass (M : FMath) (E : FEngine) (L : FPhysWalkingLoop) : FPhysWalkingStep :=
  if (PhysWalkingVelocity M E (PhysWalkingSave M E L).timeTick
        { L.Component with bJustTeleported := false }).IsFalling then
    PhysWalkingReturn L (PhysWalkingSave M E L)
      (E.StartNewPhysics
        (PhysWalkingVelocity M E (PhysWalkingSave M E L).timeTick
          { L.Component with bJustTeleported := false })
        (L.remainingTime - (PhysWalkingSave M E L).timeTick + (PhysWalkingSave M E L).timeTick)
        ((PhysWalkingSave M E L).Iterations - 1))
      EPhysWalkingExit.RootMotionFalling
  else
    PhysWalkingMove M E L (PhysWalkingSave M E L)
      (L.remainingTime - (PhysWalkingSave M E L).timeTick)
      (PhysWalkingVelocity M E (PhysWalkingSave M E L).timeTick
        { L.Component with bJustTeleported := false })

/-- The end of `PhysWalking` after its loop: `if (IsMovingOnGround()) MaintainHorizontalGroundVelocity();`. -/
def PhysWalkingFinish (M : FMath) (L : FPhysWalkingLoop) : FPhysWalkingOutcome :=
  { Component := if L.Component.IsMovingOnGround then L.Component.MaintainHorizontalGroundVelocity M
      else L.Component,
    Exit := EPhysWalkingExit.LoopLeft, Iterations := L.Iterations, bCheckedFall := L.bCheckedFall,
    LastPass := L.LastPass }

/-- The loop of `PhysWalking`. `MaxSimulationIterations` is the configured bound,
read when the call starts. The first argument bounds the number of passes; every
pass increments `Iterations` and needs `Iterations < MaxSimulationIterations`, so
`MaxSimulationIterations - Iterations` passes are all there can be. -/
def PhysWalkingLoop (M : FMath) (E : FEngine) (MaxSimulationIterations : Int) :
    Nat → FPhysWalkingLoop → FPhysWalkingOutcome
  | 0, L => PhysWalkingFinish M L
  | fuel + 1, L =>
    if L.remainingTime ≥ MIN_TICK_TIME && decide (L.Iterations < MaxSimulationIterations)
        && L.Component.CanRunWalkingPhysics then
      match PhysWalkingPass M E L with
      | FPhysWalkingStep.Returned Out => Out
      | FPhysWalkingStep.Next L2 => PhysWalkingLoop M E MaxSimulationIterations fuel L2
      | FPhysWalkingStep.Break L2 => PhysWalkingFinish M L2
    else PhysWalkingFinish M L

/-- `PhysWalking`. -/
def PhysWalking (M : FMath) (E : FEngine) (C : UDashCharacterMovementComponent) (deltaTime : ℚ)
    (Iterations : Int) : FPhysWalkingOutcome :=
  let Early (C : UDashCharacterMovementComponent) (Exit : EPhysWalkingExit) : FPhysWalkingOutcome :=
    { Component := C, Exit := Exit, Iterations := Iterations, bCheckedFall := false,
      LastPass := EPhysWalkingPass.NoPass }
  if deltaTime < MIN_TICK_TIME then Early C EPhysWalkingExit.TickTooSmall
  else if !C.CanRunWalkingPhysics then
    Early { C with Acceleration := FVector.ZeroVector, Velocity := FVector.ZeroVector }
      EPhysWalkingExit.NoController
  else if !(C.UpdatedComponent.getD default).bQueryCollisionEnabled then
    Early (E.SetMovementMode C EMovementMode.MOVE_Walking) EPhysWalkingExit.NoQueryCollision
  else
    PhysWalkingLoop M E C.MaxSimulationIterations (C.MaxSimulationIterations - Iterations).toNat
      { Component := { C with bJustTeleported := false }, remainingTime := deltaTime,
        Iterations := Iterations, bCheckedFall := false, bTriedLedgeMove := false,
        LastPass := EPhysWalkingPass.NoPass }

/-! ## Falling, flying, swimming: the guards at the head -/

/-- `PhysFalling`: the tick guard and the gravity guard at its head; `Body` is the
rest of the function. -/
def PhysFalling (M : FMath) (Body : UDashCharacterMovementComponent → ℚ → Int → UDashCharacterMovementComponent)
    (C : UDashCharacterMovementComponent) (deltaTime : ℚ) (Iterations : Int) :
    UDashCharacterMovementComponent :=
  if deltaTime < MIN_TICK_TIME then C
  else
    let GravityDir := C.GetGravityDirection M false
    if GravityDir.IsZero then
      { C with Acceleration := FVector.ZeroVector, Velocity := FVector.ZeroVector }
    else Body C deltaTime Iterations

/-- `PhysFlying`: the tick guard and the gravity guard at its head; `Body` is the
rest of the function. -/
def PhysFlying (M : FMath) (Body : UDashCharacterMovementComponent → ℚ → Int → UDashCharacterMovementComponent)
    (C : UDashCharacterMovementComponent) (deltaTime : ℚ) (Iterations : Int) :
    UDashCharacterMovementComponent :=
  if deltaTime < MIN_TICK_TIME then C
  else
    let GravDir := C.GetGravityDirection M false
    if GravDir.IsZero then
      { C with Acceleration := FVector.ZeroVector, Velocity := FVector.ZeroVector }
    else Body C deltaTime Iterations

/-- `PhysSwimming`: the tick guard and the gravity guard at its head; `Body` is
the rest of the function. -/
def PhysSwimming (M : FMath) (Body : UDashCharacterMovementComponent → ℚ → Int → UDashCharacterMovementComponent)
    (C : UDashCharacterMovementComponent) (deltaTime : ℚ) (Iterations : Int) :
    UDashCharacterMovementComponent :=
  if deltaTime < MIN_TICK_TIME then C
  else
    let GravityDir := C.GetGravityDirection M false
    if GravityDir.IsZero then
      { C with Acceleration := FVector.ZeroVector, Velocity := FVector.ZeroVector }
    else Body C deltaTime Iterations

end UDashCharacterMovementComponent

/-- The value of the local `MaxSpeed` of `CalcVelocity` from the line
`MaxSpeed = FMath::Max3(RequestedSpeed, MaxSpeed * AnalogInputModifier, GetMinAnalogSpeed());`
on, when no path-following request is pending (`RequestedSpeed` is 0):
`bForceMaxAccel` has set `AnalogInputModifier` to 1 before. -/
def UDashCharacterMovementComponent.CalcVelocityMaxSpeed (C : UDashCharacterMovementComponent) : ℚ :=
  Max3 0 (C.MaxSpeed * (if C.bForceMaxAccel then 1 else C.AnalogInputModifier)) C.MinAnalogSpeed

/-! ## Falling -/

/-- The engine's root motion (`CurrentRootMotion` and the animation root motion)
as far as `ApplyRootMotionToVelocityOVERRIDEN` calls into it. -/
structure FRootMotionEngine where
  ConstrainAnimRootMotionVelocity : UDashCharacterMovementComponent → FVector
  AccumulateOverrideRootMotionVelocity :
    UDashCharacterMovementComponent → ℚ → UDashCharacterMovementComponent
  AccumulateAdditiveRootMotionVelocity :
    UDashCharacterMovementComponent → ℚ → UDashCharacterMovementComponent
  UseSensitiveLiftoffCheck : UDashCharacterMovementComponent → Bool

/-- The locals of a pass of the loop of `PhysFalling` that the code after the move
reads. -/
structure FPhysFallingSaved where
  Iterations : Int
  timeTick : ℚ
  OldLocation : FVector
  PawnRotation : FQuat
  OldVelocity : FVector
  VelocityNoAirControl : FVector
  AirControlAccel : FVector
  Adjusted : FVector
  GravityDir : FVector
  bHasAirControl : Bool

/-- The engine calls of the loop of `PhysFalling` that the walking model does not
need. `BlockingHit` is the branch `else if (Hit.bBlockingHit)` of the loop body
(landing, deflection along one or two walls), taken as a function of the state,
the hit, the remaining time and the locals it reads; it answers whether the
function returned there and with which state. -/
structure FFallingEngine where
  SafeMoveUpdatedComponent : UDashCharacterMovementComponent → FVector → FQuat → Bool →
    UDashCharacterMovementComponent × FHitResult
  NotifyJumpApex : UDashCharacterMovementComponent → UDashCharacterMovementComponent
  BlockingHit : UDashCharacterMovementComponent → FHitResult → ℚ → FPhysFallingSaved →
    Bool × UDashCharacterMovementComponent

/-- The loop variables of `PhysFalling`. -/
structure FPhysFallingLoop where
  Component : UDashCharacterMovementComponent
  RemainingTime : ℚ
  Iterations : Int

/-- The result of one pass of the loop of `PhysFalling`: the function returned, or
the loop goes on. -/
inductive FPhysFallingStep where
  | Returned (C : UDashCharacterMovementComponent)
  | Next (L : FPhysFallingLoop)

/-- The velocity and the velocity without air control after the block `Apply
input.` of the loop of `PhysFalling`. -/
structure FPhysFallingInput where
  Component : UDashCharacterMovementComponent
  VelocityNoAirControl : FVector

namespace UDashCharacterMovementComponent

/-- Modelled from the spec: `UCharacterMovementComponent::NewFallVelocity` of the
engine, which is not part of the repository: the velocity-update rule applying
gravity, exact for constant acceleration, `v' = v + g·dt`. -/
def NewFallVelocity (InitialVelocity Gravity : FVector) (DeltaTime : ℚ) : FVector :=
  InitialVelocity + Gravity * DeltaTime

/-- `BoostAirControlEx`. -/
def BoostAirControlEx (C : UDashCharacterMovementComponent) (_DeltaTime TickAirControl : ℚ)
    (_FallAcceleration GravDir : FVector) : ℚ :=
  if C.AirControlBoostMultiplier > 0
      ∧ (FVector.VectorPlaneProject C.Velocity GravDir).SizeSquared
          < Square C.AirControlBoostVelocityThreshold then
    min 1 (C.AirControlBoostMultiplier * TickAirControl)
  else TickAirControl

/-- `GetAirControlEx`. -/
def GetAirControlEx (C : UDashCharacterMovementComponent) (DeltaTime TickAirControl : ℚ)
    (FallAcceleration GravDir : FVector) : FVector :=
  (if TickAirControl ≠ 0 then C.BoostAirControlEx DeltaTime TickAirControl FallAcceleration GravDir
    else TickAirControl) * FallAcceleration

/-- `GetFallingLateralAccelerationEx`. -/
def GetFallingLateralAccelerationEx (M : FMath) (C : UDashCharacterMovementComponent)
    (DeltaTime : ℚ) (GravDir : FVector) : FVector :=
  if !C.bHasAnimRootMotion
      && decide ((FVector.VectorPlaneProject C.Acceleration GravDir).SizeSquared > 0) then
    (C.GetAirControlEx DeltaTime C.AirControl (FVector.VectorPlaneProject C.Acceleration GravDir)
      GravDir).GetClampedToMaxSize M C.MaxAcceleration
  else FVector.VectorPlaneProject C.Acceleration GravDir

/-- The end of `ApplyRootMotionToVelocityOVERRIDEN`: `Switch to falling if we have
vertical velocity from root motion so we can lift off the ground.` -/
def ApplyRootMotionLiftoff (E : FEngine) (R : FRootMotionEngine) (OldVelocity : FVector)
    (bAppliedRootMotion : Bool) (C : UDashCharacterMovementComponent) (deltaTime : ℚ) :
    UDashCharacterMovementComponent :=
  if bAppliedRootMotion && C.IsMovingOnGround then
    if FVector.Dot (C.Velocity - OldVelocity) C.GetComponentAxisZ > 0 then
      if FVector.Dot (C.Velocity - OldVelocity) C.GetComponentAxisZ
          > (if R.UseSensitiveLiftoffCheck C then SMALL_NUMBER
            else max (C.GetGravityMagnitude * deltaTime) SMALL_NUMBER) then
        E.SetMovementMode C EMovementMode.MOVE_Falling
      else C
    else C
  else C

/-- The block `Next apply additive root motion.` of `ApplyRootMotionToVelocityOVERRIDEN`
and what follows it. -/
def ApplyRootMotionAdditive (E : FEngine) (R : FRootMotionEngine) (OldVelocity : FVector)
    (bAppliedRootMotion : Bool) (C : UDashCharacterMovementComponent) (deltaTime : ℚ) :
    UDashCharacterMovementComponent :=
  if C.bHasAdditiveVelocity then
    ApplyRootMotionLiftoff E R OldVelocity true
      (R.AccumulateAdditiveRootMotionVelocity C deltaTime) deltaTime
  else ApplyRootMotionLiftoff E R OldVelocity bAppliedRootMotion C deltaTime

/-- `ApplyRootMotionToVelocityOVERRIDEN`. -/
def ApplyRootMotionToVelocityOVERRIDEN (E : FEngine) (R : FRootMotionEngine)
    (C : UDashCharacterMovementComponent) (deltaTime : ℚ) : UDashCharacterMovementComponent :=
  if C.bHasAnimRootMotion && decide (deltaTime > 0) then
    { C with Velocity := R.ConstrainAnimRootMotionVelocity C }
  else if C.bHasOverrideVelocity then
    ApplyRootMotionAdditive E R C.Velocity true
      (R.AccumulateOverrideRootMotionVelocity C deltaTime) deltaTime
  else ApplyRootMotionAdditive E R C.Velocity false C deltaTime

end UDashCharacterMovementComponent

namespace UDashCharacterMovementComponent

/-- One of the two blocks of the loop of `PhysFalling` that run `CalcVelocity` on
the lateral velocity with `Acceleration` replaced for the call
(`TGuardValue<FVector> RestoreAcceleration(Acceleration, Accel)`): the state
when the guard has put `Acceleration` back. -/
def PhysFallingLateral (M : FMath) (E : FEngine) (C : UDashCharacterMovementComponent)
    (GravityDir Accel : FVector) (timeTick : ℚ) : UDashCharacterMovementComponent :=
  { CalcVelocity M E
      { C with Acceleration := Accel, Velocity := FVector.VectorPlaneProject C.Velocity GravityDir }
      timeTick C.FallingLateralFriction false C.BrakingDecelerationFalling with
    Acceleration := C.Acceleration }

/-- The block `Compute Velocity.` of the loop of `PhysFalling`, with `OldVelocityZ`
the velocity along gravity saved before. -/
def PhysFallingComputeVelocity (M : FMath) (E : FEngine) (C : UDashCharacterMovementComponent)
    (GravityDir FallAcceleration OldVelocityZ : FVector) (timeTick : ℚ) :
    UDashCharacterMovementComponent :=
  { PhysFallingLateral M E C GravityDir FallAcceleration timeTick with
    Velocity :=
      FVector.VectorPlaneProject
        (PhysFallingLateral M E C GravityDir FallAcceleration timeTick).Velocity GravityDir
        + OldVelocityZ }

/-- The block `Apply input.` of the loop of `PhysFalling`. -/
def PhysFallingInput (M : FMath) (E : FEngine) (C : UDashCharacterMovementComponent)
    (GravityDir FallAcceleration : FVector) (timeTick : ℚ) : FPhysFallingInput :=
  if !C.bHasAnimRootMotion && !C.bHasOverrideVelocity then
    if FallAcceleration.SizeSquared > 0 then
      { Component :=
          PhysFallingComputeVelocity M E
            { PhysFallingLateral M E C GravityDir FVector.ZeroVector timeTick with
              Velocity := C.Velocity }
            GravityDir FallAcceleration (GravityDir * FVector.Dot C.Velocity GravityDir) timeTick,
        VelocityNoAirControl :=
          FVector.VectorPlaneProject
            (PhysFallingLateral M E C GravityDir FVector.ZeroVector timeTick).Velocity GravityDir
            + GravityDir * FVector.Dot C.Velocity GravityDir }
    else
      { Component :=
          PhysFallingComputeVelocity M E C GravityDir FallAcceleration
            (GravityDir * FVector.Dot C.Velocity GravityDir) timeTick,
        VelocityNoAirControl :=
          (PhysFallingComputeVelocity M E C GravityDir FallAcceleration
            (GravityDir * FVector.Dot C.Velocity GravityDir) timeTick).Velocity }
  else { Component := C, VelocityNoAirControl := C.Velocity }

/-- The apex notification of the loop of `PhysFalling`:
`if (bNotifyApex && CharacterOwner->Controller && ((Velocity | GravityDir) * -1.0f) <= 0.0f)`. -/
def PhysFallingNotifyApex (F : FFallingEngine) (C : UDashCharacterMovementComponent)
    (GravityDir : FVector) : UDashCharacterMovementComponent :=
  if C.bNotifyApex && (C.CharacterOwner.getD default).Controller
      && decide (FVector.Dot C.Velocity GravityDir * (-1) ≤ 0) then
    F.NotifyJumpApex { C with bNotifyApex := false }
  else C

/-- The state of a pass of the loop of `PhysFalling` when it requests its move:
input, gravity (`NewFallVelocity`), root motion and the apex notification have
been applied to `C`, the state after `RestorePreAdditiveRootMotionVelocity()`. -/
def PhysFallingBeforeMove (M : FMath) (E : FEngine) (R : FRootMotionEngine) (F : FFallingEngine)
    (GravityDir FallAcceleration : FVector) (timeTick : ℚ) (C : UDashCharacterMovementComponent) :
    UDashCharacterMovementComponent :=
  PhysFallingNotifyApex F
    (ApplyRootMotionToVelocityOVERRIDEN E R
      { (PhysFallingInput M E C GravityDir FallAcceleration timeTick).Component with
        Velocity :=
          NewFallVelocity (PhysFallingInput M E C GravityDir FallAcceleration timeTick).Component.Velocity
            ((PhysFallingInput M E C GravityDir FallAcceleration timeTick).Component.GetGravity M)
            timeTick }
      timeTick)
    GravityDir

/-- The locals of a pass of the loop of `PhysFalling` when it requests its move;
`Adjusted` is the displacement requested, `0.5f * (OldVelocity + Velocity) * timeTick`. -/
def PhysFallingLocals (M : FMath) (E : FEngine) (R : FRootMotionEngine) (F : FFallingEngine)
    (GravityDir FallAcceleration : FVector) (timeTick : ℚ) (Iterations : Int)
    (OldLocation : FVector) (PawnRotation : FQuat) (C : UDashCharacterMovementComponent) :
    FPhysFallingSaved :=
  { Iterations := Iterations, timeTick := timeTick, OldLocation := OldLocation,
    PawnRotation := PawnRotation, OldVelocity := C.Velocity,
    VelocityNoAirControl :=
      NewFallVelocity (PhysFallingInput M E C GravityDir FallAcceleration timeTick).VelocityNoAirControl
        ((PhysFallingInput M E C GravityDir FallAcceleration timeTick).Component.GetGravity M) timeTick,
    AirControlAccel :=
      (NewFallVelocity (PhysFallingInput M E C GravityDir FallAcceleration timeTick).Component.Velocity
          ((PhysFallingInput M E C GravityDir FallAcceleration timeTick).Component.GetGravity M) timeTick
        - NewFallVelocity
          (PhysFallingInput M E C GravityDir FallAcceleration timeTick).VelocityNoAirControl
          ((PhysFallingInput M E C GravityDir FallAcceleration timeTick).Component.GetGravity M) timeTick)
        / timeTick,
    Adjusted :=
      (1 / 2 : ℚ)
        * (C.Velocity + (PhysFallingBeforeMove M E R F GravityDir FallAcceleration timeTick C).Velocity)
        * timeTick,
    GravityDir := GravityDir, bHasAirControl := decide (FallAcceleration.SizeSquared > 0) }

/-- The end of a pass of the loop of `PhysFalling`: a lateral velocity that has
become negligible is removed. -/
def PhysFallingEndOfPass (S : FPhysFallingSaved) (RemainingTime : ℚ)
    (C : UDashCharacterMovementComponent) : FPhysFallingStep :=
  FPhysFallingStep.Next
    { Component :=
        if (FVector.VectorPlaneProject C.Velocity S.GravityDir).SizeSquared
            ≤ KINDA_SMALL_NUMBER * 10 then
          { C with Velocity := S.GravityDir * FVector.Dot C.Velocity S.GravityDir }
        else C,
      RemainingTime := RemainingTime, Iterations := S.Iterations }

/-- A pass of the loop of `PhysFalling` after its move, which left the state `C`
and the hit `Hit`. -/
def PhysFallingAfterMove (E : FEngine) (F : FFallingEngine) (S : FPhysFallingSaved)
    (RemainingTime : ℚ) (C : UDashCharacterMovementComponent) (Hit : FHitResult) :
    FPhysFallingStep :=
  if !C.HasValidData then FPhysFallingStep.Returned C
  else if C.IsSwimming then
    FPhysFallingStep.Returned
      (E.StartSwimming C S.OldLocation S.OldVelocity S.timeTick
        (RemainingTime + S.timeTick * (1 - Hit.Time)) S.Iterations)
  else if Hit.bBlockingHit then
    if (F.BlockingHit C Hit RemainingTime S).1 then
      FPhysFallingStep.Returned (F.BlockingHit C Hit RemainingTime S).2
    else PhysFallingEndOfPass S RemainingTime (F.BlockingHit C Hit RemainingTime S).2
  else PhysFallingEndOfPass S RemainingTime C

/-- One pass of the loop of `PhysFalling` from `const FVector OldLocation` on, for a
sub-step of length `timeTick`; `RemainingTime` and `Iterations` are the values
after `RemainingTime -= timeTick` and `Iterations++`. -/
def PhysFallingSubStep (M : FMath) (E : FEngine) (R : FRootMotionEngine) (F : FFallingEngine)
    (GravityDir FallAcceleration : FVector) (timeTick RemainingTime : ℚ) (Iterations : Int)
    (C : UDashCharacterMovementComponent) : FPhysFallingStep :=
  PhysFallingAfterMove E F
    (PhysFallingLocals M E R F GravityDir FallAcceleration timeTick Iterations
      C.GetComponentLocation C.GetComponentQuat
      (E.RestorePreAdditiveRootMotionVelocity { C with bJustTeleported := false }))
    RemainingTime
    (F.SafeMoveUpdatedComponent
      (PhysFallingBeforeMove M E R F GravityDir FallAcceleration timeTick
        (E.RestorePreAdditiveRootMotionVelocity { C with bJustTeleported := false }))
      (PhysFallingLocals M E R F GravityDir FallAcceleration timeTick Iterations
        C.GetComponentLocation C.GetComponentQuat
        (E.RestorePreAdditiveRootMotionVelocity { C with bJustTeleported := false })).Adjusted
      C.GetComponentQuat true).1
    (F.SafeMoveUpdatedComponent
      (PhysFallingBeforeMove M E R F GravityDir FallAcceleration timeTick
        (E.RestorePreAdditiveRootMotionVelocity { C with bJustTeleported := false }))
      (PhysFallingLocals M E R F GravityDir FallAcceleration timeTick Iterations
        C.GetComponentLocation C.GetComponentQuat
        (E.RestorePreAdditiveRootMotionVelocity { C with bJustTeleported := false })).Adjusted
      C.GetComponentQuat true).2

/-- One pass of the loop of `PhysFalling`, entered with the loop condition true. -/
def PhysFallingPass (M : FMath) (E : FEngine) (R : FRootMotionEngine) (F : FFallingEngine)
    (GravityDir FallAcceleration : FVector) (L : FPhysFallingLoop) : FPhysFallingStep :=
  PhysFallingSubStep M E R F GravityDir FallAcceleration
    (E.GetSimulationTimeStep L.Component L.RemainingTime (L.Iterations + 1))
    (L.RemainingTime - E.GetSimulationTimeStep L.Component L.RemainingTime (L.Iterations + 1))
    (L.Iterations + 1) L.Component

end UDashCharacterMovementComponent

/-- The state a pass of the loop of `PhysFalling` leaves: the state at the
`return`, or the state the loop goes on with. -/
def FPhysFallingStep.Component : FPhysFallingStep → UDashCharacterMovementComponent
  | FPhysFallingStep.Returned C => C
  | FPhysFallingStep.Next L => L.Component

/-- The displacement `Adjusted` that a sub-step of `PhysFalling` of length
`timeTick` at the state `C` requests of `SafeMoveUpdatedComponent`. -/
def UDashCharacterMovementComponent.PhysFallingRequestedMove (M : FMath) (E : FEngine)
    (R : FRootMotionEngine) (F : FFallingEngine) (GravityDir FallAcceleration : FVector)
    (timeTick : ℚ) (C : UDashCharacterMovementComponent) : FVector :=
  (UDashCharacterMovementComponent.PhysFallingLocals M E R F GravityDir FallAcceleration timeTick 0
    C.GetComponentLocation C.GetComponentQuat
    (E.RestorePreAdditiveRootMotionVelocity { C with bJustTeleported := false })).Adjusted

/-- `GetComponentDesiredAxisZ`. -/
def UDashCharacterMovementComponent.GetComponentDesiredAxisZ (M : FMath)
    (C : UDashCharacterMovementComponent) : FVector :=
  if C.bAlignComponentToFloor && C.IsMovingOnGround && !C.CurrentFloor.HitResult.ImpactNormal.IsZero then
    C.CurrentFloor.HitResult.ImpactNormal
  else if C.bAlignComponentToGravity then C.GetGravityDirection M true * (-1 : ℚ)
  else C.GetComponentAxisZ

/-! ## Network corrections -/

/-- `FClientAdjustment`, the adjustment the server holds for the client. -/
structure FClientAdjustment where
  TimeStamp : ℚ
  DeltaTime : ℚ
  NewLoc : FVector
  NewVel : FVector
  NewRot : FQuat
  NewBase : Option UPrimitiveComponent
  NewBaseBoneName : Nat
  bAckGoodMove : Bool
  bBaseRelativePosition : Bool
  MovementMode : Nat

/-- `FNetworkPredictionData_Server_Character`, as far as
`ServerMoveHandleClientError` reads and writes it. -/
structure FNetworkPredictionData_Server_Character where
  PendingAdjustment : FClientAdjustment
  LastUpdateTime : ℚ
  bForceClientUpdate : Bool

/-- `FNetworkPredictionData_Client_Character`, as far as
`ClientAdjustPosition_Implementation` and the crouch functions read and write it:
the time stamps of the buffered moves (`SavedMoves`), `bUpdatePosition` and the
mesh translation offsets. -/
structure FNetworkPredictionData_Client_Character where
  SavedMoves : List ℚ
  bUpdatePosition : Bool
  MeshTranslationOffset : FVector := FVector.ZeroVector
  OriginalMeshTranslationOffset : FVector := FVector.ZeroVector

/-- The engine calls of the network correction functions. `TimeSeconds` is
`GetWorld()->TimeSeconds`, `WithinUpdateDelayBounds` the test of the game network
manager, `GetMovementBaseLocation` the location output of
`MovementBaseUtility::GetMovementBaseTransform`, `SameBase` the comparison of two
base pointers; `SaveBaseLocation` and `UpdateComponentVelocity` write to the owner
and to the velocity of the updated component, which are part of `World` here, and
answer with the new `World`. -/
structure FNetEngine where
  TimeSeconds : UDashCharacterMovementComponent → ℚ
  WithinUpdateDelayBounds : UDashCharacterMovementComponent → ℚ → Bool
  UseRelativeLocation : Option UPrimitiveComponent → Bool
  GetMovementBaseLocation : Option UPrimitiveComponent → Nat → FVector
  SameBase : Option UPrimitiveComponent → Option UPrimitiveComponent → Bool
  ServerCheckClientError : UDashCharacterMovementComponent → ℚ → ℚ → FVector → FVector → FVector →
    Option UPrimitiveComponent → Nat → Nat → Bool
  PackNetworkMovementMode : UDashCharacterMovementComponent → Nat
  ClientAuthorativePosition : Bool
  BasedMovementBoneName : UDashCharacterMovementComponent → Nat
  BasedMovementLocation : UDashCharacterMovementComponent → FVector
  ApplyNetworkMovementMode : UDashCharacterMovementComponent → Nat → UDashCharacterMovementComponent
  UpdateFloorFromAdjustment : UDashCharacterMovementComponent → UDashCharacterMovementComponent
  SaveBaseLocation : UDashCharacterMovementComponent → Nat
  UpdateComponentVelocity : UDashCharacterMovementComponent → Nat
  AckMove : FNetworkPredictionData_Client_Character → Nat → FNetworkPredictionData_Client_Character

namespace UDashCharacterMovementComponent

/-- Modelled from the spec: `USceneComponent::SetWorldLocation(NewLocation, false)`
of the engine, the snap of the state to a location: without sweep the updated
component is placed there. -/
def SetWorldLocation (C : UDashCharacterMovementComponent) (NewLocation : FVector) :
    UDashCharacterMovementComponent :=
  { C with UpdatedComponent := C.UpdatedComponent.map fun U => { U with ComponentLocation := NewLocation } }

/-- The three assignments `LastUpdateLocation = ...; LastUpdateRotation = ...;
LastUpdateVelocity = Velocity;`. -/
def SaveLastUpdate (C : UDashCharacterMovementComponent) : UDashCharacterMovementComponent :=
  { C with
    LastUpdateLocation :=
      match C.UpdatedComponent with
      | some U => U.ComponentLocation
      | none => FVector.ZeroVector,
    LastUpdateRotation :=
      match C.UpdatedComponent with
      | some U => U.ComponentQuat
      | none => FQuat.Identity,
    LastUpdateVelocity := C.Velocity }

/-- The location a client move reports, in world space: `Offset may be relative to
base component.` -/
def ServerMoveClientLoc (N : FNetEngine) (RelativeClientLoc : FVector)
    (ClientMovementBase : Option UPrimitiveComponent) (ClientBaseBoneName : Nat) : FVector :=
  if N.UseRelativeLocation ClientMovementBase then
    RelativeClientLoc + N.GetMovementBaseLocation ClientMovementBase ClientBaseBoneName
  else RelativeClientLoc

/-- The branch of `ServerMoveHandleClientError` that queues a correction. -/
def ServerMoveCorrection (N : FNetEngine) (C : UDashCharacterMovementComponent)
    (S : FNetworkPredictionData_Server_Character) (ClientTimeStamp DeltaTime : ℚ) :
    FNetworkPredictionData_Server_Character :=
  { S with
    PendingAdjustment :=
      { NewVel := C.Velocity, NewBase := C.MovementBase,
        NewBaseBoneName := N.BasedMovementBoneName C,
        NewLoc :=
          if N.UseRelativeLocation C.MovementBase then N.BasedMovementLocation C
          else C.GetComponentLocation,
        NewRot := C.GetComponentQuat,
        bBaseRelativePosition := N.UseRelativeLocation C.MovementBase,
        DeltaTime := DeltaTime, TimeStamp := ClientTimeStamp, bAckGoodMove := false,
        MovementMode := N.PackNetworkMovementMode C },
    LastUpdateTime := N.TimeSeconds C }

/-- The block `if (GetDefault<AGameNetworkManager>()->ClientAuthorativePosition)` of
`ServerMoveHandleClientError`. -/
def ServerMoveTrustClient (N : FNetEngine) (E : FEngine) (C : UDashCharacterMovementComponent)
    (ClientLoc : FVector) (ClientMovementBase : Option UPrimitiveComponent)
    (ClientBaseBoneName ClientMovementMode : Nat) : UDashCharacterMovementComponent :=
  if N.ClientAuthorativePosition then
    if !(C.GetComponentLocation - ClientLoc).IsZero
        || ClientMovementMode != N.PackNetworkMovementMode C
        || !N.SameBase C.MovementBase ClientMovementBase
        || (C.CharacterOwner.isSome && N.BasedMovementBoneName C != ClientBaseBoneName) then
      SaveLastUpdate
        { N.UpdateFloorFromAdjustment
            (E.SetBase (N.ApplyNetworkMovementMode (C.SetWorldLocation ClientLoc) ClientMovementMode)
              ClientMovementBase ClientBaseBoneName) with
          World :=
            N.SaveBaseLocation
              (N.UpdateFloorFromAdjustment
                (E.SetBase
                  (N.ApplyNetworkMovementMode (C.SetWorldLocation ClientLoc) ClientMovementMode)
                  ClientMovementBase ClientBaseBoneName)) }
    else C
  else C

/-- The branch of `ServerMoveHandleClientError` that acknowledges the move. -/
def ServerMoveAcknowledge (S : FNetworkPredictionData_Server_Character) (ClientTimeStamp : ℚ) :
    FNetworkPredictionData_Server_Character :=
  { S with
    PendingAdjustment :=
      { S.PendingAdjustment with TimeStamp := ClientTimeStamp, bAckGoodMove := true } }

/-- The two tests at the head of `ServerMoveHandleClientError` after which it
returns without handling the move: the marker location of the first part of a
double server move, and the update-delay bound. -/
def ServerMoveHeldBack (N : FNetEngine) (C : UDashCharacterMovementComponent)
    (S : FNetworkPredictionData_Server_Character) (RelativeClientLoc : FVector) : Bool :=
  decide (RelativeClientLoc = ⟨1, 2, 3⟩)
    || (decide (S.LastUpdateTime ≠ N.TimeSeconds C) && N.WithinUpdateDelayBounds C S.LastUpdateTime)

/-- `ServerMoveHandleClientError`, on the movement component and the server's
prediction data. -/
def ServerMoveHandleClientError (N : FNetEngine) (E : FEngine) (C : UDashCharacterMovementComponent)
    (S : FNetworkPredictionData_Server_Character) (ClientTimeStamp DeltaTime : ℚ)
    (Accel RelativeClientLoc : FVector) (ClientMovementBase : Option UPrimitiveComponent)
    (ClientBaseBoneName ClientMovementMode : Nat) :
    UDashCharacterMovementComponent × FNetworkPredictionData_Server_Character :=
  if ServerMoveHeldBack N C S RelativeClientLoc then (C, S)
  else if S.bForceClientUpdate
      || N.ServerCheckClientError C ClientTimeStamp DeltaTime Accel
          (ServerMoveClientLoc N RelativeClientLoc ClientMovementBase ClientBaseBoneName)
          RelativeClientLoc ClientMovementBase ClientBaseBoneName ClientMovementMode then
    (C, { ServerMoveCorrection N C S ClientTimeStamp DeltaTime with bForceClientUpdate := false })
  else
    (ServerMoveTrustClient N E C
        (ServerMoveClientLoc N RelativeClientLoc ClientMovementBase ClientBaseBoneName)
        ClientMovementBase ClientBaseBoneName ClientMovementMode,
      { ServerMoveAcknowledge S ClientTimeStamp with bForceClientUpdate := false })

end UDashCharacterMovementComponent

namespace UDashCharacterMovementComponent

/-- Modelled from the spec: `FNetworkPredictionData_Client_Character::GetSavedMoveIndex`
of the engine: the client locates the buffered move matching the time stamp;
`none` is `INDEX_NONE`. -/
def GetSavedMoveIndex (ClientData : FNetworkPredictionData_Client_Character) (TimeStamp : ℚ) :
    Option Nat :=
  if TimeStamp ∈ ClientData.SavedMoves then some (ClientData.SavedMoves.indexOf TimeStamp) else none

/-- The location a correction carries, in world space: `Received Location is
relative to dynamic base.` -/
def ClientAdjustLocation (N : FNetEngine) (NewLocation : FVector)
    (NewBase : Option UPrimitiveComponent) (NewBaseBoneName : Nat) (bBaseRelativePosition : Bool) :
    FVector :=
  if bBaseRelativePosition then NewLocation + N.GetMovementBaseLocation NewBase NewBaseBoneName
  else NewLocation

/-- The state of `ClientAdjustPosition_Implementation` after `Trust the server's
positioning.`: the location and the velocity of the correction have been taken. -/
def ClientAdjustSnap (C : UDashCharacterMovementComponent) (NewLocation NewVelocity : FVector) :
    UDashCharacterMovementComponent :=
  { C.SetWorldLocation NewLocation with Velocity := NewVelocity }

/-- The block `Set base component.` of `ClientAdjustPosition_Implementation` up to
`SetBase(FinalBase, FinalBaseBoneName)`; `C` is the state after
`ApplyNetworkMovementMode`, `PreviousBase` the base before it. -/
def ClientAdjustSetBase (E : FEngine) (C : UDashCharacterMovementComponent)
    (PreviousBase NewBase : Option UPrimitiveComponent) (NewBaseBoneName : Nat)
    (bUnresolvedBase : Bool) : UDashCharacterMovementComponent :=
  if bUnresolvedBase && PreviousBase.isSome then
    if (E.FindFloor C C.GetComponentLocation C.CurrentFloor false none).IsWalkableFloor then
      E.SetBase { C with CurrentFloor := E.FindFloor C C.GetComponentLocation C.CurrentFloor false none }
        (E.FindFloor C C.GetComponentLocation C.CurrentFloor false none).HitResult.Component
        (E.FindFloor C C.GetComponentLocation C.CurrentFloor false none).HitResult.BoneName
    else
      E.SetBase { C with CurrentFloor := E.FindFloor C C.GetComponentLocation C.CurrentFloor false none }
        none 0
  else E.SetBase C NewBase NewBaseBoneName

/-- The end of `ClientAdjustPosition_Implementation`, from `Update floor at new
location.` on; `C` is the state after `SetBase`. -/
def ClientAdjustFinish (N : FNetEngine) (C : UDashCharacterMovementComponent) :
    UDashCharacterMovementComponent :=
  { SaveLastUpdate
      { N.UpdateFloorFromAdjustment C with
        bJustTeleported := true,
        World := N.SaveBaseLocation { N.UpdateFloorFromAdjustment C with bJustTeleported := true } } with
    World :=
      N.UpdateComponentVelocity
        (SaveLastUpdate
          { N.UpdateFloorFromAdjustment C with
            bJustTeleported := true,
            World :=
              N.SaveBaseLocation { N.UpdateFloorFromAdjustment C with bJustTeleported := true } }) }

/-- `ClientAdjustPosition_Implementation` once the correction is accepted: the
state is snapped, then the server's movement mode and base are applied and the
floor is updated. -/
def ClientAdjustApply (N : FNetEngine) (E : FEngine) (C : UDashCharacterMovementComponent)
    (NewLocation NewVelocity : FVector) (NewBase : Option UPrimitiveComponent)
    (NewBaseBoneName : Nat) (bUnresolvedBase : Bool) (ServerMovementMode : Nat) :
    UDashCharacterMovementComponent :=
  ClientAdjustFinish N
    (ClientAdjustSetBase E
      (N.ApplyNetworkMovementMode (C.ClientAdjustSnap NewLocation NewVelocity) ServerMovementMode)
      (C.ClientAdjustSnap NewLocation NewVelocity).MovementBase NewBase NewBaseBoneName
      bUnresolvedBase)

/-- `ClientAdjustPosition_Implementation`, on the movement component and the
client's prediction data. -/
def ClientAdjustPosition_Implementation (N : FNetEngine) (E : FEngine)
    (C : UDashCharacterMovementComponent) (ClientData : FNetworkPredictionData_Client_Character)
    (TimeStamp : ℚ) (NewLocation NewVelocity : FVector) (NewBase : Option UPrimitiveComponent)
    (NewBaseBoneName : Nat) (bHasBase bBaseRelativePosition : Bool) (ServerMovementMode : Nat) :
    UDashCharacterMovementComponent × FNetworkPredictionData_Client_Character :=
  if !C.HasValidData || !C.bComponentTickEnabled then (C, ClientData)
  else if (bHasBase && NewBase.isNone) && bBaseRelativePosition then (C, ClientData)
  else
    match GetSavedMoveIndex ClientData TimeStamp with
    | none => (C, ClientData)
    | some MoveIndex =>
      (ClientAdjustApply N E C
          (ClientAdjustLocation N NewLocation NewBase NewBaseBoneName bBaseRelativePosition)
          NewVelocity NewBase NewBaseBoneName (bHasBase && NewBase.isNone) ServerMovementMode,
        { N.AckMove ClientData MoveIndex with bUpdatePosition := true })

end UDashCharacterMovementComponent

/-! ## Gravity replication -/

/-- The client calls `UpdateGravity` sends: `ClientSetCustomGravityDirection`,
`ClientClearCustomGravityDirection`, `ClientSetGravityPoint`,
`ClientClearGravityPoint` and `ClientSetGravityScale`. -/
inductive EGravityMessage where
  | ClientSetCustomGravityDirection (NewCustomGravityDirection : FVector)
  | ClientClearCustomGravityDirection
  | ClientSetGravityPoint (NewGravityPoint : FVector)
  | ClientClearGravityPoint
  | ClientSetGravityScale (NewGravityScale : ℚ)
deriving DecidableEq

/-- Whether a message replicates the custom gravity direction. -/
def EGravityMessage.IsCustomDirection : EGravityMessage → Bool
  | EGravityMessage.ClientSetCustomGravityDirection _ => true
  | EGravityMessage.ClientClearCustomGravityDirection => true
  | _ => false

namespace UDashCharacterMovementComponent

/-- `UpdateComponentRotation`. `MoveComponentMakeFromZX C Z X` is the engine's
`UpdatedComponent->MoveComponent(FVector::ZeroVector, FRotationMatrix::MakeFromZX(Z, X).Rotator(), true)`. -/
def UpdateComponentRotation (M : FMath)
    (MoveComponentMakeFromZX :
      UDashCharacterMovementComponent → FVector → FVector → UDashCharacterMovementComponent)
    (C : UDashCharacterMovementComponent) : UDashCharacterMovementComponent :=
  if !C.HasValidData then C
  else if FVector.Dot (C.GetComponentDesiredAxisZ M) C.GetComponentAxisZ ≥ THRESH_NORMALS_ARE_PARALLEL then C
  else MoveComponentMakeFromZX C (C.GetComponentDesiredAxisZ M) C.GetComponentAxisX

/-- The first block of `UpdateGravity`: `Set the custom gravity direction to
reversed floor normal vector.` -/
def UpdateGravityAlignToFloor (C : UDashCharacterMovementComponent) :
    UDashCharacterMovementComponent :=
  if C.bAlignCustomGravityToFloor && C.IsMovingOnGround
      && !C.CurrentFloor.HitResult.ImpactNormal.IsZero then
    C.SetCustomGravityDirection (C.CurrentFloor.HitResult.ImpactNormal * (-1 : ℚ))
  else C

/-- The condition under which `UpdateGravity` replicates:
`!bDisableGravityReplication && CharacterOwner && CharacterOwner->HasAuthority() && GetNetMode() > NM_Standalone`. -/
def ReplicatesGravity (C : UDashCharacterMovementComponent) : Bool :=
  !C.bDisableGravityReplication
    && (match C.CharacterOwner with
      | some Owner => Owner.LocalRole == ENetRole.ROLE_Authority
      | none => false)
    && decide (C.NetMode > 0)

/-- The messages one call of `UpdateGravity` sends, in the order of the source. -/
def UpdateGravityMessages (C : UDashCharacterMovementComponent) : List EGravityMessage :=
  if ReplicatesGravity (UpdateGravityAlignToFloor C) then
    (if (UpdateGravityAlignToFloor C).bDirtyCustomGravityDirection then
        [if !(UpdateGravityAlignToFloor C).CustomGravityDirection.IsZero then
          EGravityMessage.ClientSetCustomGravityDirection
            (UpdateGravityAlignToFloor C).CustomGravityDirection
        else EGravityMessage.ClientClearCustomGravityDirection]
      else [])
    ++ (if (UpdateGravityAlignToFloor C).OldGravityPoint ≠ (UpdateGravityAlignToFloor C).GravityPoint then
        [if !(UpdateGravityAlignToFloor C).GravityPoint.IsZero then
          EGravityMessage.ClientSetGravityPoint (UpdateGravityAlignToFloor C).GravityPoint
        else EGravityMessage.ClientClearGravityPoint]
      else [])
    ++ (if (UpdateGravityAlignToFloor C).OldGravityScale ≠ (UpdateGravityAlignToFloor C).GravityScale then
        [EGravityMessage.ClientSetGravityScale (UpdateGravityAlignToFloor C).GravityScale]
      else [])
  else []

/-- `UpdateGravity`: the state it leaves. -/
def UpdateGravity (M : FMath)
    (MoveComponentMakeFromZX :
      UDashCharacterMovementComponent → FVector → FVector → UDashCharacterMovementComponent)
    (C : UDashCharacterMovementComponent) (_DeltaTime : ℚ) : UDashCharacterMovementComponent :=
  UpdateComponentRotation M MoveComponentMakeFromZX
    (if ReplicatesGravity (UpdateGravityAlignToFloor C) then
      { UpdateGravityAlignToFloor C with
        bDirtyCustomGravityDirection := false,
        OldGravityPoint := (UpdateGravityAlignToFloor C).GravityPoint,
        OldGravityScale := (UpdateGravityAlignToFloor C).GravityScale }
    else UpdateGravityAlignToFloor C)

end UDashCharacterMovementComponent

/-! ## Crouching -/

/-- The engine calls of `Crouch` and `UnCrouch`. The overlap and sweep queries
answer from the state (its `World`); `MoveComponent` is
`UpdatedComponent->MoveComponent(Delta, Rotation, bSweep)` and answers with the
moved updated component and the new `World`; the two capsule shapes are
`GetPawnCapsuleCollisionShape(SHRINK_None)` and
`GetPawnCapsuleCollisionShape(SHRINK_HeightCustom, Amount)`;
`AdjustProxyCapsuleSize` answers with the unscaled radius, the unscaled half height
and `bShrinkProxyCapsule` it leaves; `OnStartCrouch` and `OnEndCrouch` are the
events of the character and answer with the new `World`. -/
structure FCrouchEngine where
  CanCrouchInCurrentState : UDashCharacterMovementComponent → Bool
  OverlapBlockingTestByChannel : UDashCharacterMovementComponent → FVector → FQuat →
    FCollisionShape → Bool
  SweepSingleByChannel : UDashCharacterMovementComponent → FVector → FVector → FQuat →
    FCollisionShape → Bool × FHitResult
  MoveComponent : UDashCharacterMovementComponent → FVector → FQuat → Bool → USceneComponent × Nat
  GetPawnCapsuleCollisionShape : UDashCharacterMovementComponent → FCollisionShape
  GetPawnCapsuleCollisionShapeHeightCustom : UDashCharacterMovementComponent → ℚ → FCollisionShape
  AdjustProxyCapsuleSize : UDashCharacterMovementComponent → ℚ × ℚ × Bool
  OnStartCrouch : UDashCharacterMovementComponent → ℚ → ℚ → Nat
  OnEndCrouch : UDashCharacterMovementComponent → ℚ → ℚ → Nat

/-- Modelled from the spec: `UCapsuleComponent::SetCapsuleSize` of the engine, the
resize of the capsule: the unscaled radius and half height are set, and the
scaled size follows by the shape scale. -/
def ACharacter.SetCapsuleSize (Owner : ACharacter) (NewRadius NewHalfHeight : ℚ) : ACharacter :=
  { Owner with
    UnscaledCapsuleRadius := NewRadius, UnscaledCapsuleHalfHeight := NewHalfHeight,
    ScaledCapsuleRadius := NewRadius * Owner.ShapeScale,
    ScaledCapsuleHalfHeight := NewHalfHeight * Owner.ShapeScale }

namespace UDashCharacterMovementComponent

/-- `CharacterOwner->GetCapsuleComponent()->SetCapsuleSize(NewRadius, NewHalfHeight)`. -/
def SetOwnerCapsuleSize (C : UDashCharacterMovementComponent) (NewRadius NewHalfHeight : ℚ) :
    UDashCharacterMovementComponent :=
  { C with CharacterOwner := C.CharacterOwner.map fun Owner => Owner.SetCapsuleSize NewRadius NewHalfHeight }

/-- `CharacterOwner->bIsCrouched = b`. -/
def SetIsCrouched (C : UDashCharacterMovementComponent) (b : Bool) :
    UDashCharacterMovementComponent :=
  { C with CharacterOwner := C.CharacterOwner.map fun Owner => { Owner with bIsCrouched := b } }

/-- The state after `UpdatedComponent->MoveComponent(Delta, Rotation, bSweep)`. -/
def MoveComponent (X : FCrouchEngine) (C : UDashCharacterMovementComponent) (Delta : FVector)
    (Rotation : FQuat) (bSweep : Bool) : UDashCharacterMovementComponent :=
  { C with
    UpdatedComponent := some (X.MoveComponent C Delta Rotation bSweep).1,
    World := (X.MoveComponent C Delta Rotation bSweep).2 }

/-- The state after `AdjustProxyCapsuleSize()`. -/
def AdjustProxyCapsuleSize (X : FCrouchEngine) (C : UDashCharacterMovementComponent) :
    UDashCharacterMovementComponent :=
  { C.SetOwnerCapsuleSize (X.AdjustProxyCapsuleSize C).1 (X.AdjustProxyCapsuleSize C).2.1 with
    bShrinkProxyCapsule := (X.AdjustProxyCapsuleSize C).2.2 }

/-- The block `Don't smooth this change in mesh position.` at the end of `Crouch`
and `UnCrouch`, with the capsule axis `Axis` it uses (down in `Crouch`, up in
`UnCrouch`). -/
def CrouchMeshOffset (C : UDashCharacterMovementComponent)
    (ClientData : Option FNetworkPredictionData_Client_Character) (bClientSimulation : Bool)
    (Axis : FVector) (MeshAdjust : ℚ) : Option FNetworkPredictionData_Client_Character :=
  if bClientSimulation && C.IsSimulatedProxy then
    match ClientData with
    | some D =>
      if FVector.Dot D.MeshTranslationOffset Axis ≠ 0 then
        some { D with
          MeshTranslationOffset := D.MeshTranslationOffset + Axis * MeshAdjust,
          OriginalMeshTranslationOffset := D.MeshTranslationOffset + Axis * MeshAdjust }
      else some D
    | none => none
  else ClientData

/-- `Crouch` from `bForceNextFloorCheck = true;` on. `ClampedCrouchedHalfHeight`,
`ComponentScale` and `MeshAdjust` are the locals of that name. -/
def CrouchFinish (X : FCrouchEngine) (C : UDashCharacterMovementComponent)
    (ClientData : Option FNetworkPredictionData_Client_Character) (bClientSimulation : Bool)
    (ClampedCrouchedHalfHeight ComponentScale MeshAdjust : ℚ) :
    UDashCharacterMovementComponent × Option FNetworkPredictionData_Client_Character :=
  ({ AdjustProxyCapsuleSize X { C with bForceNextFloorCheck := true } with
      World :=
        X.OnStartCrouch (AdjustProxyCapsuleSize X { C with bForceNextFloorCheck := true })
          ((C.CharacterOwner.getD default).DefaultUnscaledCapsuleHalfHeight - ClampedCrouchedHalfHeight)
          (((C.CharacterOwner.getD default).DefaultUnscaledCapsuleHalfHeight
            - ClampedCrouchedHalfHeight) * ComponentScale) },
    CrouchMeshOffset (AdjustProxyCapsuleSize X { C with bForceNextFloorCheck := true }) ClientData
      bClientSimulation
      ((AdjustProxyCapsuleSize X { C with bForceNextFloorCheck := true }).GetComponentAxisZ * (-1 : ℚ))
      MeshAdjust)

/-- `Crouch` from `Change collision size to crouching dimensions.` on; `C` is the
state at that point, with the old unscaled capsule size `OldUnscaledRadius`,
`OldUnscaledHalfHeight`. -/
def CrouchResize (X : FCrouchEngine) (C : UDashCharacterMovementComponent)
    (ClientData : Option FNetworkPredictionData_Client_Character) (bClientSimulation : Bool)
    (ComponentScale OldUnscaledHalfHeight OldUnscaledRadius ClampedCrouchedHalfHeight : ℚ) :
    UDashCharacterMovementComponent × Option FNetworkPredictionData_Client_Character :=
  if !bClientSimulation then
    if decide (ClampedCrouchedHalfHeight > OldUnscaledHalfHeight)
        && X.OverlapBlockingTestByChannel
            (C.SetOwnerCapsuleSize OldUnscaledRadius ClampedCrouchedHalfHeight)
            (C.GetComponentLocation
              + C.GetComponentAxisZ * (-1 : ℚ)
                * ((OldUnscaledHalfHeight - ClampedCrouchedHalfHeight) * ComponentScale))
            C.GetComponentQuat
            (X.GetPawnCapsuleCollisionShape
              (C.SetOwnerCapsuleSize OldUnscaledRadius ClampedCrouchedHalfHeight)) then
      ((C.SetOwnerCapsuleSize OldUnscaledRadius ClampedCrouchedHalfHeight).SetOwnerCapsuleSize
          OldUnscaledRadius OldUnscaledHalfHeight,
        ClientData)
    else
      CrouchFinish X
        (SetIsCrouched
          (if C.bCrouchMaintainsBaseLocation then
            MoveComponent X (C.SetOwnerCapsuleSize OldUnscaledRadius ClampedCrouchedHalfHeight)
              (C.GetComponentAxisZ * (-1 : ℚ)
                * ((OldUnscaledHalfHeight - ClampedCrouchedHalfHeight) * ComponentScale))
              C.GetComponentQuat true
          else C.SetOwnerCapsuleSize OldUnscaledRadius ClampedCrouchedHalfHeight)
          true)
        ClientData bClientSimulation ClampedCrouchedHalfHeight ComponentScale
        ((OldUnscaledHalfHeight - ClampedCrouchedHalfHeight) * ComponentScale)
  else
    CrouchFinish X (C.SetOwnerCapsuleSize OldUnscaledRadius ClampedCrouchedHalfHeight) ClientData
      bClientSimulation ClampedCrouchedHalfHeight ComponentScale
      ((OldUnscaledHalfHeight - ClampedCrouchedHalfHeight) * ComponentScale)

/-- The state of `Crouch` after `Restore collision size before crouching.` -/
def CrouchRestoreProxy (C : UDashCharacterMovementComponent) (bClientSimulation : Bool) :
    UDashCharacterMovementComponent :=
  if bClientSimulation && C.IsSimulatedProxy then
    { C.SetOwnerCapsuleSize (C.CharacterOwner.getD default).DefaultUnscaledCapsuleRadius
        (C.CharacterOwner.getD default).DefaultUnscaledCapsuleHalfHeight with
      bShrinkProxyCapsule := true }
  else C

/-- `Crouch`, on the movement component and the client's prediction data (if any). -/
def Crouch (X : FCrouchEngine) (C : UDashCharacterMovementComponent)
    (ClientData : Option FNetworkPredictionData_Client_Character) (bClientSimulation : Bool) :
    UDashCharacterMovementComponent × Option FNetworkPredictionData_Client_Character :=
  if !C.HasValidData then (C, ClientData)
  else if !X.CanCrouchInCurrentState C then (C, ClientData)
  else if (C.CharacterOwner.getD default).UnscaledCapsuleHalfHeight = C.CrouchedHalfHeight then
    ({ (if !bClientSimulation then C.SetIsCrouched true else C) with
        World := X.OnStartCrouch (if !bClientSimulation then C.SetIsCrouched true else C) 0 0 },
      ClientData)
  else
    CrouchResize X (CrouchRestoreProxy C bClientSimulation) ClientData bClientSimulation
      ((CrouchRestoreProxy C bClientSimulation).CharacterOwner.getD default).ShapeScale
      ((CrouchRestoreProxy C bClientSimulation).CharacterOwner.getD default).UnscaledCapsuleHalfHeight
      ((CrouchRestoreProxy C bClientSimulation).CharacterOwner.getD default).UnscaledCapsuleRadius
      (Max3 0
        ((CrouchRestoreProxy C bClientSimulation).CharacterOwner.getD default).UnscaledCapsuleRadius
        C.CrouchedHalfHeight)

end UDashCharacterMovementComponent

namespace UDashCharacterMovementComponent

/-- The branch `Expand in place` of `UnCrouch`: the state in which the standing
capsule fits (after a possible move), or `none` if it stays encroached. `C` is the
state with the capsule grown to the uncrouched size. -/
def UnCrouchExpandInPlace (X : FCrouchEngine) (C : UDashCharacterMovementComponent)
    (PawnLocation : FVector) (PawnRotation : FQuat) (StandingCapsuleShape : FCollisionShape)
    (ScaledHalfHeightAdjust : ℚ) : Option UDashCharacterMovementComponent :=
  if X.OverlapBlockingTestByChannel C PawnLocation PawnRotation StandingCapsuleShape then
    if ScaledHalfHeightAdjust > 0 then
      if (X.SweepSingleByChannel C PawnLocation
            (PawnLocation
              + C.GetComponentAxisZ * (-1 : ℚ)
                * ((C.CharacterOwner.getD default).ScaledCapsuleHalfHeight
                  - ((C.CharacterOwner.getD default).ScaledCapsuleHalfHeight
                    - (C.CharacterOwner.getD default).ScaledCapsuleRadius)))
            PawnRotation
            (X.GetPawnCapsuleCollisionShapeHeightCustom C
              ((C.CharacterOwner.getD default).ScaledCapsuleHalfHeight
                - (C.CharacterOwner.getD default).ScaledCapsuleRadius))).2.bStartPenetrating then
        none
      else if X.OverlapBlockingTestByChannel C
          (PawnLocation
            - C.GetComponentAxisZ * (-1 : ℚ)
              * (-((X.SweepSingleByChannel C PawnLocation
                      (PawnLocation
                        + C.GetComponentAxisZ * (-1 : ℚ)
                          * ((C.CharacterOwner.getD default).ScaledCapsuleHalfHeight
                            - ((C.CharacterOwner.getD default).ScaledCapsuleHalfHeight
                              - (C.CharacterOwner.getD default).ScaledCapsuleRadius)))
                      PawnRotation
                      (X.GetPawnCapsuleCollisionShapeHeightCustom C
                        ((C.CharacterOwner.getD default).ScaledCapsuleHalfHeight
                          - (C.CharacterOwner.getD default).ScaledCapsuleRadius))).2.Time
                    * ((C.CharacterOwner.getD default).ScaledCapsuleHalfHeight
                      - ((C.CharacterOwner.getD default).ScaledCapsuleHalfHeight
                        - (C.CharacterOwner.getD default).ScaledCapsuleRadius))
                    + (X.GetPawnCapsuleCollisionShapeHeightCustom C
                        ((C.CharacterOwner.getD default).ScaledCapsuleHalfHeight
                          - (C.CharacterOwner.getD default).ScaledCapsuleRadius)).GetCapsuleHalfHeight)
                + (C.CharacterOwner.getD default).ScaledCapsuleHalfHeight + KINDA_SMALL_NUMBER * 10
                + MIN_FLOOR_DIST / 2))
          PawnRotation StandingCapsuleShape then
        none
      else
        some
          (MoveComponent X C
            (PawnLocation
              - C.GetComponentAxisZ * (-1 : ℚ)
                * (-((X.SweepSingleByChannel C PawnLocation
                        (PawnLocation
                          + C.GetComponentAxisZ * (-1 : ℚ)
                            * ((C.CharacterOwner.getD default).ScaledCapsuleHalfHeight
                              - ((C.CharacterOwner.getD default).ScaledCapsuleHalfHeight
                                - (C.CharacterOwner.getD default).ScaledCapsuleRadius)))
                        PawnRotation
                        (X.GetPawnCapsuleCollisionShapeHeightCustom C
                          ((C.CharacterOwner.getD default).ScaledCapsuleHalfHeight
                            - (C.CharacterOwner.getD default).ScaledCapsuleRadius))).2.Time
                      * ((C.CharacterOwner.getD default).ScaledCapsuleHalfHeight
                        - ((C.CharacterOwner.getD default).ScaledCapsuleHalfHeight
                          - (C.CharacterOwner.getD default).ScaledCapsuleRadius))
                      + (X.GetPawnCapsuleCollisionShapeHeightCustom C
                          ((C.CharacterOwner.getD default).ScaledCapsuleHalfHeight
                            - (C.CharacterOwner.getD default).ScaledCapsuleRadius)).GetCapsuleHalfHeight)
                  + (C.CharacterOwner.getD default).ScaledCapsuleHalfHeight + KINDA_SMALL_NUMBER * 10
                  + MIN_FLOOR_DIST / 2)
              - PawnLocation)
            PawnRotation false)
    else none
  else some C

/-- The standing location `UnCrouch` tries second when it keeps the base location:
`Something might be just barely overhead, try moving down closer to the floor to
avoid it.` -/
def UnCrouchLowerLocation (C : UDashCharacterMovementComponent) (StandingLocation : FVector) :
    FVector :=
  StandingLocation + C.GetComponentAxisZ * (-1 : ℚ) * (C.CurrentFloor.FloorDist - KINDA_SMALL_NUMBER * 10)

/-- The branch `Expand while keeping base location the same.` of `UnCrouch`: the
state in which the standing capsule fits, moved there, or `none` if it stays
encroached. -/
def UnCrouchKeepBase (X : FCrouchEngine) (C : UDashCharacterMovementComponent)
    (PawnLocation : FVector) (PawnRotation : FQuat) (StandingCapsuleShape : FCollisionShape)
    (StandingLocation : FVector) : Option UDashCharacterMovementComponent :=
  if X.OverlapBlockingTestByChannel C StandingLocation PawnRotation StandingCapsuleShape then
    if C.IsMovingOnGround && C.CurrentFloor.bBlockingHit
        && decide (C.CurrentFloor.FloorDist > KINDA_SMALL_NUMBER * 10) then
      if X.OverlapBlockingTestByChannel C (UnCrouchLowerLocation C StandingLocation) PawnRotation
          StandingCapsuleShape then
        none
      else
        some
          { MoveComponent X C (UnCrouchLowerLocation C StandingLocation - PawnLocation) PawnRotation
              false with
            bForceNextFloorCheck := true }
    else none
  else
    some
      { MoveComponent X C (StandingLocation - PawnLocation) PawnRotation false with
        bForceNextFloorCheck := true }

/-- The attempt of `UnCrouch` to fit the standing capsule: `Try to stay in place and
see if the larger capsule fits.` `C` is the state with the capsule grown to the
uncrouched size, `PawnLocation` and `CurrentCrouchedHalfHeight` were read before. -/
def UnCrouchFit (X : FCrouchEngine) (C : UDashCharacterMovementComponent) (PawnLocation : FVector)
    (CurrentCrouchedHalfHeight ScaledHalfHeightAdjust : ℚ) :
    Option UDashCharacterMovementComponent :=
  if !C.bCrouchMaintainsBaseLocation then
    UnCrouchExpandInPlace X C PawnLocation C.GetComponentQuat
      (X.GetPawnCapsuleCollisionShapeHeightCustom C (-(KINDA_SMALL_NUMBER * 10)))
      ScaledHalfHeightAdjust
  else
    UnCrouchKeepBase X C PawnLocation C.GetComponentQuat
      (X.GetPawnCapsuleCollisionShapeHeightCustom C (-(KINDA_SMALL_NUMBER * 10)))
      (PawnLocation
        - C.GetComponentAxisZ * (-1 : ℚ)
          * ((X.GetPawnCapsuleCollisionShapeHeightCustom C
                (-(KINDA_SMALL_NUMBER * 10))).GetCapsuleHalfHeight
            - CurrentCrouchedHalfHeight))

/-- `UnCrouch` from `Now call SetCapsuleSize() to cause touch/untouch events.` on. -/
def UnCrouchFinish (X : FCrouchEngine) (C : UDashCharacterMovementComponent)
    (ClientData : Option FNetworkPredictionData_Client_Character) (bClientSimulation : Bool)
    (HalfHeightAdjust ScaledHalfHeightAdjust : ℚ) :
    UDashCharacterMovementComponent × Option FNetworkPredictionData_Client_Character :=
  ({ AdjustProxyCapsuleSize X
        (C.SetOwnerCapsuleSize (C.CharacterOwner.getD default).DefaultUnscaledCapsuleRadius
          (C.CharacterOwner.getD default).DefaultUnscaledCapsuleHalfHeight) with
      World :=
        X.OnEndCrouch
          (AdjustProxyCapsuleSize X
            (C.SetOwnerCapsuleSize (C.CharacterOwner.getD default).DefaultUnscaledCapsuleRadius
              (C.CharacterOwner.getD default).DefaultUnscaledCapsuleHalfHeight))
          HalfHeightAdjust ScaledHalfHeightAdjust },
    CrouchMeshOffset
      (AdjustProxyCapsuleSize X
        (C.SetOwnerCapsuleSize (C.CharacterOwner.getD default).DefaultUnscaledCapsuleRadius
          (C.CharacterOwner.getD default).DefaultUnscaledCapsuleHalfHeight))
      ClientData bClientSimulation
      (AdjustProxyCapsuleSize X
        (C.SetOwnerCapsuleSize (C.CharacterOwner.getD default).DefaultUnscaledCapsuleRadius
          (C.CharacterOwner.getD default).DefaultUnscaledCapsuleHalfHeight)).GetComponentAxisZ
      ScaledHalfHeightAdjust)

/-- `UnCrouch` from `Grow to uncrouched size.` on, with the locals read before. -/
def UnCrouchGrow (X : FCrouchEngine) (C : UDashCharacterMovementComponent)
    (ClientData : Option FNetworkPredictionData_Client_Character) (bClientSimulation : Bool)
    (CurrentCrouchedHalfHeight OldUnscaledHalfHeight HalfHeightAdjust ScaledHalfHeightAdjust : ℚ)
    (PawnLocation : FVector) :
    UDashCharacterMovementComponent × Option FNetworkPredictionData_Client_Character :=
  if !bClientSimulation then
    match UnCrouchFit X
        (C.SetOwnerCapsuleSize (C.CharacterOwner.getD default).DefaultUnscaledCapsuleRadius
          (C.CharacterOwner.getD default).DefaultUnscaledCapsuleHalfHeight)
        PawnLocation CurrentCrouchedHalfHeight ScaledHalfHeightAdjust with
    | none =>
      ((C.SetOwnerCapsuleSize (C.CharacterOwner.getD default).DefaultUnscaledCapsuleRadius
            (C.CharacterOwner.getD default).DefaultUnscaledCapsuleHalfHeight).SetOwnerCapsuleSize
          (((C.SetOwnerCapsuleSize (C.CharacterOwner.getD default).DefaultUnscaledCapsuleRadius
              (C.CharacterOwner.getD default).DefaultUnscaledCapsuleHalfHeight).CharacterOwner.getD
            default).UnscaledCapsuleRadius)
          OldUnscaledHalfHeight,
        ClientData)
    | some Fitted =>
      UnCrouchFinish X (Fitted.SetIsCrouched false) ClientData bClientSimulation HalfHeightAdjust
        ScaledHalfHeightAdjust
  else
    UnCrouchFinish X
      { C.SetOwnerCapsuleSize (C.CharacterOwner.getD default).DefaultUnscaledCapsuleRadius
          (C.CharacterOwner.getD default).DefaultUnscaledCapsuleHalfHeight with
        bShrinkProxyCapsule := true }
      ClientData bClientSimulation HalfHeightAdjust ScaledHalfHeightAdjust

/-- `UnCrouch`, on the movement component and the client's prediction data (if any). -/
def UnCrouch (X : FCrouchEngine) (C : UDashCharacterMovementComponent)
    (ClientData : Option FNetworkPredictionData_Client_Character) (bClientSimulation : Bool) :
    UDashCharacterMovementComponent × Option FNetworkPredictionData_Client_Character :=
  if !C.HasValidData then (C, ClientData)
  else if (C.CharacterOwner.getD default).UnscaledCapsuleHalfHeight
      = (C.CharacterOwner.getD default).DefaultUnscaledCapsuleHalfHeight then
    ({ (if !bClientSimulation then C.SetIsCrouched false else C) with
        World := X.OnEndCrouch (if !bClientSimulation then C.SetIsCrouched false else C) 0 0 },
      ClientData)
  else
    UnCrouchGrow X C ClientData bClientSimulation
      (C.CharacterOwner.getD default).ScaledCapsuleHalfHeight
      (C.CharacterOwner.getD default).UnscaledCapsuleHalfHeight
      ((C.CharacterOwner.getD default).DefaultUnscaledCapsuleHalfHeight
        - (C.CharacterOwner.getD default).UnscaledCapsuleHalfHeight)
      (((C.CharacterOwner.getD default).DefaultUnscaledCapsuleHalfHeight
          - (C.CharacterOwner.getD default).UnscaledCapsuleHalfHeight)
        * (C.CharacterOwner.getD default).ShapeScale)
      C.GetComponentLocation

end UDashCharacterMovementComponent

/-! ## Step up: the travel and the step down sweep -/

namespace UDashCharacterMovementComponent

/-- `StepTravelUpHeight` of `StepUp` at its upward move: `MaxStepHeight`, lessened
by the floor distance (itself not below zero) and kept from going below zero when
moving on ground over a walkable floor. -/
def StepUpTravelUpHeight (C : UDashCharacterMovementComponent) : ℚ :=
  if C.IsMovingOnGround && C.CurrentFloor.IsWalkableFloor then
    max (C.MaxStepHeight - max 0 C.CurrentFloor.FloorDist) 0
  else C.MaxStepHeight

/-- `StepTravelDownHeight` of `StepUp` at its downward move. -/
def StepUpTravelDownHeight (C : UDashCharacterMovementComponent) : ℚ :=
  if C.IsMovingOnGround && C.CurrentFloor.IsWalkableFloor then C.MaxStepHeight + MAX_FLOOR_DIST * 2
  else C.MaxStepHeight

/-- `PawnFloorPoint` of `StepUp`: the base of the capsule, or, when moving on
ground over a walkable floor, the impact point of the floor (swept floor, hit
within the edge tolerance) or the base lowered by the floor distance. -/
def StepUpPawnFloorPoint (C : UDashCharacterMovementComponent) (InHit : FHitResult) : FVector :=
  let OldLocation := C.GetComponentLocation
  let PawnRadius := (C.CharacterOwner.getD default).ScaledCapsuleRadius
  let PawnHalfHeight := (C.CharacterOwner.getD default).ScaledCapsuleHalfHeight
  let CapsuleDown := C.GetComponentAxisZ * (-1 : ℚ)
  let PawnInitialFloorBase := OldLocation + CapsuleDown * PawnHalfHeight
  let bHitVerticalFace := !IsWithinEdgeToleranceEx InHit.Location CapsuleDown PawnRadius InHit.ImpactPoint
  if C.IsMovingOnGround && C.CurrentFloor.IsWalkableFloor then
    if !C.CurrentFloor.bLineTrace && !bHitVerticalFace then C.CurrentFloor.HitResult.ImpactPoint
    else PawnInitialFloorBase + CapsuleDown * C.CurrentFloor.FloorDist
  else PawnInitialFloorBase

/-- The downward move of `StepUp` (the one after the comment `Step down.`), when
the call gets that far: the component as that move left it and the hit of its
sweep. The call does not get that far when it returns before its movement scope,
when the upward or the forward move starts in penetration, when the character is
falling after the impact or the slide of a blocked forward move, or when that
forward move and its slide got nowhere. -/
def StepUpStepDownSweep (E : FEngine) (C : UDashCharacterMovementComponent) (GravDir Delta : FVector)
    (InHit : FHitResult) : Option (UDashCharacterMovementComponent × FHitResult) :=
  if !E.CanStepUp C InHit || C.MaxStepHeight ≤ 0 then none
  else
    let OldLocation := C.GetComponentLocation
    let PawnRadius := (C.CharacterOwner.getD default).ScaledCapsuleRadius
    let PawnHalfHeight := (C.CharacterOwner.getD default).ScaledCapsuleHalfHeight
    let CapsuleDown := C.GetComponentAxisZ * (-1 : ℚ)
    let BottomPoint := OldLocation + CapsuleDown * PawnHalfHeight
    let TopPoint := OldLocation - CapsuleDown * max 0 (PawnHalfHeight - PawnRadius)
    let Segment := TopPoint - BottomPoint
    let Alpha := FVector.Dot (InHit.ImpactPoint - BottomPoint) Segment / Segment.SizeSquared
    if Alpha > 1 || Alpha ≤ 0 then none
    else
      let Up := E.MoveUpdatedComponent C (GravDir * (-C.StepUpTravelUpHeight)) C.GetComponentQuat true
      if Up.2.bStartPenetrating then none
      else
        let Forward := E.MoveUpdatedComponent Up.1 Delta C.GetComponentQuat true
        if Forward.2.bBlockingHit then
          if Forward.2.bStartPenetrating then none
          else
            let Impacted :=
              E.HandleImpact
                (if Up.2.bBlockingHit && Forward.2.bBlockingHit then
                  E.HandleImpact Forward.1 Up.2 0 FVector.ZeroVector
                else Forward.1)
                Forward.2 0 FVector.ZeroVector
            if Impacted.IsFalling then none
            else
              let Slide :=
                E.SlideAlongSurface Impacted Delta (1 - Forward.2.Time) Forward.2.Normal Forward.2 true
              if Slide.2.1.IsFalling then none
              else if Forward.2.Time == 0 && Slide.1 == 0 then none
              else
                some (E.MoveUpdatedComponent Slide.2.1 (GravDir * C.StepUpTravelDownHeight)
                  Slide.2.1.GetComponentQuat true)
        else
          some (E.MoveUpdatedComponent Forward.1 (GravDir * C.StepUpTravelDownHeight)
            Forward.1.GetComponentQuat true)

end UDashCharacterMovementComponent

/-! ## Launching, air control at walls, slope boosting -/

/-- `VERTICAL_SLOPE_NORMAL_Z`: a slope is vertical if the part of its normal along
gravity is within this threshold. -/
def VERTICAL_SLOPE_NORMAL_Z : ℚ := 1 / 1000

/-- The velocity that `ADashCharacter::LaunchCharacterRotated` hands to
`CharacterMovement->Launch`; `Velocity` is `GetVelocity()` and `AxisZ` is
`GetActorQuat().GetAxisZ()`. -/
def ADashCharacter.LaunchCharacterRotatedVelocity (Velocity AxisZ LaunchVelocity : FVector)
    (bHorizontalOverride bVerticalOverride : Bool) : FVector :=
  if !bHorizontalOverride && !bVerticalOverride then Velocity + LaunchVelocity
  else if bHorizontalOverride && bVerticalOverride then LaunchVelocity
  else if bHorizontalOverride then
    FVector.VectorPlaneProject LaunchVelocity AxisZ + AxisZ * FVector.Dot Velocity AxisZ
  else FVector.VectorPlaneProject Velocity AxisZ + AxisZ * FVector.Dot LaunchVelocity AxisZ

/-- `ADashCharacter::LaunchCharacterRotated`, on the movement component of the
character, if it has one: `Launch` and the event `OnLaunched` are the engine's;
the character's velocity is the velocity of its movement component and its
rotation the rotation of the capsule. -/
def ADashCharacter.LaunchCharacterRotated
    (Launch : UDashCharacterMovementComponent → FVector → UDashCharacterMovementComponent)
    (OnLaunched : UDashCharacterMovementComponent → FVector → Bool → Bool →
      UDashCharacterMovementComponent)
    (CharacterMovement : Option UDashCharacterMovementComponent) (LaunchVelocity : FVector)
    (bHorizontalOverride bVerticalOverride : Bool) : Option UDashCharacterMovementComponent :=
  match CharacterMovement with
  | some C =>
    some (OnLaunched
      (Launch C
        (ADashCharacter.LaunchCharacterRotatedVelocity C.Velocity C.GetComponentQuat.AxisZ
          LaunchVelocity bHorizontalOverride bVerticalOverride))
      LaunchVelocity bHorizontalOverride bVerticalOverride)
  | none => none

namespace UDashCharacterMovementComponent

/-- `LimitAirControlEx`; `IsValidLandingSpot` is taken as a function of the
location and the hit. -/
def LimitAirControlEx (M : FMath) (IsValidLandingSpot : FVector → FHitResult → Bool)
    (_DeltaTime : ℚ) (FallAcceleration : FVector) (HitResult : FHitResult) (GravDir : FVector)
    (bCheckForValidLandingSpot : Bool) : FVector :=
  if HitResult.IsValidBlockingHit
      && decide (FVector.Dot HitResult.Normal GravDir < -VERTICAL_SLOPE_NORMAL_Z) then
    if (!bCheckForValidLandingSpot || !IsValidLandingSpot HitResult.Location HitResult)
        && decide (FVector.Dot FallAcceleration HitResult.Normal < 0) then
      FVector.VectorPlaneProject FallAcceleration
        ((FVector.VectorPlaneProject HitResult.Normal GravDir).GetSafeNormal M)
    else FallAcceleration
  else if HitResult.bStartPenetrating then
    if FVector.Dot FallAcceleration HitResult.Normal > 0 then FallAcceleration
    else FVector.ZeroVector
  else FallAcceleration

/-- `HandleSlopeBoosting`; `ComputeSlideVector` is
`UPawnMovementComponent::ComputeSlideVector` of the engine. -/
def HandleSlopeBoosting (M : FMath)
    (ComputeSlideVector : FVector → ℚ → FVector → FHitResult → FVector)
    (C : UDashCharacterMovementComponent) (SlideResult Delta : FVector) (Time : ℚ)
    (Normal : FVector) (Hit : FHitResult) : FVector :=
  let CapsuleUp := C.GetComponentAxisZ
  let Dot := FVector.Dot SlideResult CapsuleUp
  if Dot > 0 then
    let ZLimit := FVector.Dot Delta CapsuleUp * Time
    if Dot - ZLimit > KINDA_SMALL_NUMBER then
      let Result := if ZLimit > 0 then SlideResult * (ZLimit / Dot) else FVector.ZeroVector
      let RemainderXY := FVector.VectorPlaneProject (SlideResult - Result) CapsuleUp
      let NormalXY := (FVector.VectorPlaneProject Normal CapsuleUp).GetSafeNormal M
      Result + ComputeSlideVector RemainderXY 1 NormalXY Hit
    else SlideResult
  else SlideResult

end UDashCharacterMovementComponent

/-! ## The ramp vector -/

/-- `THRESH_NORMALS_ARE_ORTHOGONAL`: two unit vectors are orthogonal if the
absolute value of their dot product is below this threshold. -/
def THRESH_NORMALS_ARE_ORTHOGONAL : ℚ := 17455 / 1000000

/-- The engine's trigonometry as far as the ramp vector needs it: `FMath::Acos`,
and the sine and cosine that `FMath::SinCos` computes. -/
structure FTrig where
  Acos : ℚ → ℚ
  Sin : ℚ → ℚ
  Cos : ℚ → ℚ

/-- `FQuat(Axis, AngleRad)`: the rotation by an angle about a normalized axis. -/
def FQuat.FromAxisAngle (T : FTrig) (Axis : FVector) (AngleRad : ℚ) : FQuat :=
  let half_a := (1 / 2 : ℚ) * AngleRad
  ⟨T.Sin half_a * Axis.X, T.Sin half_a * Axis.Y, T.Sin half_a * Axis.Z, T.Cos half_a⟩

/-- `FQuat::RotateVector`: `V + 2w(Q x V) + (2Q x (Q x V))`. -/
def FQuat.RotateVector (q : FQuat) (V : FVector) : FVector :=
  let Q : FVector := ⟨q.X, q.Y, q.Z⟩
  let T := (2 : ℚ) * FVector.Cross Q V
  V + (q.W * T) + FVector.Cross Q T

/-- `FQuat::SizeSquared`. -/
def FQuat.SizeSquared (q : FQuat) : ℚ := q.X * q.X + q.Y * q.Y + q.Z * q.Z + q.W * q.W

namespace UDashCharacterMovementComponent

/-- `ComputeGroundMovementDeltaEx`. -/
def ComputeGroundMovementDeltaEx (M : FMath) (T : FTrig) (C : UDashCharacterMovementComponent)
    (Delta DeltaPlaneNormal : FVector) (RampHit : FHitResult) (bHitFromLineTrace : Bool) :
    FVector :=
  let FloorNormal := RampHit.ImpactNormal
  if !bHitFromLineTrace && decide (|FVector.Dot Delta FloorNormal| > THRESH_NORMALS_ARE_ORTHOGONAL)
      && C.IsWalkable RampHit then
    let DeltaNormal := Delta.GetSafeNormal M
    let NewDelta :=
      (FQuat.FromAxisAngle T (FVector.Cross DeltaPlaneNormal DeltaNormal)
        (T.Acos (FVector.Dot FloorNormal DeltaPlaneNormal))).RotateVector Delta
    if C.bMaintainHorizontalGroundVelocity then
      let NewDeltaNormal := NewDelta.GetSafeNormal M
      NewDeltaNormal * (Delta.Size M / FVector.Dot DeltaNormal NewDeltaNormal)
    else NewDelta
  else Delta

/-- `ComputeGroundMovementDelta`. -/
def ComputeGroundMovementDelta (M : FMath) (T : FTrig) (C : UDashCharacterMovementComponent)
    (Delta : FVector) (RampHit : FHitResult) (bHitFromLineTrace : Bool) : FVector :=
  C.ComputeGroundMovementDeltaEx M T (FVector.VectorPlaneProject Delta C.GetComponentAxisZ)
    C.GetComponentAxisZ RampHit bHitFromLineTrace

end UDashCharacterMovementComponent

/-! ## The sub-stepping loops and their passes -/

/-- What the loop of `PhysFalling` leaves: the component state, the value of
`Iterations`, and whether the function returned from inside a pass. -/
structure FPhysFallingOutcome where
  Component : UDashCharacterMovementComponent
  Iterations : Int
  bReturned : Bool

namespace UDashCharacterMovementComponent

/-- The loop of `PhysFalling`,
`while (RemainingTime >= MIN_TICK_TIME && Iterations < MaxSimulationIterations)`.
`MaxSimulationIterations` is the configured bound, read when the call starts. The
first argument bounds the number of passes. -/
def PhysFallingLoop (M : FMath) (E : FEngine) (R : FRootMotionEngine) (F : FFallingEngine)
    (GravityDir FallAcceleration : FVector) (MaxSimulationIterations : Int) :
    Nat → FPhysFallingLoop → FPhysFallingOutcome
  | 0, L => { Component := L.Component, Iterations := L.Iterations, bReturned := false }
  | fuel + 1, L =>
    if L.RemainingTime ≥ MIN_TICK_TIME && decide (L.Iterations < MaxSimulationIterations) then
      match PhysFallingPass M E R F GravityDir FallAcceleration L with
      | FPhysFallingStep.Returned C =>
        { Component := C, Iterations := L.Iterations + 1, bReturned := true }
      | FPhysFallingStep.Next L2 =>
        PhysFallingLoop M E R F GravityDir FallAcceleration MaxSimulationIterations fuel L2
    else { Component := L.Component, Iterations := L.Iterations, bReturned := false }

/-- The number of passes that the loop of `PhysFalling` makes. -/
def PhysFallingLoopPasses (M : FMath) (E : FEngine) (R : FRootMotionEngine) (F : FFallingEngine)
    (GravityDir FallAcceleration : FVector) (MaxSimulationIterations : Int) :
    Nat → FPhysFallingLoop → Nat
  | 0, _ => 0
  | fuel + 1, L =>
    if L.RemainingTime ≥ MIN_TICK_TIME && decide (L.Iterations < MaxSimulationIterations) then
      match PhysFallingPass M E R F GravityDir FallAcceleration L with
      | FPhysFallingStep.Returned _ => 1
      | FPhysFallingStep.Next L2 =>
        1 + PhysFallingLoopPasses M E R F GravityDir FallAcceleration MaxSimulationIterations fuel L2
    else 0

/-- The number of passes that the loop of `PhysWalking` makes. -/
def PhysWalkingLoopPasses (M : FMath) (E : FEngine) (MaxSimulationIterations : Int) :
    Nat → FPhysWalkingLoop → Nat
  | 0, _ => 0
  | fuel + 1, L =>
    if L.remainingTime ≥ MIN_TICK_TIME && decide (L.Iterations < MaxSimulationIterations)
        && L.Component.CanRunWalkingPhysics then
      match PhysWalkingPass M E L with
      | FPhysWalkingStep.Returned _ => 1
      | FPhysWalkingStep.Next L2 => 1 + PhysWalkingLoopPasses M E MaxSimulationIterations fuel L2
      | FPhysWalkingStep.Break _ => 1
    else 0

/-- The rest of `PhysFalling` after its two guards: the falling acceleration and
the loop. -/
def PhysFallingBody (M : FMath) (E : FEngine) (R : FRootMotionEngine) (F : FFallingEngine)
    (C : UDashCharacterMovementComponent) (deltaTime : ℚ) (Iterations : Int) :
    UDashCharacterMovementComponent :=
  (PhysFallingLoop M E R F (C.GetGravityDirection M false)
    (C.GetFallingLateralAccelerationEx M deltaTime (C.GetGravityDirection M false))
    C.MaxSimulationIterations (C.MaxSimulationIterations - Iterations).toNat
    { Component := C, RemainingTime := deltaTime, Iterations := Iterations }).Component

end UDashCharacterMovementComponent

/-- A component with the engine's defaults: walking on a flat floor at the
origin, world gravity -980, no custom gravity. -/
def DefaultComponent : UDashCharacterMovementComponent :=
  { MovementMode := EMovementMode.MOVE_Walking,
    Velocity := FVector.ZeroVector, Acceleration := FVector.ZeroVector,
    UpdatedComponent := some default, CharacterOwner := some default,
    CurrentFloor :=
      { bBlockingHit := true, bWalkableFloor := true, bLineTrace := false,
        FloorDist := 2, LineDist := 0,
        HitResult :=
          { FHitResult.Init 1 with
            bBlockingHit := true, Time := 1 / 2, ImpactPoint := ⟨0, 0, -90⟩,
            Normal := ⟨0, 0, 1⟩, ImpactNormal := ⟨0, 0, 1⟩ } },
    MovementBase := none, bJustTeleported := false,
    GravityScale := 1, WorldGravityZ := -980,
    CustomGravityDirection := FVector.ZeroVector, bDirtyCustomGravityDirection := false,
    GravityPoint := FVector.ZeroVector, OldGravityPoint := FVector.ZeroVector,
    OldGravityScale := 1,
    bAlignComponentToFloor := false, bAlignComponentToGravity := true,
    bAlignCustomGravityToFloor := false, bDisableGravityReplication := false,
    WalkableFloorZ := 71 / 100, MaxStepHeight := 45,
    bMaintainHorizontalGroundVelocity := true, bUseFlatBaseForFloorChecks := false,
    bCanWalkOffLedges := true, bForceMaxAccel := false, AnalogInputModifier := 1,
    bUseSeparateBrakingFriction := false, BrakingFriction := 0, BrakingFrictionFactor := 2,
    BrakingSubStepTime := 1 / 33, bUseRVOAvoidance := false, bHasRequestedVelocity := false,
    MaxSpeed := 600, MaxAcceleration := 2048, MinAnalogSpeed := 0,
    GroundFriction := 8, BrakingDecelerationWalking := 2048,
    MaxSimulationIterations := 8, bRunPhysicsWithNoController := false,
    bHasAnimRootMotion := false, bHasOverrideVelocity := false, World := 0 }

/-- Newton's iteration for the integer square root of `n`, from a guess that is
not below the root: the guess is replaced by the mean of itself and `n / guess`
as long as that makes it smaller. -/
def NatSqrtIter (n : Nat) : Nat → Nat → Nat
  | 0, guess => guess
  | fuel + 1, guess =>
    if (guess + n / guess) / 2 < guess then NatSqrtIter n fuel ((guess + n / guess) / 2)
    else guess

/-- The integer square root by at most 64 steps of Newton's iteration from `n`. -/
def NatSqrt (n : Nat) : Nat := if n = 0 then 0 else NatSqrtIter n 64 n

/-- The square root of a rational from the integer square roots of its numerator
and denominator. -/
def RatSqrt (x : ℚ) : ℚ := (NatSqrt x.num.toNat : ℚ) / (NatSqrt x.den : ℚ)

/-- Rational square roots for the worked examples: `Sqrt` takes the integer roots
of numerator and denominator where their quotient does not overshoot, and the
under-estimate 0 elsewhere; `InvSqrt` is the inverse of that quotient where it is
the exact root, and the positive under-estimate `1 / (x + 1)` elsewhere. -/
def RatMath : FMath :=
  ⟨fun x => if RatSqrt x * RatSqrt x ≤ x then RatSqrt x else 0,
    fun x => if RatSqrt x * RatSqrt x = x then (RatSqrt x)⁻¹ else 1 / (x + 1)⟩

end DashEngine

/-! ## Inputs of the worked examples -/

namespace DashEngine

/-- A gravity point a hundred-thousandth of a unit away from the capsule, which
sits at the origin; gravity scale 1, no custom direction, world gravity -980. -/
def NearbyGravityPoint : UDashCharacterMovementComponent :=
  { DefaultComponent with GravityPoint := ⟨1 / 100000, 0, 0⟩ }

/-- A custom gravity direction pointing down with gravity switched off by a
zero gravity scale. -/
def ZeroScaleCustomGravity : UDashCharacterMovementComponent :=
  { DefaultComponent with GravityScale := 0, CustomGravityDirection := ⟨0, 0, -1⟩ }

/-- A gravity point at (3, 4, 0) attracting a capsule at the origin. -/
def AttractorGravity : UDashCharacterMovementComponent :=
  { DefaultComponent with GravityPoint := ⟨3, 4, 0⟩ }

/-- A blocking hit on flat ground below the capsule that starts in penetration. -/
def PenetratingFlatHit : FHitResult :=
  { FHitResult.Init 0 with
    bBlockingHit := true, bStartPenetrating := true, ImpactPoint := ⟨0, 0, -88⟩,
    Normal := ⟨0, 0, 1⟩, ImpactNormal := ⟨0, 0, 1⟩ }

/-- A valid blocking hit on flat ground straight below the capsule. -/
def FlatFloorHit : FHitResult :=
  { FHitResult.Init (1 / 2) with
    bBlockingHit := true, ImpactPoint := ⟨0, 0, -90⟩, Location := ⟨0, 0, -2⟩,
    Normal := ⟨0, 0, 1⟩, ImpactNormal := ⟨0, 0, 1⟩ }

/-- A floor check that started in penetration: nothing walkable was found and the
hit kept in the result starts in penetration. -/
def PenetratingFloor : FFindFloorResult :=
  { bBlockingHit := false, bWalkableFloor := false, bLineTrace := false,
    FloorDist := MAX_FLOOR_DIST, LineDist := 0, HitResult := PenetratingFlatHit }

/-- An engine for the worked examples: `MoveUpdatedComponent` translates the
updated component by the requested delta and answers with `MoveHit`, `FindFloor`
answers with `Floor`, sub-steps take all the remaining time (but no less than
`MIN_TICK_TIME`), steps may be climbed, there is no root motion, no ledge move and
no fall; every other call leaves the component as it is. -/
def ExampleEngine (Floor : FFindFloorResult) (MoveHit : FHitResult) : FEngine :=
  { GetSimulationTimeStep := fun _ RemainingTime _ => max MIN_TICK_TIME RemainingTime,
    RestorePreAdditiveRootMotionVelocity := fun C => C,
    ApplyRootMotionToVelocity := fun C _ => C,
    SetMovementMode := fun C Mode => { C with MovementMode := Mode },
    StartNewPhysics := fun C _ _ => C,
    MoveAlongFloor := fun C _ _ => (C, default),
    StartSwimming := fun C _ _ _ _ _ => C,
    FindFloor := fun _ _ _ _ _ => Floor,
    GetLedgeMove := fun _ _ _ _ => FVector.ZeroVector,
    RevertMove := fun C _ _ _ _ _ => C,
    CheckFall := fun C _ _ _ _ _ _ _ _ => (false, C),
    ShouldCatchAir := fun _ _ _ => false,
    OnWalkingOffLedge := fun C _ _ _ _ => C,
    StartFalling := fun C _ _ _ _ _ => { C with MovementMode := EMovementMode.MOVE_Falling },
    AdjustFloorHeight := fun C => C,
    SetBase := fun C Base _ => { C with MovementBase := Base },
    GetPenetrationAdjustment := fun _ _ => FVector.ZeroVector,
    ResolvePenetration := fun C _ _ _ => C,
    ApplyRequestedMove := fun C _ _ _ _ _ =>
      { bApplied := false, OutAcceleration := FVector.ZeroVector, OutRequestedSpeed := 0,
        Component := C },
    CalcAvoidanceVelocity := fun C _ => C,
    CanStepUp := fun _ _ => true,
    MoveUpdatedComponent := fun C Delta NewRotation _ =>
      ({ C with
          UpdatedComponent := C.UpdatedComponent.map fun U =>
            { U with ComponentLocation := U.ComponentLocation + Delta, ComponentQuat := NewRotation } },
        MoveHit),
    HandleImpact := fun C _ _ _ => C,
    SlideAlongSurface := fun C _ _ _ Hit _ => (0, C, Hit) }

/-- A wall hit at the side of the capsule, 28 units above its base. -/
def SideWallHit : FHitResult :=
  { FHitResult.Init (1 / 2) with
    bBlockingHit := true, ImpactPoint := ⟨34, 0, -60⟩, Location := ⟨0, 0, 0⟩,
    Normal := ⟨-1, 0, 0⟩, ImpactNormal := ⟨-1, 0, 0⟩ }

/-- A line trace hit on flat walkable ground one unit below the capsule base. -/
def FlatLineHit : FHitResult :=
  { FHitResult.Init (890 / 904) with
    bBlockingHit := true, ImpactPoint := ⟨0, 0, -89⟩, Location := ⟨0, 0, -89⟩,
    Normal := ⟨0, 0, 1⟩, ImpactNormal := ⟨0, 0, 1⟩ }

/-- Geometry in which every floor sweep misses while a line trace from the capsule
centre would hit flat walkable ground one unit below the capsule base. -/
def SweepMissGeometry : FGeometryQueries :=
  { SweepSingleByChannel := fun _ _ _ _ _ => (false, FHitResult.Init 1),
    LineTraceSingleByChannel := fun _ _ _ => (true, FlatLineHit) }

/-- Geometry with flat walkable ground: floor sweeps answer with `FlatFloorHit`,
line traces with `FlatLineHit`. -/
def FlatGeometry : FGeometryQueries :=
  { SweepSingleByChannel := fun _ _ _ _ _ => (true, FlatFloorHit),
    LineTraceSingleByChannel := fun _ _ _ => (true, FlatLineHit) }

/-- A valid blocking hit straight below the capsule on a slope too steep to walk on. -/
def SteepFloorHit : FHitResult :=
  { FHitResult.Init (1 / 2) with
    bBlockingHit := true, ImpactPoint := ⟨0, 0, -90⟩, Location := ⟨0, 0, -2⟩,
    Normal := ⟨1, 0, 0⟩, ImpactNormal := ⟨1, 0, 0⟩ }

/-- Geometry in which floor sweeps hit a slope too steep to walk on while the line
trace from the capsule centre hits flat walkable ground. -/
def SteepSweepGeometry : FGeometryQueries :=
  { SweepSingleByChannel := fun _ _ _ _ _ => (true, SteepFloorHit),
    LineTraceSingleByChannel := fun _ _ _ => (true, FlatLineHit) }

/-- The exits of `StepUp` inside its movement scope: it succeeded, or the whole
scoped move was reverted. -/
def StepUpScopedExit (Scope : FScopedMovementUpdate) (Out : FStepUpOutcome) : Prop :=
  Out.bSteppedUp = true ∨ ∃ C, Out = UDashCharacterMovementComponent.StepUpRevert Scope C

/-- What the stages of `ComputeFloorDist` after the sweep stage guarantee, when
entered with the floor result `F` of the sweep stage: the record of the sweeps is
passed on; a line trace is only made for a positive `LineDistance` and a sweep
stage that left a blocking or start-penetrating hit; after a sweep stage without
either, nothing is reported; and a floor reported on top of a sweep stage without
walkable floor comes from the line trace, is a valid blocking walkable hit and
keeps impact point and location of the sweep stage hit. -/
def AfterSweepPost (C : UDashCharacterMovementComponent) (LineDistance SweepDistance : ℚ)
    (F : FFindFloorResult) (bSweep bShrunk : Bool) (SweepHit : Option (Bool × FHitResult))
    (o : UDashCharacterMovementComponent.FComputeFloorDistOutcome) : Prop :=
  o.bSweepPerformed = bSweep ∧ o.bShrunkSweepPerformed = bShrunk ∧ o.SweepHit = SweepHit
    ∧ o.SweepStage = F
    ∧ (o.bLineTracePerformed = true →
        0 < LineDistance ∧ (F.bBlockingHit = true ∨ F.HitResult.bStartPenetrating = true))
    ∧ (F.bBlockingHit = false → F.HitResult.bStartPenetrating = false →
        o.bLineTracePerformed = false ∧ o.OutFloorResult.FloorDist = SweepDistance
          ∧ o.OutFloorResult.IsWalkableFloor = false)
    ∧ (F.bWalkableFloor = false → o.OutFloorResult.IsWalkableFloor = true →
        o.Source = UDashCharacterMovementComponent.EFloorSource.LineTrace
          ∧ o.OutFloorResult.HitResult.IsValidBlockingHit = true
          ∧ C.IsWalkable o.OutFloorResult.HitResult = true
          ∧ o.OutFloorResult.HitResult.ImpactPoint = F.HitResult.ImpactPoint
          ∧ o.OutFloorResult.HitResult.Location = F.HitResult.Location)

/-- The line hit `L` is accepted as floor by the line trace stage of
`ComputeFloorDist`: it is blocking with a positive time, within `LineDistance`
below the capsule base, and walkable. -/
def LineHitAccepted (C : UDashCharacterMovementComponent) (LineDistance PawnRadius PawnHalfHeight : ℚ)
    (L : Bool × FHitResult) : Prop :=
  L.1 = true ∧ 0 < L.2.Time
    ∧ UDashCharacterMovementComponent.FloorHitDistance PawnRadius L.2.Time
        (LineDistance + PawnHalfHeight) PawnHalfHeight ≤ LineDistance
    ∧ C.IsWalkable L.2 = true

/-- What `ComputeFloorDist` guarantees of a reported walkable floor: the stored
hit is a valid blocking hit that passes `IsWalkable`, the floor has a source, and
the impact point of the stored hit passes the edge tolerance test where the code
made that test: for the supplied sweep (against the location of the hit and the
pawn radius), for the first sweep (against the capsule location and the sweep
radius), and for a line trace that follows one of the two. -/
def FloorReportPost (C : UDashCharacterMovementComponent) (CapsuleLocation CapsuleDown : FVector)
    (SweepRadius PawnRadius : ℚ) (o : UDashCharacterMovementComponent.FComputeFloorDistOutcome) :
    Prop :=
  o.OutFloorResult.IsWalkableFloor = true →
    o.OutFloorResult.HitResult.IsValidBlockingHit = true
      ∧ C.IsWalkable o.OutFloorResult.HitResult = true
      ∧ o.Source ≠ UDashCharacterMovementComponent.EFloorSource.NoFloor
      ∧ (o.Source = UDashCharacterMovementComponent.EFloorSource.SuppliedSweep →
          UDashCharacterMovementComponent.IsWithinEdgeToleranceEx o.OutFloorResult.HitResult.Location
            CapsuleDown PawnRadius o.OutFloorResult.HitResult.ImpactPoint = true)
      ∧ (o.Source = UDashCharacterMovementComponent.EFloorSource.FirstSweep →
          UDashCharacterMovementComponent.IsWithinEdgeToleranceEx CapsuleLocation CapsuleDown
            SweepRadius o.OutFloorResult.HitResult.ImpactPoint = true)
      ∧ (o.Source = UDashCharacterMovementComponent.EFloorSource.LineTrace →
          o.bShrunkSweepPerformed = false →
          (o.bSweepPerformed = true →
              UDashCharacterMovementComponent.IsWithinEdgeToleranceEx CapsuleLocation CapsuleDown
                SweepRadius o.OutFloorResult.HitResult.ImpactPoint = true)
            ∧ (o.bSweepPerformed = false →
              UDashCharacterMovementComponent.IsWithinEdgeToleranceEx
                o.OutFloorResult.HitResult.Location CapsuleDown PawnRadius
                o.OutFloorResult.HitResult.ImpactPoint = true))

/-- What `ComputeFloorDist` guarantees of its line trace: after a last floor sweep
that found nothing (no blocking hit, no start in penetration) there is no line
trace and no floor, with `FloorDist = SweepDistance`; a line trace is made only for
`0 < LineDistance <= SweepDistance` and a sweep stage that left a blocking or
start-penetrating hit without walkable floor; and the accepted hit of a line trace
that was made is reported as the floor when the sweep stage hit is blocking. -/
def LineTracePost (G : FGeometryQueries) (C : UDashCharacterMovementComponent)
    (CapsuleLocation CapsuleDown : FVector) (LineDistance SweepDistance PawnRadius PawnHalfHeight : ℚ)
    (o : UDashCharacterMovementComponent.FComputeFloorDistOutcome) : Prop :=
  (∀ S : Bool × FHitResult, o.SweepHit = some S → S.1 = false →
      S.2.IsValidBlockingHit = false → S.2.bStartPenetrating = false →
      o.bLineTracePerformed = false ∧ o.OutFloorResult.IsWalkableFloor = false
        ∧ o.OutFloorResult.FloorDist = SweepDistance)
    ∧ (o.bLineTracePerformed = true →
        0 < LineDistance ∧ LineDistance ≤ SweepDistance
          ∧ (o.SweepStage.bBlockingHit = true ∨ o.SweepStage.HitResult.bStartPenetrating = true)
          ∧ o.SweepStage.bWalkableFloor = false
          ∧ (LineHitAccepted C LineDistance PawnRadius PawnHalfHeight
                (C.FloorLineTrace G CapsuleLocation CapsuleDown LineDistance PawnHalfHeight) →
              o.SweepStage.HitResult.bBlockingHit = true →
              o.OutFloorResult.IsWalkableFloor = true ∧ o.OutFloorResult.bLineTrace = true
                ∧ o.OutFloorResult.LineDist
                  = UDashCharacterMovementComponent.FloorHitDistance PawnRadius
                      (C.FloorLineTrace G CapsuleLocation CapsuleDown LineDistance
                        PawnHalfHeight).2.Time
                      (LineDistance + PawnHalfHeight) PawnHalfHeight))

/-- A character at rest with `bForceMaxAccel` set and no input acceleration. -/
def ForcedAccelAtRest : UDashCharacterMovementComponent :=
  { DefaultComponent with bForceMaxAccel := true }

/-- A character running at 300 units per second along X with no input acceleration. -/
def RunningNoInput : UDashCharacterMovementComponent :=
  { DefaultComponent with Velocity := ⟨300, 0, 0⟩ }

/-- One vector is the other scaled back: scaled by a factor between 0 and 1. -/
def IsScaledBack (V2 V : FVector) : Prop := ∃ c : ℚ, 0 ≤ c ∧ c ≤ 1 ∧ V2 = V * c

/-- A character running at 1000 units per second along X, above its maximal speed
of 600, with full input acceleration along X. -/
def OverSpeedRunning : UDashCharacterMovementComponent :=
  { DefaultComponent with Velocity := ⟨1000, 0, 0⟩, Acceleration := ⟨2048, 0, 0⟩ }

/-- A character running at 300 units per second along X with full input
acceleration along Y. -/
def RunningTurning : UDashCharacterMovementComponent :=
  { DefaultComponent with Velocity := ⟨300, 0, 0⟩, Acceleration := ⟨0, 2048, 0⟩ }

/-- No root motion is pending or applied, `CalcVelocity` is not driven by
`bForceMaxAccel`, a path-following request or RVO avoidance, no apex notification
is pending, and the velocity has no part lateral to `GravityDir`. -/
def IsFreeFallState (C : UDashCharacterMovementComponent) (GravityDir : FVector) : Prop :=
  C.bHasAnimRootMotion = false ∧ C.bHasOverrideVelocity = false ∧ C.bHasAdditiveVelocity = false
    ∧ C.bForceMaxAccel = false ∧ C.bHasRequestedVelocity = false ∧ C.bUseRVOAvoidance = false
    ∧ C.bNotifyApex = false
    ∧ FVector.VectorPlaneProject C.Velocity GravityDir = FVector.ZeroVector

/-- A sub-step of `PhysFalling` of length `timeTick` at the state `C` is a free
fall: the state is a free-fall state with nothing to restore from additive root
motion, `GravityDir` is a unit vector and gravity acts along it, and the move finds
no blocking hit, keeps the data valid, does not enter water and leaves the
velocity alone. -/
def IsFreeFallSubStep (M : FMath) (E : FEngine) (F : FFallingEngine) (GravityDir : FVector)
    (timeTick : ℚ) (C : UDashCharacterMovementComponent) : Prop :=
  E.RestorePreAdditiveRootMotionVelocity { C with bJustTeleported := false }
      = { C with bJustTeleported := false }
    ∧ IsFreeFallState C GravityDir
    ∧ GravityDir.SizeSquared = 1
    ∧ (∃ k : ℚ, C.GetGravity M = GravityDir * k)
    ∧ (F.SafeMoveUpdatedComponent
          { C with bJustTeleported := false, Velocity := C.Velocity + C.GetGravity M * timeTick }
          ((1 / 2 : ℚ) * (C.Velocity + (C.Velocity + C.GetGravity M * timeTick)) * timeTick)
          C.GetComponentQuat true).2.bBlockingHit = false
    ∧ (F.SafeMoveUpdatedComponent
          { C with bJustTeleported := false, Velocity := C.Velocity + C.GetGravity M * timeTick }
          ((1 / 2 : ℚ) * (C.Velocity + (C.Velocity + C.GetGravity M * timeTick)) * timeTick)
          C.GetComponentQuat true).1.HasValidData = true
    ∧ (F.SafeMoveUpdatedComponent
          { C with bJustTeleported := false, Velocity := C.Velocity + C.GetGravity M * timeTick }
          ((1 / 2 : ℚ) * (C.Velocity + (C.Velocity + C.GetGravity M * timeTick)) * timeTick)
          C.GetComponentQuat true).1.IsSwimming = false
    ∧ (F.SafeMoveUpdatedComponent
          { C with bJustTeleported := false, Velocity := C.Velocity + C.GetGravity M * timeTick }
          ((1 / 2 : ℚ) * (C.Velocity + (C.Velocity + C.GetGravity M * timeTick)) * timeTick)
          C.GetComponentQuat true).1.Velocity = C.Velocity + C.GetGravity M * timeTick

/-- A falling engine for the worked examples: the move translates the updated
component by the requested delta and hits nothing, the apex notification and the
blocking-hit branch leave the state as it is. -/
def ExampleFallingEngine : FFallingEngine :=
  { SafeMoveUpdatedComponent := fun C Delta NewRotation _ =>
      ({ C with
          UpdatedComponent := C.UpdatedComponent.map fun U =>
            { U with ComponentLocation := U.ComponentLocation + Delta, ComponentQuat := NewRotation } },
        FHitResult.Init 1),
    NotifyJumpApex := fun C => C,
    BlockingHit := fun C _ _ _ => (false, C) }

/-- No root motion: nothing is constrained or accumulated. -/
def ExampleRootMotion : FRootMotionEngine :=
  { ConstrainAnimRootMotionVelocity := fun C => C.Velocity,
    AccumulateOverrideRootMotionVelocity := fun C _ => C,
    AccumulateAdditiveRootMotionVelocity := fun C _ => C,
    UseSensitiveLiftoffCheck := fun _ => false }

/-- A character falling straight down at 100 units per second under world gravity. -/
def FallingDown : UDashCharacterMovementComponent :=
  { DefaultComponent with MovementMode := EMovementMode.MOVE_Falling, Velocity := ⟨0, 0, -100⟩ }

/-- A character falling straight down at 100 units per second with `bForceMaxAccel` set. -/
def FallingForced : UDashCharacterMovementComponent :=
  { FallingDown with bForceMaxAccel := true }

/-- The state after a free-fall sub-step of a sixtieth of a second of the character
falling straight down. -/
def FallingDownLater : UDashCharacterMovementComponent :=
  (UDashCharacterMovementComponent.PhysFallingSubStep RatMath
    (ExampleEngine PenetratingFloor (FHitResult.Init 1)) ExampleRootMotion ExampleFallingEngine
    ⟨0, 0, -1⟩ FVector.ZeroVector (1 / 60) (1 / 30) 1 FallingDown).Component

/-- The component aligns to the floor: floor alignment is enabled, the character
is moving on ground and the impact normal of the current floor is not zero. -/
def AlignsToFloor (C : UDashCharacterMovementComponent) : Prop :=
  C.bAlignComponentToFloor = true ∧ C.IsMovingOnGround = true
    ∧ C.CurrentFloor.HitResult.ImpactNormal ≠ FVector.ZeroVector

/-- A character falling straight down whose capsule aligns to gravity and to the
floor. -/
def FallingAligned : UDashCharacterMovementComponent :=
  { FallingDown with bAlignComponentToFloor := true }

/-- A network engine for the worked examples: world time 10, no update-delay
bound, bases never relative, no divergence reported, the client not
authoritative; applying a network movement mode that enters Walking (mode 1) runs
the Walking branch of `OnMovementModeChanged`, which ends in
`MaintainHorizontalGroundVelocity()`; every other call leaves the state as it is. -/
def ExampleNetEngine : FNetEngine :=
  { TimeSeconds := fun _ => 10,
    WithinUpdateDelayBounds := fun _ _ => false,
    UseRelativeLocation := fun _ => false,
    GetMovementBaseLocation := fun _ _ => FVector.ZeroVector,
    SameBase := fun A B => A.isSome == B.isSome,
    ServerCheckClientError := fun _ _ _ _ _ _ _ _ _ => false,
    PackNetworkMovementMode := fun C =>
      match C.MovementMode with
      | EMovementMode.MOVE_Walking => 1
      | EMovementMode.MOVE_Falling => 3
      | _ => 0,
    ClientAuthorativePosition := false,
    BasedMovementBoneName := fun _ => 0,
    BasedMovementLocation := fun _ => FVector.ZeroVector,
    ApplyNetworkMovementMode := fun C Mode =>
      if Mode = 1 ∧ C.MovementMode ≠ EMovementMode.MOVE_Walking then
        UDashCharacterMovementComponent.MaintainHorizontalGroundVelocity RatMath
          { C with MovementMode := EMovementMode.MOVE_Walking }
      else C,
    UpdateFloorFromAdjustment := fun C => C,
    SaveBaseLocation := fun C => C.World,
    UpdateComponentVelocity := fun C => C.World,
    AckMove := fun D Index => { D with SavedMoves := D.SavedMoves.drop (Index + 1) } }

/-- Server prediction data with nothing pending: no forced update, the last
update at time 0. -/
def ExampleServerData : FNetworkPredictionData_Server_Character :=
  { PendingAdjustment :=
      { TimeStamp := 0, DeltaTime := 0, NewLoc := FVector.ZeroVector, NewVel := FVector.ZeroVector,
        NewRot := FQuat.Identity, NewBase := none, NewBaseBoneName := 0, bAckGoodMove := false,
        bBaseRelativePosition := false, MovementMode := 0 },
    LastUpdateTime := 0, bForceClientUpdate := false }

/-- Server prediction data with a forced client update pending. -/
def ForcedServerData : FNetworkPredictionData_Server_Character :=
  { ExampleServerData with bForceClientUpdate := true }

/-- A call into the engine leaves the velocity and the updated component (its
location and rotation) as they are. -/
def KeepsPlaceAndVelocity
    (f : UDashCharacterMovementComponent → UDashCharacterMovementComponent) : Prop :=
  ∀ D : UDashCharacterMovementComponent,
    (f D).Velocity = D.Velocity ∧ (f D).UpdatedComponent = D.UpdatedComponent

/-- Client prediction data with two buffered moves, of time stamps 5 and 6. -/
def ExampleClientData : FNetworkPredictionData_Client_Character :=
  { SavedMoves := [5, 6], bUpdatePosition := false }

/-- A character on a dedicated server (`NM_DedicatedServer` is 1) with authority and
gravity replication enabled. -/
def ServerCharacter : UDashCharacterMovementComponent :=
  { DefaultComponent with NetMode := 1 }

/-- The server character after an `UpdateGravity`: nothing is left to replicate. -/
def ServerCharacterUpdated : UDashCharacterMovementComponent :=
  UDashCharacterMovementComponent.UpdateGravity RatMath (fun C _ _ => C) ServerCharacter (1 / 60)

/-- A crouch engine for the worked examples in which every overlap test reports
encroachment: crouching is allowed, sweeps start in penetration, moves leave the
component where it is, the proxy capsule is not adjusted, the events leave the
world as it is. -/
def BlockedCrouchEngine : FCrouchEngine :=
  { CanCrouchInCurrentState := fun _ => true,
    OverlapBlockingTestByChannel := fun _ _ _ _ => true,
    SweepSingleByChannel := fun _ _ _ _ _ => (true, PenetratingFlatHit),
    MoveComponent := fun C _ _ _ => (C.UpdatedComponent.getD default, C.World),
    GetPawnCapsuleCollisionShape := fun C =>
      FCollisionShape.Capsule (C.CharacterOwner.getD default).ScaledCapsuleRadius
        (C.CharacterOwner.getD default).ScaledCapsuleHalfHeight,
    GetPawnCapsuleCollisionShapeHeightCustom := fun C Amount =>
      FCollisionShape.Capsule (C.CharacterOwner.getD default).ScaledCapsuleRadius
        (max ((C.CharacterOwner.getD default).ScaledCapsuleHalfHeight - Amount)
          (KINDA_SMALL_NUMBER * 10)),
    AdjustProxyCapsuleSize := fun C =>
      ((C.CharacterOwner.getD default).UnscaledCapsuleRadius,
        (C.CharacterOwner.getD default).UnscaledCapsuleHalfHeight, C.bShrinkProxyCapsule),
    OnStartCrouch := fun C _ _ => C.World,
    OnEndCrouch := fun C _ _ => C.World }

/-- A crouched character whose capsule has the unscaled radius 40 and half height
40, while the default object of its class has radius 34 and half height 88. -/
def CrouchedWide : UDashCharacterMovementComponent :=
  { DefaultComponent with
    CharacterOwner :=
      some
        { Controller := true, LocalRole := ENetRole.ROLE_Authority, ScaledCapsuleRadius := 40,
          ScaledCapsuleHalfHeight := 40, bIsCrouched := true, UnscaledCapsuleRadius := 40,
          UnscaledCapsuleHalfHeight := 40 } }

/-- A standing character whose crouched half height, 100, exceeds its half height
of 88. -/
def TallCrouch : UDashCharacterMovementComponent :=
  { DefaultComponent with CrouchedHalfHeight := 100 }

/-- The unscaled radius and half height of the capsule and `bIsCrouched` of the
owner, if there is one. -/
def OwnerCapsuleState (C : UDashCharacterMovementComponent) : Option (ℚ × ℚ × Bool) :=
  C.CharacterOwner.map fun Owner =>
    (Owner.UnscaledCapsuleRadius, Owner.UnscaledCapsuleHalfHeight, Owner.bIsCrouched)

/-- The flag `bIsCrouched` of the owner, if there is one. -/
def OwnerIsCrouched (C : UDashCharacterMovementComponent) : Option Bool :=
  C.CharacterOwner.map fun Owner => Owner.bIsCrouched

/-- A valid blocking hit on the flat top of a step 20 units above the floor of
`DefaultComponent`, straight below the capsule. -/
def StepTopHit : FHitResult :=
  { FHitResult.Init (1 / 2) with
    bBlockingHit := true, ImpactPoint := ⟨0, 0, -70⟩, Location := ⟨0, 0, 18⟩,
    Normal := ⟨0, 0, 1⟩, ImpactNormal := ⟨0, 0, 1⟩ }

/-- The step down sweep of the worked step: `DefaultComponent` steps over the
side wall hit with every move answered by `StepTopHit`. -/
def StepTopSweep : UDashCharacterMovementComponent × FHitResult :=
  (DefaultComponent.StepUpStepDownSweep (ExampleEngine PenetratingFloor StepTopHit) ⟨0, 0, -1⟩
    ⟨10, 0, 0⟩ SideWallHit).getD (DefaultComponent, default)

/-- A character whose air control boost multiplier is one half. -/
def WeakBoost : UDashCharacterMovementComponent :=
  { DefaultComponent with AirControlBoostMultiplier := 1 / 2 }

/-- The boost conditions of `BoostAirControlEx`: a positive boost multiplier and a
velocity whose part orthogonal to `GravDir` has a squared length below the square
of the boost velocity threshold. -/
def BoostConditionsMet (C : UDashCharacterMovementComponent) (GravDir : FVector) : Prop :=
  C.AirControlBoostMultiplier > 0
    ∧ (FVector.VectorPlaneProject C.Velocity GravDir).SizeSquared
        < Square C.AirControlBoostVelocityThreshold

/-- A falling character with gravity switched off by a zero gravity scale, moving
at (100, 0, -50) with an input acceleration of (10, 0, 0). -/
def DriftingNoGravity : UDashCharacterMovementComponent :=
  { DefaultComponent with
    MovementMode := EMovementMode.MOVE_Falling, GravityScale := 0,
    Velocity := ⟨100, 0, -50⟩, Acceleration := ⟨10, 0, 0⟩ }

/-- A character standing exactly on its gravity point (100, 0, 0); gravity scale
1, world gravity -980, no custom gravity direction. -/
def OnGravityPoint : UDashCharacterMovementComponent :=
  { DefaultComponent with
    GravityPoint := ⟨100, 0, 0⟩,
    UpdatedComponent := some { (default : USceneComponent) with ComponentLocation := ⟨100, 0, 0⟩ } }

/-- The gravity point is in use (there is no custom gravity direction, the updated
component exists and the gravity point is not zero) and coincides with the
component location. -/
def GravityPointCoincides (C : UDashCharacterMovementComponent) : Prop :=
  C.CustomGravityDirection = FVector.ZeroVector ∧ C.GravityPoint ≠ FVector.ZeroVector
    ∧ C.UpdatedComponent.isSome = true ∧ C.GravityPoint = C.GetComponentLocation

/-- A character moving at (200, 0, 100), upright at the origin. -/
def RisingCharacter : UDashCharacterMovementComponent :=
  { DefaultComponent with Velocity := ⟨200, 0, 100⟩ }

/-- The ordinary rotation of a character: a unit quaternion. -/
def IsUnitQuat (q : FQuat) : Prop := q.SizeSquared = 1

/-- The square roots of `M` are exact at `x`: `Sqrt x` is the non-negative root
of `x` and `InvSqrt x` its inverse. -/
def IsExactAt (M : FMath) (x : ℚ) : Prop :=
  M.Sqrt x * M.Sqrt x = x ∧ 0 ≤ M.Sqrt x ∧ M.InvSqrt x * M.Sqrt x = 1

/-- A character moving straight up at 100 units per second whose ground velocity
is not to keep its horizontal part. -/
def MovingStraightUp : UDashCharacterMovementComponent :=
  { DefaultComponent with bMaintainHorizontalGroundVelocity := false, Velocity := ⟨0, 0, 100⟩ }

/-- A character moving at (3, 0, 4) whose ground velocity is not to keep its
horizontal part. -/
def MovingUpAndAlong : UDashCharacterMovementComponent :=
  { DefaultComponent with bMaintainHorizontalGroundVelocity := false, Velocity := ⟨3, 0, 4⟩ }

/-- The slide vector of the engine without a plane constraint:
`FVector::VectorPlaneProject(Delta, Normal) * Time`. -/
def PlaneSlideVector (Delta : FVector) (Time : ℚ) (Normal : FVector) (_Hit : FHitResult) :
    FVector :=
  FVector.VectorPlaneProject Delta Normal * Time

/-- A slide vector keeps horizontal moves horizontal: sliding a move without a
part along `Up` for the whole time along a normal without a part along `Up` gives
a vector without a part along `Up`. -/
def SlideKeepsHorizontal (ComputeSlideVector : FVector → ℚ → FVector → FHitResult → FVector)
    (Up : FVector) : Prop :=
  ∀ (D N : FVector) (H : FHitResult), FVector.Dot D Up = 0 → FVector.Dot N Up = 0 →
    FVector.Dot (ComputeSlideVector D 1 N H) Up = 0

/-- A valid blocking hit on a floor that is almost level: its unit normal leans a
hundred-thousandth (to one part in a hundred thousand millions) towards X. -/
def NearlyLevelHit : FHitResult :=
  { FHitResult.Init (1 / 2) with
    bBlockingHit := true, Location := ⟨0, 0, 0⟩, ImpactPoint := ⟨0, 0, -88⟩,
    Normal := ⟨400000 / 40000000001, 0, 39999999999 / 40000000001⟩,
    ImpactNormal := ⟨400000 / 40000000001, 0, 39999999999 / 40000000001⟩ }

/-- A valid blocking hit on a slope whose unit normal is (3/5, 0, 4/5). -/
def SlopeHit : FHitResult :=
  { FHitResult.Init (1 / 2) with
    bBlockingHit := true, Location := ⟨0, 0, 0⟩, ImpactPoint := ⟨0, 0, -88⟩,
    Normal := ⟨3 / 5, 0, 4 / 5⟩, ImpactNormal := ⟨3 / 5, 0, 4 / 5⟩ }

/-- The situation in which `LimitAirControlEx` limits the air control: the hit is
a valid blocking hit whose normal opposes the unit gravity direction, and the
acceleration is orthogonal to gravity and points into the surface. -/
def AirControlIntoWall (A : FVector) (Hit : FHitResult) (GravDir : FVector) : Prop :=
  Hit.IsValidBlockingHit = true ∧ FVector.Dot Hit.Normal GravDir < -VERTICAL_SLOPE_NORMAL_Z
    ∧ GravDir.SizeSquared = 1 ∧ FVector.Dot A GravDir = 0 ∧ FVector.Dot A Hit.Normal < 0

/-- Trigonometry for the worked examples, known at one angle: the angle whose
cosine is 527/625 is 227/400 (0.5675 radians, to four places), and the sine and
the cosine of its half are 7/25 and 24/25 (these are exact:
(24/25)² - (7/25)² = 527/625); every other angle is taken for zero. -/
def ExampleTrig : FTrig :=
  { Acos := fun x => if x = 527 / 625 then 227 / 400 else 0,
    Sin := fun a => if a = 227 / 800 then 7 / 25 else 0,
    Cos := fun a => if a = 227 / 800 then 24 / 25 else 1 }

/-- A sweep hit on a walkable ramp that rises towards +X: unit normal
(-336/625, 0, 527/625). -/
def RisingRampHit : FHitResult :=
  { FHitResult.Init (1 / 2) with
    bBlockingHit := true, Location := ⟨0, 0, 0⟩, ImpactPoint := ⟨0, 0, -88⟩,
    Normal := ⟨-336 / 625, 0, 527 / 625⟩, ImpactNormal := ⟨-336 / 625, 0, 527 / 625⟩ }

/-- A sweep hit on a walkable ramp that descends towards +X: unit normal
(336/625, 0, 527/625). -/
def DescendingRampHit : FHitResult :=
  { FHitResult.Init (1 / 2) with
    bBlockingHit := true, Location := ⟨0, 0, 0⟩, ImpactPoint := ⟨0, 0, -88⟩,
    Normal := ⟨336 / 625, 0, 527 / 625⟩, ImpactNormal := ⟨336 / 625, 0, 527 / 625⟩ }

/-- An upright character at the origin whose ground velocity is not to keep its
horizontal part. -/
def RampRunner : UDashCharacterMovementComponent :=
  { DefaultComponent with bMaintainHorizontalGroundVelocity := false }

/-- The condition under which `ComputeGroundMovementDeltaEx` computes a ramp
vector: the hit is a walkable hit that did not come from a line trace, and
`Delta` is not orthogonal to its impact normal. -/
def ComputesRampVector (C : UDashCharacterMovementComponent) (Delta : FVector)
    (RampHit : FHitResult) (bHitFromLineTrace : Bool) : Prop :=
  bHitFromLineTrace = false
    ∧ |FVector.Dot Delta RampHit.ImpactNormal| > THRESH_NORMALS_ARE_ORTHOGONAL
    ∧ C.IsWalkable RampHit = true

/-- The example engine with sub-steps of half the remaining time (but no less
than `MIN_TICK_TIME`). -/
def HalvingEngine (Floor : FFindFloorResult) (MoveHit : FHitResult) : FEngine :=
  { ExampleEngine Floor MoveHit with
    GetSimulationTimeStep := fun _ RemainingTime _ => max MIN_TICK_TIME (RemainingTime / 2) }

/-- The loop variables of `PhysFalling` at the start of a call for a sixtieth of a
second with the iteration count 5, for the character falling straight down. -/
def FallingLoopStart : FPhysFallingLoop :=
  { Component := FallingDown, RemainingTime := 1 / 60, Iterations := 5 }

/-- The loop variables of `PhysWalking` at the start of a call for a sixtieth of a
second with the iteration count 0, for the default character at rest. -/
def WalkingLoopStart : FPhysWalkingLoop :=
  { Component := DefaultComponent, remainingTime := 1 / 60, Iterations := 0, bCheckedFall := false,
    bTriedLedgeMove := false, LastPass := EPhysWalkingPass.NoPass }

/-- The square root of `M` at `x` does not overshoot and is accurate to the
relative error `ε` on the square: `(1 - ε) x ≤ Sqrt(x)² ≤ x`. An exact root has
`ε = 0`; a root that only does not overshoot has `ε = 1`. -/
def IsAccurateSqrtAt (M : FMath) (ε x : ℚ) : Prop :=
  (1 - ε) * x ≤ M.Sqrt x * M.Sqrt x ∧ M.Sqrt x * M.Sqrt x ≤ x

/-- The inverse square root of `M` at `x` does not overshoot and is accurate to
the relative error `ε` on the square: `1 - ε ≤ InvSqrt(x)² x ≤ 1`. An exact
inverse root has `ε = 0`; one that only does not overshoot has `ε = 1`. -/
def IsAccurateInvSqrtAt (M : FMath) (ε x : ℚ) : Prop :=
  1 - ε ≤ M.InvSqrt x * M.InvSqrt x * x ∧ M.InvSqrt x * M.InvSqrt x * x ≤ 1

/-- The rational square roots of the worked examples, with three values given to
two and three digits: `Sqrt 2` as 1.4, `InvSqrt 2` as 0.7 and `InvSqrt (32/81)` as
1.59, all of them under-estimates. -/
def RefinedRatMath : FMath :=
  ⟨fun x => if x = 2 then 7 / 5 else RatMath.Sqrt x,
    fun x => if x = 2 then 7 / 10 else if x = 32 / 81 then 159 / 100 else RatMath.InvSqrt x⟩

/-- A valid blocking hit on a slope whose unit normal is (4/9, 4/9, 7/9): the part
of the normal orthogonal to a vertical gravity has the squared length 32/81, which
has no rational square root. -/
def DiagonalSlopeHit : FHitResult :=
  { FHitResult.Init (1 / 2) with
    bBlockingHit := true, Location := ⟨0, 0, 0⟩, ImpactPoint := ⟨0, 0, -88⟩,
    Normal := ⟨4 / 9, 4 / 9, 7 / 9⟩, ImpactNormal := ⟨4 / 9, 4 / 9, 7 / 9⟩ }

/-- A character moving at (1, 1, 0), of squared speed 2, whose ground velocity is
not to keep its horizontal part. -/
def MovingDiagonally : UDashCharacterMovementComponent :=
  { DefaultComponent with bMaintainHorizontalGroundVelocity := false, Velocity := ⟨1, 1, 0⟩ }

/-- The floor sweeps touch within the swept radius: when a floor sweep of a
capsule from `CapsuleLocation` along `CapsuleDown` writes a hit that is blocking
or starts in penetration, the impact point of that hit is no farther from the
sweep axis than the radius of the swept capsule. The impact point is a point of
the swept shape, and no point of a capsule, or of the boxes inside it that the
flat-base test sweeps, is farther from the axis than the radius. -/
def FloorSweepsTouchWithinRadius (G : FGeometryQueries) (C : UDashCharacterMovementComponent)
    (CapsuleLocation CapsuleDown : FVector) : Prop :=
  ∀ TraceDist Radius HalfHeight : ℚ,
    ((C.FloorSweepTest G CapsuleLocation (CapsuleLocation + CapsuleDown * TraceDist)
          (FCollisionShape.Capsule Radius HalfHeight)).2.bBlockingHit = true
      ∨ (C.FloorSweepTest G CapsuleLocation (CapsuleLocation + CapsuleDown * TraceDist)
          (FCollisionShape.Capsule Radius HalfHeight)).2.bStartPenetrating = true) →
    (CapsuleLocation
        + CapsuleDown
          * (FVector.Dot
              ((C.FloorSweepTest G CapsuleLocation (CapsuleLocation + CapsuleDown * TraceDist)
                (FCollisionShape.Capsule Radius HalfHeight)).2.ImpactPoint - CapsuleLocation)
              CapsuleDown)
        - (C.FloorSweepTest G CapsuleLocation (CapsuleLocation + CapsuleDown * TraceDist)
            (FCollisionShape.Capsule Radius HalfHeight)).2.ImpactPoint).SizeSquared
      ≤ Square Radius

/-- A valid blocking hit on flat ground at the rim of a capsule of radius 34: its
impact point is 34 units away from the capsule axis. -/
def RimFloorHit : FHitResult :=
  { FHitResult.Init (1 / 2) with
    bBlockingHit := true, ImpactPoint := ⟨34, 0, -60⟩, Location := ⟨0, 0, -2⟩,
    Normal := ⟨0, 0, 1⟩, ImpactNormal := ⟨0, 0, 1⟩ }

/-- Geometry with a ledge at the rim of the capsule: the sweep of the capsule of
radius 34 touches it with its rim (`RimFloorHit`), and the sweep of every smaller
shape passes it and hits flat ground straight below the capsule (`FlatFloorHit`);
line traces hit the flat ground. -/
def LedgeGeometry : FGeometryQueries :=
  { SweepSingleByChannel := fun _ _ _ _ Shape =>
      if Shape.GetCapsuleRadius = 34 then (true, RimFloorHit) else (true, FlatFloorHit),
    LineTraceSingleByChannel := fun _ _ _ => (true, FlatLineHit) }

/-- One vector is a multiple of another. -/
def IsMultipleOf (r v : FVector) : Prop := ∃ k : ℚ, r = v * k

/-- A vector lies on the world Z axis. -/
def OnWorldAxisZ (r : FVector) : Prop := r.X = 0 ∧ r.Y = 0

end DashEngine

/-! # Theorems -/

namespace DashEngine

open UDashCharacterMovementComponent

/-! ## Vector lemmas -/

theorem FVector.isZero_iff (v : FVector) : v.IsZero = true ↔ v = FVector.ZeroVector := by
  cases v
  simp [FVector.IsZero, FVector.ZeroVector]
  tauto

theorem FVector.isZero_false_iff (v : FVector) : v.IsZero = false ↔ v ≠ FVector.ZeroVector := by
  rw [← Bool.not_eq_true, FVector.isZero_iff]

theorem FVector.mul_def (v : FVector) (s : ℚ) : v * s = ⟨v.X * s, v.Y * s, v.Z * s⟩ := rfl

theorem FVector.smul_def (s : ℚ) (v : FVector) : s * v = ⟨v.X * s, v.Y * s, v.Z * s⟩ := rfl

theorem FVector.add_def (a b : FVector) : a + b = ⟨a.X + b.X, a.Y + b.Y, a.Z + b.Z⟩ := rfl

theorem FVector.sub_def (a b : FVector) : a - b = ⟨a.X - b.X, a.Y - b.Y, a.Z - b.Z⟩ := rfl

theorem FVector.sub_eq_zero_iff (a b : FVector) : a - b = FVector.ZeroVector ↔ a = b := by
  cases a
  cases b
  simp [FVector.sub_def, FVector.ZeroVector, sub_eq_zero]

theorem FVector.sizeSquared_eq_zero_iff (v : FVector) :
    v.SizeSquared = 0 ↔ v = FVector.ZeroVector := by
  cases v with
  | mk x y z =>
    simp only [FVector.SizeSquared, FVector.ZeroVector, FVector.mk.injEq]
    constructor
    · intro h
      refine ⟨?_, ?_, ?_⟩ <;> nlinarith [mul_self_nonneg x, mul_self_nonneg y, mul_self_nonneg z]
    · rintro ⟨rfl, rfl, rfl⟩
      ring

theorem SignOf_ne_zero (x : ℚ) : SignOf x ≠ 0 := by
  unfold SignOf
  split <;> norm_num

theorem FVector.mul_eq_zero_iff (v : FVector) (s : ℚ) (hs : s ≠ 0) :
    v * s = FVector.ZeroVector ↔ v = FVector.ZeroVector := by
  cases v
  simp [FVector.mul_def, FVector.ZeroVector, hs]

/-- When the safe normal of a vector vanishes although the inverse square root
does not, the vector is shorter than the tolerance. -/
theorem FVector.getSafeNormal_eq_zero (M : FMath) (v : FVector)
    (hM : M.InvSqrt v.SizeSquared ≠ 0)
    (h : v.GetSafeNormal M = FVector.ZeroVector) : v.SizeSquared < SMALL_NUMBER := by
  unfold FVector.GetSafeNormal at h
  simp only at h
  by_cases h1 : v.X * v.X + v.Y * v.Y + v.Z * v.Z = 1
  · rw [if_pos h1] at h
    subst h
    simp [FVector.ZeroVector] at h1
  · rw [if_neg h1] at h
    by_cases h2 : v.X * v.X + v.Y * v.Y + v.Z * v.Z < SMALL_NUMBER
    · exact h2
    · rw [if_neg h2] at h
      have hv : v = FVector.ZeroVector := by
        have := (FVector.mul_eq_zero_iff v _ hM).1 h
        exact this
      subst hv
      exfalso
      apply h2
      simp [FVector.ZeroVector, SMALL_NUMBER]

theorem RatSqrt_nonneg (x : ℚ) : 0 ≤ RatSqrt x := by
  unfold RatSqrt
  positivity

theorem RatMath_Sqrt_sq_le (x : ℚ) (hx : 0 ≤ x) : RatMath.Sqrt x * RatMath.Sqrt x ≤ x := by
  unfold RatMath
  simp only
  split_ifs with h
  · exact h
  · simpa using hx

theorem RatMath_InvSqrt_pos (x : ℚ) (hx : 0 < x) : 0 < RatMath.InvSqrt x := by
  show 0 < (if RatSqrt x * RatSqrt x = x then (RatSqrt x)⁻¹ else 1 / (x + 1))
  split
  · rename_i h
    have h0 : RatSqrt x ≠ 0 := by
      intro h0
      rw [h0] at h
      linarith
    exact inv_pos.2 (lt_of_le_of_ne (RatSqrt_nonneg x) (Ne.symm h0))
  · positivity

theorem RatMath_InvSqrt_nonneg (x : ℚ) (hx : 0 ≤ x) : 0 ≤ RatMath.InvSqrt x := by
  show 0 ≤ (if RatSqrt x * RatSqrt x = x then (RatSqrt x)⁻¹ else 1 / (x + 1))
  split
  · exact inv_nonneg.2 (RatSqrt_nonneg x)
  · positivity

theorem RatMath_InvSqrt_sq_mul_le (x : ℚ) (hx : 0 ≤ x) :
    RatMath.InvSqrt x * RatMath.InvSqrt x * x ≤ 1 := by
  show (if RatSqrt x * RatSqrt x = x then (RatSqrt x)⁻¹ else 1 / (x + 1))
    * (if RatSqrt x * RatSqrt x = x then (RatSqrt x)⁻¹ else 1 / (x + 1)) * x ≤ 1
  split
  · rename_i h
    by_cases h0 : RatSqrt x = 0
    · simp [h0]
    · have : (RatSqrt x)⁻¹ * (RatSqrt x)⁻¹ * x = 1 := by
        nth_rewrite 3 [← h]
        field_simp
      exact le_of_eq this
  · have h1 : 0 < x + 1 := by linarith
    rw [div_mul_div_comm, one_mul, div_mul_eq_mul_div, one_mul, div_le_one (by positivity)]
    nlinarith

theorem RatMath_InvSqrt_ne_zero (x : ℚ) (hx : SMALL_NUMBER ≤ x) : RatMath.InvSqrt x ≠ 0 :=
  ne_of_gt (RatMath_InvSqrt_pos x (lt_of_lt_of_le (by norm_num [SMALL_NUMBER]) hx))

/-! ## Gravity model (C1 - C3) -/

/-- The attractor branch of `GetGravityDirection`. -/
theorem getGravityDirection_point (M : FMath) (C : UDashCharacterMovementComponent)
    (U : USceneComponent) (b : Bool) (hs : C.GravityScale ≠ 0)
    (hc : C.CustomGravityDirection = FVector.ZeroVector) (hU : C.UpdatedComponent = some U)
    (hp : C.GravityPoint ≠ FVector.ZeroVector)
    (hd : b = false ∨ C.GravityPoint - U.ComponentLocation ≠ FVector.ZeroVector) :
    GetGravityDirection M C b
      = (C.GravityPoint - U.ComponentLocation).GetSafeNormal M * SignOf C.GravityScale := by
  have hc2 : C.CustomGravityDirection.IsZero = true := (FVector.isZero_iff _).2 hc
  have hp2 : C.GravityPoint.IsZero = false := (FVector.isZero_false_iff _).2 hp
  have hd2 : (!b || !(C.GravityPoint - U.ComponentLocation).IsZero) = true := by
    rcases hd with h | h
    · simp [h]
    · simp [(FVector.isZero_false_iff _).2 h]
  unfold GetGravityDirection
  simp only [hs, hU, hc2, hp2, hd2, ne_eq, not_false_eq_true, if_true, Bool.not_true,
    Bool.not_false, Bool.false_eq_true, if_false]

/-- C1 (code defect). `GetGravityDirection(true)` is documented never to return
zero gravity, yet for a gravity point that is a hundred-thousandth of a unit away
from the capsule (non-zero offset, squared length below the safe-normalize
tolerance) it returns the zero vector, whatever the square root routine is. -/
theorem C1_GetGravityDirection_avoid_zero_returns_zero (M : FMath) :
    NearbyGravityPoint.GravityPoint - NearbyGravityPoint.GetComponentLocation
        ≠ FVector.ZeroVector
      ∧ GetGravityDirection M (SetGravityDirection M NearbyGravityPoint ⟨0, 0, 0⟩) true
        = FVector.ZeroVector := by
  constructor
  · decide!
  · have h0 : (⟨0, 0, 0⟩ : FVector).GetSafeNormal M = FVector.ZeroVector := by
      simp [FVector.GetSafeNormal, SMALL_NUMBER]
    have hd : (⟨1 / 100000, 0, 0⟩ : FVector) - (default : USceneComponent).ComponentLocation
        = ⟨1 / 100000, 0, 0⟩ := by decide!
    have h1 : (⟨1 / 100000, 0, 0⟩ : FVector).GetSafeNormal M = FVector.ZeroVector := by
      simp only [FVector.GetSafeNormal]
      norm_num [SMALL_NUMBER]
    have hp : (⟨1 / 100000, 0, 0⟩ : FVector) ≠ FVector.ZeroVector := by decide!
    rw [getGravityDirection_point M _ default true (show (1 : ℚ) ≠ 0 by norm_num) h0 rfl hp
      (Or.inr (show (⟨1 / 100000, 0, 0⟩ : FVector) - (default : USceneComponent).ComponentLocation
        ≠ FVector.ZeroVector by rw [hd]; exact hp))]
    show (((⟨1 / 100000, 0, 0⟩ : FVector) - (default : USceneComponent).ComponentLocation).GetSafeNormal M)
      * SignOf 1 = FVector.ZeroVector
    rw [hd, h1]
    simp [FVector.mul_def, FVector.ZeroVector]

theorem getGravityDirectionWorld_false_eq_zero (C : UDashCharacterMovementComponent)
    (h : C.GetGravityDirectionWorld false = FVector.ZeroVector) : C.WorldGravityZ = 0 := by
  unfold GetGravityDirectionWorld at h
  by_contra hz
  have h1 : SignOf C.WorldGravityZ * SignOf C.GravityScale ≠ 0 :=
    mul_ne_zero (SignOf_ne_zero _) (SignOf_ne_zero _)
  simp [hz, FVector.ZeroVector, SignOf_ne_zero] at h

/-- C2 (counterexample). With a zero gravity scale `GetGravityDirection(false)`
returns the zero vector although a custom gravity direction is configured. -/
theorem C2_zero_gravity_scale_counterexample :
    ¬ (GetGravityDirection RatMath ZeroScaleCustomGravity false = FVector.ZeroVector →
        ZeroScaleCustomGravity.CustomGravityDirection = FVector.ZeroVector
          ∧ ZeroScaleCustomGravity.GravityPoint = FVector.ZeroVector
          ∧ ZeroScaleCustomGravity.WorldGravityZ = 0) := by
  decide!

/-- C2 (amended). `GetGravityDirection(false)` returns the zero vector only when
the gravity scale is zero, or the custom direction is zero and either the gravity
point is in use and closer to the capsule than the safe-normalize tolerance, or no
gravity point is in use and the world gravity Z is zero. -/
theorem C2_GetGravityDirection_zero_only_when (M : FMath)
    (hM : ∀ x : ℚ, SMALL_NUMBER ≤ x → M.InvSqrt x ≠ 0)
    (C : UDashCharacterMovementComponent)
    (h : GetGravityDirection M C false = FVector.ZeroVector) :
    C.GravityScale = 0 ∨
      (C.CustomGravityDirection = FVector.ZeroVector ∧
        ((∃ U, C.UpdatedComponent = some U ∧ C.GravityPoint ≠ FVector.ZeroVector ∧
            (C.GravityPoint - U.ComponentLocation).SizeSquared < SMALL_NUMBER) ∨
          ((C.UpdatedComponent = none ∨ C.GravityPoint = FVector.ZeroVector) ∧
            C.WorldGravityZ = 0))) := by
  by_cases hs : C.GravityScale = 0
  · exact Or.inl hs
  right
  by_cases hc : C.CustomGravityDirection = FVector.ZeroVector
  swap
  · exfalso
    have hc2 : C.CustomGravityDirection.IsZero = false := (FVector.isZero_false_iff _).2 hc
    unfold GetGravityDirection at h
    simp only [hs, hc2, ne_eq, not_false_eq_true, if_true, Bool.not_false] at h
    exact hc ((FVector.mul_eq_zero_iff _ _ (SignOf_ne_zero _)).1 h)
  refine ⟨hc, ?_⟩
  have hc2 : C.CustomGravityDirection.IsZero = true := (FVector.isZero_iff _).2 hc
  cases hU : C.UpdatedComponent with
  | none =>
    right
    unfold GetGravityDirection at h
    simp only [hs, hc2, hU, ne_eq, not_false_eq_true, if_true, Bool.not_true,
      Bool.false_eq_true, if_false] at h
    exact ⟨Or.inl rfl, getGravityDirectionWorld_false_eq_zero C h⟩
  | some U =>
    by_cases hp : C.GravityPoint = FVector.ZeroVector
    · right
      have hp2 : C.GravityPoint.IsZero = true := (FVector.isZero_iff _).2 hp
      unfold GetGravityDirection at h
      simp only [hs, hc2, hU, hp2, ne_eq, not_false_eq_true, if_true, Bool.not_true,
        Bool.false_eq_true, if_false] at h
      exact ⟨Or.inr hp, getGravityDirectionWorld_false_eq_zero C h⟩
    · left
      refine ⟨U, rfl, hp, ?_⟩
      rw [getGravityDirection_point M C U false hs hc hU hp (Or.inl rfl)] at h
      have h2 := (FVector.mul_eq_zero_iff _ _ (SignOf_ne_zero _)).1 h
      by_contra hlt
      exact hlt (FVector.getSafeNormal_eq_zero M _ (hM _ (not_lt.1 hlt)) h2)

/-- C2 (amended), at a gravity point a hundred-thousandth of a unit from the capsule. -/
theorem C2_GetGravityDirection_zero_only_when_witness :
    (∀ x : ℚ, SMALL_NUMBER ≤ x → RatMath.InvSqrt x ≠ 0)
      ∧ GetGravityDirection RatMath NearbyGravityPoint false = FVector.ZeroVector
      ∧ (NearbyGravityPoint.GravityScale = 0 ∨
          (NearbyGravityPoint.CustomGravityDirection = FVector.ZeroVector ∧
            ((∃ U, NearbyGravityPoint.UpdatedComponent = some U
                ∧ NearbyGravityPoint.GravityPoint ≠ FVector.ZeroVector
                ∧ (NearbyGravityPoint.GravityPoint - U.ComponentLocation).SizeSquared
                    < SMALL_NUMBER) ∨
              ((NearbyGravityPoint.UpdatedComponent = none
                  ∨ NearbyGravityPoint.GravityPoint = FVector.ZeroVector) ∧
                NearbyGravityPoint.WorldGravityZ = 0)))) :=
  ⟨RatMath_InvSqrt_ne_zero, by decide!,
    C2_GetGravityDirection_zero_only_when RatMath RatMath_InvSqrt_ne_zero NearbyGravityPoint
      (by decide!)⟩

theorem isMultipleOf_mul (v : FVector) (k : ℚ) : IsMultipleOf (v * k) v := ⟨k, rfl⟩

theorem isMultipleOf_self (v : FVector) : IsMultipleOf v v :=
  ⟨1, by cases v; simp [FVector.mul_def]⟩

theorem isMultipleOf_zero (v : FVector) : IsMultipleOf FVector.ZeroVector v :=
  ⟨0, by simp [FVector.mul_def, FVector.ZeroVector]⟩

theorem onWorldAxisZ_mk (z : ℚ) : OnWorldAxisZ ⟨0, 0, z⟩ := ⟨rfl, rfl⟩

theorem onWorldAxisZ_world (C : UDashCharacterMovementComponent) (b : Bool) :
    OnWorldAxisZ (C.GetGravityDirectionWorld b) := by
  unfold GetGravityDirectionWorld
  simp only
  split
  · exact onWorldAxisZ_mk _
  · exact onWorldAxisZ_mk 0

/-- C3. The gravity source is resolved in the order custom direction, gravity
point, world axis: with a non-zero custom direction `GetGravity` and
`GetGravityDirection` return multiples of it whatever the gravity point is; with a
zero custom direction and a non-zero gravity point that differs from the location
of the updated component they return multiples of the safe normal of
`GravityPoint - location`; in every other case the result is on the world Z axis. -/
theorem C3_gravity_resolution_order (M : FMath) (C : UDashCharacterMovementComponent)
    (b : Bool) :
    (C.CustomGravityDirection ≠ FVector.ZeroVector →
        IsMultipleOf (GetGravity M C) C.CustomGravityDirection
          ∧ IsMultipleOf (GetGravityDirection M C b) C.CustomGravityDirection)
      ∧ (C.CustomGravityDirection = FVector.ZeroVector →
          ∀ U, C.UpdatedComponent = some U → C.GravityPoint ≠ FVector.ZeroVector →
            C.GravityPoint ≠ U.ComponentLocation →
            IsMultipleOf (GetGravity M C)
                ((C.GravityPoint - U.ComponentLocation).GetSafeNormal M)
              ∧ IsMultipleOf (GetGravityDirection M C b)
                ((C.GravityPoint - U.ComponentLocation).GetSafeNormal M))
      ∧ (C.CustomGravityDirection = FVector.ZeroVector →
          (C.UpdatedComponent = none ∨ C.GravityPoint = FVector.ZeroVector
            ∨ ∃ U, C.UpdatedComponent = some U ∧ C.GravityPoint = U.ComponentLocation) →
          OnWorldAxisZ (GetGravity M C) ∧ OnWorldAxisZ (GetGravityDirection M C b)) := by
  refine ⟨?_, ?_, ?_⟩
  · intro hc
    have hc2 : C.CustomGravityDirection.IsZero = false := (FVector.isZero_false_iff _).2 hc
    constructor
    · unfold GetGravity
      simp only [hc2, Bool.not_false, if_true]
      exact isMultipleOf_mul _ _
    · unfold GetGravityDirection
      simp only [hc2, Bool.not_false, if_true]
      by_cases hs : C.GravityScale = 0
      · simp only [hs, ne_eq, not_true_eq_false, if_false]
        cases b
        · simp only [Bool.false_eq_true, if_false]
          exact isMultipleOf_zero _
        · simp only [if_true]
          exact isMultipleOf_self _
      · simp only [hs, ne_eq, not_false_eq_true, if_true]
        exact isMultipleOf_mul _ _
  · intro hc U hU hp hne
    have hc2 : C.CustomGravityDirection.IsZero = true := (FVector.isZero_iff _).2 hc
    have hp2 : C.GravityPoint.IsZero = false := (FVector.isZero_false_iff _).2 hp
    have hd : C.GravityPoint - U.ComponentLocation ≠ FVector.ZeroVector := by
      intro h
      exact hne ((FVector.sub_eq_zero_iff _ _).1 h)
    have hd2 : (C.GravityPoint - U.ComponentLocation).IsZero = false :=
      (FVector.isZero_false_iff _).2 hd
    constructor
    · unfold GetGravity
      simp only [hc2, hU, hp2, hd2, Bool.not_true, Bool.not_false, Bool.false_eq_true,
        if_false, if_true]
      exact isMultipleOf_mul _ _
    · by_cases hs : C.GravityScale = 0
      · unfold GetGravityDirection
        simp only [hs, ne_eq, not_true_eq_false, if_false, hc2, hU, hp2, hd2, Bool.not_true,
          Bool.not_false, Bool.false_eq_true, if_true]
        cases b
        · simp only [Bool.false_eq_true, if_false]
          exact isMultipleOf_zero _
        · simp only [if_true]
          exact isMultipleOf_self _
      · rw [getGravityDirection_point M C U b hs hc hU hp (Or.inr hd)]
        exact isMultipleOf_mul _ _
  · intro hc hcase
    have hc2 : C.CustomGravityDirection.IsZero = true := (FVector.isZero_iff _).2 hc
    have hz : OnWorldAxisZ FVector.ZeroVector := ⟨rfl, rfl⟩
    have hn0 : (FVector.ZeroVector.GetSafeNormal M) = FVector.ZeroVector := by
      simp [FVector.GetSafeNormal, FVector.ZeroVector, SMALL_NUMBER]
    have hn : OnWorldAxisZ (FVector.ZeroVector.GetSafeNormal M * SignOf C.GravityScale) := by
      rw [hn0]
      simp [OnWorldAxisZ, FVector.mul_def, FVector.ZeroVector]
    constructor
    · unfold GetGravity
      simp only [hc2, Bool.not_true, Bool.false_eq_true, if_false]
      cases hU : C.UpdatedComponent with
      | none => exact onWorldAxisZ_mk _
      | some U =>
        simp only
        by_cases hp : C.GravityPoint.IsZero = true
        · simp only [hp, Bool.not_true, Bool.false_eq_true, if_false]
          exact onWorldAxisZ_mk _
        · have hp3 : C.GravityPoint ≠ FVector.ZeroVector := by
            rw [← FVector.isZero_false_iff]
            simpa using hp
          rcases hcase with h | h | ⟨U2, h2, h3⟩
          · rw [hU] at h
            cases h
          · exact absurd h hp3
          · rw [hU] at h2
            cases h2
            have hd2 : (C.GravityPoint - U.ComponentLocation).IsZero = true :=
              (FVector.isZero_iff _).2 ((FVector.sub_eq_zero_iff _ _).2 h3)
            simp only [hd2, Bool.not_true, Bool.false_eq_true, if_false]
            split <;> exact onWorldAxisZ_mk _
    · unfold GetGravityDirection
      simp only [hc2, Bool.not_true, Bool.false_eq_true, if_false]
      cases hU : C.UpdatedComponent with
      | none =>
        simp only
        split
        · exact onWorldAxisZ_world _ _
        · split
          · exact onWorldAxisZ_mk _
          · exact hz
      | some U =>
        simp only
        by_cases hp : C.GravityPoint.IsZero = true
        · simp only [hp, Bool.not_true, Bool.false_eq_true, if_false]
          split
          · exact onWorldAxisZ_world _ _
          · split
            · exact onWorldAxisZ_mk _
            · exact hz
        · have hp3 : C.GravityPoint ≠ FVector.ZeroVector := by
            rw [← FVector.isZero_false_iff]
            simpa using hp
          rcases hcase with h | h | ⟨U2, h2, h3⟩
          · rw [hU] at h
            cases h
          · exact absurd h hp3
          · rw [hU] at h2
            cases h2
            have hd1 : C.GravityPoint - U.ComponentLocation = FVector.ZeroVector :=
              (FVector.sub_eq_zero_iff _ _).2 h3
            have hd2 : (C.GravityPoint - U.ComponentLocation).IsZero = true :=
              (FVector.isZero_iff _).2 hd1
            simp only [hd2, Bool.not_true, Bool.false_eq_true, if_false, Bool.or_false]
            split
            · split
              · split
                · rw [hd1]
                  exact hn
                · exact onWorldAxisZ_world _ _
              · exact onWorldAxisZ_world _ _
            · split
              · split <;> exact onWorldAxisZ_mk _
              · exact hz

/-- C3, at a gravity point at (3, 4, 0) attracting a capsule at the origin. -/
theorem C3_gravity_resolution_order_witness :
    AttractorGravity.CustomGravityDirection = FVector.ZeroVector
      ∧ AttractorGravity.GravityPoint ≠ FVector.ZeroVector
      ∧ IsMultipleOf (GetGravity RatMath AttractorGravity)
          ((AttractorGravity.GravityPoint
            - (default : USceneComponent).ComponentLocation).GetSafeNormal RatMath)
      ∧ IsMultipleOf (GetGravityDirection RatMath AttractorGravity true)
          ((AttractorGravity.GravityPoint
            - (default : USceneComponent).ComponentLocation).GetSafeNormal RatMath) :=
  ⟨by decide!, by decide!,
    (C3_gravity_resolution_order RatMath AttractorGravity true).2.1 (by decide!) default rfl
      (by decide!) (by decide!)⟩

/-! ## Walkability (C4) -/

/-- C4 (counterexample). A blocking hit that starts in penetration is not
walkable although its impact normal is the capsule up axis, far above the
walkable floor threshold. -/
theorem C4_penetrating_hit_counterexample :
    PenetratingFlatHit.bBlockingHit = true
      ∧ ¬ (DefaultComponent.IsWalkable PenetratingFlatHit = true ↔
            DefaultComponent.TestWalkableZ PenetratingFlatHit
              ≤ FVector.Dot PenetratingFlatHit.ImpactNormal DefaultComponent.GetComponentAxisZ) := by
  decide!

/-- C4 (amended). `IsWalkable(hit)` is false for every hit that is not a valid
blocking hit (not blocking, or starting in penetration), and for every valid
blocking hit it is true exactly when the dot product of the impact normal with
the capsule up axis is at least the walkable floor threshold, taken after the hit
component's slope override. -/
theorem C4_IsWalkable_iff (C : UDashCharacterMovementComponent) (Hit : FHitResult) :
    (Hit.IsValidBlockingHit = false → C.IsWalkable Hit = false)
      ∧ (Hit.IsValidBlockingHit = true →
          (C.IsWalkable Hit = true ↔
            C.TestWalkableZ Hit ≤ FVector.Dot Hit.ImpactNormal C.GetComponentAxisZ)) := by
  constructor
  · intro h
    simp [IsWalkable, h]
  · intro h
    simp [IsWalkable, h]

/-- C4 (amended), at a valid blocking hit on flat ground and at one that starts
in penetration. -/
theorem C4_IsWalkable_iff_witness :
    DefaultComponent.IsWalkable PenetratingFlatHit = false
      ∧ (DefaultComponent.IsWalkable FlatFloorHit = true ↔
          DefaultComponent.TestWalkableZ FlatFloorHit
            ≤ FVector.Dot FlatFloorHit.ImpactNormal DefaultComponent.GetComponentAxisZ) :=
  ⟨(C4_IsWalkable_iff DefaultComponent PenetratingFlatHit).1 (by decide!),
    (C4_IsWalkable_iff DefaultComponent FlatFloorHit).2 (by decide!)⟩

/-! ## Steps shorter than the minimal tick (C6) -/

/-- C6. For every `deltaTime < MIN_TICK_TIME`, and so for every `deltaTime <= 0`,
each of `PhysWalking`, `PhysFalling`, `PhysFlying`, `PhysSwimming` and
`CalcVelocity` returns with the whole component state (velocity, acceleration,
position, orientation, movement mode and current floor among it) unchanged. -/
theorem C6_short_tick_is_noop (M : FMath) (E : FEngine)
    (Body : UDashCharacterMovementComponent → ℚ → Int → UDashCharacterMovementComponent)
    (C : UDashCharacterMovementComponent) (deltaTime : ℚ) (Iterations : Int)
    (Friction : ℚ) (bFluid : Bool) (BrakingDeceleration : ℚ)
    (h : deltaTime < MIN_TICK_TIME ∨ deltaTime ≤ 0) :
    (C.PhysWalking M E deltaTime Iterations).Component = C
      ∧ C.PhysFalling M Body deltaTime Iterations = C
      ∧ C.PhysFlying M Body deltaTime Iterations = C
      ∧ C.PhysSwimming M Body deltaTime Iterations = C
      ∧ C.CalcVelocity M E deltaTime Friction bFluid BrakingDeceleration = C := by
  have h' : deltaTime < MIN_TICK_TIME := by
    rcases h with h | h
    · exact h
    · exact lt_of_le_of_lt h (by norm_num [MIN_TICK_TIME])
  refine ⟨?_, ?_, ?_, ?_, ?_⟩
  · simp [PhysWalking, h']
  · simp [PhysFalling, h']
  · simp [PhysFlying, h']
  · simp [PhysSwimming, h']
  · simp [CalcVelocity, h']

/-- C6, at a zero tick for a character walking with the engine defaults. -/
theorem C6_short_tick_is_noop_witness :
    ((0 : ℚ) < MIN_TICK_TIME ∨ (0 : ℚ) ≤ 0)
      ∧ (DefaultComponent.PhysWalking RatMath (ExampleEngine PenetratingFloor (FHitResult.Init 1)) 0
          0).Component = DefaultComponent
      ∧ DefaultComponent.PhysFalling RatMath (fun C _ _ => { C with Velocity := ⟨0, 0, -10⟩ }) 0 0
          = DefaultComponent
      ∧ DefaultComponent.PhysFlying RatMath (fun C _ _ => { C with Velocity := ⟨0, 0, -10⟩ }) 0 0
          = DefaultComponent
      ∧ DefaultComponent.PhysSwimming RatMath (fun C _ _ => { C with Velocity := ⟨0, 0, -10⟩ }) 0 0
          = DefaultComponent
      ∧ DefaultComponent.CalcVelocity RatMath (ExampleEngine PenetratingFloor (FHitResult.Init 1)) 0
          8 false 2048 = DefaultComponent :=
  ⟨Or.inr le_rfl,
    C6_short_tick_is_noop RatMath (ExampleEngine PenetratingFloor (FHitResult.Init 1))
      (fun C _ _ => { C with Velocity := ⟨0, 0, -10⟩ }) DefaultComponent 0 0 8 false 2048
      (Or.inr le_rfl)⟩

/-! ## Step up (C7) -/

theorem stepUpRevert_restores (Scope : FScopedMovementUpdate) (C : UDashCharacterMovementComponent)
    (U : USceneComponent) (h : (StepUpRevert Scope C).Component.UpdatedComponent = some U) :
    U.ComponentLocation = Scope.InitialLocation ∧ U.ComponentQuat = Scope.InitialQuat := by
  simp only [StepUpRevert, FScopedMovementUpdate.RevertMove] at h
  cases hU : C.UpdatedComponent with
  | none => simp [hU] at h
  | some U0 =>
    simp only [hU, Option.map_some', Option.some.injEq] at h
    subst h
    exact ⟨rfl, rfl⟩

theorem stepUpLanding_exit (E : FEngine) (Scope : FScopedMovementUpdate)
    (C : UDashCharacterMovementComponent) (Hit : FHitResult) (Delta : FVector) (bOut : Bool)
    (OldLocation CapsuleDown PawnFloorPoint : FVector) (PawnRadius StepSideZ : ℚ) :
    StepUpScopedExit Scope
      (StepUpLanding E Scope C Hit Delta bOut OldLocation CapsuleDown PawnFloorPoint PawnRadius
        StepSideZ) := by
  unfold StepUpLanding
  split_ifs <;> first
    | exact Or.inr ⟨_, rfl⟩
    | exact Or.inl rfl

theorem stepUpStepDown_exit (E : FEngine) (Scope : FScopedMovementUpdate)
    (C : UDashCharacterMovementComponent) (GravDir Delta : FVector) (bOut : Bool)
    (OldLocation CapsuleDown PawnFloorPoint : FVector) (PawnRadius Down StepSideZ : ℚ) :
    StepUpScopedExit Scope
      (StepUpStepDown E Scope C GravDir Delta bOut OldLocation CapsuleDown PawnFloorPoint
        PawnRadius Down StepSideZ) :=
  stepUpLanding_exit _ _ _ _ _ _ _ _ _ _ _

theorem stepUpAfterForward_exit (E : FEngine) (Scope : FScopedMovementUpdate)
    (C : UDashCharacterMovementComponent) (Hit : FHitResult) (GravDir Delta : FVector) (bOut : Bool)
    (OldLocation CapsuleDown PawnFloorPoint : FVector) (PawnRadius Down StepSideZ : ℚ)
    (SweepUpHit : FHitResult) :
    StepUpScopedExit Scope
      (StepUpAfterForward E Scope C Hit GravDir Delta bOut OldLocation CapsuleDown PawnFloorPoint
        PawnRadius Down StepSideZ SweepUpHit) := by
  unfold StepUpAfterForward StepUpAfterImpact StepUpAfterSlide
  split_ifs <;> first
    | exact Or.inr ⟨_, rfl⟩
    | exact Or.inl rfl
    | exact stepUpStepDown_exit _ _ _ _ _ _ _ _ _ _ _ _

theorem stepUpForward_exit (E : FEngine) (Scope : FScopedMovementUpdate)
    (C : UDashCharacterMovementComponent) (GravDir Delta : FVector) (bOut : Bool)
    (OldLocation CapsuleDown PawnFloorPoint : FVector) (PawnRadius Down StepSideZ : ℚ)
    (PawnRotation : FQuat) (SweepUpHit : FHitResult) :
    StepUpScopedExit Scope
      (StepUpForward E Scope C GravDir Delta bOut OldLocation CapsuleDown PawnFloorPoint
        PawnRadius Down StepSideZ PawnRotation SweepUpHit) :=
  stepUpAfterForward_exit _ _ _ _ _ _ _ _ _ _ _ _ _ _

/-- C7. Whenever `StepUp` returns false, the updated component has exactly the
location and rotation it had before the call: the failing exits before the
movement scope have not moved it, and every failing exit after an intermediate
up, forward or down move reverts the whole scoped move. -/
theorem C7_StepUp_failure_reverts (E : FEngine) (C : UDashCharacterMovementComponent)
    (GravDir Delta : FVector) (InHit : FHitResult) (bOutStepDownResult : Bool)
    (U : USceneComponent)
    (hFail : (C.StepUp E GravDir Delta InHit bOutStepDownResult).bSteppedUp = false)
    (hU : (C.StepUp E GravDir Delta InHit bOutStepDownResult).Component.UpdatedComponent = some U) :
    U.ComponentLocation = C.GetComponentLocation ∧ U.ComponentQuat = C.GetComponentQuat := by
  have hEarly : ∀ Out : FStepUpOutcome, Out.Component = C →
      Out.Component.UpdatedComponent = some U →
      U.ComponentLocation = C.GetComponentLocation ∧ U.ComponentQuat = C.GetComponentQuat := by
    intro Out h1 h2
    rw [h1] at h2
    simp [GetComponentLocation, GetComponentQuat, h2]
  have hScoped : ∀ Out : FStepUpOutcome,
      StepUpScopedExit ⟨C.GetComponentLocation, C.GetComponentQuat⟩ Out →
      Out.bSteppedUp = false → Out.Component.UpdatedComponent = some U →
      U.ComponentLocation = C.GetComponentLocation ∧ U.ComponentQuat = C.GetComponentQuat := by
    intro Out h1 h2 h3
    rcases h1 with h1 | ⟨C2, h1⟩
    · rw [h1] at h2
      cases h2
    · subst h1
      exact stepUpRevert_restores _ _ _ h3
  unfold StepUp at hFail hU
  dsimp only at hFail hU
  split_ifs at hFail hU
  all_goals first
    | exact hEarly _ rfl hU
    | exact hScoped _ (Or.inr ⟨_, rfl⟩) hFail hU
    | exact hScoped _ (stepUpForward_exit _ _ _ _ _ _ _ _ _ _ _ _ _ _) hFail hU

/-- C7, at a step whose upward sweep starts in penetration after the capsule has
been moved up. -/
theorem C7_StepUp_failure_reverts_witness :
    (DefaultComponent.StepUp (ExampleEngine PenetratingFloor PenetratingFlatHit) ⟨0, 0, -1⟩
        ⟨10, 0, 0⟩ SideWallHit false).bSteppedUp = false
      ∧ (DefaultComponent.StepUp (ExampleEngine PenetratingFloor PenetratingFlatHit) ⟨0, 0, -1⟩
          ⟨10, 0, 0⟩ SideWallHit false).Component.UpdatedComponent = some default
      ∧ (default : USceneComponent).ComponentLocation = DefaultComponent.GetComponentLocation
      ∧ (default : USceneComponent).ComponentQuat = DefaultComponent.GetComponentQuat :=
  ⟨by decide!, by decide!,
    C7_StepUp_failure_reverts (ExampleEngine PenetratingFloor PenetratingFlatHit) DefaultComponent
      ⟨0, 0, -1⟩ ⟨10, 0, 0⟩ SideWallHit false default (by decide!) (by decide!)⟩

/-! ## Floor finding (C8, C9) -/

/-- C8 (counterexample). The floor sweep misses, `LineDistance` is positive and a
line trace from the capsule centre would hit flat walkable ground within
`LineDistance`, yet no line trace is performed and no floor is reported. -/
theorem C8_sweep_miss_counterexample :
    (ComputeFloorDist RatMath SweepMissGeometry DefaultComponent ⟨0, 0, 0⟩ (24 / 10) (24 / 10) 34
        none).SweepHit.map Prod.fst = some false
      ∧ (0 : ℚ) < 24 / 10
      ∧ DefaultComponent.IsWalkable FlatLineHit = true
      ∧ FloorHitDistance 34 FlatLineHit.Time (24 / 10 + 88) 88 ≤ 24 / 10
      ∧ ¬ ((ComputeFloorDist RatMath SweepMissGeometry DefaultComponent ⟨0, 0, 0⟩ (24 / 10) (24 / 10)
            34 none).bLineTracePerformed = true)
      ∧ ¬ ((ComputeFloorDist RatMath SweepMissGeometry DefaultComponent ⟨0, 0, 0⟩ (24 / 10) (24 / 10)
            34 none).OutFloorResult.IsWalkableFloor = true) := by
  decide!

theorem isWalkable_setFromLineTrace (C : UDashCharacterMovementComponent) (F : FFindFloorResult)
    (Hit : FHitResult) (d1 d2 : ℚ) (hF : F.HitResult.bBlockingHit = true)
    (hHit : Hit.bBlockingHit = true) :
    C.IsWalkable (F.SetFromLineTrace Hit d1 d2 true).HitResult = C.IsWalkable Hit
      ∧ (F.SetFromLineTrace Hit d1 d2 true).HitResult.IsValidBlockingHit = Hit.IsValidBlockingHit
      ∧ (F.SetFromLineTrace Hit d1 d2 true).HitResult.ImpactPoint = F.HitResult.ImpactPoint
      ∧ (F.SetFromLineTrace Hit d1 d2 true).HitResult.Location = F.HitResult.Location
      ∧ (F.SetFromLineTrace Hit d1 d2 true).bBlockingHit = F.bBlockingHit
      ∧ (F.SetFromLineTrace Hit d1 d2 true).bWalkableFloor = true
      ∧ (F.SetFromLineTrace Hit d1 d2 true).bLineTrace = true
      ∧ (F.SetFromLineTrace Hit d1 d2 true).LineDist = d2 := by
  simp [FFindFloorResult.SetFromLineTrace, hF, hHit, IsWalkable, TestWalkableZ,
    FHitResult.IsValidBlockingHit]

theorem setFromLineTrace_of_not (F : FFindFloorResult) (Hit : FHitResult) (d1 d2 : ℚ)
    (h : ¬ (F.HitResult.bBlockingHit = true ∧ Hit.bBlockingHit = true)) :
    F.SetFromLineTrace Hit d1 d2 true = F := by
  unfold FFindFloorResult.SetFromLineTrace
  rw [if_neg]
  simpa using h

theorem isWalkable_blocking (C : UDashCharacterMovementComponent) (Hit : FHitResult)
    (h : C.IsWalkable Hit = true) : Hit.IsValidBlockingHit = true ∧ Hit.bBlockingHit = true := by
  unfold IsWalkable at h
  by_cases hv : Hit.IsValidBlockingHit = true
  · refine ⟨hv, ?_⟩
    simp only [FHitResult.IsValidBlockingHit, Bool.and_eq_true] at hv
    exact hv.1
  · simp [hv] at h

theorem computeFloorDistNoFloor_post (C : UDashCharacterMovementComponent) (LD SD : ℚ)
    (F0 F : FFindFloorResult) (bS bSh bLine : Bool) (SH : Option (Bool × FHitResult))
    (hLine : bLine = true → 0 < LD ∧ (F.bBlockingHit = true ∨ F.HitResult.bStartPenetrating = true))
    (hMiss : F.bBlockingHit = false → F.HitResult.bStartPenetrating = false → bLine = false) :
    AfterSweepPost C LD SD F bS bSh SH (ComputeFloorDistNoFloor SD F0 F bS bSh bLine SH) := by
  refine ⟨rfl, rfl, rfl, rfl, hLine, ?_, ?_⟩
  · intro h1 h2
    exact ⟨hMiss h1 h2, rfl, by simp [ComputeFloorDistNoFloor, FFindFloorResult.IsWalkableFloor]⟩
  · intro _ h
    simp [ComputeFloorDistNoFloor, FFindFloorResult.IsWalkableFloor] at h

theorem computeFloorDistLineHit_post (C : UDashCharacterMovementComponent) (LD SD PR PH : ℚ)
    (F : FFindFloorResult) (bS bSh : Bool) (SH : Option (Bool × FHitResult)) (b : Bool)
    (Hit : FHitResult) (hLD : 0 < LD)
    (hF : F.bBlockingHit = true ∨ F.HitResult.bStartPenetrating = true) :
    AfterSweepPost C LD SD F bS bSh SH (ComputeFloorDistLineHit C LD SD PR PH F bS bSh SH b Hit) := by
  have hNo : ∀ F0, AfterSweepPost C LD SD F bS bSh SH
      (ComputeFloorDistNoFloor SD F0 F bS bSh true SH) := fun F0 =>
    computeFloorDistNoFloor_post C LD SD F0 F bS bSh true SH (fun _ => ⟨hLD, hF⟩)
      (fun h1 h2 => by rcases hF with h | h <;> simp_all)
  unfold ComputeFloorDistLineHit
  split_ifs with h1 h2 h3
  · simp only [Bool.and_eq_true, decide_eq_true_eq] at h3
    refine ⟨rfl, rfl, rfl, rfl, fun _ => ⟨hLD, hF⟩, ?_, ?_⟩
    · intro h4 h5
      rcases hF with h | h <;> simp_all
    · intro hFw hw
      by_cases hb : F.HitResult.bBlockingHit = true ∧ Hit.bBlockingHit = true
      · have key := isWalkable_setFromLineTrace C { F with bBlockingHit := true } Hit F.FloorDist
          (FloorHitDistance PR Hit.Time (LD + PH) PH) hb.1 hb.2
        refine ⟨rfl, ?_, ?_, key.2.2.1, key.2.2.2.1⟩
        · show (FFindFloorResult.SetFromLineTrace { F with bBlockingHit := true } Hit F.FloorDist
            (FloorHitDistance PR Hit.Time (LD + PH) PH) true).HitResult.IsValidBlockingHit = true
          rw [key.2.1]
          exact (isWalkable_blocking C Hit h3.2).1
        · show C.IsWalkable (FFindFloorResult.SetFromLineTrace { F with bBlockingHit := true } Hit
            F.FloorDist (FloorHitDistance PR Hit.Time (LD + PH) PH) true).HitResult = true
          rw [key.1]
          exact h3.2
      · exfalso
        have hno := setFromLineTrace_of_not { F with bBlockingHit := true } Hit F.FloorDist
          (FloorHitDistance PR Hit.Time (LD + PH) PH) hb
        have hw2 : (FFindFloorResult.SetFromLineTrace { F with bBlockingHit := true } Hit F.FloorDist
            (FloorHitDistance PR Hit.Time (LD + PH) PH) true).IsWalkableFloor = true := hw
        rw [hno] at hw2
        simp [FFindFloorResult.IsWalkableFloor, hFw] at hw2
  · exact hNo _
  · exact hNo _
  · exact hNo _

theorem computeFloorDistLineTrace_post (G : FGeometryQueries) (C : UDashCharacterMovementComponent)
    (loc : FVector) (LD SD PR PH : ℚ) (CD : FVector) (F : FFindFloorResult) (bS bSh : Bool)
    (SH : Option (Bool × FHitResult))
    (hF : F.bBlockingHit = true ∨ F.HitResult.bStartPenetrating = true) :
    AfterSweepPost C LD SD F bS bSh SH
      (ComputeFloorDistLineTrace G C loc LD SD PR PH CD F bS bSh SH) := by
  unfold ComputeFloorDistLineTrace
  split_ifs with h
  · exact computeFloorDistLineHit_post C LD SD PR PH F bS bSh SH _ _ h hF
  · exact computeFloorDistNoFloor_post C LD SD F F bS bSh false SH (fun h => Bool.noConfusion h)
      (fun _ _ => rfl)

theorem computeFloorDistAfterSweep_post (G : FGeometryQueries) (C : UDashCharacterMovementComponent)
    (loc : FVector) (LD SD PR PH : ℚ) (CD : FVector) (F : FFindFloorResult) (bS bSh : Bool)
    (SH : Option (Bool × FHitResult)) :
    AfterSweepPost C LD SD F bS bSh SH
      (ComputeFloorDistAfterSweep G C loc LD SD PR PH CD F bS bSh SH) := by
  unfold ComputeFloorDistAfterSweep
  split_ifs with h
  · refine ⟨rfl, rfl, rfl, rfl, (fun h => Bool.noConfusion h), ?_, ?_⟩
    · intro h1 _
      exact ⟨rfl, rfl, by simp [FFindFloorResult.IsWalkableFloor, h1]⟩
    · intro _ hw
      simp only [Bool.and_eq_true, Bool.not_eq_true'] at h
      simp [FFindFloorResult.IsWalkableFloor, h.1] at hw
  · apply computeFloorDistLineTrace_post
    simp only [Bool.and_eq_true, Bool.not_eq_true', not_and, Bool.not_eq_false] at h
    by_cases hb : F.bBlockingHit = true
    · exact Or.inl hb
    · exact Or.inr (h (by simpa using hb))

/-- What the line trace stage of `ComputeFloorDist` reports when the line hit is
accepted and the hit left by the sweep stage is blocking. -/
theorem computeFloorDistAfterSweep_accept (G : FGeometryQueries)
    (C : UDashCharacterMovementComponent) (loc : FVector) (LD SD PR PH : ℚ) (CD : FVector)
    (F : FFindFloorResult) (bS bSh : Bool) (SH : Option (Bool × FHitResult))
    (hLine : (ComputeFloorDistAfterSweep G C loc LD SD PR PH CD F bS bSh SH).bLineTracePerformed
      = true)
    (hAcc : LineHitAccepted C LD PR PH (C.FloorLineTrace G loc CD LD PH))
    (hB : F.HitResult.bBlockingHit = true) :
    (ComputeFloorDistAfterSweep G C loc LD SD PR PH CD F bS bSh SH).OutFloorResult.IsWalkableFloor
        = true
      ∧ (ComputeFloorDistAfterSweep G C loc LD SD PR PH CD F bS bSh SH).OutFloorResult.bLineTrace
        = true
      ∧ (ComputeFloorDistAfterSweep G C loc LD SD PR PH CD F bS bSh SH).OutFloorResult.LineDist
        = FloorHitDistance PR (C.FloorLineTrace G loc CD LD PH).2.Time (LD + PH) PH := by
  obtain ⟨a1, a2, a3, a4⟩ := hAcc
  have hbl := (isWalkable_blocking C _ a4).2
  have hpost := computeFloorDistAfterSweep_post G C loc LD SD PR PH CD F bS bSh SH
  have hLD : 0 < LD := (hpost.2.2.2.2.1 hLine).1
  have hgate : (!F.bBlockingHit && !F.HitResult.bStartPenetrating) = false := by
    rcases (hpost.2.2.2.2.1 hLine).2 with h | h <;> simp [h]
  have key := isWalkable_setFromLineTrace C { F with bBlockingHit := true }
    (C.FloorLineTrace G loc CD LD PH).2 F.FloorDist
    (FloorHitDistance PR (C.FloorLineTrace G loc CD LD PH).2.Time (LD + PH) PH) hB hbl
  have hEq : ComputeFloorDistAfterSweep G C loc LD SD PR PH CD F bS bSh SH
      = { OutFloorResult :=
            FFindFloorResult.SetFromLineTrace { F with bBlockingHit := true }
              (C.FloorLineTrace G loc CD LD PH).2 F.FloorDist
              (FloorHitDistance PR (C.FloorLineTrace G loc CD LD PH).2.Time (LD + PH) PH) true,
          bSweepPerformed := bS, bShrunkSweepPerformed := bSh, bLineTracePerformed := true,
          SweepHit := SH, SweepStage := F, Source := EFloorSource.LineTrace } := by
    unfold ComputeFloorDistAfterSweep
    rw [hgate]
    simp only [Bool.false_eq_true, if_false]
    unfold ComputeFloorDistLineTrace
    rw [if_pos hLD]
    unfold ComputeFloorDistLineHit
    simp [a1, a2, a3, a4]
  rw [hEq]
  refine ⟨?_, key.2.2.2.2.2.2.1, key.2.2.2.2.2.2.2⟩
  simp only [FFindFloorResult.IsWalkableFloor, Bool.and_eq_true]
  exact ⟨by rw [key.2.2.2.2.1], key.2.2.2.2.2.1⟩

/-- The two guarantees for the stages of `ComputeFloorDist` after the sweep stage. -/
theorem computeFloorDistAfterSweep_full (G : FGeometryQueries) (C : UDashCharacterMovementComponent)
    (loc : FVector) (LD SD SR PR PH : ℚ) (CD : FVector) (F : FFindFloorResult) (bS bSh : Bool)
    (SH : Option (Bool × FHitResult)) (hLS : LD ≤ SD) (hFw : F.bWalkableFloor = false)
    (hEdge : (F.bBlockingHit = true ∨ F.HitResult.bStartPenetrating = true) → bSh = false →
      (bS = true → IsWithinEdgeToleranceEx loc CD SR F.HitResult.ImpactPoint = true)
        ∧ (bS = false →
          IsWithinEdgeToleranceEx F.HitResult.Location CD PR F.HitResult.ImpactPoint = true))
    (hS : ∀ S : Bool × FHitResult, SH = some S → S.1 = false → S.2.IsValidBlockingHit = false →
      S.2.bStartPenetrating = false → F.bBlockingHit = false ∧ F.HitResult.bStartPenetrating = false) :
    FloorReportPost C loc CD SR PR (ComputeFloorDistAfterSweep G C loc LD SD PR PH CD F bS bSh SH)
      ∧ LineTracePost G C loc CD LD SD PR PH
          (ComputeFloorDistAfterSweep G C loc LD SD PR PH CD F bS bSh SH) := by
  have hpost := computeFloorDistAfterSweep_post G C loc LD SD PR PH CD F bS bSh SH
  obtain ⟨p1, p2, p3, p4, p5, p6, p7⟩ := hpost
  constructor
  · intro hw
    obtain ⟨q1, q2, q3, q4, q5⟩ := p7 hFw hw
    refine ⟨q2, q3, ?_, ?_, ?_, ?_⟩
    · rw [q1]
      decide
    · rw [q1]
      intro h
      cases h
    · rw [q1]
      intro h
      cases h
    · intro _ hsh
      rw [p2] at hsh
      rw [p1, q4, q5]
      refine hEdge ?_ hsh
      by_contra hn
      simp only [not_or, Bool.not_eq_true] at hn
      have := (p6 hn.1 hn.2).2.2
      rw [hw] at this
      cases this
  · constructor
    · intro S hSome h1 h2 h3
      rw [p3] at hSome
      obtain ⟨f1, f2⟩ := hS S hSome h1 h2 h3
      obtain ⟨r1, r2, r3⟩ := p6 f1 f2
      exact ⟨r1, r3, r2⟩
    · intro hLine
      obtain ⟨l1, l2⟩ := p5 hLine
      rw [p4]
      refine ⟨l1, hLS, l2, hFw, ?_⟩
      intro hAcc hB
      exact computeFloorDistAfterSweep_accept G C loc LD SD PR PH CD F bS bSh SH hLine hAcc hB

theorem computeFloorDistSweepHit_full (G : FGeometryQueries) (C : UDashCharacterMovementComponent)
    (loc : FVector) (LD SD SR PR PH : ℚ) (CD : FVector) (bSh : Bool) (Swept : Bool × FHitResult)
    (TD ShH : ℚ) (hLS : LD ≤ SD)
    (hEdge : bSh = false → IsWithinEdgeToleranceEx loc CD SR Swept.2.ImpactPoint = true) :
    FloorReportPost C loc CD SR PR
        (ComputeFloorDistSweepHit G C loc LD SD PR PH CD bSh Swept TD ShH)
      ∧ LineTracePost G C loc CD LD SD PR PH
          (ComputeFloorDistSweepHit G C loc LD SD PR PH CD bSh Swept TD ShH) := by
  unfold ComputeFloorDistSweepHit
  by_cases h : (Swept.2.IsValidBlockingHit && C.IsWalkable Swept.2
      && decide (FloorHitDistance PR Swept.2.Time TD ShH ≤ SD)) = true
  · rw [if_pos h]
    simp only [Bool.and_eq_true, decide_eq_true_eq] at h
    obtain ⟨⟨h1, h2⟩, _⟩ := h
    constructor
    · intro _
      refine ⟨h1, h2, ?_, ?_, ?_, ?_⟩
      · cases bSh <;> simp
      · cases bSh <;> simp
      · intro hsrc
        cases bSh
        · exact hEdge rfl
        · simp at hsrc
      · cases bSh <;> simp
    · constructor
      · intro S hSome _ h4 _
        simp only [Option.some.injEq] at hSome
        subst hSome
        rw [h1] at h4
        cases h4
      · intro hl
        cases hl
  · rw [if_neg h]
    apply computeFloorDistAfterSweep_full G C loc LD SD SR PR PH CD _ true bSh (some Swept) hLS rfl
    · intro _ hsh
      exact ⟨fun _ => hEdge hsh, fun hc => Bool.noConfusion hc⟩
    · intro S hSome _ h2 h3
      simp only [Option.some.injEq] at hSome
      subst hSome
      exact ⟨h2, h3⟩

theorem computeFloorDistFirstSweep_full (G : FGeometryQueries) (C : UDashCharacterMovementComponent)
    (loc : FVector) (LD SD SR PR PH : ℚ) (CD : FVector) (Swept : Bool × FHitResult)
    (hLS : LD ≤ SD) :
    FloorReportPost C loc CD SR PR (ComputeFloorDistFirstSweep G C loc LD SD SR PR PH CD Swept)
      ∧ LineTracePost G C loc CD LD SD PR PH
          (ComputeFloorDistFirstSweep G C loc LD SD SR PR PH CD Swept) := by
  unfold ComputeFloorDistFirstSweep
  by_cases h1 : Swept.1 = true
  · rw [if_pos h1]
    by_cases h2 : (Swept.2.bStartPenetrating
        || !IsWithinEdgeToleranceEx loc CD SR Swept.2.ImpactPoint) = true
    · rw [if_pos h2]
      exact computeFloorDistSweepHit_full G C loc LD SD SR PR PH CD true _ _ _ hLS
        (fun hc => Bool.noConfusion hc)
    · rw [if_neg h2]
      apply computeFloorDistSweepHit_full G C loc LD SD SR PR PH CD false _ _ _ hLS
      intro _
      simp only [Bool.or_eq_true, Bool.not_eq_true', not_or, Bool.not_eq_false] at h2
      exact h2.2
  · rw [if_neg h1]
    apply computeFloorDistAfterSweep_full G C loc LD SD SR PR PH CD _ true false (some Swept) hLS rfl
    · intro hc _
      rcases hc with hc | hc <;> cases hc
    · intro S _ _ _ _
      exact ⟨rfl, rfl⟩

theorem computeFloorDistSweep_full (G : FGeometryQueries) (C : UDashCharacterMovementComponent)
    (loc : FVector) (LD SD SR PR PH : ℚ) (CD : FVector) (F : FFindFloorResult) (bSkip : Bool)
    (hFw : F.bWalkableFloor = false)
    (hNoSkip : bSkip = false → F = FFindFloorResult.Cleared)
    (hSkip : bSkip = true →
      IsWithinEdgeToleranceEx F.HitResult.Location CD PR F.HitResult.ImpactPoint = true) :
    FloorReportPost C loc CD SR PR (ComputeFloorDistSweep G C loc LD SD SR PR PH CD F bSkip)
      ∧ LineTracePost G C loc CD LD SD PR PH
          (ComputeFloorDistSweep G C loc LD SD SR PR PH CD F bSkip) := by
  unfold ComputeFloorDistSweep
  by_cases h1 : SD < LD
  · rw [if_pos h1]
    refine ⟨?_, ?_, ?_⟩
    · intro hw
      simp [FFindFloorResult.IsWalkableFloor, hFw] at hw
    · intro S hS
      cases hS
    · intro hl
      cases hl
  · rw [if_neg h1]
    have hLS : LD ≤ SD := not_lt.1 h1
    by_cases h2 : bSkip = true
    · rw [if_pos h2]
      apply computeFloorDistAfterSweep_full G C loc LD SD SR PR PH CD F false false none hLS hFw
      · intro _ _
        exact ⟨fun hc => Bool.noConfusion hc, fun _ => hSkip h2⟩
      · intro S hS
        cases hS
    · rw [if_neg h2]
      have hF : F = FFindFloorResult.Cleared := hNoSkip (by simpa using h2)
      by_cases h3 : (decide (SD > 0) && decide (SR > 0)) = true
      · rw [if_pos h3]
        exact computeFloorDistFirstSweep_full G C loc LD SD SR PR PH CD _ hLS
      · rw [if_neg h3]
        apply computeFloorDistAfterSweep_full G C loc LD SD SR PR PH CD F false false none hLS hFw
        · intro hc _
          subst hF
          rcases hc with hc | hc <;> cases hc
        · intro S hS
          cases hS

/-- The two guarantees of `ComputeFloorDist`. -/
theorem computeFloorDist_full (M : FMath) (G : FGeometryQueries)
    (C : UDashCharacterMovementComponent) (loc : FVector) (LD SD SR : ℚ)
    (DownwardSweepResult : Option FHitResult) :
    FloorReportPost C loc (C.GetComponentAxisZ * (-1 : ℚ)) SR
        (C.CharacterOwner.getD default).ScaledCapsuleRadius
        (ComputeFloorDist M G C loc LD SD SR DownwardSweepResult)
      ∧ LineTracePost G C loc (C.GetComponentAxisZ * (-1 : ℚ)) LD SD
          (C.CharacterOwner.getD default).ScaledCapsuleRadius
          (C.CharacterOwner.getD default).ScaledCapsuleHalfHeight
          (ComputeFloorDist M G C loc LD SD SR DownwardSweepResult) := by
  unfold ComputeFloorDist
  split_ifs with h0
  · refine ⟨?_, ?_, ?_⟩
    · intro hw
      simp [FFindFloorResult.IsWalkableFloor, FFindFloorResult.Cleared] at hw
    · intro S hS
      cases hS
    · intro hl
      cases hl
  · unfold ComputeFloorDistSupplied
    cases hsup : DownwardSweepResult.filter (C.UsesSuppliedSweep M) with
    | none =>
      simp only
      apply computeFloorDistSweep_full G C loc LD SD SR _ _ _ _ false rfl (fun _ => rfl)
      intro hc
      cases hc
    | some Hit =>
      simp only
      have hUse : C.UsesSuppliedSweep M Hit = true := by
        have := Option.mem_def.2 hsup
        rw [Option.mem_filter_iff] at this
        exact this.2
      simp only [UsesSuppliedSweep, Bool.and_eq_true] at hUse
      obtain ⟨⟨u1, _⟩, u3⟩ := hUse
      by_cases hw : C.IsWalkable Hit = true
      · rw [if_pos hw]
        refine ⟨?_, ?_, ?_⟩
        · intro _
          refine ⟨u1, hw, by simp, fun _ => u3, fun hc => ?_, fun hc => ?_⟩
          · cases hc
          · cases hc
        · intro S hS
          cases hS
        · intro hl
          cases hl
      · rw [if_neg hw]
        apply computeFloorDistSweep_full G C loc LD SD SR _ _ _ _ true rfl
        · intro hc
          cases hc
        · intro _
          exact u3

/-- C8 (amended). In `ComputeFloorDist`, when the last floor sweep finds nothing
(no blocking hit and no start in penetration), no line trace is performed and no
floor is reported, with `FloorDist = SweepDistance`. The line trace from the
capsule centre is performed only when `0 < LineDistance <= SweepDistance` and the
sweep stage left a blocking or start-penetrating hit that was not accepted as a
walkable floor; a walkable line hit with positive time within `LineDistance` is then
returned as the floor, provided the hit left by the sweep stage is blocking. -/
theorem C8_line_trace_only_after_sweep_hit (M : FMath) (G : FGeometryQueries)
    (C : UDashCharacterMovementComponent) (CapsuleLocation : FVector)
    (LineDistance SweepDistance SweepRadius : ℚ) (DownwardSweepResult : Option FHitResult) :
    (∀ S : Bool × FHitResult,
        (ComputeFloorDist M G C CapsuleLocation LineDistance SweepDistance SweepRadius
          DownwardSweepResult).SweepHit = some S →
        S.1 = false → S.2.IsValidBlockingHit = false → S.2.bStartPenetrating = false →
        (ComputeFloorDist M G C CapsuleLocation LineDistance SweepDistance SweepRadius
            DownwardSweepResult).bLineTracePerformed = false
          ∧ (ComputeFloorDist M G C CapsuleLocation LineDistance SweepDistance SweepRadius
              DownwardSweepResult).OutFloorResult.IsWalkableFloor = false
          ∧ (ComputeFloorDist M G C CapsuleLocation LineDistance SweepDistance SweepRadius
              DownwardSweepResult).OutFloorResult.FloorDist = SweepDistance)
      ∧ ((ComputeFloorDist M G C CapsuleLocation LineDistance SweepDistance SweepRadius
            DownwardSweepResult).bLineTracePerformed = true →
          0 < LineDistance ∧ LineDistance ≤ SweepDistance
            ∧ ((ComputeFloorDist M G C CapsuleLocation LineDistance SweepDistance SweepRadius
                  DownwardSweepResult).SweepStage.bBlockingHit = true
                ∨ (ComputeFloorDist M G C CapsuleLocation LineDistance SweepDistance SweepRadius
                  DownwardSweepResult).SweepStage.HitResult.bStartPenetrating = true)
            ∧ (ComputeFloorDist M G C CapsuleLocation LineDistance SweepDistance SweepRadius
                DownwardSweepResult).SweepStage.bWalkableFloor = false
            ∧ (LineHitAccepted C LineDistance (C.CharacterOwner.getD default).ScaledCapsuleRadius
                  (C.CharacterOwner.getD default).ScaledCapsuleHalfHeight
                  (C.FloorLineTrace G CapsuleLocation (C.GetComponentAxisZ * (-1 : ℚ)) LineDistance
                    (C.CharacterOwner.getD default).ScaledCapsuleHalfHeight) →
                (ComputeFloorDist M G C CapsuleLocation LineDistance SweepDistance SweepRadius
                  DownwardSweepResult).SweepStage.HitResult.bBlockingHit = true →
                (ComputeFloorDist M G C CapsuleLocation LineDistance SweepDistance SweepRadius
                    DownwardSweepResult).OutFloorResult.IsWalkableFloor = true
                  ∧ (ComputeFloorDist M G C CapsuleLocation LineDistance SweepDistance SweepRadius
                      DownwardSweepResult).OutFloorResult.bLineTrace = true
                  ∧ (ComputeFloorDist M G C CapsuleLocation LineDistance SweepDistance SweepRadius
                      DownwardSweepResult).OutFloorResult.LineDist
                    = FloorHitDistance (C.CharacterOwner.getD default).ScaledCapsuleRadius
                        (C.FloorLineTrace G CapsuleLocation (C.GetComponentAxisZ * (-1 : ℚ))
                          LineDistance
                          (C.CharacterOwner.getD default).ScaledCapsuleHalfHeight).2.Time
                        (LineDistance + (C.CharacterOwner.getD default).ScaledCapsuleHalfHeight)
                        (C.CharacterOwner.getD default).ScaledCapsuleHalfHeight)) :=
  (computeFloorDist_full M G C CapsuleLocation LineDistance SweepDistance SweepRadius
    DownwardSweepResult).2

/-- C8 (amended), at a floor sweep that hits a slope too steep to walk on over
flat ground found by the line trace. -/
theorem C8_line_trace_only_after_sweep_hit_witness :
    (ComputeFloorDist RatMath SteepSweepGeometry DefaultComponent ⟨0, 0, 0⟩ (24 / 10) (24 / 10) 34
        none).bLineTracePerformed = true
      ∧ LineHitAccepted DefaultComponent (24 / 10) 34 88
          (DefaultComponent.FloorLineTrace SteepSweepGeometry ⟨0, 0, 0⟩
            (DefaultComponent.GetComponentAxisZ * (-1 : ℚ)) (24 / 10) 88)
      ∧ (ComputeFloorDist RatMath SteepSweepGeometry DefaultComponent ⟨0, 0, 0⟩ (24 / 10) (24 / 10) 34
          none).OutFloorResult.IsWalkableFloor = true
      ∧ (ComputeFloorDist RatMath SteepSweepGeometry DefaultComponent ⟨0, 0, 0⟩ (24 / 10) (24 / 10) 34
          none).OutFloorResult.bLineTrace = true :=
  have hAcc : LineHitAccepted DefaultComponent (24 / 10) 34 88
      (DefaultComponent.FloorLineTrace SteepSweepGeometry ⟨0, 0, 0⟩
        (DefaultComponent.GetComponentAxisZ * (-1 : ℚ)) (24 / 10) 88) := by
    refine ⟨by decide!, by decide!, by decide!, by decide!⟩
  have h := ((C8_line_trace_only_after_sweep_hit RatMath SteepSweepGeometry DefaultComponent
    ⟨0, 0, 0⟩ (24 / 10) (24 / 10) 34 none).2 (by decide!)).2.2.2.2 hAcc (by decide!)
  ⟨by decide!, hAcc, h.1, h.2.1⟩

/-- An impact point within the radius of the shrunken capsule of the second floor
sweep passes the edge tolerance test for the radius of the first sweep. -/
theorem isWithinEdgeTolerance_of_shrunk (loc CD : FVector) (SR : ℚ) (P : FVector)
    (h : (loc + CD * (FVector.Dot (P - loc) CD) - P).SizeSquared
      ≤ Square (max 0 (SR - SWEEP_EDGE_REJECT_DISTANCE - KINDA_SMALL_NUMBER))) :
    IsWithinEdgeToleranceEx loc CD SR P = true := by
  unfold IsWithinEdgeToleranceEx
  simp only [decide_eq_true_eq]
  refine lt_of_le_of_lt h ?_
  unfold Square
  have hk : (0 : ℚ) < KINDA_SMALL_NUMBER := by norm_num [KINDA_SMALL_NUMBER]
  have h0 : (0 : ℚ) ≤ max 0 (SR - SWEEP_EDGE_REJECT_DISTANCE - KINDA_SMALL_NUMBER) :=
    le_max_left _ _
  have hlt : max 0 (SR - SWEEP_EDGE_REJECT_DISTANCE - KINDA_SMALL_NUMBER)
      < max KINDA_SMALL_NUMBER (SR - SWEEP_EDGE_REJECT_DISTANCE) := by
    apply max_lt
    · exact lt_of_lt_of_le hk (le_max_left _ _)
    · exact lt_of_lt_of_le (by linarith) (le_max_right _ _)
  exact mul_self_lt_mul_self h0 hlt

theorem computeFloorDistAfterSweep_edge (G : FGeometryQueries) (C : UDashCharacterMovementComponent)
    (loc : FVector) (LD SD PR PH : ℚ) (CD : FVector) (F : FFindFloorResult) (bS bSh : Bool)
    (SH : Option (Bool × FHitResult)) (CL : FVector) (R : ℚ) (hFw : F.bWalkableFloor = false)
    (hEdge : (F.bBlockingHit = true ∨ F.HitResult.bStartPenetrating = true) →
      IsWithinEdgeToleranceEx CL CD R F.HitResult.ImpactPoint = true)
    (hw : (ComputeFloorDistAfterSweep G C loc LD SD PR PH CD F bS bSh SH).OutFloorResult.IsWalkableFloor
      = true) :
    IsWithinEdgeToleranceEx CL CD R
      (ComputeFloorDistAfterSweep G C loc LD SD PR PH CD F bS bSh
        SH).OutFloorResult.HitResult.ImpactPoint = true := by
  obtain ⟨_, _, _, _, _, p6, p7⟩ := computeFloorDistAfterSweep_post G C loc LD SD PR PH CD F bS bSh SH
  obtain ⟨_, _, _, q4, _⟩ := p7 hFw hw
  rw [q4]
  apply hEdge
  by_contra hn
  simp only [not_or, Bool.not_eq_true] at hn
  have := (p6 hn.1 hn.2).2.2
  rw [hw] at this
  cases this

theorem isValidBlockingHit_blocking (Hit : FHitResult) (h : Hit.IsValidBlockingHit = true) :
    Hit.bBlockingHit = true := by
  simp only [FHitResult.IsValidBlockingHit, Bool.and_eq_true] at h
  exact h.1

theorem computeFloorDistSweepHit_edge (G : FGeometryQueries) (C : UDashCharacterMovementComponent)
    (loc : FVector) (LD SD SR PR PH : ℚ) (CD : FVector) (bSh : Bool) (Swept : Bool × FHitResult)
    (TD ShH : ℚ)
    (hEdge : (Swept.2.bBlockingHit = true ∨ Swept.2.bStartPenetrating = true) →
      IsWithinEdgeToleranceEx loc CD SR Swept.2.ImpactPoint = true)
    (hw : (ComputeFloorDistSweepHit G C loc LD SD PR PH CD bSh Swept TD
      ShH).OutFloorResult.IsWalkableFloor = true) :
    IsWithinEdgeToleranceEx loc CD SR
      (ComputeFloorDistSweepHit G C loc LD SD PR PH CD bSh Swept TD
        ShH).OutFloorResult.HitResult.ImpactPoint = true := by
  unfold ComputeFloorDistSweepHit at hw ⊢
  by_cases h : (Swept.2.IsValidBlockingHit && C.IsWalkable Swept.2
      && decide (FloorHitDistance PR Swept.2.Time TD ShH ≤ SD)) = true
  · rw [if_pos h]
    simp only [Bool.and_eq_true, decide_eq_true_eq] at h
    exact hEdge (Or.inl (isValidBlockingHit_blocking _ h.1.1))
  · rw [if_neg h] at hw ⊢
    apply computeFloorDistAfterSweep_edge G C loc LD SD PR PH CD _ true bSh (some Swept) loc SR rfl
      _ hw
    intro hF
    apply hEdge
    rcases hF with hF | hF
    · exact Or.inl (isValidBlockingHit_blocking _ hF)
    · exact Or.inr hF

theorem computeFloorDistFirstSweep_edge (G : FGeometryQueries) (C : UDashCharacterMovementComponent)
    (loc : FVector) (LD SD SR PR PH : ℚ) (CD : FVector)
    (hSweeps : FloorSweepsTouchWithinRadius G C loc CD) (TD0 : ℚ) (Shape0 : FCollisionShape)
    (hw : (ComputeFloorDistFirstSweep G C loc LD SD SR PR PH CD
      (C.FloorSweepTest G loc (loc + CD * TD0) Shape0)).OutFloorResult.IsWalkableFloor = true) :
    IsWithinEdgeToleranceEx loc CD SR
      (ComputeFloorDistFirstSweep G C loc LD SD SR PR PH CD
        (C.FloorSweepTest G loc (loc + CD * TD0) Shape0)).OutFloorResult.HitResult.ImpactPoint
      = true := by
  unfold ComputeFloorDistFirstSweep at hw ⊢
  by_cases h1 : (C.FloorSweepTest G loc (loc + CD * TD0) Shape0).1 = true
  · rw [if_pos h1] at hw ⊢
    by_cases h2 : ((C.FloorSweepTest G loc (loc + CD * TD0) Shape0).2.bStartPenetrating
        || !IsWithinEdgeToleranceEx loc CD SR
          (C.FloorSweepTest G loc (loc + CD * TD0) Shape0).2.ImpactPoint) = true
    · rw [if_pos h2] at hw ⊢
      apply computeFloorDistSweepHit_edge G C loc LD SD SR PR PH CD true _ _ _ _ hw
      intro hB
      apply isWithinEdgeTolerance_of_shrunk loc CD SR
      exact hSweeps _ _ _ hB
    · rw [if_neg h2] at hw ⊢
      apply computeFloorDistSweepHit_edge G C loc LD SD SR PR PH CD false _ _ _ _ hw
      intro _
      simp only [Bool.or_eq_true, Bool.not_eq_true', not_or, Bool.not_eq_false] at h2
      exact h2.2
  · rw [if_neg h1] at hw ⊢
    apply computeFloorDistAfterSweep_edge G C loc LD SD PR PH CD _ true false _ loc SR rfl _ hw
    intro hc
    rcases hc with hc | hc <;> cases hc

theorem computeFloorDistSweep_edge (G : FGeometryQueries) (C : UDashCharacterMovementComponent)
    (loc : FVector) (LD SD SR PR PH : ℚ) (CD : FVector) (F : FFindFloorResult) (bSkip : Bool)
    (hSweeps : FloorSweepsTouchWithinRadius G C loc CD) (hFw : F.bWalkableFloor = false)
    (hNoSkip : bSkip = false → F = FFindFloorResult.Cleared)
    (hw : (ComputeFloorDistSweep G C loc LD SD SR PR PH CD F bSkip).OutFloorResult.IsWalkableFloor
      = true) :
    (bSkip = false →
        IsWithinEdgeToleranceEx loc CD SR
          (ComputeFloorDistSweep G C loc LD SD SR PR PH CD F
            bSkip).OutFloorResult.HitResult.ImpactPoint = true)
      ∧ (bSkip = true →
        IsWithinEdgeToleranceEx F.HitResult.Location CD PR F.HitResult.ImpactPoint = true →
        IsWithinEdgeToleranceEx F.HitResult.Location CD PR
          (ComputeFloorDistSweep G C loc LD SD SR PR PH CD F
            bSkip).OutFloorResult.HitResult.ImpactPoint = true) := by
  unfold ComputeFloorDistSweep at hw ⊢
  by_cases h1 : SD < LD
  · rw [if_pos h1] at hw
    simp [FFindFloorResult.IsWalkableFloor, hFw] at hw
  · rw [if_neg h1] at hw ⊢
    by_cases h2 : bSkip = true
    · rw [if_pos h2] at hw ⊢
      constructor
      · intro hc
        rw [h2] at hc
        cases hc
      · intro _ hIn
        exact computeFloorDistAfterSweep_edge G C loc LD SD PR PH CD F false false none
          F.HitResult.Location PR hFw (fun _ => hIn) hw
    · rw [if_neg h2] at hw ⊢
      have hF : F = FFindFloorResult.Cleared := hNoSkip (by simpa using h2)
      constructor
      · intro _
        by_cases h3 : (decide (SD > 0) && decide (SR > 0)) = true
        · rw [if_pos h3] at hw ⊢
          exact computeFloorDistFirstSweep_edge G C loc LD SD SR PR PH CD hSweeps _ _ hw
        · rw [if_neg h3] at hw ⊢
          apply computeFloorDistAfterSweep_edge G C loc LD SD PR PH CD F false false none loc SR
            hFw _ hw
          intro hc
          subst hF
          rcases hc with hc | hc <;> cases hc
      · intro hc
        exact absurd hc h2

/-- The impact point of a floor reported by `ComputeFloorDist` passes the edge
tolerance test when the floor sweeps touch within the swept radius: against the
location of the supplied sweep result and the pawn radius when that result is
used, and against the capsule location and the sweep radius otherwise. -/
theorem computeFloorDist_edge (M : FMath) (G : FGeometryQueries)
    (C : UDashCharacterMovementComponent) (loc : FVector) (LD SD SR : ℚ)
    (DownwardSweepResult : Option FHitResult)
    (hSweeps : FloorSweepsTouchWithinRadius G C loc (C.GetComponentAxisZ * (-1 : ℚ)))
    (hw : (ComputeFloorDist M G C loc LD SD SR DownwardSweepResult).OutFloorResult.IsWalkableFloor
      = true) :
    (DownwardSweepResult.filter (C.UsesSuppliedSweep M) = none →
        IsWithinEdgeToleranceEx loc (C.GetComponentAxisZ * (-1 : ℚ)) SR
          (ComputeFloorDist M G C loc LD SD SR
            DownwardSweepResult).OutFloorResult.HitResult.ImpactPoint = true)
      ∧ (∀ Hit : FHitResult, DownwardSweepResult.filter (C.UsesSuppliedSweep M) = some Hit →
        IsWithinEdgeToleranceEx Hit.Location (C.GetComponentAxisZ * (-1 : ℚ))
          (C.CharacterOwner.getD default).ScaledCapsuleRadius
          (ComputeFloorDist M G C loc LD SD SR
            DownwardSweepResult).OutFloorResult.HitResult.ImpactPoint = true) := by
  unfold ComputeFloorDist at hw ⊢
  by_cases h0 : (!(C.UpdatedComponent.getD default).bQueryCollisionEnabled) = true
  · rw [if_pos h0] at hw
    simp [FFindFloorResult.IsWalkableFloor, FFindFloorResult.Cleared] at hw
  · rw [if_neg h0] at hw ⊢
    unfold ComputeFloorDistSupplied at hw ⊢
    cases hsup : DownwardSweepResult.filter (C.UsesSuppliedSweep M) with
    | none =>
      rw [hsup] at hw
      simp only at hw ⊢
      constructor
      · intro _
        exact (computeFloorDistSweep_edge G C loc LD SD SR _ _ _ _ false hSweeps rfl
          (fun _ => rfl) hw).1 rfl
      · intro Hit hc
        cases hc
    | some Hit0 =>
      rw [hsup] at hw
      simp only at hw ⊢
      have hUse : C.UsesSuppliedSweep M Hit0 = true := by
        have := Option.mem_def.2 hsup
        rw [Option.mem_filter_iff] at this
        exact this.2
      simp only [UsesSuppliedSweep, Bool.and_eq_true] at hUse
      obtain ⟨_, u3⟩ := hUse
      constructor
      · intro hc
        cases hc
      · intro Hit hEq
        simp only [Option.some.injEq] at hEq
        subst hEq
        by_cases hwk : C.IsWalkable Hit0 = true
        · rw [if_pos hwk]
          exact u3
        · rw [if_neg hwk] at hw ⊢
          exact (computeFloorDistSweep_edge G C loc LD SD SR _ _ _ _ true hSweeps rfl
            (fun hc => Bool.noConfusion hc) hw).2 rfl u3


/-- The sweeps of `LedgeGeometry` touch within the swept radius: the rim hit of the
capsule of radius 34 is 34 units away from the axis, and the hit of every other
capsule is on the axis. -/
theorem ledgeGeometry_touches_within_radius :
    FloorSweepsTouchWithinRadius LedgeGeometry DefaultComponent ⟨0, 0, 0⟩
      (DefaultComponent.GetComponentAxisZ * (-1 : ℚ)) := by
  have hCD : DefaultComponent.GetComponentAxisZ * (-1 : ℚ) = ⟨0, 0, -1⟩ := by decide!
  have hFlat : DefaultComponent.bUseFlatBaseForFloorChecks = false := by decide!
  intro TD R HH _
  rw [hCD]
  have hS : DefaultComponent.FloorSweepTest LedgeGeometry ⟨0, 0, 0⟩
      ((⟨0, 0, 0⟩ : FVector) + (⟨0, 0, -1⟩ : FVector) * TD) (FCollisionShape.Capsule R HH)
      = if R = 34 then (true, RimFloorHit) else (true, FlatFloorHit) := by
    simp only [FloorSweepTest, hFlat, Bool.not_false, if_true, LedgeGeometry,
      FCollisionShape.GetCapsuleRadius]
  rw [hS]
  by_cases hR : R = 34
  · rw [if_pos hR, hR]
    decide!
  · rw [if_neg hR]
    have h0 : ((⟨0, 0, 0⟩ : FVector)
        + (⟨0, 0, -1⟩ : FVector)
          * (FVector.Dot (((true, FlatFloorHit) : Bool × FHitResult).2.ImpactPoint - ⟨0, 0, 0⟩)
              ⟨0, 0, -1⟩)
        - ((true, FlatFloorHit) : Bool × FHitResult).2.ImpactPoint).SizeSquared = 0 := by
      decide!
    rw [h0]
    exact mul_self_nonneg R

/-- C9. Whenever `ComputeFloorDist` reports a walkable floor, the hit stored in the
result is a valid blocking hit that passes `IsWalkable`, and its impact point
passes the edge tolerance test `IsWithinEdgeToleranceEx`: against the location of
the supplied sweep result and the pawn radius when that result is used (for the
reused hit and for a line trace that follows it), and against the capsule location
and the sweep radius otherwise (for the first sweep, the shrunken-capsule sweep
and a line trace that follows them). The first sweep and the supplied result are
tested by the code; the shrunken-capsule sweep passes because floor sweeps touch
within the swept radius, and the shrunken radius is below the reduced radius of
the test; the line trace keeps the impact point of the sweep before it. -/
theorem C9_reported_floor_is_valid (M : FMath) (G : FGeometryQueries)
    (C : UDashCharacterMovementComponent) (CapsuleLocation : FVector)
    (LineDistance SweepDistance SweepRadius : ℚ) (DownwardSweepResult : Option FHitResult)
    (hSweeps : FloorSweepsTouchWithinRadius G C CapsuleLocation (C.GetComponentAxisZ * (-1 : ℚ)))
    (hWalkable : (ComputeFloorDist M G C CapsuleLocation LineDistance SweepDistance SweepRadius
      DownwardSweepResult).OutFloorResult.IsWalkableFloor = true) :
    (ComputeFloorDist M G C CapsuleLocation LineDistance SweepDistance SweepRadius
        DownwardSweepResult).OutFloorResult.HitResult.IsValidBlockingHit = true
      ∧ C.IsWalkable (ComputeFloorDist M G C CapsuleLocation LineDistance SweepDistance SweepRadius
          DownwardSweepResult).OutFloorResult.HitResult = true
      ∧ (DownwardSweepResult.filter (C.UsesSuppliedSweep M) = none →
          IsWithinEdgeToleranceEx CapsuleLocation (C.GetComponentAxisZ * (-1 : ℚ)) SweepRadius
            (ComputeFloorDist M G C CapsuleLocation LineDistance SweepDistance SweepRadius
              DownwardSweepResult).OutFloorResult.HitResult.ImpactPoint = true)
      ∧ (∀ Hit : FHitResult, DownwardSweepResult.filter (C.UsesSuppliedSweep M) = some Hit →
          IsWithinEdgeToleranceEx Hit.Location (C.GetComponentAxisZ * (-1 : ℚ))
            (C.CharacterOwner.getD default).ScaledCapsuleRadius
            (ComputeFloorDist M G C CapsuleLocation LineDistance SweepDistance SweepRadius
              DownwardSweepResult).OutFloorResult.HitResult.ImpactPoint = true) :=
  ⟨((computeFloorDist_full M G C CapsuleLocation LineDistance SweepDistance SweepRadius
      DownwardSweepResult).1 hWalkable).1,
    ((computeFloorDist_full M G C CapsuleLocation LineDistance SweepDistance SweepRadius
      DownwardSweepResult).1 hWalkable).2.1,
    (computeFloorDist_edge M G C CapsuleLocation LineDistance SweepDistance SweepRadius
      DownwardSweepResult hSweeps hWalkable).1,
    (computeFloorDist_edge M G C CapsuleLocation LineDistance SweepDistance SweepRadius
      DownwardSweepResult hSweeps hWalkable).2⟩

/-- C9, at a ledge at the rim of the capsule: the hit of the first sweep, 34 units
off the axis, fails the edge tolerance test, the shrunken capsule passes the ledge
and hits flat ground straight below, and that hit is reported: a valid blocking
walkable hit whose impact point passes the test for the sweep radius 34. -/
theorem C9_reported_floor_is_valid_witness :
    FloorSweepsTouchWithinRadius LedgeGeometry DefaultComponent ⟨0, 0, 0⟩
        (DefaultComponent.GetComponentAxisZ * (-1 : ℚ))
      ∧ (ComputeFloorDist RatMath LedgeGeometry DefaultComponent ⟨0, 0, 0⟩ (24 / 10) (24 / 10) 34
          none).OutFloorResult.IsWalkableFloor = true
      ∧ (ComputeFloorDist RatMath LedgeGeometry DefaultComponent ⟨0, 0, 0⟩ (24 / 10) (24 / 10) 34
          none).Source = EFloorSource.ShrunkSweep
      ∧ (ComputeFloorDist RatMath LedgeGeometry DefaultComponent ⟨0, 0, 0⟩ (24 / 10) (24 / 10) 34
          none).OutFloorResult.HitResult.IsValidBlockingHit = true
      ∧ DefaultComponent.IsWalkable (ComputeFloorDist RatMath LedgeGeometry DefaultComponent
          ⟨0, 0, 0⟩ (24 / 10) (24 / 10) 34 none).OutFloorResult.HitResult = true
      ∧ IsWithinEdgeToleranceEx ⟨0, 0, 0⟩ (DefaultComponent.GetComponentAxisZ * (-1 : ℚ)) 34
          (ComputeFloorDist RatMath LedgeGeometry DefaultComponent ⟨0, 0, 0⟩ (24 / 10) (24 / 10) 34
            none).OutFloorResult.HitResult.ImpactPoint = true :=
  have h := C9_reported_floor_is_valid RatMath LedgeGeometry DefaultComponent ⟨0, 0, 0⟩ (24 / 10)
    (24 / 10) 34 none ledgeGeometry_touches_within_radius (by decide!)
  ⟨ledgeGeometry_touches_within_radius, by decide!, by decide!, h.1, h.2.1, h.2.2.1 rfl⟩


/-! ## Braking (C10) -/

theorem sq_sum_nonneg (x y z : ℚ) : 0 ≤ x * x + y * y + z * z := by
  nlinarith [mul_self_nonneg x, mul_self_nonneg y, mul_self_nonneg z]

theorem FVector.sizeSquared_nonneg (V : FVector) : 0 ≤ V.SizeSquared := sq_sum_nonneg _ _ _

theorem isScaledBack_refl (V : FVector) : IsScaledBack V V :=
  ⟨1, by norm_num, le_rfl, by cases V; simp [FVector.mul_def]⟩

theorem isScaledBack_zero (V : FVector) : IsScaledBack FVector.ZeroVector V :=
  ⟨0, le_rfl, by norm_num, by simp [FVector.mul_def, FVector.ZeroVector]⟩

theorem isScaledBack_trans (V3 V2 V : FVector) (h1 : IsScaledBack V3 V2) (h2 : IsScaledBack V2 V) :
    IsScaledBack V3 V := by
  obtain ⟨c1, a1, b1, e1⟩ := h1
  obtain ⟨c2, a2, b2, e2⟩ := h2
  refine ⟨c2 * c1, mul_nonneg a2 a1, ?_, ?_⟩
  · calc c2 * c1 ≤ 1 * 1 := mul_le_mul b2 b1 a1 (by norm_num)
      _ = 1 := by norm_num
  · rw [e1, e2]
    simp [FVector.mul_def, mul_assoc]

/-- A vector scaled back is no longer than the original and does not point
against it. -/
theorem isScaledBack_bounds (V2 V : FVector) (h : IsScaledBack V2 V) :
    V2.SizeSquared ≤ V.SizeSquared ∧ 0 ≤ FVector.Dot V2 V := by
  obtain ⟨c, a, b, e⟩ := h
  subst e
  have hs : 0 ≤ V.X * V.X + V.Y * V.Y + V.Z * V.Z := sq_sum_nonneg _ _ _
  have hc : c * c ≤ 1 := by nlinarith
  constructor
  · simp only [FVector.SizeSquared, FVector.mul_def]
    nlinarith
  · simp only [FVector.Dot, FVector.mul_def]
    nlinarith

theorem getSafeNormal_scaled (M : FMath) (hInv : ∀ x : ℚ, 0 ≤ x → 0 ≤ M.InvSqrt x) (V : FVector) :
    ∃ s : ℚ, 0 ≤ s ∧ V.GetSafeNormal M = V * s := by
  unfold FVector.GetSafeNormal
  simp only
  split_ifs
  · exact ⟨1, by norm_num, by cases V; simp [FVector.mul_def]⟩
  · exact ⟨0, le_rfl, by simp [FVector.mul_def, FVector.ZeroVector]⟩
  · exact ⟨_, hInv _ (sq_sum_nonneg _ _ _), rfl⟩

theorem getClampedToMaxSize_scaledBack (M : FMath) (hInv : ∀ x : ℚ, 0 ≤ x → 0 ≤ M.InvSqrt x)
    (hInvLe : ∀ x : ℚ, 0 ≤ x → M.InvSqrt x * M.InvSqrt x * x ≤ 1) (V : FVector) (MaxSize : ℚ) :
    IsScaledBack (V.GetClampedToMaxSize M MaxSize) V := by
  unfold FVector.GetClampedToMaxSize
  simp only
  split_ifs with h1 h2
  · exact isScaledBack_zero V
  · have hm : 0 < MaxSize := lt_of_lt_of_le (by norm_num [KINDA_SMALL_NUMBER]) (not_lt.1 h1)
    have hv : 0 ≤ V.SizeSquared := FVector.sizeSquared_nonneg V
    have hi := hInv _ hv
    have hle := hInvLe _ hv
    have hsc : 0 ≤ MaxSize * M.InvSqrt V.SizeSquared := mul_nonneg hm.le hi
    refine ⟨MaxSize * M.InvSqrt V.SizeSquared, hsc, ?_, rfl⟩
    unfold Square at h2
    have hii : 0 ≤ M.InvSqrt V.SizeSquared * M.InvSqrt V.SizeSquared := mul_nonneg hi hi
    have hsq : (MaxSize * M.InvSqrt V.SizeSquared) * (MaxSize * M.InvSqrt V.SizeSquared) ≤ 1 := by
      calc (MaxSize * M.InvSqrt V.SizeSquared) * (MaxSize * M.InvSqrt V.SizeSquared)
          = M.InvSqrt V.SizeSquared * M.InvSqrt V.SizeSquared * (MaxSize * MaxSize) := by ring
        _ ≤ M.InvSqrt V.SizeSquared * M.InvSqrt V.SizeSquared * V.SizeSquared :=
            mul_le_mul_of_nonneg_left h2.le hii
        _ ≤ 1 := hle
    nlinarith
  · exact isScaledBack_refl V

theorem clamp_pos (X Min Max : ℚ) (h1 : 0 < Min) (h2 : 0 < Max) : 0 < Clamp X Min Max := by
  unfold Clamp
  split_ifs with a b
  · exact h1
  · exact lt_of_lt_of_le h1 (not_lt.1 a)
  · exact h2

/-- The sub-stepping loop of the braking keeps the velocity a scaled-back copy of
the velocity the braking started with. -/
theorem applyVelocityBrakingLoop_scaledBack (Friction : ℚ) (bZeroFriction : Bool)
    (RevAccel OldVel : FVector) (MaxTimeStep : ℚ) (hF : 0 ≤ Friction) (hT : 0 < MaxTimeStep)
    (hRev : ∃ r : ℚ, 0 ≤ r ∧ RevAccel = OldVel * (-r)) :
    ∀ (fuel : Nat) (RemainingTime : ℚ) (Velocity : FVector), IsScaledBack Velocity OldVel →
      IsScaledBack
        (ApplyVelocityBrakingLoop Friction bZeroFriction RevAccel OldVel MaxTimeStep fuel
          RemainingTime Velocity).1 OldVel := by
  obtain ⟨r, hr, hRevEq⟩ := hRev
  intro fuel
  induction fuel with
  | zero =>
    intro R V hV
    exact hV
  | succ n ih =>
    intro R V hV
    unfold ApplyVelocityBrakingLoop
    by_cases hR : R ≥ MIN_TICK_TIME
    · rw [if_pos hR]
      simp only
      have hRpos : 0 < R := lt_of_lt_of_le (by norm_num [MIN_TICK_TIME]) hR
      have hdt : 0 ≤ (if (decide (R > MaxTimeStep) && !bZeroFriction) = true then
          min MaxTimeStep (R * (1 / 2)) else R) := by
        split_ifs
        · exact le_min hT.le (by positivity)
        · exact hRpos.le
      generalize (if (decide (R > MaxTimeStep) && !bZeroFriction) = true then
          min MaxTimeStep (R * (1 / 2)) else R) = dt at hdt
      split_ifs with hdot
      · exact isScaledBack_zero OldVel
      · apply ih
        obtain ⟨c, c0, c1, hc⟩ := hV
        have hEq : V + ((-Friction) * V + RevAccel) * dt
            = OldVel * (c - (Friction * c + r) * dt) := by
          rw [hc, hRevEq]
          cases OldVel
          simp only [FVector.mul_def, FVector.smul_def, FVector.add_def, FVector.mk.injEq]
          refine ⟨?_, ?_, ?_⟩ <;> ring
        rw [hEq] at hdot ⊢
        have hsub : 0 ≤ (Friction * c + r) * dt :=
          mul_nonneg (add_nonneg (mul_nonneg hF c0) hr) hdt
        refine ⟨c - (Friction * c + r) * dt, ?_, by linarith, rfl⟩
        by_contra hneg
        apply hdot
        have hs : 0 ≤ OldVel.X * OldVel.X + OldVel.Y * OldVel.Y + OldVel.Z * OldVel.Z :=
          sq_sum_nonneg _ _ _
        simp only [FVector.Dot, FVector.mul_def]
        nlinarith
    · rw [if_neg hR]
      exact hV

/-- The braking leaves the velocity a scaled-back copy of the velocity before,
and changes nothing else. -/
theorem applyVelocityBraking_scaledBack (M : FMath) (hInv : ∀ x : ℚ, 0 ≤ x → 0 ≤ M.InvSqrt x)
    (C : UDashCharacterMovementComponent) (DeltaTime Friction BrakingDeceleration : ℚ) :
    IsScaledBack (ApplyVelocityBraking M C DeltaTime Friction BrakingDeceleration).Velocity C.Velocity
      ∧ ApplyVelocityBraking M C DeltaTime Friction BrakingDeceleration
        = { C with
            Velocity := (ApplyVelocityBraking M C DeltaTime Friction BrakingDeceleration).Velocity } := by
  have hRev : ∀ B : ℚ, 0 ≤ B → ∀ bZ : Bool,
      ∃ r : ℚ, 0 ≤ r ∧ BrakingRevAccel M C.Velocity B bZ = C.Velocity * (-r) := by
    intro B hB bZ
    unfold BrakingRevAccel
    split_ifs
    · exact ⟨0, le_rfl, by simp [FVector.mul_def, FVector.ZeroVector]⟩
    · obtain ⟨s, hs, hsEq⟩ := getSafeNormal_scaled M hInv C.Velocity
      refine ⟨B * s, mul_nonneg hB hs, ?_⟩
      rw [hsEq]
      simp only [FVector.mul_def, FVector.smul_def, FVector.mk.injEq]
      refine ⟨?_, ?_, ?_⟩ <;> ring
  have hLoop := fun bZ => applyVelocityBrakingLoop_scaledBack
    (max 0 (Friction * max 0 C.BrakingFrictionFactor))
    (max 0 (Friction * max 0 C.BrakingFrictionFactor) == 0)
    (BrakingRevAccel M C.Velocity (max 0 BrakingDeceleration) bZ) C.Velocity
    (Clamp C.BrakingSubStepTime (1 / 75) (1 / 20)) (le_max_left _ _)
    (clamp_pos _ _ _ (by norm_num) (by norm_num)) (hRev _ (le_max_left _ _) bZ)
    (BrakingFuel DeltaTime) DeltaTime C.Velocity (isScaledBack_refl _)
  unfold ApplyVelocityBraking
  simp only
  split_ifs
  all_goals first
    | exact ⟨isScaledBack_refl _, rfl⟩
    | exact ⟨isScaledBack_zero _, rfl⟩
    | exact ⟨hLoop _, rfl⟩

/-- C10 (counterexample). With `bForceMaxAccel` set, `CalcVelocity` called with
zero acceleration, no path-following request, `bFluid = false` and a tick of a
sixtieth of a second speeds a character at rest up. -/
theorem C10_force_max_accel_counterexample :
    ForcedAccelAtRest.Acceleration = FVector.ZeroVector
      ∧ ForcedAccelAtRest.bHasRequestedVelocity = false
      ∧ MIN_TICK_TIME ≤ 1 / 60
      ∧ ¬ ((ForcedAccelAtRest.CalcVelocity RatMath (ExampleEngine PenetratingFloor (FHitResult.Init 1))
              (1 / 60) 8 false 2048).Velocity.SizeSquared
            ≤ ForcedAccelAtRest.Velocity.SizeSquared) := by
  decide!

/-- C10 (amended). For `CalcVelocity` called with zero `Acceleration`, no
path-following request, `bFluid = false`, `bForceMaxAccel` off and no RVO avoidance,
and any tick (so also every `deltaTime >= MIN_TICK_TIME`), the resulting velocity
is the velocity before the call scaled by a factor between 0 and 1: the speed does
not grow and the velocity has a non-negative dot product with the velocity before
the call. Speeds are compared by their squares; the inverse square root of the
engine is assumed non-negative and not above the exact one. -/
theorem C10_braking_never_speeds_up_or_reverses (M : FMath) (E : FEngine)
    (C : UDashCharacterMovementComponent) (DeltaTime Friction BrakingDeceleration : ℚ)
    (hInv : ∀ x : ℚ, 0 ≤ x → 0 ≤ M.InvSqrt x)
    (hInvLe : ∀ x : ℚ, 0 ≤ x → M.InvSqrt x * M.InvSqrt x * x ≤ 1)
    (hAcc : C.Acceleration = FVector.ZeroVector) (hReq : C.bHasRequestedVelocity = false)
    (hForce : C.bForceMaxAccel = false) (hRVO : C.bUseRVOAvoidance = false) :
    (C.CalcVelocity M E DeltaTime Friction false BrakingDeceleration).Velocity.SizeSquared
        ≤ C.Velocity.SizeSquared
      ∧ 0 ≤ FVector.Dot (C.CalcVelocity M E DeltaTime Friction false BrakingDeceleration).Velocity
          C.Velocity := by
  apply isScaledBack_bounds
  have hz : C.Acceleration.IsZero = true := (FVector.isZero_iff _).2 hAcc
  unfold CalcVelocity
  by_cases hg : (!C.HasValidData || C.bHasAnimRootMotion || decide (DeltaTime < MIN_TICK_TIME)
      || C.IsSimulatedProxy) = true
  · rw [if_pos hg]
    exact isScaledBack_refl _
  · rw [if_neg hg]
    obtain ⟨hBr, hBrEq⟩ := applyVelocityBraking_scaledBack M hInv C DeltaTime
      (if C.bUseSeparateBrakingFriction then C.BrakingFriction else max 0 Friction)
      BrakingDeceleration
    simp only [ApplyRequestedMove, CalcVelocityForceMaxAccel, CalcVelocityBrake, CalcVelocityFluid,
      CalcVelocityAccelerate, hReq, hForce, hz, Bool.false_eq_true, if_false, Bool.not_false,
      Bool.and_self, Bool.or_false, if_true, Bool.false_and]
    rw [hBrEq]
    simp only [hRVO, hAcc, Bool.false_eq_true, if_false]
    have hV : ∀ V : FVector, V + FVector.ZeroVector * DeltaTime + FVector.ZeroVector * DeltaTime = V := by
      intro V
      cases V
      simp [FVector.add_def, FVector.mul_def, FVector.ZeroVector]
    rw [hV]
    exact isScaledBack_trans _ _ _ (getClampedToMaxSize_scaledBack M hInv hInvLe _ _) hBr

/-- C10 (amended), at a character running at 300 units per second with no input. -/
theorem C10_braking_never_speeds_up_or_reverses_witness :
    (∀ x : ℚ, 0 ≤ x → 0 ≤ RatMath.InvSqrt x)
      ∧ (∀ x : ℚ, 0 ≤ x → RatMath.InvSqrt x * RatMath.InvSqrt x * x ≤ 1)
      ∧ RunningNoInput.Acceleration = FVector.ZeroVector
      ∧ MIN_TICK_TIME ≤ 1 / 60
      ∧ (RunningNoInput.CalcVelocity RatMath (ExampleEngine PenetratingFloor (FHitResult.Init 1))
            (1 / 60) 8 false 2048).Velocity.SizeSquared ≤ RunningNoInput.Velocity.SizeSquared
      ∧ 0 ≤ FVector.Dot
          (RunningNoInput.CalcVelocity RatMath (ExampleEngine PenetratingFloor (FHitResult.Init 1))
            (1 / 60) 8 false 2048).Velocity RunningNoInput.Velocity :=
  ⟨RatMath_InvSqrt_nonneg, RatMath_InvSqrt_sq_mul_le, by decide!, by decide!,
    C10_braking_never_speeds_up_or_reverses RatMath (ExampleEngine PenetratingFloor (FHitResult.Init 1))
      RunningNoInput (1 / 60) 8 2048 RatMath_InvSqrt_nonneg RatMath_InvSqrt_sq_mul_le (by decide!)
      (by decide!) (by decide!) (by decide!)⟩

/-- The braking loop is over once less than `MIN_TICK_TIME` remains. -/
theorem applyVelocityBrakingLoop_done (Friction : ℚ) (bZeroFriction : Bool)
    (RevAccel OldVel : FVector) (MaxTimeStep : ℚ) (fuel : Nat) (RemainingTime : ℚ)
    (Velocity : FVector) (h : RemainingTime < MIN_TICK_TIME) :
    ApplyVelocityBrakingLoop Friction bZeroFriction RevAccel OldVel MaxTimeStep fuel
      RemainingTime Velocity = (Velocity, false) := by
  cases fuel with
  | zero => rfl
  | succ n =>
    rw [ApplyVelocityBrakingLoop, if_neg (not_le.mpr h)]

/-- The bound `BrakingFuel` on the passes of the braking loop is enough: with a
sub-step time of at least 1/75 s (which `Clamp` gives), from
`ceil (RemainingTime * 150) + 2` passes on one more pass changes nothing. -/
theorem applyVelocityBrakingLoop_enough (Friction : ℚ) (bZeroFriction : Bool)
    (RevAccel OldVel : FVector) (MaxTimeStep : ℚ) (hMax : 1 / 75 ≤ MaxTimeStep) :
    ∀ (fuel : Nat) (RemainingTime : ℚ) (Velocity : FVector),
      Nat.ceil (RemainingTime * 150) + 2 ≤ fuel →
      ApplyVelocityBrakingLoop Friction bZeroFriction RevAccel OldVel MaxTimeStep (fuel + 1)
          RemainingTime Velocity
        = ApplyVelocityBrakingLoop Friction bZeroFriction RevAccel OldVel MaxTimeStep fuel
          RemainingTime Velocity := by
  intro fuel
  induction fuel with
  | zero =>
    intro RemainingTime Velocity h
    omega
  | succ n ih =>
    intro RemainingTime Velocity h
    have hTick : MIN_TICK_TIME = 1 / 1000000 := rfl
    have key : ∀ (dt : ℚ) (V : FVector),
        (dt = RemainingTime ∨ (1 / 150 ≤ dt ∧ 0 < RemainingTime)) →
        ApplyVelocityBrakingLoop Friction bZeroFriction RevAccel OldVel MaxTimeStep (n + 1)
            (RemainingTime - dt) V
          = ApplyVelocityBrakingLoop Friction bZeroFriction RevAccel OldVel MaxTimeStep n
            (RemainingTime - dt) V := by
      intro dt V hdt
      rcases hdt with hdt | ⟨hdt, hpos⟩
      · have hz : RemainingTime - dt < MIN_TICK_TIME := by
          rw [hdt, hTick]
          norm_num
        rw [applyVelocityBrakingLoop_done _ _ _ _ _ _ _ _ hz,
          applyVelocityBrakingLoop_done _ _ _ _ _ _ _ _ hz]
      · apply ih
        have hcpos : 0 < Nat.ceil (RemainingTime * 150) := Nat.ceil_pos.mpr (by linarith)
        obtain ⟨k, hk⟩ := Nat.exists_eq_succ_of_ne_zero (Nat.pos_iff_ne_zero.mp hcpos)
        have hle : RemainingTime * 150 ≤ ((Nat.ceil (RemainingTime * 150) : Nat) : ℚ) :=
          Nat.le_ceil _
        have hk2 : Nat.ceil ((RemainingTime - dt) * 150) ≤ k := by
          apply Nat.ceil_le.mpr
          rw [hk] at hle
          push_cast at hle
          linarith
        omega
    rw [ApplyVelocityBrakingLoop]
    conv_rhs => rw [ApplyVelocityBrakingLoop]
    by_cases hc : RemainingTime ≥ MIN_TICK_TIME
    · rw [if_pos hc, if_pos hc]
      have hpos : 0 < RemainingTime := by
        rw [hTick] at hc
        linarith
      simp only
      by_cases hb : (decide (RemainingTime > MaxTimeStep) && !bZeroFriction) = true
      · have hgt : RemainingTime > MaxTimeStep := by
          simp only [Bool.and_eq_true, decide_eq_true_eq] at hb
          exact hb.1
        have hdt : 1 / 150 ≤ min MaxTimeStep (RemainingTime * (1 / 2)) := by
          apply le_min
          · linarith
          · linarith
        simp only [if_pos hb]
        split_ifs
        · rfl
        · exact key _ _ (Or.inr ⟨hdt, hpos⟩)
      · simp only [if_neg hb]
        split_ifs
        · rfl
        · exact key _ _ (Or.inl rfl)
    · rw [if_neg hc, if_neg hc]

/-! ## Walking and the floor (C5) -/

theorem physWalkingEndOfPass_next (L : FPhysWalkingLoop) (S : FPhysWalkingSaved) (rt : ℚ)
    (b : Bool) (C : UDashCharacterMovementComponent) (L2 : FPhysWalkingLoop)
    (h : PhysWalkingEndOfPass L S rt b C = FPhysWalkingStep.Next L2) :
    L2.Iterations = S.Iterations := by
  unfold PhysWalkingEndOfPass at h
  split_ifs at h <;> cases h <;> rfl

theorem physWalkingFallCheck_next (E : FEngine) (L : FPhysWalkingLoop) (S : FPhysWalkingSaved)
    (rt : ℚ) (C : UDashCharacterMovementComponent) (L2 : FPhysWalkingLoop)
    (h : PhysWalkingFallCheck E L S rt C = FPhysWalkingStep.Next L2) :
    L2.Iterations = S.Iterations := by
  unfold PhysWalkingFallCheck at h
  split_ifs at h
  all_goals first
    | exact physWalkingEndOfPass_next _ _ _ _ _ _ h
    | (unfold PhysWalkingReturn at h; cases h)

theorem physWalkingValidate_next (E : FEngine) (L : FPhysWalkingLoop) (S : FPhysWalkingSaved)
    (rt : ℚ) (C : UDashCharacterMovementComponent) (L2 : FPhysWalkingLoop)
    (h : PhysWalkingValidate E L S rt C = FPhysWalkingStep.Next L2) :
    L2.Iterations = S.Iterations := by
  unfold PhysWalkingValidate at h
  split_ifs at h
  all_goals first
    | exact physWalkingFallCheck_next _ _ _ _ _ _ h
    | (unfold PhysWalkingReturn at h; cases h)

theorem physWalkingLedge_next (E : FEngine) (L : FPhysWalkingLoop) (S : FPhysWalkingSaved)
    (rt : ℚ) (C : UDashCharacterMovementComponent) (L2 : FPhysWalkingLoop)
    (h : PhysWalkingLedge E L S rt C = FPhysWalkingStep.Next L2) :
    L2.Iterations = S.Iterations := by
  unfold PhysWalkingLedge at h
  split_ifs at h
  all_goals first
    | (cases h; rfl)
    | (unfold PhysWalkingReturn at h; cases h)

theorem physWalkingAfterMove_next (E : FEngine) (L : FPhysWalkingLoop) (S : FPhysWalkingSaved)
    (rt : ℚ) (C : UDashCharacterMovementComponent) (R : FStepDownResult)
    (L2 : FPhysWalkingLoop) (h : PhysWalkingAfterMove E L S rt C R = FPhysWalkingStep.Next L2) :
    L2.Iterations = S.Iterations := by
  unfold PhysWalkingAfterMove at h
  simp only at h
  split_ifs at h
  all_goals first
    | exact physWalkingLedge_next _ _ _ _ _ _ h
    | exact physWalkingValidate_next _ _ _ _ _ _ h

theorem physWalkingMove_next (M : FMath) (E : FEngine) (L : FPhysWalkingLoop)
    (S : FPhysWalkingSaved) (rt : ℚ) (C : UDashCharacterMovementComponent)
    (L2 : FPhysWalkingLoop) (h : PhysWalkingMove M E L S rt C = FPhysWalkingStep.Next L2) :
    L2.Iterations = S.Iterations := by
  unfold PhysWalkingMove at h
  split_ifs at h
  all_goals first
    | exact physWalkingAfterMove_next _ _ _ _ _ _ _ h
    | (unfold PhysWalkingReturn at h; cases h)

/-- A pass of the loop of `PhysWalking` after which the loop goes on has counted
one iteration. -/
theorem physWalkingPass_next (M : FMath) (E : FEngine) (L L2 : FPhysWalkingLoop)
    (h : PhysWalkingPass M E L = FPhysWalkingStep.Next L2) :
    L2.Iterations = L.Iterations + 1 := by
  unfold PhysWalkingPass at h
  split_ifs at h
  · unfold PhysWalkingReturn at h
    cases h
  · exact physWalkingMove_next _ _ _ _ _ _ _ h

/-- The bound on the number of passes of the loop of `PhysWalking` is enough:
from `MaxSimulationIterations - Iterations` passes on, allowing one more pass
changes nothing, so the loop never stops for want of passes. -/
theorem physWalkingLoop_enough (M : FMath) (E : FEngine) (Max : Int) :
    ∀ (fuel : Nat) (L : FPhysWalkingLoop), (Max - L.Iterations).toNat ≤ fuel →
      PhysWalkingLoop M E Max (fuel + 1) L = PhysWalkingLoop M E Max fuel L := by
  intro fuel
  induction fuel with
  | zero =>
    intro L hL
    have hle : ¬ L.Iterations < Max := by omega
    simp [PhysWalkingLoop, hle]
  | succ n ih =>
    intro L hL
    rw [PhysWalkingLoop]
    conv_rhs => rw [PhysWalkingLoop]
    by_cases hc : (decide (L.remainingTime ≥ MIN_TICK_TIME) && decide (L.Iterations < Max)
        && L.Component.CanRunWalkingPhysics) = true
    · rw [if_pos hc, if_pos hc]
      cases hStep : PhysWalkingPass M E L with
      | Returned Out => rfl
      | Next L2 =>
        have hIt := physWalkingPass_next M E L L2 hStep
        exact ih L2 (by omega)
      | Break L2 => rfl
    · rw [if_neg hc, if_neg hc]

theorem cauchy_schwarz3 (a b c x y z : ℚ) :
    (a * x + b * y + c * z) * (a * x + b * y + c * z)
      ≤ (a * a + b * b + c * c) * (x * x + y * y + z * z) := by
  nlinarith [sq_nonneg (a * y - b * x), sq_nonneg (a * z - c * x), sq_nonneg (b * z - c * y)]

theorem le_of_mul_self_le_mul_self (p q : ℚ) (hq : 0 ≤ q) (h : p * p ≤ q * q) : p ≤ q := by
  by_contra hlt
  push_neg at hlt
  nlinarith

/-- Clamping to a maximal size gives a vector whose squared size is at most the
square of the maximal size. -/
theorem getClampedToMaxSize_sizeSquared_le (M : FMath)
    (hInvLe : ∀ x : ℚ, 0 ≤ x → M.InvSqrt x * M.InvSqrt x * x ≤ 1) (V : FVector) (MaxSize : ℚ) :
    (V.GetClampedToMaxSize M MaxSize).SizeSquared ≤ Square MaxSize := by
  unfold FVector.GetClampedToMaxSize
  simp only
  split_ifs with h1 h2
  · simp only [FVector.SizeSquared, FVector.ZeroVector, Square]
    nlinarith [mul_self_nonneg MaxSize]
  · have hv : 0 ≤ V.SizeSquared := FVector.sizeSquared_nonneg V
    have hle := hInvLe _ hv
    have hm : 0 ≤ MaxSize * MaxSize := mul_self_nonneg MaxSize
    have hEq : (FVector.mk (V.X * (MaxSize * M.InvSqrt V.SizeSquared))
          (V.Y * (MaxSize * M.InvSqrt V.SizeSquared))
          (V.Z * (MaxSize * M.InvSqrt V.SizeSquared))).SizeSquared
        = MaxSize * MaxSize * (M.InvSqrt V.SizeSquared * M.InvSqrt V.SizeSquared * V.SizeSquared) := by
      simp only [FVector.SizeSquared]
      ring
    rw [hEq]
    unfold Square
    calc MaxSize * MaxSize * (M.InvSqrt V.SizeSquared * M.InvSqrt V.SizeSquared * V.SizeSquared)
        ≤ MaxSize * MaxSize * 1 := mul_le_mul_of_nonneg_left hle hm
      _ = MaxSize * MaxSize := by ring
  · exact not_lt.1 h2

/-- The direction returned by safe-normalize has squared size at most 1. -/
theorem getSafeNormal_sizeSquared_le (M : FMath)
    (hInvLe : ∀ x : ℚ, 0 ≤ x → M.InvSqrt x * M.InvSqrt x * x ≤ 1) (V : FVector) :
    (V.GetSafeNormal M).SizeSquared ≤ 1 := by
  unfold FVector.GetSafeNormal
  simp only
  split_ifs with h1 h2
  · exact le_of_eq h1
  · simp [FVector.SizeSquared, FVector.ZeroVector]
  · have hle := hInvLe _ (sq_sum_nonneg V.X V.Y V.Z)
    simp only [FVector.SizeSquared]
    nlinarith

/-- The direction-change drag of `CalcVelocity`,
`Velocity - (Velocity - AccelDir * VelSize) * t` with `t` between 0 and 1, does not
make the velocity longer. -/
theorem turn_sizeSquared_le (V D : FVector) (s t : ℚ) (hD : D.SizeSquared ≤ 1)
    (hs : s * s ≤ V.SizeSquared) (ht0 : 0 ≤ t) (ht1 : t ≤ 1) :
    (V - (V - D * s) * t).SizeSquared ≤ V.SizeSquared := by
  have hQ : 0 ≤ V.SizeSquared := FVector.sizeSquared_nonneg V
  have hR : 0 ≤ D.SizeSquared := FVector.sizeSquared_nonneg D
  have hCS := cauchy_schwarz3 V.X V.Y V.Z D.X D.Y D.Z
  have hss : 0 ≤ s * s := mul_self_nonneg s
  have hP : s * FVector.Dot V D ≤ V.SizeSquared := by
    apply le_of_mul_self_le_mul_self _ _ hQ
    have h1 : FVector.Dot V D * FVector.Dot V D ≤ V.SizeSquared * 1 :=
      le_trans hCS (mul_le_mul_of_nonneg_left hD hQ)
    calc s * FVector.Dot V D * (s * FVector.Dot V D)
        = s * s * (FVector.Dot V D * FVector.Dot V D) := by ring
      _ ≤ V.SizeSquared * (V.SizeSquared * 1) :=
          mul_le_mul hs h1 (mul_self_nonneg _) hQ
      _ = V.SizeSquared * V.SizeSquared := by ring
  have hS : s * s * D.SizeSquared ≤ V.SizeSquared := by
    calc s * s * D.SizeSquared ≤ s * s * 1 := mul_le_mul_of_nonneg_left hD hss
      _ = s * s := by ring
      _ ≤ V.SizeSquared := hs
  have hEq : (V - (V - D * s) * t).SizeSquared
      = (1 - t) * (1 - t) * V.SizeSquared + 2 * (t * (1 - t)) * (s * FVector.Dot V D)
        + t * t * (s * s * D.SizeSquared) := by
    cases V
    cases D
    simp only [FVector.SizeSquared, FVector.Dot, FVector.sub_def, FVector.mul_def]
    ring
  rw [hEq]
  have ht2 : 0 ≤ t * (1 - t) := mul_nonneg ht0 (by linarith)
  have htt : 0 ≤ t * t := mul_self_nonneg t
  nlinarith [mul_le_mul_of_nonneg_left hP ht2, mul_le_mul_of_nonneg_left hS htt]

/-- Scaling by a factor between 0 and 1 does not make a vector longer. -/
theorem scale_sizeSquared_le (V : FVector) (c : ℚ) (h0 : 0 ≤ c) (h1 : c ≤ 1) :
    (V * c).SizeSquared ≤ V.SizeSquared :=
  (isScaledBack_bounds (V * c) V ⟨c, h0, h1, rfl⟩).1

theorem calcVelocityForceMaxAccel_fields (M : FMath) (C : UDashCharacterMovementComponent)
    (MaxAccel : ℚ) :
    (CalcVelocityForceMaxAccel M C MaxAccel).Velocity = C.Velocity
      ∧ (CalcVelocityForceMaxAccel M C MaxAccel).bUseRVOAvoidance = C.bUseRVOAvoidance
      ∧ (CalcVelocityForceMaxAccel M C MaxAccel).MinAnalogSpeed = C.MinAnalogSpeed
      ∧ (CalcVelocityForceMaxAccel M C MaxAccel).AnalogInputModifier
          = (if C.bForceMaxAccel then 1 else C.AnalogInputModifier) := by
  unfold CalcVelocityForceMaxAccel
  split_ifs <;> exact ⟨rfl, rfl, rfl, rfl⟩

/-- The braking-or-turning block of `CalcVelocity` does not make the velocity
longer and leaves the avoidance flag alone. -/
theorem calcVelocityBrake_le (M : FMath) (hInv : ∀ x : ℚ, 0 ≤ x → 0 ≤ M.InvSqrt x)
    (hInvLe : ∀ x : ℚ, 0 ≤ x → M.InvSqrt x * M.InvSqrt x * x ≤ 1)
    (hSqrtLe : ∀ x : ℚ, 0 ≤ x → M.Sqrt x * M.Sqrt x ≤ x)
    (C : UDashCharacterMovementComponent) (DeltaTime Friction BrakingDeceleration MaxSpeed : ℚ)
    (bZeroRequestedAcceleration : Bool) (hT : 0 ≤ DeltaTime * Friction) :
    (CalcVelocityBrake M C DeltaTime Friction BrakingDeceleration MaxSpeed
        bZeroRequestedAcceleration).Velocity.SizeSquared ≤ C.Velocity.SizeSquared
      ∧ (CalcVelocityBrake M C DeltaTime Friction BrakingDeceleration MaxSpeed
        bZeroRequestedAcceleration).bUseRVOAvoidance = C.bUseRVOAvoidance := by
  have hB : ∀ F : ℚ,
      (ApplyVelocityBraking M C DeltaTime F BrakingDeceleration).Velocity.SizeSquared
          ≤ C.Velocity.SizeSquared
        ∧ (ApplyVelocityBraking M C DeltaTime F BrakingDeceleration).bUseRVOAvoidance
          = C.bUseRVOAvoidance := by
    intro F
    obtain ⟨h1, h2⟩ := applyVelocityBraking_scaledBack M hInv C DeltaTime F BrakingDeceleration
    exact ⟨(isScaledBack_bounds _ _ h1).1, by rw [h2]⟩
  unfold CalcVelocityBrake
  simp only [Bool.or_false, Bool.false_and, Bool.false_eq_true, if_false]
  by_cases h1 : (C.Acceleration.IsZero && bZeroRequestedAcceleration) = true
  · rw [if_pos h1]
    exact hB _
  · rw [if_neg h1]
    by_cases h2 : (!C.Acceleration.IsZero) = true
    · rw [if_pos h2]
      refine ⟨?_, rfl⟩
      apply turn_sizeSquared_le
      · exact getSafeNormal_sizeSquared_le M hInvLe _
      · exact hSqrtLe _ (sq_sum_nonneg _ _ _)
      · exact le_min hT (by norm_num)
      · exact min_le_right _ _
    · rw [if_neg h2]
      exact ⟨le_rfl, rfl⟩

theorem calcVelocityFluid_le (C : UDashCharacterMovementComponent) (DeltaTime Friction : ℚ)
    (bFluid : Bool) (hT : 0 ≤ Friction * DeltaTime) :
    (CalcVelocityFluid C DeltaTime Friction bFluid).Velocity.SizeSquared ≤ C.Velocity.SizeSquared
      ∧ (CalcVelocityFluid C DeltaTime Friction bFluid).bUseRVOAvoidance = C.bUseRVOAvoidance := by
  unfold CalcVelocityFluid
  split_ifs
  · refine ⟨?_, rfl⟩
    apply scale_sizeSquared_le
    · have := min_le_right (Friction * DeltaTime) 1
      linarith
    · have := le_min hT (show (0 : ℚ) ≤ 1 by norm_num)
      linarith
  · exact ⟨le_rfl, rfl⟩

/-- The acceleration block of `CalcVelocity` leaves a velocity no longer than the
larger of `MaxSpeed` and the speed it found. -/
theorem calcVelocityAccelerate_le (M : FMath)
    (hInvLe : ∀ x : ℚ, 0 ≤ x → M.InvSqrt x * M.InvSqrt x * x ≤ 1)
    (hSqrtLe : ∀ x : ℚ, 0 ≤ x → M.Sqrt x * M.Sqrt x ≤ x)
    (C : UDashCharacterMovementComponent) (DeltaTime MaxSpeed : ℚ) (RequestedAcceleration : FVector) :
    (CalcVelocityAccelerate M C DeltaTime MaxSpeed RequestedAcceleration).Velocity.SizeSquared
        ≤ max (Square MaxSpeed) C.Velocity.SizeSquared
      ∧ (CalcVelocityAccelerate M C DeltaTime MaxSpeed RequestedAcceleration).bUseRVOAvoidance
          = C.bUseRVOAvoidance := by
  refine ⟨?_, rfl⟩
  unfold CalcVelocityAccelerate
  simp only
  refine le_trans (getClampedToMaxSize_sizeSquared_le M hInvLe _ _) ?_
  split_ifs
  · exact le_trans (hSqrtLe _ (sq_sum_nonneg _ _ _)) (le_max_right _ _)
  · exact le_max_left _ _

/-- `CalcVelocity` without a path-following request and without RVO avoidance
leaves a velocity no longer than the larger of the `MaxSpeed` it clamps to and the
velocity it started with. -/
theorem calcVelocity_sizeSquared_le (M : FMath) (E : FEngine)
    (C : UDashCharacterMovementComponent) (DeltaTime Friction : ℚ) (bFluid : Bool)
    (BrakingDeceleration : ℚ)
    (hInv : ∀ x : ℚ, 0 ≤ x → 0 ≤ M.InvSqrt x)
    (hInvLe : ∀ x : ℚ, 0 ≤ x → M.InvSqrt x * M.InvSqrt x * x ≤ 1)
    (hSqrtLe : ∀ x : ℚ, 0 ≤ x → M.Sqrt x * M.Sqrt x ≤ x)
    (hReq : C.bHasRequestedVelocity = false) (hRVO : C.bUseRVOAvoidance = false) :
    (C.CalcVelocity M E DeltaTime Friction bFluid BrakingDeceleration).Velocity.SizeSquared
      ≤ max (Square C.CalcVelocityMaxSpeed) C.Velocity.SizeSquared := by
  unfold CalcVelocity
  by_cases hg : (!C.HasValidData || C.bHasAnimRootMotion || decide (DeltaTime < MIN_TICK_TIME)
      || C.IsSimulatedProxy) = true
  · rw [if_pos hg]
    exact le_max_right _ _
  · rw [if_neg hg]
    have hdt : 0 ≤ DeltaTime := by
      simp only [Bool.or_eq_true, decide_eq_true_eq, not_or, not_lt] at hg
      exact le_trans (by norm_num [MIN_TICK_TIME]) hg.1.2
    have hF : (0 : ℚ) ≤ max 0 Friction := le_max_left _ _
    obtain ⟨f1, f2, f3, f4⟩ := calcVelocityForceMaxAccel_fields M C C.MaxAcceleration
    simp only [ApplyRequestedMove, hReq, Bool.false_eq_true, if_false, Bool.not_false]
    obtain ⟨b1, b2⟩ := calcVelocityBrake_le M hInv hInvLe hSqrtLe
      (CalcVelocityForceMaxAccel M C C.MaxAcceleration) DeltaTime (max 0 Friction)
      BrakingDeceleration
      (Max3 0 (C.MaxSpeed * (CalcVelocityForceMaxAccel M C C.MaxAcceleration).AnalogInputModifier)
        (CalcVelocityForceMaxAccel M C C.MaxAcceleration).MinAnalogSpeed) true (mul_nonneg hdt hF)
    obtain ⟨c1, c2⟩ := calcVelocityFluid_le
      (CalcVelocityBrake M (CalcVelocityForceMaxAccel M C C.MaxAcceleration) DeltaTime (max 0 Friction)
        BrakingDeceleration
        (Max3 0 (C.MaxSpeed * (CalcVelocityForceMaxAccel M C C.MaxAcceleration).AnalogInputModifier)
          (CalcVelocityForceMaxAccel M C C.MaxAcceleration).MinAnalogSpeed) true)
      DeltaTime (max 0 Friction) bFluid (mul_nonneg hF hdt)
    obtain ⟨d1, d2⟩ := calcVelocityAccelerate_le M hInvLe hSqrtLe
      (CalcVelocityFluid
        (CalcVelocityBrake M (CalcVelocityForceMaxAccel M C C.MaxAcceleration) DeltaTime
          (max 0 Friction) BrakingDeceleration
          (Max3 0 (C.MaxSpeed * (CalcVelocityForceMaxAccel M C C.MaxAcceleration).AnalogInputModifier)
            (CalcVelocityForceMaxAccel M C C.MaxAcceleration).MinAnalogSpeed) true)
        DeltaTime (max 0 Friction) bFluid)
      DeltaTime
      (Max3 0 (C.MaxSpeed * (CalcVelocityForceMaxAccel M C C.MaxAcceleration).AnalogInputModifier)
        (CalcVelocityForceMaxAccel M C C.MaxAcceleration).MinAnalogSpeed)
      FVector.ZeroVector
    rw [d2, c2, b2, f2, hRVO] at *
    simp only [Bool.false_eq_true, if_false]
    refine le_trans d1 (max_le_max ?_ ?_)
    · unfold CalcVelocityMaxSpeed
      rw [f3, f4]
    · rw [← f1]
      exact le_trans c1 b1

/-- C11. After `CalcVelocity` with no path-following request and no RVO avoidance
(for every acceleration, so also for every non-zero one), the speed is at most the
larger of `MaxSpeed` and the speed at the start of the step: at most `MaxSpeed`
when the character started at or below it, and at most the speed at the start
when it started above. `MaxSpeed` is the value the function clamps to,
`Max3(RequestedSpeed, MaxSpeed * AnalogInputModifier, GetMinAnalogSpeed())`; with
an analog input modifier between 0 and 1 and a minimal analog speed not above
`GetMaxSpeed()` the same holds for `GetMaxSpeed()` itself. Speeds are compared by
their squares; the square roots of the engine are assumed not to overshoot. -/
theorem C11_speed_bounded_by_max_or_start (M : FMath) (E : FEngine)
    (C : UDashCharacterMovementComponent) (DeltaTime Friction : ℚ) (bFluid : Bool)
    (BrakingDeceleration : ℚ)
    (hInv : ∀ x : ℚ, 0 ≤ x → 0 ≤ M.InvSqrt x)
    (hInvLe : ∀ x : ℚ, 0 ≤ x → M.InvSqrt x * M.InvSqrt x * x ≤ 1)
    (hSqrtLe : ∀ x : ℚ, 0 ≤ x → M.Sqrt x * M.Sqrt x ≤ x)
    (hReq : C.bHasRequestedVelocity = false) (hRVO : C.bUseRVOAvoidance = false) :
    (C.CalcVelocity M E DeltaTime Friction bFluid BrakingDeceleration).Velocity.SizeSquared
        ≤ max (Square C.CalcVelocityMaxSpeed) C.Velocity.SizeSquared
      ∧ (C.Velocity.SizeSquared ≤ Square C.CalcVelocityMaxSpeed →
          (C.CalcVelocity M E DeltaTime Friction bFluid BrakingDeceleration).Velocity.SizeSquared
            ≤ Square C.CalcVelocityMaxSpeed)
      ∧ (Square C.CalcVelocityMaxSpeed < C.Velocity.SizeSquared →
          (C.CalcVelocity M E DeltaTime Friction bFluid BrakingDeceleration).Velocity.SizeSquared
            ≤ C.Velocity.SizeSquared)
      ∧ (0 ≤ C.AnalogInputModifier → C.AnalogInputModifier ≤ 1 → C.MinAnalogSpeed ≤ C.MaxSpeed →
          (C.CalcVelocity M E DeltaTime Friction bFluid BrakingDeceleration).Velocity.SizeSquared
            ≤ max (Square C.MaxSpeed) C.Velocity.SizeSquared) := by
  have key := calcVelocity_sizeSquared_le M E C DeltaTime Friction bFluid BrakingDeceleration
    hInv hInvLe hSqrtLe hReq hRVO
  refine ⟨key, ?_, ?_, ?_⟩
  · intro h
    exact le_trans key (max_le le_rfl h)
  · intro h
    exact le_trans key (max_le h.le le_rfl)
  · intro h0 h1 hMin
    refine le_trans key (max_le_max ?_ le_rfl)
    have ha : 0 ≤ (if C.bForceMaxAccel = true then (1 : ℚ) else C.AnalogInputModifier)
        ∧ (if C.bForceMaxAccel = true then (1 : ℚ) else C.AnalogInputModifier) ≤ 1 := by
      split_ifs
      · exact ⟨by norm_num, le_rfl⟩
      · exact ⟨h0, h1⟩
    obtain ⟨a0, a1⟩ := ha
    unfold CalcVelocityMaxSpeed Max3 Square
    generalize (if C.bForceMaxAccel = true then (1 : ℚ) else C.AnalogInputModifier) = a at a0 a1
    have hlo : 0 ≤ max (max 0 (C.MaxSpeed * a)) C.MinAnalogSpeed :=
      le_trans (le_max_left _ _) (le_max_left _ _)
    by_cases hm : 0 ≤ C.MaxSpeed
    · have hhi : max (max 0 (C.MaxSpeed * a)) C.MinAnalogSpeed ≤ C.MaxSpeed :=
        max_le (max_le hm (by nlinarith)) hMin
      exact mul_le_mul hhi hhi hlo hm
    · push_neg at hm
      have hz : max (max 0 (C.MaxSpeed * a)) C.MinAnalogSpeed = 0 := by
        apply le_antisymm _ hlo
        exact max_le (max_le le_rfl (by nlinarith)) (by linarith)
      rw [hz]
      nlinarith [mul_self_nonneg C.MaxSpeed]

/-- C11, at a character running at 300 units per second along X that accelerates
along Y, for a tick of a sixtieth of a second. -/
theorem C11_speed_bounded_by_max_or_start_witness :
    (∀ x : ℚ, 0 ≤ x → 0 ≤ RatMath.InvSqrt x)
      ∧ (∀ x : ℚ, 0 ≤ x → RatMath.InvSqrt x * RatMath.InvSqrt x * x ≤ 1)
      ∧ (∀ x : ℚ, 0 ≤ x → RatMath.Sqrt x * RatMath.Sqrt x ≤ x)
      ∧ RunningTurning.Acceleration ≠ FVector.ZeroVector
      ∧ RunningTurning.bHasRequestedVelocity = false
      ∧ RunningTurning.bUseRVOAvoidance = false
      ∧ ((RunningTurning.CalcVelocity RatMath (ExampleEngine PenetratingFloor (FHitResult.Init 1))
            (1 / 60) 8 false 2048).Velocity.SizeSquared
          ≤ max (Square RunningTurning.CalcVelocityMaxSpeed) RunningTurning.Velocity.SizeSquared
        ∧ (RunningTurning.Velocity.SizeSquared ≤ Square RunningTurning.CalcVelocityMaxSpeed →
            (RunningTurning.CalcVelocity RatMath (ExampleEngine PenetratingFloor (FHitResult.Init 1))
              (1 / 60) 8 false 2048).Velocity.SizeSquared
              ≤ Square RunningTurning.CalcVelocityMaxSpeed)
        ∧ (Square RunningTurning.CalcVelocityMaxSpeed < RunningTurning.Velocity.SizeSquared →
            (RunningTurning.CalcVelocity RatMath (ExampleEngine PenetratingFloor (FHitResult.Init 1))
              (1 / 60) 8 false 2048).Velocity.SizeSquared
              ≤ RunningTurning.Velocity.SizeSquared)
        ∧ (0 ≤ RunningTurning.AnalogInputModifier → RunningTurning.AnalogInputModifier ≤ 1 →
            RunningTurning.MinAnalogSpeed ≤ RunningTurning.MaxSpeed →
            (RunningTurning.CalcVelocity RatMath (ExampleEngine PenetratingFloor (FHitResult.Init 1))
              (1 / 60) 8 false 2048).Velocity.SizeSquared
              ≤ max (Square RunningTurning.MaxSpeed) RunningTurning.Velocity.SizeSquared)) :=
  ⟨RatMath_InvSqrt_nonneg, RatMath_InvSqrt_sq_mul_le, RatMath_Sqrt_sq_le, by decide!, by decide!,
    by decide!,
    C11_speed_bounded_by_max_or_start RatMath (ExampleEngine PenetratingFloor (FHitResult.Init 1))
      RunningTurning (1 / 60) 8 false 2048 RatMath_InvSqrt_nonneg RatMath_InvSqrt_sq_mul_le
      RatMath_Sqrt_sq_le (by decide!) (by decide!)⟩

/-- With a non-zero acceleration, no path-following request and `bForceMaxAccel`
off, the result of `CalcVelocity` does not depend on the braking deceleration:
the braking is not run, whatever the speed. -/
theorem calcVelocity_ignores_braking (M : FMath) (E : FEngine)
    (C : UDashCharacterMovementComponent) (DeltaTime Friction : ℚ) (bFluid : Bool) (B1 B2 : ℚ)
    (hAcc : C.Acceleration.IsZero = false) (hReq : C.bHasRequestedVelocity = false)
    (hForce : C.bForceMaxAccel = false) :
    C.CalcVelocity M E DeltaTime Friction bFluid B1 = C.CalcVelocity M E DeltaTime Friction bFluid B2 := by
  unfold CalcVelocity
  simp only [ApplyRequestedMove, CalcVelocityForceMaxAccel, CalcVelocityBrake, hReq, hForce, hAcc,
    Bool.false_eq_true, if_false, Bool.not_false, Bool.false_and, Bool.or_false, if_true]

/-- C12 (the claim fails). A character running at 1000 units per second, above its
maximal speed of 600, with a non-zero acceleration along its velocity: after
`CalcVelocity` for a tick of a sixtieth of a second with ground friction 8 and
braking deceleration 2048 the velocity is what it was, and it is the same as with
braking deceleration 0: no braking deceleration is applied. -/
theorem C12_no_braking_above_max_speed_counterexample :
    OverSpeedRunning.IsExceedingMaxSpeed OverSpeedRunning.MaxSpeed = true
      ∧ OverSpeedRunning.Acceleration ≠ FVector.ZeroVector
      ∧ OverSpeedRunning.bHasRequestedVelocity = false
      ∧ (OverSpeedRunning.CalcVelocity RatMath (ExampleEngine PenetratingFloor (FHitResult.Init 1))
          (1 / 60) 8 false 2048).Velocity = ⟨1000, 0, 0⟩
      ∧ (OverSpeedRunning.CalcVelocity RatMath (ExampleEngine PenetratingFloor (FHitResult.Init 1))
          (1 / 60) 8 false 2048).Velocity
        = (OverSpeedRunning.CalcVelocity RatMath (ExampleEngine PenetratingFloor (FHitResult.Init 1))
          (1 / 60) 8 false 0).Velocity := by
  decide!

/-- C12 (amended). `CalcVelocity` applies the braking deceleration only when there
is no acceleration. In the block `Apply braking or deceleration`, without a
path-following request, a zero acceleration runs `ApplyVelocityBraking` with the
braking deceleration, and a non-zero acceleration, with or without a request, only
turns the velocity toward the acceleration by friction, whatever the speed. So
without a path-following request and with an acceleration that is non-zero after
the block `bForceMaxAccel`, the result of `CalcVelocity` is the same for every
braking deceleration, also when the speed exceeds the maximal speed. -/
theorem C12_braking_only_without_acceleration (M : FMath) (E : FEngine)
    (C : UDashCharacterMovementComponent) (DeltaTime Friction : ℚ) (bFluid : Bool)
    (hReq : C.bHasRequestedVelocity = false) :
    (∀ (D : UDashCharacterMovementComponent) (B MaxSpeed : ℚ), D.Acceleration.IsZero = true →
        CalcVelocityBrake M D DeltaTime Friction B MaxSpeed true
          = ApplyVelocityBraking M D DeltaTime
              (if D.bUseSeparateBrakingFriction then D.BrakingFriction else Friction) B)
      ∧ (∀ (D : UDashCharacterMovementComponent) (B MaxSpeed : ℚ) (bZeroRequestedAcceleration : Bool),
          D.Acceleration.IsZero = false →
          CalcVelocityBrake M D DeltaTime Friction B MaxSpeed bZeroRequestedAcceleration
            = { D with
                Velocity := D.Velocity
                  - (D.Velocity - D.Acceleration.GetSafeNormal M * D.Velocity.Size M)
                    * min (DeltaTime * Friction) 1 })
      ∧ ((CalcVelocityForceMaxAccel M C C.MaxAcceleration).Acceleration.IsZero = false →
          ∀ B1 B2 : ℚ,
            C.CalcVelocity M E DeltaTime Friction bFluid B1
              = C.CalcVelocity M E DeltaTime Friction bFluid B2) := by
  refine ⟨?_, ?_, ?_⟩
  · intro D B MaxSpeed hZero
    simp only [CalcVelocityBrake, hZero, Bool.and_self, Bool.or_false, if_true, Bool.false_and,
      Bool.false_eq_true, if_false]
  · intro D B MaxSpeed z hAcc
    simp only [CalcVelocityBrake, hAcc, Bool.false_and, Bool.or_false, Bool.false_eq_true, if_false,
      Bool.not_false, if_true]
  · intro hAcc B1 B2
    unfold CalcVelocity
    simp only [ApplyRequestedMove, hReq, Bool.false_eq_true, if_false, Bool.not_false]
    simp only [CalcVelocityBrake, hAcc, Bool.false_and, Bool.or_false, Bool.false_eq_true, if_false,
      Bool.not_false, if_true]

/-- C12 (amended), at the character running above its maximal speed with a
non-zero acceleration: braking decelerations 2048 and 0 give the same result. -/
theorem C12_braking_only_without_acceleration_witness :
    OverSpeedRunning.bHasRequestedVelocity = false
      ∧ (CalcVelocityForceMaxAccel RatMath OverSpeedRunning
          OverSpeedRunning.MaxAcceleration).Acceleration.IsZero = false
      ∧ OverSpeedRunning.CalcVelocity RatMath (ExampleEngine PenetratingFloor (FHitResult.Init 1))
          (1 / 60) 8 false 2048
        = OverSpeedRunning.CalcVelocity RatMath (ExampleEngine PenetratingFloor (FHitResult.Init 1))
          (1 / 60) 8 false 0 :=
  ⟨by decide!, by decide!,
    (C12_braking_only_without_acceleration RatMath (ExampleEngine PenetratingFloor (FHitResult.Init 1))
      OverSpeedRunning (1 / 60) 8 false (by decide!)).2.2 (by decide!) 2048 0⟩

/-! ## Falling: the free-fall sub-step (C13) -/

theorem FVector.planeProject_zero (N : FVector) :
    FVector.VectorPlaneProject FVector.ZeroVector N = FVector.ZeroVector := by
  simp [FVector.VectorPlaneProject, FVector.ProjectOnToNormal, FVector.Dot, FVector.ZeroVector,
    FVector.sub_def, FVector.mul_def]

theorem FVector.zero_add_vec (V : FVector) : FVector.ZeroVector + V = V := by
  cases V
  simp [FVector.ZeroVector, FVector.add_def]

theorem FVector.eq_of_planeProject_zero (V N : FVector)
    (h : FVector.VectorPlaneProject V N = FVector.ZeroVector) : N * FVector.Dot V N = V := by
  unfold FVector.VectorPlaneProject FVector.ProjectOnToNormal at h
  exact ((FVector.sub_eq_zero_iff _ _).1 h).symm

/-- `CalcVelocity` leaves a character alone that has neither velocity nor
acceleration and is not driven by `bForceMaxAccel`, a path-following request or
RVO avoidance. -/
theorem calcVelocity_at_rest (M : FMath) (E : FEngine) (C : UDashCharacterMovementComponent)
    (DeltaTime Friction BrakingDeceleration : ℚ)
    (hV : C.Velocity = FVector.ZeroVector) (hA : C.Acceleration = FVector.ZeroVector)
    (hForce : C.bForceMaxAccel = false) (hReq : C.bHasRequestedVelocity = false)
    (hRVO : C.bUseRVOAvoidance = false) :
    C.CalcVelocity M E DeltaTime Friction false BrakingDeceleration = C := by
  have hz : C.Acceleration.IsZero = true := (FVector.isZero_iff _).2 hA
  have hvz : C.Velocity.IsZero = true := (FVector.isZero_iff _).2 hV
  have hBr : ∀ F B : ℚ, ApplyVelocityBraking M C DeltaTime F B = C := by
    intro F B
    unfold ApplyVelocityBraking
    simp [hvz]
  have hClamp : ∀ S : ℚ, FVector.GetClampedToMaxSize M FVector.ZeroVector S = FVector.ZeroVector := by
    intro S
    unfold FVector.GetClampedToMaxSize
    simp only
    split_ifs with h1 h2
    · rfl
    · exfalso
      simp only [FVector.SizeSquared, FVector.ZeroVector, Square] at h2
      nlinarith [mul_self_nonneg S]
    · rfl
  have hSum : C.Velocity + C.Acceleration * DeltaTime + FVector.ZeroVector * DeltaTime
      = FVector.ZeroVector := by
    rw [hV, hA]
    simp [FVector.ZeroVector, FVector.add_def, FVector.mul_def]
  have hC : { C with Velocity := FVector.ZeroVector } = C := by
    cases C
    simp only at hV
    subst hV
    rfl
  unfold CalcVelocity
  by_cases hg : (!C.HasValidData || C.bHasAnimRootMotion || decide (DeltaTime < MIN_TICK_TIME)
      || C.IsSimulatedProxy) = true
  · rw [if_pos hg]
  · rw [if_neg hg]
    simp only [ApplyRequestedMove, CalcVelocityForceMaxAccel, CalcVelocityBrake, CalcVelocityFluid,
      CalcVelocityAccelerate, hReq, hForce, hz, hBr, hSum, hClamp, hRVO, hC, Bool.false_eq_true,
      if_false, Bool.not_false, Bool.and_self, Bool.or_false, if_true, Bool.false_and]
    clear hBr hSum hC hz hvz hg
    cases C
    simp only at hV hForce hReq hRVO
    subst hV hForce hReq hRVO
    rfl

/-- The block `Apply input.` of the loop of `PhysFalling` changes nothing in a
free-fall state without air control. -/
theorem physFallingInput_free (M : FMath) (E : FEngine) (C : UDashCharacterMovementComponent)
    (GravityDir : FVector) (timeTick : ℚ) (h : IsFreeFallState C GravityDir) :
    PhysFallingInput M E C GravityDir FVector.ZeroVector timeTick
      = { Component := C, VelocityNoAirControl := C.Velocity } := by
  obtain ⟨hAnim, hOver, _, hForce, hReq, hRVO, _, hLat⟩ := h
  have hCalc := calcVelocity_at_rest M E
    { C with Acceleration := FVector.ZeroVector, Velocity := FVector.ZeroVector }
    timeTick C.FallingLateralFriction C.BrakingDecelerationFalling rfl rfl hForce hReq hRVO
  have hBack : FVector.VectorPlaneProject FVector.ZeroVector GravityDir
      + GravityDir * FVector.Dot C.Velocity GravityDir = C.Velocity := by
    rw [FVector.planeProject_zero, FVector.zero_add_vec, FVector.eq_of_planeProject_zero _ _ hLat]
  have hNo : ¬ (FVector.ZeroVector.SizeSquared > 0) := by
    simp [FVector.SizeSquared, FVector.ZeroVector]
  unfold PhysFallingInput
  simp only [hAnim, hOver, Bool.not_false, Bool.and_self, if_true, if_neg hNo]
  unfold PhysFallingComputeVelocity PhysFallingLateral
  simp only [hLat, hCalc, hBack]

theorem FVector.along_unit (N V : FVector) (hU : N.SizeSquared = 1) (hV : ∃ c : ℚ, V = N * c) :
    FVector.VectorPlaneProject V N = FVector.ZeroVector ∧ N * FVector.Dot V N = V := by
  obtain ⟨c, rfl⟩ := hV
  cases N with
  | mk x y z =>
    simp only [FVector.SizeSquared] at hU
    have hd : x * c * x + y * c * y + z * c * z = c := by linear_combination c * hU
    simp only [FVector.VectorPlaneProject, FVector.ProjectOnToNormal, FVector.Dot, FVector.mul_def,
      FVector.sub_def, FVector.ZeroVector, FVector.mk.injEq, hd]
    refine ⟨⟨?_, ?_, ?_⟩, trivial⟩ <;> ring

/-- The state in which a free-fall pass of the loop of `PhysFalling` requests its
move: gravity has been added to the velocity, nothing else has changed. -/
theorem physFallingBeforeMove_free (M : FMath) (E : FEngine) (R : FRootMotionEngine)
    (F : FFallingEngine) (C : UDashCharacterMovementComponent) (GravityDir : FVector)
    (timeTick : ℚ) (h : IsFreeFallState C GravityDir) :
    PhysFallingBeforeMove M E R F GravityDir FVector.ZeroVector timeTick C
      = { C with Velocity := C.Velocity + C.GetGravity M * timeTick } := by
  have hIn := physFallingInput_free M E C GravityDir timeTick h
  obtain ⟨hAnim, hOver, hAdd, _, _, _, hApex, _⟩ := h
  unfold PhysFallingBeforeMove
  rw [hIn]
  simp only [NewFallVelocity, ApplyRootMotionToVelocityOVERRIDEN, ApplyRootMotionAdditive,
    ApplyRootMotionLiftoff, PhysFallingNotifyApex, hAnim, hOver, hAdd, hApex, Bool.false_and,
    Bool.false_eq_true, if_false]

theorem isFreeFallState_teleported (C : UDashCharacterMovementComponent) (GravityDir : FVector)
    (h : IsFreeFallState C GravityDir) :
    IsFreeFallState { C with bJustTeleported := false } GravityDir := h

/-- A free-fall sub-step of `PhysFalling` requests the trapezoid displacement, goes
on with the loop and leaves the velocity increased by gravity times the sub-step. -/
theorem physFallingSubStep_free (M : FMath) (E : FEngine) (R : FRootMotionEngine)
    (F : FFallingEngine) (GravityDir : FVector) (timeTick RemainingTime : ℚ) (Iterations : Int)
    (C : UDashCharacterMovementComponent) (h : IsFreeFallSubStep M E F GravityDir timeTick C) :
    PhysFallingRequestedMove M E R F GravityDir FVector.ZeroVector timeTick C
        = (1 / 2 : ℚ) * (C.Velocity + (C.Velocity + C.GetGravity M * timeTick)) * timeTick
      ∧ PhysFallingSubStep M E R F GravityDir FVector.ZeroVector timeTick RemainingTime Iterations C
        = FPhysFallingStep.Next
          { Component :=
              (PhysFallingSubStep M E R F GravityDir FVector.ZeroVector timeTick RemainingTime
                Iterations C).Component,
            RemainingTime := RemainingTime, Iterations := Iterations }
      ∧ (PhysFallingSubStep M E R F GravityDir FVector.ZeroVector timeTick RemainingTime
          Iterations C).Component.Velocity = C.Velocity + C.GetGravity M * timeTick := by
  obtain ⟨hRestore, hState, hUnit, ⟨k, hk⟩, hHit, hValid, hSwim, hVel⟩ := h
  have hBefore := physFallingBeforeMove_free M E R F { C with bJustTeleported := false } GravityDir
    timeTick (isFreeFallState_teleported C GravityDir hState)
  have hG : UDashCharacterMovementComponent.GetGravity M { C with bJustTeleported := false }
      = C.GetGravity M := rfl
  have hAlong : ∃ c : ℚ, C.Velocity + C.GetGravity M * timeTick = GravityDir * c := by
    refine ⟨FVector.Dot C.Velocity GravityDir + k * timeTick, ?_⟩
    have hv := FVector.eq_of_planeProject_zero _ _ hState.2.2.2.2.2.2.2
    rw [hk]
    nth_rewrite 1 [← hv]
    cases GravityDir
    simp only [FVector.add_def, FVector.mul_def, FVector.mk.injEq]
    refine ⟨?_, ?_, ?_⟩ <;> ring
  obtain ⟨hLat, hKeep⟩ := FVector.along_unit GravityDir _ hUnit hAlong
  have hAdj : PhysFallingRequestedMove M E R F GravityDir FVector.ZeroVector timeTick C
      = (1 / 2 : ℚ) * (C.Velocity + (C.Velocity + C.GetGravity M * timeTick)) * timeTick := by
    unfold PhysFallingRequestedMove PhysFallingLocals
    simp only [hRestore, hBefore, hG]
  have hSmall : (FVector.ZeroVector.SizeSquared : ℚ) ≤ KINDA_SMALL_NUMBER * 10 := by
    norm_num [FVector.SizeSquared, FVector.ZeroVector, KINDA_SMALL_NUMBER]
  have hStep : PhysFallingSubStep M E R F GravityDir FVector.ZeroVector timeTick RemainingTime
      Iterations C
      = FPhysFallingStep.Next
        { Component :=
            { (F.SafeMoveUpdatedComponent
                { C with bJustTeleported := false,
                         Velocity := C.Velocity + C.GetGravity M * timeTick }
                ((1 / 2 : ℚ) * (C.Velocity + (C.Velocity + C.GetGravity M * timeTick)) * timeTick)
                C.GetComponentQuat true).1 with
              Velocity := C.Velocity + C.GetGravity M * timeTick },
          RemainingTime := RemainingTime, Iterations := Iterations } := by
    unfold PhysFallingSubStep PhysFallingAfterMove PhysFallingEndOfPass PhysFallingLocals
    simp only [hRestore, hBefore, hG, hHit, hValid, hSwim, hVel, hLat, hKeep, hSmall,
      Bool.not_true, Bool.false_eq_true, if_false, if_true]
  refine ⟨hAdj, ?_, ?_⟩
  · rw [hStep]
    rfl
  · rw [hStep]
    rfl

/-- C13 (counterexample). A character falls straight down under world gravity with
`bForceMaxAccel` set: no root motion, no air control (the lateral fall
acceleration is zero), zero lateral velocity, no falling friction or braking, and a
move without a blocking hit. After a sub-step of a sixtieth of a second the
velocity is not `v + g * dt`: `CalcVelocity` has forced an acceleration along the
forward axis. -/
theorem C13_force_max_accel_counterexample :
    FallingForced.bHasAnimRootMotion = false ∧ FallingForced.bHasOverrideVelocity = false
      ∧ FallingForced.bHasAdditiveVelocity = false
      ∧ FallingForced.GetFallingLateralAccelerationEx RatMath (1 / 60)
          (FallingForced.GetGravityDirection RatMath false) = FVector.ZeroVector
      ∧ FVector.VectorPlaneProject FallingForced.Velocity
          (FallingForced.GetGravityDirection RatMath false) = FVector.ZeroVector
      ∧ FallingForced.FallingLateralFriction = 0 ∧ FallingForced.BrakingDecelerationFalling = 0
      ∧ ¬ ((UDashCharacterMovementComponent.PhysFallingSubStep RatMath
              (ExampleEngine PenetratingFloor (FHitResult.Init 1)) ExampleRootMotion
              ExampleFallingEngine (FallingForced.GetGravityDirection RatMath false)
              (FallingForced.GetFallingLateralAccelerationEx RatMath (1 / 60)
                (FallingForced.GetGravityDirection RatMath false))
              (1 / 60) 0 1 FallingForced).Component.Velocity
            = FallingForced.Velocity + FallingForced.GetGravity RatMath * (1 / 60 : ℚ)) := by
  decide!

/-- C13 (amended). In a sub-step of `PhysFalling` of length `dt1` that is a free
fall (no root motion, no air control, `CalcVelocity` not driven by
`bForceMaxAccel`, a path-following request or RVO avoidance, no apex notification
pending, zero lateral velocity, gravity along the unit `GravityDir`, a move
without blocking hit that leaves the velocity alone), the velocity becomes
`v + g * dt1`, the requested displacement is the trapezoid
`(v + (v + g * dt1)) / 2 * dt1 = v * dt1 + g * dt1^2 / 2`, and the loop goes on.
If the sub-step of length `dt2` that follows is such a sub-step under the same
gravity, the two give the same final velocity and total requested displacement as
one such sub-step of length `dt1 + dt2`. -/
theorem C13_free_fall_substep_is_trapezoid (M : FMath) (E : FEngine) (R : FRootMotionEngine)
    (F : FFallingEngine) (GravityDir : FVector) (dt1 dt2 RT1 RT2 RT12 : ℚ) (It1 It2 It12 : Int)
    (C : UDashCharacterMovementComponent)
    (h1 : IsFreeFallSubStep M E F GravityDir dt1 C)
    (h2 : IsFreeFallSubStep M E F GravityDir dt2
      (PhysFallingSubStep M E R F GravityDir FVector.ZeroVector dt1 RT1 It1 C).Component)
    (hG : (PhysFallingSubStep M E R F GravityDir FVector.ZeroVector dt1 RT1 It1 C).Component.GetGravity M
      = C.GetGravity M)
    (h12 : IsFreeFallSubStep M E F GravityDir (dt1 + dt2) C) :
    (PhysFallingSubStep M E R F GravityDir FVector.ZeroVector dt1 RT1 It1 C).Component.Velocity
        = C.Velocity + C.GetGravity M * dt1
      ∧ PhysFallingRequestedMove M E R F GravityDir FVector.ZeroVector dt1 C
        = (1 / 2 : ℚ) * (C.Velocity + (C.Velocity + C.GetGravity M * dt1)) * dt1
      ∧ PhysFallingRequestedMove M E R F GravityDir FVector.ZeroVector dt1 C
        = C.Velocity * dt1 + C.GetGravity M * (dt1 * dt1 / 2)
      ∧ PhysFallingSubStep M E R F GravityDir FVector.ZeroVector dt1 RT1 It1 C
        = FPhysFallingStep.Next
          { Component :=
              (PhysFallingSubStep M E R F GravityDir FVector.ZeroVector dt1 RT1 It1 C).Component,
            RemainingTime := RT1, Iterations := It1 }
      ∧ (PhysFallingSubStep M E R F GravityDir FVector.ZeroVector dt2 RT2 It2
          (PhysFallingSubStep M E R F GravityDir FVector.ZeroVector dt1 RT1 It1 C).Component).Component.Velocity
        = (PhysFallingSubStep M E R F GravityDir FVector.ZeroVector (dt1 + dt2) RT12 It12
            C).Component.Velocity
      ∧ PhysFallingRequestedMove M E R F GravityDir FVector.ZeroVector dt1 C
          + PhysFallingRequestedMove M E R F GravityDir FVector.ZeroVector dt2
            (PhysFallingSubStep M E R F GravityDir FVector.ZeroVector dt1 RT1 It1 C).Component
        = PhysFallingRequestedMove M E R F GravityDir FVector.ZeroVector (dt1 + dt2) C := by
  obtain ⟨a1, n1, v1⟩ := physFallingSubStep_free M E R F GravityDir dt1 RT1 It1 C h1
  obtain ⟨a2, _, v2⟩ := physFallingSubStep_free M E R F GravityDir dt2 RT2 It2 _ h2
  obtain ⟨a12, _, v12⟩ := physFallingSubStep_free M E R F GravityDir (dt1 + dt2) RT12 It12 C h12
  refine ⟨v1, a1, ?_, n1, ?_, ?_⟩
  · rw [a1]
    generalize C.GetGravity M = g
    generalize C.Velocity = v
    cases g
    cases v
    simp only [FVector.add_def, FVector.mul_def, FVector.smul_def, FVector.mk.injEq]
    refine ⟨?_, ?_, ?_⟩ <;> ring
  · rw [v2, v12, v1, hG]
    generalize C.GetGravity M = g
    generalize C.Velocity = v
    cases g
    cases v
    simp only [FVector.add_def, FVector.mul_def, FVector.mk.injEq]
    refine ⟨?_, ?_, ?_⟩ <;> ring
  · rw [a1, a2, a12, v1, hG]
    generalize C.GetGravity M = g
    generalize C.Velocity = v
    cases g
    cases v
    simp only [FVector.add_def, FVector.mul_def, FVector.smul_def, FVector.mk.injEq]
    refine ⟨?_, ?_, ?_⟩ <;> ring

/-- C13 (amended), at a character falling straight down at 100 units per second
under world gravity: sub-steps of a sixtieth and of a thirtieth of a second against
one of a twentieth. -/
theorem C13_free_fall_substep_is_trapezoid_witness :
    IsFreeFallSubStep RatMath (ExampleEngine PenetratingFloor (FHitResult.Init 1))
        ExampleFallingEngine ⟨0, 0, -1⟩ (1 / 60) FallingDown
      ∧ IsFreeFallSubStep RatMath (ExampleEngine PenetratingFloor (FHitResult.Init 1))
        ExampleFallingEngine ⟨0, 0, -1⟩ (1 / 30) FallingDownLater
      ∧ FallingDownLater.GetGravity RatMath = FallingDown.GetGravity RatMath
      ∧ IsFreeFallSubStep RatMath (ExampleEngine PenetratingFloor (FHitResult.Init 1))
        ExampleFallingEngine ⟨0, 0, -1⟩ (1 / 60 + 1 / 30) FallingDown
      ∧ FallingDownLater.Velocity = FallingDown.Velocity + FallingDown.GetGravity RatMath * (1 / 60 : ℚ)
      ∧ (UDashCharacterMovementComponent.PhysFallingSubStep RatMath
          (ExampleEngine PenetratingFloor (FHitResult.Init 1)) ExampleRootMotion
          ExampleFallingEngine ⟨0, 0, -1⟩ FVector.ZeroVector (1 / 30) 0 2
          FallingDownLater).Component.Velocity
        = (UDashCharacterMovementComponent.PhysFallingSubStep RatMath
          (ExampleEngine PenetratingFloor (FHitResult.Init 1)) ExampleRootMotion
          ExampleFallingEngine ⟨0, 0, -1⟩ FVector.ZeroVector (1 / 60 + 1 / 30) 0 1
          FallingDown).Component.Velocity
      ∧ UDashCharacterMovementComponent.PhysFallingRequestedMove RatMath
            (ExampleEngine PenetratingFloor (FHitResult.Init 1)) ExampleRootMotion
            ExampleFallingEngine ⟨0, 0, -1⟩ FVector.ZeroVector (1 / 60) FallingDown
          + UDashCharacterMovementComponent.PhysFallingRequestedMove RatMath
            (ExampleEngine PenetratingFloor (FHitResult.Init 1)) ExampleRootMotion
            ExampleFallingEngine ⟨0, 0, -1⟩ FVector.ZeroVector (1 / 30) FallingDownLater
        = UDashCharacterMovementComponent.PhysFallingRequestedMove RatMath
            (ExampleEngine PenetratingFloor (FHitResult.Init 1)) ExampleRootMotion
            ExampleFallingEngine ⟨0, 0, -1⟩ FVector.ZeroVector (1 / 60 + 1 / 30) FallingDown :=
  have h1 : IsFreeFallSubStep RatMath (ExampleEngine PenetratingFloor (FHitResult.Init 1))
      ExampleFallingEngine ⟨0, 0, -1⟩ (1 / 60) FallingDown :=
    ⟨rfl, by unfold IsFreeFallState; decide!, by decide!, ⟨980, by decide!⟩, by decide!, by decide!,
      by decide!, by decide!⟩
  have h2 : IsFreeFallSubStep RatMath (ExampleEngine PenetratingFloor (FHitResult.Init 1))
      ExampleFallingEngine ⟨0, 0, -1⟩ (1 / 30) FallingDownLater :=
    ⟨rfl, by unfold IsFreeFallState; decide!, by decide!, ⟨980, by decide!⟩, by decide!, by decide!,
      by decide!, by decide!⟩
  have hG : FallingDownLater.GetGravity RatMath = FallingDown.GetGravity RatMath := by decide!
  have h12 : IsFreeFallSubStep RatMath (ExampleEngine PenetratingFloor (FHitResult.Init 1))
      ExampleFallingEngine ⟨0, 0, -1⟩ (1 / 60 + 1 / 30) FallingDown :=
    ⟨rfl, by unfold IsFreeFallState; decide!, by decide!, ⟨980, by decide!⟩, by decide!, by decide!,
      by decide!, by decide!⟩
  have key := C13_free_fall_substep_is_trapezoid RatMath
    (ExampleEngine PenetratingFloor (FHitResult.Init 1)) ExampleRootMotion ExampleFallingEngine
    ⟨0, 0, -1⟩ (1 / 60) (1 / 30) (1 / 30) 0 0 1 2 1 FallingDown h1 h2 hG h12
  ⟨h1, h2, hG, h12, key.1, key.2.2.2.2.1, key.2.2.2.2.2⟩

/-! ## The desired up axis (C14) -/

/-- C14. `GetComponentDesiredAxisZ` returns the impact normal of the current floor
when floor alignment is enabled, the character is moving on ground and that normal
is not zero, whether or not gravity alignment is enabled; otherwise it returns
`GetGravityDirection(true) * -1` when gravity alignment is enabled, and otherwise
the capsule up axis. With gravity alignment enabled and a positive gravity scale,
after `SetGravityDirection((1,0,0))` the desired up axis of a character that does
not align to the floor is `(-1,0,0)`. -/
theorem C14_desired_axis_resolution (M : FMath) (C : UDashCharacterMovementComponent) :
    (AlignsToFloor C → C.GetComponentDesiredAxisZ M = C.CurrentFloor.HitResult.ImpactNormal)
      ∧ (¬ AlignsToFloor C → C.bAlignComponentToGravity = true →
          C.GetComponentDesiredAxisZ M = C.GetGravityDirection M true * (-1 : ℚ))
      ∧ (¬ AlignsToFloor C → C.bAlignComponentToGravity = false →
          C.GetComponentDesiredAxisZ M = C.GetComponentAxisZ)
      ∧ (¬ AlignsToFloor (C.SetGravityDirection M ⟨1, 0, 0⟩) → C.bAlignComponentToGravity = true →
          0 < C.GravityScale →
          (C.SetGravityDirection M ⟨1, 0, 0⟩).GetComponentDesiredAxisZ M = ⟨-1, 0, 0⟩) := by
  have hCond : ∀ D : UDashCharacterMovementComponent,
      ((D.bAlignComponentToFloor && D.IsMovingOnGround
        && !D.CurrentFloor.HitResult.ImpactNormal.IsZero) = true) ↔ AlignsToFloor D := by
    intro D
    unfold AlignsToFloor
    rw [Bool.and_eq_true, Bool.and_eq_true, Bool.not_eq_true', FVector.isZero_false_iff, and_assoc]
  have hFloor : ∀ D : UDashCharacterMovementComponent, AlignsToFloor D →
      D.GetComponentDesiredAxisZ M = D.CurrentFloor.HitResult.ImpactNormal := by
    intro D h
    unfold GetComponentDesiredAxisZ
    rw [if_pos ((hCond D).2 h)]
  have hGrav : ∀ D : UDashCharacterMovementComponent, ¬ AlignsToFloor D →
      D.bAlignComponentToGravity = true →
      D.GetComponentDesiredAxisZ M = D.GetGravityDirection M true * (-1 : ℚ) := by
    intro D h hg
    unfold GetComponentDesiredAxisZ
    rw [if_neg (fun hc => h ((hCond D).1 hc)), if_pos hg]
  refine ⟨hFloor C, hGrav C, ?_, ?_⟩
  · intro h hg
    unfold GetComponentDesiredAxisZ
    rw [if_neg (fun hc => h ((hCond C).1 hc))]
    simp [hg]
  · intro h hg hs
    rw [hGrav _ h hg]
    have hn : FVector.GetSafeNormal M ⟨1, 0, 0⟩ = ⟨1, 0, 0⟩ := by
      unfold FVector.GetSafeNormal
      norm_num
    have hne : C.GravityScale ≠ 0 := ne_of_gt hs
    unfold SetGravityDirection SetCustomGravityDirection GetGravityDirection
    simp only [hn, hne, ne_eq, not_false_eq_true, if_true]
    have hz : (FVector.mk 1 0 0).IsZero = false := by decide!
    simp only [hz, Bool.not_false, if_true, SignOf, hs]
    simp [FVector.mul_def]

/-- C14, at a falling character with floor and gravity alignment enabled under
world gravity. -/
theorem C14_desired_axis_resolution_witness :
    ¬ AlignsToFloor (FallingAligned.SetGravityDirection RatMath ⟨1, 0, 0⟩)
      ∧ FallingAligned.bAlignComponentToGravity = true ∧ 0 < FallingAligned.GravityScale
      ∧ (FallingAligned.SetGravityDirection RatMath ⟨1, 0, 0⟩).GetComponentDesiredAxisZ RatMath
        = ⟨-1, 0, 0⟩ :=
  have hN : ¬ AlignsToFloor (FallingAligned.SetGravityDirection RatMath ⟨1, 0, 0⟩) := by
    unfold AlignsToFloor
    decide!
  ⟨hN, by decide!, by decide!,
    (C14_desired_axis_resolution RatMath FallingAligned).2.2.2 hN (by decide!) (by decide!)⟩

/-! ## Server-side handling of client moves (C15) -/

/-- C15 (counterexample). A client move whose location is the marker `(1,2,3)` of
the first part of a double server move, with no forced update pending and no
divergence reported: `ServerMoveHandleClientError` returns at once and the move is
not acknowledged with its time stamp 5. -/
theorem C15_double_move_marker_counterexample :
    ExampleServerData.bForceClientUpdate = false
      ∧ ExampleNetEngine.ServerCheckClientError DefaultComponent 5 (1 / 60) FVector.ZeroVector
          (UDashCharacterMovementComponent.ServerMoveClientLoc ExampleNetEngine ⟨1, 2, 3⟩ none 0)
          ⟨1, 2, 3⟩ none 0 1 = false
      ∧ ¬ ((DefaultComponent.ServerMoveHandleClientError ExampleNetEngine
              (ExampleEngine PenetratingFloor (FHitResult.Init 1)) ExampleServerData 5 (1 / 60)
              FVector.ZeroVector ⟨1, 2, 3⟩ none 0 1).2.PendingAdjustment.bAckGoodMove = true
          ∧ (DefaultComponent.ServerMoveHandleClientError ExampleNetEngine
              (ExampleEngine PenetratingFloor (FHitResult.Init 1)) ExampleServerData 5 (1 / 60)
              FVector.ZeroVector ⟨1, 2, 3⟩ none 0 1).2.PendingAdjustment.TimeStamp = 5) := by
  decide!

/-- What `ServerMoveHandleClientError` does with a move it handles. -/
theorem serverMoveHandleClientError_handled (N : FNetEngine) (E : FEngine)
    (C : UDashCharacterMovementComponent) (S : FNetworkPredictionData_Server_Character)
    (ClientTimeStamp DeltaTime : ℚ) (Accel RelativeClientLoc : FVector)
    (ClientMovementBase : Option UPrimitiveComponent) (ClientBaseBoneName ClientMovementMode : Nat)
    (hPass : ServerMoveHeldBack N C S RelativeClientLoc = false) :
    ((C.ServerMoveHandleClientError N E S ClientTimeStamp DeltaTime Accel RelativeClientLoc
          ClientMovementBase ClientBaseBoneName ClientMovementMode).2.PendingAdjustment.bAckGoodMove
        = !(S.bForceClientUpdate
          || N.ServerCheckClientError C ClientTimeStamp DeltaTime Accel
              (ServerMoveClientLoc N RelativeClientLoc ClientMovementBase ClientBaseBoneName)
              RelativeClientLoc ClientMovementBase ClientBaseBoneName ClientMovementMode))
      ∧ (C.ServerMoveHandleClientError N E S ClientTimeStamp DeltaTime Accel RelativeClientLoc
          ClientMovementBase ClientBaseBoneName ClientMovementMode).2.PendingAdjustment.TimeStamp
        = ClientTimeStamp
      ∧ (C.ServerMoveHandleClientError N E S ClientTimeStamp DeltaTime Accel RelativeClientLoc
          ClientMovementBase ClientBaseBoneName ClientMovementMode).2.bForceClientUpdate = false := by
  unfold ServerMoveHandleClientError
  rw [hPass]
  simp only [Bool.false_eq_true, if_false]
  by_cases h : (S.bForceClientUpdate
      || N.ServerCheckClientError C ClientTimeStamp DeltaTime Accel
          (ServerMoveClientLoc N RelativeClientLoc ClientMovementBase ClientBaseBoneName)
          RelativeClientLoc ClientMovementBase ClientBaseBoneName ClientMovementMode) = true
  · rw [if_pos h, h]
    exact ⟨rfl, rfl, rfl⟩
  · rw [if_neg h]
    rw [Bool.not_eq_true] at h
    rw [h]
    exact ⟨rfl, rfl, rfl⟩

/-- C15 (amended). For every client move that `ServerMoveHandleClientError` handles
(its location is not the marker `(1,2,3)` of the first part of a double server
move, and the update-delay bound does not hold it back), the pending adjustment is
marked as a correction (`bAckGoodMove = false`) exactly if the forced-update flag
is set or `ServerCheckClientError` reports divergence, and otherwise the move is
acknowledged (`bAckGoodMove = true`); the adjustment carries the move's time
stamp. Afterwards the forced-update flag is cleared, so the same move sent again,
handled and without divergence, is acknowledged as good. -/
theorem C15_correction_iff_forced_or_divergent (N : FNetEngine) (E : FEngine)
    (C : UDashCharacterMovementComponent) (S : FNetworkPredictionData_Server_Character)
    (ClientTimeStamp DeltaTime : ℚ) (Accel RelativeClientLoc : FVector)
    (ClientMovementBase : Option UPrimitiveComponent) (ClientBaseBoneName ClientMovementMode : Nat)
    (hPass : ServerMoveHeldBack N C S RelativeClientLoc = false) :
    ((C.ServerMoveHandleClientError N E S ClientTimeStamp DeltaTime Accel RelativeClientLoc
          ClientMovementBase ClientBaseBoneName ClientMovementMode).2.PendingAdjustment.bAckGoodMove
          = false
        ↔ (S.bForceClientUpdate = true
          ∨ N.ServerCheckClientError C ClientTimeStamp DeltaTime Accel
              (ServerMoveClientLoc N RelativeClientLoc ClientMovementBase ClientBaseBoneName)
              RelativeClientLoc ClientMovementBase ClientBaseBoneName ClientMovementMode = true))
      ∧ (C.ServerMoveHandleClientError N E S ClientTimeStamp DeltaTime Accel RelativeClientLoc
          ClientMovementBase ClientBaseBoneName ClientMovementMode).2.PendingAdjustment.TimeStamp
        = ClientTimeStamp
      ∧ (C.ServerMoveHandleClientError N E S ClientTimeStamp DeltaTime Accel RelativeClientLoc
          ClientMovementBase ClientBaseBoneName ClientMovementMode).2.bForceClientUpdate = false
      ∧ (ServerMoveHeldBack N
            (C.ServerMoveHandleClientError N E S ClientTimeStamp DeltaTime Accel RelativeClientLoc
              ClientMovementBase ClientBaseBoneName ClientMovementMode).1
            (C.ServerMoveHandleClientError N E S ClientTimeStamp DeltaTime Accel RelativeClientLoc
              ClientMovementBase ClientBaseBoneName ClientMovementMode).2 RelativeClientLoc = false →
          N.ServerCheckClientError
            (C.ServerMoveHandleClientError N E S ClientTimeStamp DeltaTime Accel RelativeClientLoc
              ClientMovementBase ClientBaseBoneName ClientMovementMode).1
            ClientTimeStamp DeltaTime Accel
            (ServerMoveClientLoc N RelativeClientLoc ClientMovementBase ClientBaseBoneName)
            RelativeClientLoc ClientMovementBase ClientBaseBoneName ClientMovementMode = false →
          (UDashCharacterMovementComponent.ServerMoveHandleClientError N E
              (C.ServerMoveHandleClientError N E S ClientTimeStamp DeltaTime Accel RelativeClientLoc
                ClientMovementBase ClientBaseBoneName ClientMovementMode).1
              (C.ServerMoveHandleClientError N E S ClientTimeStamp DeltaTime Accel RelativeClientLoc
                ClientMovementBase ClientBaseBoneName ClientMovementMode).2
              ClientTimeStamp DeltaTime Accel RelativeClientLoc ClientMovementBase ClientBaseBoneName
              ClientMovementMode).2.PendingAdjustment.bAckGoodMove = true
            ∧ (UDashCharacterMovementComponent.ServerMoveHandleClientError N E
              (C.ServerMoveHandleClientError N E S ClientTimeStamp DeltaTime Accel RelativeClientLoc
                ClientMovementBase ClientBaseBoneName ClientMovementMode).1
              (C.ServerMoveHandleClientError N E S ClientTimeStamp DeltaTime Accel RelativeClientLoc
                ClientMovementBase ClientBaseBoneName ClientMovementMode).2
              ClientTimeStamp DeltaTime Accel RelativeClientLoc ClientMovementBase ClientBaseBoneName
              ClientMovementMode).2.PendingAdjustment.TimeStamp = ClientTimeStamp) := by
  obtain ⟨hAck, hTime, hForce⟩ := serverMoveHandleClientError_handled N E C S ClientTimeStamp
    DeltaTime Accel RelativeClientLoc ClientMovementBase ClientBaseBoneName ClientMovementMode hPass
  refine ⟨?_, hTime, hForce, ?_⟩
  · rw [hAck, Bool.not_eq_false', Bool.or_eq_true]
  · intro hPass2 hNoErr
    obtain ⟨hAck2, hTime2, _⟩ := serverMoveHandleClientError_handled N E _ _ ClientTimeStamp
      DeltaTime Accel RelativeClientLoc ClientMovementBase ClientBaseBoneName ClientMovementMode hPass2
    refine ⟨?_, hTime2⟩
    rw [hAck2, hForce, hNoErr]
    rfl

/-- C15 (amended), at a move with a forced update pending: it is answered by a
correction, and sent again it is acknowledged. -/
theorem C15_correction_iff_forced_or_divergent_witness :
    UDashCharacterMovementComponent.ServerMoveHeldBack ExampleNetEngine DefaultComponent
        ForcedServerData ⟨0, 0, 0⟩ = false
      ∧ (DefaultComponent.ServerMoveHandleClientError ExampleNetEngine
          (ExampleEngine PenetratingFloor (FHitResult.Init 1)) ForcedServerData 5 (1 / 60)
          FVector.ZeroVector ⟨0, 0, 0⟩ none 0 1).2.PendingAdjustment.bAckGoodMove = false
      ∧ (DefaultComponent.ServerMoveHandleClientError ExampleNetEngine
          (ExampleEngine PenetratingFloor (FHitResult.Init 1)) ForcedServerData 5 (1 / 60)
          FVector.ZeroVector ⟨0, 0, 0⟩ none 0 1).2.bForceClientUpdate = false
      ∧ (UDashCharacterMovementComponent.ServerMoveHandleClientError ExampleNetEngine
          (ExampleEngine PenetratingFloor (FHitResult.Init 1))
          (DefaultComponent.ServerMoveHandleClientError ExampleNetEngine
            (ExampleEngine PenetratingFloor (FHitResult.Init 1)) ForcedServerData 5 (1 / 60)
            FVector.ZeroVector ⟨0, 0, 0⟩ none 0 1).1
          (DefaultComponent.ServerMoveHandleClientError ExampleNetEngine
            (ExampleEngine PenetratingFloor (FHitResult.Init 1)) ForcedServerData 5 (1 / 60)
            FVector.ZeroVector ⟨0, 0, 0⟩ none 0 1).2
          5 (1 / 60) FVector.ZeroVector ⟨0, 0, 0⟩ none 0 1).2.PendingAdjustment.bAckGoodMove = true :=
  have key := C15_correction_iff_forced_or_divergent ExampleNetEngine
    (ExampleEngine PenetratingFloor (FHitResult.Init 1)) DefaultComponent ForcedServerData 5 (1 / 60)
    FVector.ZeroVector ⟨0, 0, 0⟩ none 0 1 (by decide!)
  ⟨by decide!, key.1.2 (Or.inl rfl), key.2.2.1, (key.2.2.2 (by decide!) (by decide!)).1⟩

/-! ## Client-side corrections (C16) -/

/-- C16 (counterexample). A falling client receives a correction for its buffered
move of time stamp 5, with the base resolved, the server's movement mode Walking
and the velocity `(0,0,-100)`: the correction is accepted, and applying the
server's movement mode (entering Walking ends in
`MaintainHorizontalGroundVelocity()`) leaves a velocity that is not the server's. -/
theorem C16_mode_change_counterexample :
    FallingDown.HasValidData = true ∧ FallingDown.bComponentTickEnabled = true
      ∧ UDashCharacterMovementComponent.GetSavedMoveIndex ExampleClientData 5 = some 0
      ∧ (FallingDown.ClientAdjustPosition_Implementation ExampleNetEngine
          (ExampleEngine PenetratingFloor (FHitResult.Init 1)) ExampleClientData 5 ⟨10, 0, 0⟩
          ⟨0, 0, -100⟩ none 0 false false 1).2.bUpdatePosition = true
      ∧ ¬ ((FallingDown.ClientAdjustPosition_Implementation ExampleNetEngine
          (ExampleEngine PenetratingFloor (FHitResult.Init 1)) ExampleClientData 5 ⟨10, 0, 0⟩
          ⟨0, 0, -100⟩ none 0 false false 1).1.Velocity = ⟨0, 0, -100⟩) := by
  decide!

theorem saveLastUpdate_keeps (C : UDashCharacterMovementComponent) :
    (SaveLastUpdate C).Velocity = C.Velocity
      ∧ (SaveLastUpdate C).UpdatedComponent = C.UpdatedComponent
      ∧ (SaveLastUpdate C).bJustTeleported = C.bJustTeleported :=
  ⟨rfl, rfl, rfl⟩

theorem clientAdjustFinish_keeps (N : FNetEngine) (C : UDashCharacterMovementComponent)
    (hFloor : KeepsPlaceAndVelocity N.UpdateFloorFromAdjustment) :
    (ClientAdjustFinish N C).Velocity = C.Velocity
      ∧ (ClientAdjustFinish N C).UpdatedComponent = C.UpdatedComponent := by
  obtain ⟨h1, h2⟩ := hFloor C
  exact ⟨h1, h2⟩

theorem clientAdjustSetBase_keeps (E : FEngine) (C : UDashCharacterMovementComponent)
    (PreviousBase NewBase : Option UPrimitiveComponent) (NewBaseBoneName : Nat)
    (bUnresolvedBase : Bool)
    (hBase : ∀ (B : Option UPrimitiveComponent) (b : Nat),
      KeepsPlaceAndVelocity (fun D => E.SetBase D B b)) :
    (ClientAdjustSetBase E C PreviousBase NewBase NewBaseBoneName bUnresolvedBase).Velocity
        = C.Velocity
      ∧ (ClientAdjustSetBase E C PreviousBase NewBase NewBaseBoneName bUnresolvedBase).UpdatedComponent
        = C.UpdatedComponent := by
  unfold ClientAdjustSetBase
  split_ifs
  · exact hBase _ _ { C with CurrentFloor := _ }
  · exact hBase _ _ { C with CurrentFloor := _ }
  · exact hBase _ _ C

theorem clientAdjustSnap_place (C : UDashCharacterMovementComponent)
    (NewLocation NewVelocity : FVector) (hValid : C.HasValidData = true) :
    (C.ClientAdjustSnap NewLocation NewVelocity).GetComponentLocation = NewLocation
      ∧ (C.ClientAdjustSnap NewLocation NewVelocity).Velocity = NewVelocity := by
  refine ⟨?_, rfl⟩
  unfold HasValidData at hValid
  rw [Bool.and_eq_true] at hValid
  obtain ⟨U, hU⟩ := Option.isSome_iff_exists.1 hValid.1
  simp [ClientAdjustSnap, SetWorldLocation, GetComponentLocation, hU]

/-- C16 (amended). When `ClientAdjustPosition_Implementation` accepts a correction
(valid data, ticking enabled, a buffered move with that time stamp, no unresolved
base of a base-relative position), the state is first snapped to the server's: the
component is placed at `NewLocation` (plus the base location when base-relative)
and `Velocity` is `NewVelocity`; then the server's movement mode and base are
applied and the floor is updated. Afterwards `bJustTeleported` is true and
`bUpdatePosition` is set, and where applying the movement mode, setting the base
and updating the floor leave the velocity and the updated component alone, the
location and the velocity are still the server's. When no buffered move has the
time stamp, nothing changes. -/
theorem C16_client_adjust_snaps_state (N : FNetEngine) (E : FEngine)
    (C : UDashCharacterMovementComponent) (ClientData : FNetworkPredictionData_Client_Character)
    (TimeStamp : ℚ) (NewLocation NewVelocity : FVector) (NewBase : Option UPrimitiveComponent)
    (NewBaseBoneName : Nat) (bHasBase bBaseRelativePosition : Bool) (ServerMovementMode : Nat) :
    (C.HasValidData = true → C.bComponentTickEnabled = true →
        ((bHasBase && NewBase.isNone) && bBaseRelativePosition) = false →
        TimeStamp ∈ ClientData.SavedMoves →
        (C.ClientAdjustPosition_Implementation N E ClientData TimeStamp NewLocation NewVelocity
            NewBase NewBaseBoneName bHasBase bBaseRelativePosition ServerMovementMode).1
          = ClientAdjustApply N E C
              (ClientAdjustLocation N NewLocation NewBase NewBaseBoneName bBaseRelativePosition)
              NewVelocity NewBase NewBaseBoneName (bHasBase && NewBase.isNone) ServerMovementMode
        ∧ (C.ClientAdjustSnap
              (ClientAdjustLocation N NewLocation NewBase NewBaseBoneName bBaseRelativePosition)
              NewVelocity).GetComponentLocation
            = ClientAdjustLocation N NewLocation NewBase NewBaseBoneName bBaseRelativePosition
        ∧ (C.ClientAdjustSnap
              (ClientAdjustLocation N NewLocation NewBase NewBaseBoneName bBaseRelativePosition)
              NewVelocity).Velocity = NewVelocity
        ∧ (C.ClientAdjustPosition_Implementation N E ClientData TimeStamp NewLocation NewVelocity
            NewBase NewBaseBoneName bHasBase bBaseRelativePosition ServerMovementMode).1.bJustTeleported
          = true
        ∧ (C.ClientAdjustPosition_Implementation N E ClientData TimeStamp NewLocation NewVelocity
            NewBase NewBaseBoneName bHasBase bBaseRelativePosition ServerMovementMode).2.bUpdatePosition
          = true
        ∧ ((N.ApplyNetworkMovementMode
                (C.ClientAdjustSnap
                  (ClientAdjustLocation N NewLocation NewBase NewBaseBoneName bBaseRelativePosition)
                  NewVelocity) ServerMovementMode).Velocity = NewVelocity →
            (N.ApplyNetworkMovementMode
                (C.ClientAdjustSnap
                  (ClientAdjustLocation N NewLocation NewBase NewBaseBoneName bBaseRelativePosition)
                  NewVelocity) ServerMovementMode).UpdatedComponent
              = (C.ClientAdjustSnap
                  (ClientAdjustLocation N NewLocation NewBase NewBaseBoneName bBaseRelativePosition)
                  NewVelocity).UpdatedComponent →
            (∀ (B : Option UPrimitiveComponent) (b : Nat),
              KeepsPlaceAndVelocity (fun D => E.SetBase D B b)) →
            KeepsPlaceAndVelocity N.UpdateFloorFromAdjustment →
            (C.ClientAdjustPosition_Implementation N E ClientData TimeStamp NewLocation NewVelocity
                NewBase NewBaseBoneName bHasBase bBaseRelativePosition
                ServerMovementMode).1.GetComponentLocation
              = ClientAdjustLocation N NewLocation NewBase NewBaseBoneName bBaseRelativePosition
            ∧ (C.ClientAdjustPosition_Implementation N E ClientData TimeStamp NewLocation NewVelocity
                NewBase NewBaseBoneName bHasBase bBaseRelativePosition ServerMovementMode).1.Velocity
              = NewVelocity))
      ∧ (TimeStamp ∉ ClientData.SavedMoves →
          C.ClientAdjustPosition_Implementation N E ClientData TimeStamp NewLocation NewVelocity
            NewBase NewBaseBoneName bHasBase bBaseRelativePosition ServerMovementMode
          = (C, ClientData)) := by
  constructor
  · intro hValid hTick hBase hMove
    have hOut : C.ClientAdjustPosition_Implementation N E ClientData TimeStamp NewLocation NewVelocity
          NewBase NewBaseBoneName bHasBase bBaseRelativePosition ServerMovementMode
        = (ClientAdjustApply N E C
            (ClientAdjustLocation N NewLocation NewBase NewBaseBoneName bBaseRelativePosition)
            NewVelocity NewBase NewBaseBoneName (bHasBase && NewBase.isNone) ServerMovementMode,
          { N.AckMove ClientData (ClientData.SavedMoves.indexOf TimeStamp) with
            bUpdatePosition := true }) := by
      unfold ClientAdjustPosition_Implementation GetSavedMoveIndex
      simp only [hValid, hTick, hBase, hMove, Bool.not_true, Bool.or_self, Bool.false_eq_true,
        if_false, if_true]
    obtain ⟨hLoc, hVel⟩ := clientAdjustSnap_place C
      (ClientAdjustLocation N NewLocation NewBase NewBaseBoneName bBaseRelativePosition)
      NewVelocity hValid
    refine ⟨by rw [hOut], hLoc, hVel, by rw [hOut]; rfl, by rw [hOut], ?_⟩
    intro hModeV hModeU hSetBase hFloor
    rw [hOut]
    simp only
    unfold ClientAdjustApply
    obtain ⟨f1, f2⟩ := clientAdjustFinish_keeps N
      (ClientAdjustSetBase E
        (N.ApplyNetworkMovementMode
          (C.ClientAdjustSnap
            (ClientAdjustLocation N NewLocation NewBase NewBaseBoneName bBaseRelativePosition)
            NewVelocity) ServerMovementMode)
        (C.ClientAdjustSnap
          (ClientAdjustLocation N NewLocation NewBase NewBaseBoneName bBaseRelativePosition)
          NewVelocity).MovementBase NewBase NewBaseBoneName (bHasBase && NewBase.isNone)) hFloor
    obtain ⟨b1, b2⟩ := clientAdjustSetBase_keeps E
      (N.ApplyNetworkMovementMode
        (C.ClientAdjustSnap
          (ClientAdjustLocation N NewLocation NewBase NewBaseBoneName bBaseRelativePosition)
          NewVelocity) ServerMovementMode)
      (C.ClientAdjustSnap
        (ClientAdjustLocation N NewLocation NewBase NewBaseBoneName bBaseRelativePosition)
        NewVelocity).MovementBase NewBase NewBaseBoneName (bHasBase && NewBase.isNone) hSetBase
    constructor
    · unfold GetComponentLocation at hLoc ⊢
      rw [f2, b2, hModeU]
      exact hLoc
    · rw [f1, b1, hModeV]
  · intro hNo
    unfold ClientAdjustPosition_Implementation GetSavedMoveIndex
    simp only [hNo, if_false]
    split_ifs <;> rfl

/-- C16 (amended), at a walking client that receives a correction for its buffered
move of time stamp 5 with the movement mode Walking. -/
theorem C16_client_adjust_snaps_state_witness :
    DefaultComponent.HasValidData = true ∧ DefaultComponent.bComponentTickEnabled = true
      ∧ (5 : ℚ) ∈ ExampleClientData.SavedMoves
      ∧ (DefaultComponent.ClientAdjustPosition_Implementation ExampleNetEngine
          (ExampleEngine PenetratingFloor (FHitResult.Init 1)) ExampleClientData 5 ⟨10, 0, 0⟩
          ⟨20, 0, 0⟩ none 0 false false 1).1.GetComponentLocation = ⟨10, 0, 0⟩
      ∧ (DefaultComponent.ClientAdjustPosition_Implementation ExampleNetEngine
          (ExampleEngine PenetratingFloor (FHitResult.Init 1)) ExampleClientData 5 ⟨10, 0, 0⟩
          ⟨20, 0, 0⟩ none 0 false false 1).1.Velocity = ⟨20, 0, 0⟩ :=
  ⟨by decide!, by decide!, by decide!,
    ((C16_client_adjust_snaps_state ExampleNetEngine
        (ExampleEngine PenetratingFloor (FHitResult.Init 1)) DefaultComponent ExampleClientData 5
        ⟨10, 0, 0⟩ ⟨20, 0, 0⟩ none 0 false false 1).1
      (by decide!) (by decide!) (by decide!) (by decide!)).2.2.2.2.2
      (by decide!) rfl (fun _ _ _ => ⟨rfl, rfl⟩) (fun _ => ⟨rfl, rfl⟩)⟩

/-! ## Gravity replication (C17) -/

/-- C17 (the code at the failing input). On a server character with gravity
replication enabled, after an `UpdateGravity` that left the custom gravity
direction zero, `SetGravityDirection((1,0,0))` is called twice: the direction now
differs from its value at the end of that `UpdateGravity`, yet the next
`UpdateGravity` sends no message, because the second call has reset the dirty
flag. And after `SetGravityDirection((1,0,0))` followed by
`SetGravityDirection((0,0,0))` the direction is what it was, yet the next
`UpdateGravity` sends a custom-direction message. -/
theorem C17_repeated_set_loses_replication :
    UDashCharacterMovementComponent.ReplicatesGravity ServerCharacterUpdated = true
      ∧ UDashCharacterMovementComponent.UpdateGravityMessages ServerCharacterUpdated = []
      ∧ ServerCharacterUpdated.CustomGravityDirection = FVector.ZeroVector
      ∧ ((ServerCharacterUpdated.SetGravityDirection RatMath ⟨1, 0, 0⟩).SetGravityDirection RatMath
          ⟨1, 0, 0⟩).CustomGravityDirection = ⟨1, 0, 0⟩
      ∧ UDashCharacterMovementComponent.UpdateGravityMessages
          ((ServerCharacterUpdated.SetGravityDirection RatMath ⟨1, 0, 0⟩).SetGravityDirection RatMath
            ⟨1, 0, 0⟩) = []
      ∧ ((ServerCharacterUpdated.SetGravityDirection RatMath ⟨1, 0, 0⟩).SetGravityDirection RatMath
          ⟨0, 0, 0⟩).CustomGravityDirection = ServerCharacterUpdated.CustomGravityDirection
      ∧ UDashCharacterMovementComponent.UpdateGravityMessages
          ((ServerCharacterUpdated.SetGravityDirection RatMath ⟨1, 0, 0⟩).SetGravityDirection RatMath
            ⟨0, 0, 0⟩) = [EGravityMessage.ClientClearCustomGravityDirection] := by
  decide!

/-- What `UpdateGravity` sends for the gravity point and the gravity scale follows
the comparison with the values kept from the call before, whatever happened in
between; for the custom gravity direction it follows the dirty flag. -/
theorem updateGravityMessages_replicating (C : UDashCharacterMovementComponent)
    (hRep : ReplicatesGravity (UpdateGravityAlignToFloor C) = true) :
    ((∃ m ∈ UpdateGravityMessages C, m.IsCustomDirection = true)
        ↔ (UpdateGravityAlignToFloor C).bDirtyCustomGravityDirection = true)
      ∧ ((EGravityMessage.ClientSetGravityScale (UpdateGravityAlignToFloor C).GravityScale
            ∈ UpdateGravityMessages C)
        ↔ (UpdateGravityAlignToFloor C).OldGravityScale ≠ (UpdateGravityAlignToFloor C).GravityScale) := by
  unfold UpdateGravityMessages
  rw [if_pos hRep]
  constructor
  · split_ifs <;> simp_all [EGravityMessage.IsCustomDirection]
  · split_ifs <;> simp_all

/-! ## Crouching (C18, C19) -/

theorem setOwnerCapsuleSize_twice (C : UDashCharacterMovementComponent) (r1 h1 r2 h2 : ℚ) :
    OwnerCapsuleState ((C.SetOwnerCapsuleSize r1 h1).SetOwnerCapsuleSize r2 h2)
        = C.CharacterOwner.map (fun Owner => (r2, h2, Owner.bIsCrouched))
      ∧ ((C.SetOwnerCapsuleSize r1 h1).SetOwnerCapsuleSize r2 h2).UpdatedComponent
        = C.UpdatedComponent
      ∧ ((C.SetOwnerCapsuleSize r1 h1).SetOwnerCapsuleSize r2 h2).MovementMode = C.MovementMode := by
  refine ⟨?_, rfl, rfl⟩
  unfold OwnerCapsuleState SetOwnerCapsuleSize ACharacter.SetCapsuleSize
  cases C.CharacterOwner <;> rfl

/-- A `Crouch` (not client simulation) that grows the capsule and finds it
encroaching leaves the unscaled capsule size, `bIsCrouched`, the updated component
and the movement mode as they were. -/
theorem crouch_abort (X : FCrouchEngine) (C : UDashCharacterMovementComponent)
    (ClientData : Option FNetworkPredictionData_Client_Character) (Owner : ACharacter)
    (hOwner : C.CharacterOwner = some Owner) (hValid : C.HasValidData = true)
    (hCan : X.CanCrouchInCurrentState C = true)
    (hNe : Owner.UnscaledCapsuleHalfHeight ≠ C.CrouchedHalfHeight)
    (hGrow : Max3 0 Owner.UnscaledCapsuleRadius C.CrouchedHalfHeight > Owner.UnscaledCapsuleHalfHeight)
    (hEnc : X.OverlapBlockingTestByChannel
        (C.SetOwnerCapsuleSize Owner.UnscaledCapsuleRadius
          (Max3 0 Owner.UnscaledCapsuleRadius C.CrouchedHalfHeight))
        (C.GetComponentLocation
          + C.GetComponentAxisZ * (-1 : ℚ)
            * ((Owner.UnscaledCapsuleHalfHeight
                - Max3 0 Owner.UnscaledCapsuleRadius C.CrouchedHalfHeight) * Owner.ShapeScale))
        C.GetComponentQuat
        (X.GetPawnCapsuleCollisionShape
          (C.SetOwnerCapsuleSize Owner.UnscaledCapsuleRadius
            (Max3 0 Owner.UnscaledCapsuleRadius C.CrouchedHalfHeight))) = true) :
    OwnerCapsuleState (C.Crouch X ClientData false).1 = OwnerCapsuleState C
      ∧ (C.Crouch X ClientData false).1.UpdatedComponent = C.UpdatedComponent
      ∧ (C.Crouch X ClientData false).1.MovementMode = C.MovementMode := by
  have hOut : (C.Crouch X ClientData false).1
      = (C.SetOwnerCapsuleSize Owner.UnscaledCapsuleRadius
          (Max3 0 Owner.UnscaledCapsuleRadius C.CrouchedHalfHeight)).SetOwnerCapsuleSize
          Owner.UnscaledCapsuleRadius Owner.UnscaledCapsuleHalfHeight := by
    unfold Crouch CrouchRestoreProxy CrouchResize
    simp only [hValid, hCan, hOwner, Option.getD_some, hNe, hGrow, hEnc, Bool.not_true,
      Bool.false_eq_true, if_false, Bool.false_and, Bool.not_false, if_true, decide_True,
      Bool.and_self]
  obtain ⟨h1, h2, h3⟩ := setOwnerCapsuleSize_twice C Owner.UnscaledCapsuleRadius
    (Max3 0 Owner.UnscaledCapsuleRadius C.CrouchedHalfHeight) Owner.UnscaledCapsuleRadius
    Owner.UnscaledCapsuleHalfHeight
  rw [hOut]
  refine ⟨?_, h2, h3⟩
  rw [h1]
  unfold OwnerCapsuleState
  rw [hOwner]
  rfl

theorem crouchFinish_isCrouched (X : FCrouchEngine) (C : UDashCharacterMovementComponent)
    (ClientData : Option FNetworkPredictionData_Client_Character) (bClientSimulation : Bool)
    (a b c : ℚ) :
    OwnerIsCrouched (CrouchFinish X C ClientData bClientSimulation a b c).1 = OwnerIsCrouched C := by
  unfold OwnerIsCrouched CrouchFinish AdjustProxyCapsuleSize SetOwnerCapsuleSize
    ACharacter.SetCapsuleSize
  cases C.CharacterOwner <;> rfl

theorem setIsCrouched_isCrouched (C : UDashCharacterMovementComponent) (b : Bool)
    (hOwner : C.CharacterOwner.isSome = true) :
    OwnerIsCrouched (C.SetIsCrouched b) = some b := by
  obtain ⟨Owner, hO⟩ := Option.isSome_iff_exists.1 hOwner
  unfold OwnerIsCrouched SetIsCrouched
  simp [hO]

/-- A `Crouch` (not client simulation) that does not find the capsule encroaching
sets `bIsCrouched`. -/
theorem crouch_success (X : FCrouchEngine) (C : UDashCharacterMovementComponent)
    (ClientData : Option FNetworkPredictionData_Client_Character) (Owner : ACharacter)
    (hOwner : C.CharacterOwner = some Owner) (hValid : C.HasValidData = true)
    (hCan : X.CanCrouchInCurrentState C = true)
    (hFree : Owner.UnscaledCapsuleHalfHeight = C.CrouchedHalfHeight
      ∨ Max3 0 Owner.UnscaledCapsuleRadius C.CrouchedHalfHeight ≤ Owner.UnscaledCapsuleHalfHeight
      ∨ X.OverlapBlockingTestByChannel
          (C.SetOwnerCapsuleSize Owner.UnscaledCapsuleRadius
            (Max3 0 Owner.UnscaledCapsuleRadius C.CrouchedHalfHeight))
          (C.GetComponentLocation
            + C.GetComponentAxisZ * (-1 : ℚ)
              * ((Owner.UnscaledCapsuleHalfHeight
                  - Max3 0 Owner.UnscaledCapsuleRadius C.CrouchedHalfHeight) * Owner.ShapeScale))
          C.GetComponentQuat
          (X.GetPawnCapsuleCollisionShape
            (C.SetOwnerCapsuleSize Owner.UnscaledCapsuleRadius
              (Max3 0 Owner.UnscaledCapsuleRadius C.CrouchedHalfHeight))) = false) :
    OwnerIsCrouched (C.Crouch X ClientData false).1 = some true := by
  have hSome : C.CharacterOwner.isSome = true := by rw [hOwner]; rfl
  have hSized : ∀ r h : ℚ, (C.SetOwnerCapsuleSize r h).CharacterOwner.isSome = true := by
    intro r h
    simp [SetOwnerCapsuleSize, hOwner]
  have hMoved : ∀ (D : UDashCharacterMovementComponent) (v : FVector) (q : FQuat) (s : Bool),
      D.CharacterOwner.isSome = true → (MoveComponent X D v q s).CharacterOwner.isSome = true := by
    intro D v q s h
    exact h
  unfold Crouch
  simp only [hValid, hCan, Bool.not_true, Bool.false_eq_true, if_false, hOwner, Option.getD_some,
    Bool.not_false, if_true]
  by_cases hEq : Owner.UnscaledCapsuleHalfHeight = C.CrouchedHalfHeight
  · rw [if_pos hEq]
    exact setIsCrouched_isCrouched C true hSome
  · rw [if_neg hEq]
    unfold CrouchRestoreProxy CrouchResize
    simp only [Bool.false_and, Bool.false_eq_true, if_false, hOwner, Option.getD_some,
      Bool.not_false, if_true]
    have hCond : (decide (Max3 0 Owner.UnscaledCapsuleRadius C.CrouchedHalfHeight
          > Owner.UnscaledCapsuleHalfHeight)
        && X.OverlapBlockingTestByChannel
          (C.SetOwnerCapsuleSize Owner.UnscaledCapsuleRadius
            (Max3 0 Owner.UnscaledCapsuleRadius C.CrouchedHalfHeight))
          (C.GetComponentLocation
            + C.GetComponentAxisZ * (-1 : ℚ)
              * ((Owner.UnscaledCapsuleHalfHeight
                  - Max3 0 Owner.UnscaledCapsuleRadius C.CrouchedHalfHeight) * Owner.ShapeScale))
          C.GetComponentQuat
          (X.GetPawnCapsuleCollisionShape
            (C.SetOwnerCapsuleSize Owner.UnscaledCapsuleRadius
              (Max3 0 Owner.UnscaledCapsuleRadius C.CrouchedHalfHeight)))) = false := by
      rcases hFree with h | h | h
      · exact absurd h hEq
      · rw [Bool.and_eq_false_iff]
        left
        exact decide_eq_false (not_lt.2 h)
      · rw [h, Bool.and_false]
    rw [hCond]
    simp only [Bool.false_eq_true, if_false]
    rw [crouchFinish_isCrouched]
    apply setIsCrouched_isCrouched
    split_ifs
    · exact hMoved _ _ _ _ (hSized _ _)
    · exact hSized _ _

/-- A `Crouch` (not client simulation) that does not grow the capsule does not
consult the overlap test. -/
theorem crouch_ignores_overlap (X : FCrouchEngine) (C : UDashCharacterMovementComponent)
    (ClientData : Option FNetworkPredictionData_Client_Character) (Owner : ACharacter)
    (hOwner : C.CharacterOwner = some Owner)
    (hFree : Owner.UnscaledCapsuleHalfHeight = C.CrouchedHalfHeight
      ∨ Max3 0 Owner.UnscaledCapsuleRadius C.CrouchedHalfHeight ≤ Owner.UnscaledCapsuleHalfHeight)
    (Overlap : UDashCharacterMovementComponent → FVector → FQuat → FCollisionShape → Bool) :
    C.Crouch { X with OverlapBlockingTestByChannel := Overlap } ClientData false
      = C.Crouch X ClientData false := by
  unfold Crouch
  by_cases hValid : C.HasValidData = true
  · by_cases hCan : X.CanCrouchInCurrentState C = true
    · simp only [hValid, hCan, Bool.not_true, Bool.false_eq_true, if_false, hOwner,
        Option.getD_some, Bool.not_false, if_true]
      by_cases hEq : Owner.UnscaledCapsuleHalfHeight = C.CrouchedHalfHeight
      · rw [if_pos hEq, if_pos hEq]
      · rw [if_neg hEq, if_neg hEq]
        have hLe : ¬ (Max3 0 Owner.UnscaledCapsuleRadius C.CrouchedHalfHeight
            > Owner.UnscaledCapsuleHalfHeight) := by
          rcases hFree with h | h
          · exact absurd h hEq
          · exact not_lt.2 h
        unfold CrouchRestoreProxy CrouchResize
        simp only [Bool.false_and, Bool.false_eq_true, if_false, hOwner, Option.getD_some,
          Bool.not_false, if_true, decide_eq_false hLe]
        rfl
    · simp only [hValid, hCan, Bool.not_true, Bool.false_eq_true, if_false, Bool.not_false, if_true]
  · simp only [hValid, Bool.not_false, if_true]

/-- C19. `Crouch` with valid data, crouching allowed and not client simulation
consults the encroachment test only when the clamped crouched half height
`max(0, radius, CrouchedHalfHeight)` is strictly greater than the current half
height: a crouch to an equal or smaller half height gives the same result whatever
the overlap test would answer, and sets `bIsCrouched`; a crouch to a strictly
greater half height that the overlap test reports as encroaching leaves the
unscaled capsule size and `bIsCrouched` as they were. -/
theorem C19_crouch_tests_only_when_growing (X : FCrouchEngine)
    (C : UDashCharacterMovementComponent)
    (ClientData : Option FNetworkPredictionData_Client_Character) (Owner : ACharacter)
    (hOwner : C.CharacterOwner = some Owner) (hValid : C.HasValidData = true)
    (hCan : X.CanCrouchInCurrentState C = true) :
    ((Owner.UnscaledCapsuleHalfHeight = C.CrouchedHalfHeight
          ∨ Max3 0 Owner.UnscaledCapsuleRadius C.CrouchedHalfHeight
            ≤ Owner.UnscaledCapsuleHalfHeight) →
        (∀ Overlap : UDashCharacterMovementComponent → FVector → FQuat → FCollisionShape → Bool,
          C.Crouch { X with OverlapBlockingTestByChannel := Overlap } ClientData false
            = C.Crouch X ClientData false)
        ∧ OwnerIsCrouched (C.Crouch X ClientData false).1 = some true)
      ∧ (Owner.UnscaledCapsuleHalfHeight ≠ C.CrouchedHalfHeight →
          Max3 0 Owner.UnscaledCapsuleRadius C.CrouchedHalfHeight > Owner.UnscaledCapsuleHalfHeight →
          X.OverlapBlockingTestByChannel
            (C.SetOwnerCapsuleSize Owner.UnscaledCapsuleRadius
              (Max3 0 Owner.UnscaledCapsuleRadius C.CrouchedHalfHeight))
            (C.GetComponentLocation
              + C.GetComponentAxisZ * (-1 : ℚ)
                * ((Owner.UnscaledCapsuleHalfHeight
                    - Max3 0 Owner.UnscaledCapsuleRadius C.CrouchedHalfHeight) * Owner.ShapeScale))
            C.GetComponentQuat
            (X.GetPawnCapsuleCollisionShape
              (C.SetOwnerCapsuleSize Owner.UnscaledCapsuleRadius
                (Max3 0 Owner.UnscaledCapsuleRadius C.CrouchedHalfHeight))) = true →
          OwnerCapsuleState (C.Crouch X ClientData false).1 = OwnerCapsuleState C) := by
  constructor
  · intro hFree
    refine ⟨crouch_ignores_overlap X C ClientData Owner hOwner hFree, ?_⟩
    apply crouch_success X C ClientData Owner hOwner hValid hCan
    rcases hFree with h | h
    · exact Or.inl h
    · exact Or.inr (Or.inl h)
  · intro hNe hGrow hEnc
    exact (crouch_abort X C ClientData Owner hOwner hValid hCan hNe hGrow hEnc).1

/-- C19, at a standing character (half height 88) with every overlap test
reporting encroachment: the crouch to the half height 40 succeeds, the crouch to
the half height 100 fails and leaves the capsule as it was. -/
theorem C19_crouch_tests_only_when_growing_witness :
    DefaultComponent.HasValidData = true
      ∧ BlockedCrouchEngine.CanCrouchInCurrentState DefaultComponent = true
      ∧ OwnerIsCrouched (DefaultComponent.Crouch BlockedCrouchEngine none false).1 = some true
      ∧ OwnerCapsuleState (TallCrouch.Crouch BlockedCrouchEngine none false).1
        = OwnerCapsuleState TallCrouch :=
  ⟨by decide!, by decide!,
    ((C19_crouch_tests_only_when_growing BlockedCrouchEngine DefaultComponent none default rfl
      (by decide!) (by decide!)).1 (Or.inr (by decide!))).2,
    (C19_crouch_tests_only_when_growing BlockedCrouchEngine TallCrouch none default rfl
      (by decide!) (by decide!)).2 (by decide!) (by decide!) (by decide!)⟩

/-- An `UnCrouch` (not client simulation) that finds the standing capsule
encroaching leaves the unscaled half height, `bIsCrouched`, the updated component
and the movement mode as they were; the unscaled radius it leaves is that of the
default object of the class. -/
theorem uncrouch_abort (X : FCrouchEngine) (C : UDashCharacterMovementComponent)
    (ClientData : Option FNetworkPredictionData_Client_Character) (Owner : ACharacter)
    (hOwner : C.CharacterOwner = some Owner) (hValid : C.HasValidData = true)
    (hNe : Owner.UnscaledCapsuleHalfHeight ≠ Owner.DefaultUnscaledCapsuleHalfHeight)
    (hEnc : UnCrouchFit X
        (C.SetOwnerCapsuleSize Owner.DefaultUnscaledCapsuleRadius
          Owner.DefaultUnscaledCapsuleHalfHeight)
        C.GetComponentLocation Owner.ScaledCapsuleHalfHeight
        ((Owner.DefaultUnscaledCapsuleHalfHeight - Owner.UnscaledCapsuleHalfHeight)
          * Owner.ShapeScale) = none) :
    OwnerCapsuleState (C.UnCrouch X ClientData false).1
        = some (Owner.DefaultUnscaledCapsuleRadius, Owner.UnscaledCapsuleHalfHeight,
            Owner.bIsCrouched)
      ∧ (C.UnCrouch X ClientData false).1.UpdatedComponent = C.UpdatedComponent
      ∧ (C.UnCrouch X ClientData false).1.MovementMode = C.MovementMode := by
  have hOut : (C.UnCrouch X ClientData false).1
      = (C.SetOwnerCapsuleSize Owner.DefaultUnscaledCapsuleRadius
          Owner.DefaultUnscaledCapsuleHalfHeight).SetOwnerCapsuleSize
          Owner.DefaultUnscaledCapsuleRadius Owner.UnscaledCapsuleHalfHeight := by
    unfold UnCrouch UnCrouchGrow
    simp only [hValid, hOwner, Option.getD_some, hNe, hEnc, Bool.not_true, Bool.false_eq_true,
      if_false, Bool.not_false, if_true]
    simp [SetOwnerCapsuleSize, ACharacter.SetCapsuleSize, hOwner]
  obtain ⟨h1, h2, h3⟩ := setOwnerCapsuleSize_twice C Owner.DefaultUnscaledCapsuleRadius
    Owner.DefaultUnscaledCapsuleHalfHeight Owner.DefaultUnscaledCapsuleRadius
    Owner.UnscaledCapsuleHalfHeight
  rw [hOut]
  refine ⟨?_, h2, h3⟩
  rw [h1, hOwner]
  rfl

/-- C18 (the code at the failing input). A crouched character whose capsule has
the unscaled radius 40 and half height 40, while the default object of its class
has radius 34, calls `UnCrouch` (not client simulation) where every overlap test
reports encroachment: the call aborts, the half height and `bIsCrouched` are what
they were, but the unscaled radius is now 34. -/
theorem C18_uncrouch_abort_loses_radius :
    (UDashCharacterMovementComponent.UnCrouchFit BlockedCrouchEngine
        (CrouchedWide.SetOwnerCapsuleSize 34 88) CrouchedWide.GetComponentLocation 40
        ((88 - 40) * 1)).isNone = true
      ∧ OwnerCapsuleState CrouchedWide = some (40, 40, true)
      ∧ OwnerCapsuleState (CrouchedWide.UnCrouch BlockedCrouchEngine none false).1
        = some (34, 40, true)
      ∧ (CrouchedWide.UnCrouch BlockedCrouchEngine none false).1.UpdatedComponent
        = CrouchedWide.UpdatedComponent
      ∧ (CrouchedWide.UnCrouch BlockedCrouchEngine none false).1.MovementMode
        = CrouchedWide.MovementMode := by
  decide!
/-! ## Step up: the height gained (C20) -/

theorem stepUp_of_stepDownSweep (E : FEngine) (C : UDashCharacterMovementComponent)
    (GravDir Delta : FVector) (InHit : FHitResult) (bOut : Bool)
    (Landed : UDashCharacterMovementComponent) (Hit : FHitResult)
    (h : C.StepUpStepDownSweep E GravDir Delta InHit = some (Landed, Hit)) :
    C.StepUp E GravDir Delta InHit bOut
      = StepUpLanding E ⟨C.GetComponentLocation, C.GetComponentQuat⟩ Landed Hit Delta bOut
          C.GetComponentLocation (C.GetComponentAxisZ * (-1 : ℚ)) (C.StepUpPawnFloorPoint InHit)
          (C.CharacterOwner.getD default).ScaledCapsuleRadius
          (FVector.Dot InHit.ImpactNormal GravDir * (-1)) := by
  unfold StepUpStepDownSweep at h
  unfold StepUp StepUpPawnFloorPoint
  split at h
  · cases h
  rename_i h1
  rw [if_neg h1]
  dsimp only at h ⊢
  split at h
  · cases h
  rename_i h2
  rw [if_neg h2]
  rw [show (if (C.IsMovingOnGround && C.CurrentFloor.IsWalkableFloor) = true then
        max (C.MaxStepHeight - max 0 C.CurrentFloor.FloorDist) 0
      else C.MaxStepHeight) = C.StepUpTravelUpHeight from rfl,
    show (if (C.IsMovingOnGround && C.CurrentFloor.IsWalkableFloor) = true then
        C.MaxStepHeight + MAX_FLOOR_DIST * 2
      else C.MaxStepHeight) = C.StepUpTravelDownHeight from rfl]
  generalize E.MoveUpdatedComponent C _ C.GetComponentQuat true = Up at h ⊢
  split at h
  · cases h
  rename_i h3
  rw [if_neg h3]
  unfold StepUpForward StepUpAfterForward
  generalize E.MoveUpdatedComponent Up.1 Delta C.GetComponentQuat true = Forward at h ⊢
  split at h
  · rename_i h4
    rw [if_pos h4]
    split at h
    · cases h
    rename_i h5
    rw [if_neg h5]
    unfold StepUpAfterImpact
    generalize E.HandleImpact _ Forward.2 0 FVector.ZeroVector = Impacted at h ⊢
    split at h
    · cases h
    rename_i h6
    rw [if_neg h6]
    unfold StepUpAfterSlide
    generalize E.SlideAlongSurface Impacted Delta _ _ _ true = Slide at h ⊢
    split at h
    · cases h
    rename_i h7
    rw [if_neg h7]
    split at h
    · cases h
    rename_i h8
    rw [if_neg h8]
    unfold StepUpStepDown
    simp only [Option.some.injEq] at h
    rw [h]
  · rename_i h4
    rw [if_neg h4]
    unfold StepUpStepDown
    simp only [Option.some.injEq] at h
    rw [h]

theorem stepUp_without_stepDownSweep (E : FEngine) (C : UDashCharacterMovementComponent)
    (GravDir Delta : FVector) (InHit : FHitResult) (bOut : Bool)
    (h : C.StepUpStepDownSweep E GravDir Delta InHit = none)
    (hTrue : (C.StepUp E GravDir Delta InHit bOut).bSteppedUp = true) :
    (C.StepUp E GravDir Delta InHit bOut).Component.IsFalling = true
      ∧ (C.StepUp E GravDir Delta InHit bOut).OutStepDownResult = none := by
  unfold StepUpStepDownSweep at h
  unfold StepUp at hTrue ⊢
  split at h
  · rename_i h1
    rw [if_pos h1] at hTrue
    cases hTrue
  rename_i h1
  rw [if_neg h1] at hTrue ⊢
  dsimp only at h hTrue ⊢
  split at h
  · rename_i h2
    rw [if_pos h2] at hTrue
    cases hTrue
  rename_i h2
  rw [if_neg h2] at hTrue ⊢
  rw [show (if (C.IsMovingOnGround && C.CurrentFloor.IsWalkableFloor) = true then
        max (C.MaxStepHeight - max 0 C.CurrentFloor.FloorDist) 0
      else C.MaxStepHeight) = C.StepUpTravelUpHeight from rfl,
    show (if (C.IsMovingOnGround && C.CurrentFloor.IsWalkableFloor) = true then
        C.MaxStepHeight + MAX_FLOOR_DIST * 2
      else C.MaxStepHeight) = C.StepUpTravelDownHeight from rfl] at hTrue ⊢
  generalize E.MoveUpdatedComponent C _ C.GetComponentQuat true = Up at h hTrue ⊢
  split at h
  · rename_i h3
    rw [if_pos h3] at hTrue
    cases hTrue
  rename_i h3
  rw [if_neg h3] at hTrue ⊢
  unfold StepUpForward StepUpAfterForward at hTrue ⊢
  generalize E.MoveUpdatedComponent Up.1 Delta C.GetComponentQuat true = Forward at h hTrue ⊢
  split at h
  · rename_i h4
    rw [if_pos h4] at hTrue ⊢
    split at h
    · rename_i h5
      rw [if_pos h5] at hTrue
      cases hTrue
    rename_i h5
    rw [if_neg h5] at hTrue ⊢
    unfold StepUpAfterImpact at hTrue ⊢
    generalize E.HandleImpact _ Forward.2 0 FVector.ZeroVector = Impacted at h hTrue ⊢
    split at h
    · rename_i h6
      rw [if_pos h6]
      exact ⟨h6, rfl⟩
    rename_i h6
    rw [if_neg h6] at hTrue ⊢
    unfold StepUpAfterSlide at hTrue ⊢
    generalize E.SlideAlongSurface Impacted Delta _ _ _ true = Slide at h hTrue ⊢
    split at h
    · rename_i h7
      rw [if_pos h7] at hTrue
      cases hTrue
    rename_i h7
    rw [if_neg h7] at hTrue ⊢
    split at h
    · rename_i h8
      rw [if_pos h8] at hTrue
      cases hTrue
    · cases h
  · cases h

theorem option_eq_some_getD {α : Type} (o : Option α) (d : α) (h : o.isSome = true) :
    o = some (o.getD d) := by
  cases o with
  | none => cases h
  | some a => rfl

theorem stepUpLanding_height (E : FEngine) (Scope : FScopedMovementUpdate)
    (C : UDashCharacterMovementComponent) (Hit : FHitResult) (Delta : FVector) (bOut : Bool)
    (OldLocation CapsuleDown PawnFloorPoint : FVector) (PawnRadius StepSideZ : ℚ)
    (hTrue : (StepUpLanding E Scope C Hit Delta bOut OldLocation CapsuleDown PawnFloorPoint
      PawnRadius StepSideZ).bSteppedUp = true)
    (hValid : Hit.IsValidBlockingHit = true) :
    FVector.Dot (PawnFloorPoint - Hit.ImpactPoint) CapsuleDown ≤ C.MaxStepHeight
      ∧ (StepUpLanding E Scope C Hit Delta bOut OldLocation CapsuleDown PawnFloorPoint
          PawnRadius StepSideZ).Component.MaxStepHeight = C.MaxStepHeight := by
  unfold StepUpLanding at hTrue ⊢
  by_cases h1 : Hit.bStartPenetrating = true
  · rw [if_pos h1] at hTrue
    cases hTrue
  rw [if_neg h1, if_pos hValid] at hTrue ⊢
  by_cases h2 : FVector.Dot (PawnFloorPoint - Hit.ImpactPoint) CapsuleDown > C.MaxStepHeight
  · rw [if_pos h2] at hTrue
    cases hTrue
  rw [if_neg h2] at hTrue ⊢
  refine ⟨not_lt.mp h2, ?_⟩
  split_ifs at hTrue ⊢
  all_goals rfl

theorem stepUpTravelUpHeight_bounds (C : UDashCharacterMovementComponent)
    (h : 0 < C.MaxStepHeight) :
    0 ≤ C.StepUpTravelUpHeight ∧ C.StepUpTravelUpHeight ≤ C.MaxStepHeight := by
  unfold StepUpTravelUpHeight
  split_ifs
  · refine ⟨le_max_right _ _, max_le ?_ h.le⟩
    have := le_max_left 0 C.CurrentFloor.FloorDist
    linarith
  · exact ⟨h.le, le_refl _⟩

theorem FVector.dot_up_eq_dot_down (P Q Z : FVector) :
    FVector.Dot (Q - P) Z = FVector.Dot (P - Q) (Z * (-1 : ℚ)) := by
  simp only [FVector.Dot, FVector.sub_def, FVector.mul_def]
  ring

/-- C20. A `StepUp` that gets past its first guard (so `MaxStepHeight` is
positive) asks its upward move for a travel `StepTravelUpHeight` between 0 and
`MaxStepHeight`. And whenever `StepUp` returns true after its step down sweep
gave a valid blocking hit, the height gained from `PawnFloorPoint`, the floor
point under the character, to the impact point of that hit, measured along the
capsule's up axis, is the `DeltaZ` of the code and is at most `MaxStepHeight`,
which is read on the component as the downward move left it and is the same on
the component handed back. -/
theorem C20_step_up_height_bounded (E : FEngine) (C : UDashCharacterMovementComponent)
    (GravDir Delta : FVector) (InHit : FHitResult) (bOutStepDownResult : Bool) :
    (0 < C.MaxStepHeight →
        0 ≤ C.StepUpTravelUpHeight ∧ C.StepUpTravelUpHeight ≤ C.MaxStepHeight)
      ∧ ∀ (Landed : UDashCharacterMovementComponent) (Hit : FHitResult),
          C.StepUpStepDownSweep E GravDir Delta InHit = some (Landed, Hit) →
          (C.StepUp E GravDir Delta InHit bOutStepDownResult).bSteppedUp = true →
          Hit.IsValidBlockingHit = true →
          FVector.Dot (Hit.ImpactPoint - C.StepUpPawnFloorPoint InHit) C.GetComponentAxisZ
              = FVector.Dot (C.StepUpPawnFloorPoint InHit - Hit.ImpactPoint)
                  (C.GetComponentAxisZ * (-1 : ℚ))
            ∧ FVector.Dot (Hit.ImpactPoint - C.StepUpPawnFloorPoint InHit) C.GetComponentAxisZ
              ≤ Landed.MaxStepHeight
            ∧ (C.StepUp E GravDir Delta InHit bOutStepDownResult).Component.MaxStepHeight
              = Landed.MaxStepHeight := by
  refine ⟨stepUpTravelUpHeight_bounds C, ?_⟩
  intro Landed Hit hSweep hTrue hValid
  rw [stepUp_of_stepDownSweep E C GravDir Delta InHit bOutStepDownResult Landed Hit hSweep]
    at hTrue ⊢
  have h := stepUpLanding_height E _ Landed Hit Delta bOutStepDownResult _ _ _ _ _ hTrue hValid
  refine ⟨FVector.dot_up_eq_dot_down _ _ _, ?_, h.2⟩
  rw [FVector.dot_up_eq_dot_down]
  exact h.1

/-- C20, at a step of 20 units: `DefaultComponent`, hovering 2 units over its
floor, asks for an upward travel of 43 of its 45 units of step height, its step
down sweep lands on the step top, `StepUp` returns true and the height gained
is 20. -/
theorem C20_step_up_height_bounded_witness :
    0 < DefaultComponent.MaxStepHeight
      ∧ DefaultComponent.StepUpTravelUpHeight = 43
      ∧ (0 ≤ DefaultComponent.StepUpTravelUpHeight
          ∧ DefaultComponent.StepUpTravelUpHeight ≤ DefaultComponent.MaxStepHeight)
      ∧ (DefaultComponent.StepUpStepDownSweep (ExampleEngine PenetratingFloor StepTopHit)
          ⟨0, 0, -1⟩ ⟨10, 0, 0⟩ SideWallHit).isSome = true
      ∧ (DefaultComponent.StepUp (ExampleEngine PenetratingFloor StepTopHit) ⟨0, 0, -1⟩
          ⟨10, 0, 0⟩ SideWallHit false).bSteppedUp = true
      ∧ StepTopSweep.2.IsValidBlockingHit = true
      ∧ FVector.Dot (StepTopSweep.2.ImpactPoint - DefaultComponent.StepUpPawnFloorPoint SideWallHit)
          DefaultComponent.GetComponentAxisZ = 20
      ∧ StepTopSweep.1.MaxStepHeight = 45
      ∧ FVector.Dot (StepTopSweep.2.ImpactPoint - DefaultComponent.StepUpPawnFloorPoint SideWallHit)
          DefaultComponent.GetComponentAxisZ ≤ StepTopSweep.1.MaxStepHeight :=
  ⟨by decide!, by decide!,
    (C20_step_up_height_bounded (ExampleEngine PenetratingFloor StepTopHit) DefaultComponent
      ⟨0, 0, -1⟩ ⟨10, 0, 0⟩ SideWallHit false).1 (by decide!),
    by decide!, by decide!, by decide!, by decide!, by decide!,
    ((C20_step_up_height_bounded (ExampleEngine PenetratingFloor StepTopHit) DefaultComponent
      ⟨0, 0, -1⟩ ⟨10, 0, 0⟩ SideWallHit false).2 StepTopSweep.1 StepTopSweep.2
      (option_eq_some_getD _ _ (by decide!)) (by decide!) (by decide!)).2.1⟩

/-! ## Air control boost (C28) -/

/-- C28 (counterexamples). With the boost conditions met, `BoostAirControlEx`
returns less than the air control passed in when the boost multiplier is below 1
(multiplier 1/2, air control 1/2, result 1/4), when the air control is above 1
(multiplier 2, air control 2, result 1) and when it is negative (multiplier 2, air
control -1, result -2). -/
theorem C28_boost_lowers_air_control_counterexample :
    (WeakBoost.AirControlBoostMultiplier > 0
        ∧ (FVector.VectorPlaneProject WeakBoost.Velocity ⟨0, 0, -1⟩).SizeSquared
            < Square WeakBoost.AirControlBoostVelocityThreshold)
      ∧ WeakBoost.BoostAirControlEx (1 / 60) (1 / 2) ⟨1, 0, 0⟩ ⟨0, 0, -1⟩ = 1 / 4
      ∧ (DefaultComponent.AirControlBoostMultiplier > 0
        ∧ (FVector.VectorPlaneProject DefaultComponent.Velocity ⟨0, 0, -1⟩).SizeSquared
            < Square DefaultComponent.AirControlBoostVelocityThreshold)
      ∧ DefaultComponent.BoostAirControlEx (1 / 60) 2 ⟨1, 0, 0⟩ ⟨0, 0, -1⟩ = 1
      ∧ DefaultComponent.BoostAirControlEx (1 / 60) (-1) ⟨1, 0, 0⟩ ⟨0, 0, -1⟩ = -2
      ∧ ¬ (∀ (C : UDashCharacterMovementComponent) (DeltaTime TickAirControl : ℚ)
            (FallAcceleration GravDir : FVector), BoostConditionsMet C GravDir →
            TickAirControl ≤ C.BoostAirControlEx DeltaTime TickAirControl FallAcceleration GravDir) := by
  refine ⟨by decide!, by decide!, by decide!, by decide!, by decide!, ?_⟩
  intro h
  have h1 := h WeakBoost (1 / 60) (1 / 2) ⟨1, 0, 0⟩ ⟨0, 0, -1⟩
    (by unfold BoostConditionsMet; decide!)
  revert h1
  decide!

/-- C28 (amended). When the boost conditions are met, `BoostAirControlEx` returns
`min 1 (AirControlBoostMultiplier * TickAirControl)`, which is at least the air
control passed in when the multiplier is at least 1 and the air control lies
between 0 and 1; when they are not met it returns `TickAirControl` unchanged. -/
theorem C28_boost_air_control (C : UDashCharacterMovementComponent) (DeltaTime TickAirControl : ℚ)
    (FallAcceleration GravDir : FVector) :
    (BoostConditionsMet C GravDir →
        C.BoostAirControlEx DeltaTime TickAirControl FallAcceleration GravDir
            = min 1 (C.AirControlBoostMultiplier * TickAirControl)
          ∧ (1 ≤ C.AirControlBoostMultiplier → 0 ≤ TickAirControl → TickAirControl ≤ 1 →
              TickAirControl
                ≤ C.BoostAirControlEx DeltaTime TickAirControl FallAcceleration GravDir))
      ∧ (¬ BoostConditionsMet C GravDir →
          C.BoostAirControlEx DeltaTime TickAirControl FallAcceleration GravDir = TickAirControl) := by
  unfold BoostConditionsMet BoostAirControlEx
  constructor
  · intro h
    rw [if_pos h]
    refine ⟨rfl, ?_⟩
    intro h1 h2 h3
    refine le_min h3 ?_
    nlinarith
  · intro h
    rw [if_neg h]

/-- C28 (amended), at the default boost: multiplier 2, air control 1/20, at rest;
and at a lateral speed of 600, above the threshold of 25. -/
theorem C28_boost_air_control_witness :
    BoostConditionsMet DefaultComponent ⟨0, 0, -1⟩
      ∧ DefaultComponent.BoostAirControlEx (1 / 60) (1 / 20) ⟨1, 0, 0⟩ ⟨0, 0, -1⟩ = 1 / 10
      ∧ (1 / 20 : ℚ) ≤ DefaultComponent.BoostAirControlEx (1 / 60) (1 / 20) ⟨1, 0, 0⟩ ⟨0, 0, -1⟩
      ∧ ¬ BoostConditionsMet OverSpeedRunning ⟨0, 0, -1⟩
      ∧ OverSpeedRunning.BoostAirControlEx (1 / 60) (1 / 20) ⟨1, 0, 0⟩ ⟨0, 0, -1⟩ = 1 / 20 :=
  ⟨by unfold BoostConditionsMet; decide!, by decide!,
    ((C28_boost_air_control DefaultComponent (1 / 60) (1 / 20) ⟨1, 0, 0⟩ ⟨0, 0, -1⟩).1
      (by unfold BoostConditionsMet; decide!)).2 (by decide!) (by norm_num) (by norm_num),
    by unfold BoostConditionsMet; decide!,
    (C28_boost_air_control OverSpeedRunning (1 / 60) (1 / 20) ⟨1, 0, 0⟩ ⟨0, 0, -1⟩).2
      (by unfold BoostConditionsMet; decide!)⟩

/-! ## No gravity direction: falling, flying, swimming (C24) -/

/-- C24 (counterexample). With a zero gravity scale the resolved gravity direction
is zero, and a call of `PhysFalling`, `PhysFlying` or `PhysSwimming` over a sixtieth
of a second returns with velocity and acceleration zero, not with the velocity
(100, 0, -50) and the acceleration (10, 0, 0) it was entered with. -/
theorem C24_zero_gravity_clears_velocity_counterexample :
    (DriftingNoGravity.GetGravityDirection RatMath false).IsZero = true
      ∧ DriftingNoGravity.Velocity = ⟨100, 0, -50⟩
      ∧ DriftingNoGravity.Acceleration = ⟨10, 0, 0⟩
      ∧ (PhysFalling RatMath (fun C _ _ => C) DriftingNoGravity (1 / 60) 0).Velocity
          = FVector.ZeroVector
      ∧ (PhysFalling RatMath (fun C _ _ => C) DriftingNoGravity (1 / 60) 0).Acceleration
          = FVector.ZeroVector
      ∧ (PhysFlying RatMath (fun C _ _ => C) DriftingNoGravity (1 / 60) 0).Velocity
          = FVector.ZeroVector
      ∧ (PhysSwimming RatMath (fun C _ _ => C) DriftingNoGravity (1 / 60) 0).Velocity
          = FVector.ZeroVector
      ∧ (PhysFalling RatMath (fun C _ _ => C) DriftingNoGravity (1 / 60) 0).Velocity
          ≠ DriftingNoGravity.Velocity := by
  decide!

/-- C24 (amended). When the resolved gravity direction `GetGravityDirection(false)`
is the zero vector, `PhysFalling`, `PhysFlying` and `PhysSwimming` run none of
their simulation, whatever the rest of the function is: the updated component
(position and orientation) and the movement mode are unchanged on return, and
velocity and acceleration are both zero on return when `deltaTime` is at least
`MIN_TICK_TIME`, and unchanged below it. -/
theorem C24_zero_gravity_aborts (M : FMath)
    (Body : UDashCharacterMovementComponent → ℚ → Int → UDashCharacterMovementComponent)
    (C : UDashCharacterMovementComponent) (deltaTime : ℚ) (Iterations : Int)
    (hZero : (C.GetGravityDirection M false).IsZero = true) :
    ∀ R ∈ [PhysFalling M Body C deltaTime Iterations, PhysFlying M Body C deltaTime Iterations,
        PhysSwimming M Body C deltaTime Iterations],
      R.UpdatedComponent = C.UpdatedComponent ∧ R.MovementMode = C.MovementMode
        ∧ (MIN_TICK_TIME ≤ deltaTime →
            R.Velocity = FVector.ZeroVector ∧ R.Acceleration = FVector.ZeroVector)
        ∧ (deltaTime < MIN_TICK_TIME →
            R.Velocity = C.Velocity ∧ R.Acceleration = C.Acceleration) := by
  have key : ∀ R : UDashCharacterMovementComponent,
      R = (if deltaTime < MIN_TICK_TIME then C
        else { C with Acceleration := FVector.ZeroVector, Velocity := FVector.ZeroVector }) →
      R.UpdatedComponent = C.UpdatedComponent ∧ R.MovementMode = C.MovementMode
        ∧ (MIN_TICK_TIME ≤ deltaTime →
            R.Velocity = FVector.ZeroVector ∧ R.Acceleration = FVector.ZeroVector)
        ∧ (deltaTime < MIN_TICK_TIME →
            R.Velocity = C.Velocity ∧ R.Acceleration = C.Acceleration) := by
    intro R hR
    subst hR
    by_cases h : deltaTime < MIN_TICK_TIME
    · rw [if_pos h]
      exact ⟨rfl, rfl, fun h2 => absurd h (not_lt.2 h2), fun _ => ⟨rfl, rfl⟩⟩
    · rw [if_neg h]
      exact ⟨rfl, rfl, fun _ => ⟨rfl, rfl⟩, fun h2 => absurd h2 h⟩
  intro R hR
  simp only [List.mem_cons, List.mem_singleton, List.not_mem_nil, or_false] at hR
  rcases hR with hR | hR | hR
  · apply key
    rw [hR]
    unfold PhysFalling
    simp only [hZero, if_true]
  · apply key
    rw [hR]
    unfold PhysFlying
    simp only [hZero, if_true]
  · apply key
    rw [hR]
    unfold PhysSwimming
    simp only [hZero, if_true]

/-- C24 (amended), at a falling character with a zero gravity scale, for a tick of
a sixtieth of a second. -/
theorem C24_zero_gravity_aborts_witness :
    (DriftingNoGravity.GetGravityDirection RatMath false).IsZero = true
      ∧ (PhysFalling RatMath (fun C _ _ => C) DriftingNoGravity (1 / 60) 0).UpdatedComponent
          = DriftingNoGravity.UpdatedComponent
      ∧ (PhysFalling RatMath (fun C _ _ => C) DriftingNoGravity (1 / 60) 0).MovementMode
          = EMovementMode.MOVE_Falling
      ∧ (PhysFalling RatMath (fun C _ _ => C) DriftingNoGravity (1 / 60) 0).Velocity
          = FVector.ZeroVector :=
  ⟨by decide!,
    (C24_zero_gravity_aborts RatMath (fun C _ _ => C) DriftingNoGravity (1 / 60) 0 (by decide!)
      _ (List.mem_cons_self _ _)).1,
    (C24_zero_gravity_aborts RatMath (fun C _ _ => C) DriftingNoGravity (1 / 60) 0 (by decide!)
      _ (List.mem_cons_self _ _)).2.1,
    ((C24_zero_gravity_aborts RatMath (fun C _ _ => C) DriftingNoGravity (1 / 60) 0 (by decide!)
      _ (List.mem_cons_self _ _)).2.2.1 (by norm_num [MIN_TICK_TIME])).1⟩

/-! ## The gravity getters side by side (C30) -/

theorem signOf_mul_abs (s : ℚ) (hs : s ≠ 0) : SignOf s * |s| = s := by
  unfold SignOf
  split_ifs with h
  · rw [abs_of_pos h, one_mul]
  · have : s < 0 := lt_of_le_of_ne (not_lt.1 h) hs
    rw [abs_of_neg this]
    ring

theorem FVector.mul_mul (v : FVector) (a b : ℚ) : v * a * b = v * (a * b) := by
  simp only [FVector.mul_def, mul_assoc]

/-- C30 (counterexample). A character standing exactly on its non-zero gravity
point, with gravity scale 1, no custom gravity direction and world gravity -980:
`GetGravity` falls back to the world gravity (0, 0, -980),
`GetGravityDirection(false)` is the zero vector, `GetGravityMagnitude` is 980, and
the product of the latter two is zero, not the gravity. -/
theorem C30_on_gravity_point_counterexample :
    OnGravityPoint.GravityScale ≠ 0
      ∧ OnGravityPoint.CustomGravityDirection = FVector.ZeroVector
      ∧ OnGravityPoint.GravityPoint ≠ FVector.ZeroVector
      ∧ OnGravityPoint.GravityPoint = OnGravityPoint.GetComponentLocation
      ∧ OnGravityPoint.GetGravity RatMath = ⟨0, 0, -980⟩
      ∧ OnGravityPoint.GetGravityDirection RatMath false = FVector.ZeroVector
      ∧ OnGravityPoint.GetGravityMagnitude = 980
      ∧ OnGravityPoint.GetGravity RatMath
          ≠ OnGravityPoint.GetGravityDirection RatMath false * OnGravityPoint.GetGravityMagnitude := by
  decide!

/-- C30 (amended). The three gravity getters agree for every configuration with a
non-zero gravity scale in which the gravity point, if it is in use, does not
coincide with the component location:
`GetGravity() = GetGravityDirection(false) * GetGravityMagnitude()`, whatever the
custom gravity direction and the square roots are. -/
theorem C30_getters_agree_off_gravity_point (M : FMath) (C : UDashCharacterMovementComponent)
    (hs : C.GravityScale ≠ 0) (hC : ¬ GravityPointCoincides C) :
    C.GetGravity M = C.GetGravityDirection M false * C.GetGravityMagnitude := by
  have hmag : ∀ v : FVector, v * SignOf C.GravityScale * C.GetGravityMagnitude
      = v * (|C.WorldGravityZ| * C.GravityScale) := by
    intro v
    rw [FVector.mul_mul]
    congr 1
    unfold GetGravityMagnitude GetGravityZ
    rw [abs_mul, mul_left_comm, signOf_mul_abs _ hs]
  have hworld : (⟨0, 0, C.GetGravityZ⟩ : FVector)
      = C.GetGravityDirectionWorld false * C.GetGravityMagnitude := by
    unfold GetGravityDirectionWorld GetGravityMagnitude GetGravityZ
    simp only [Bool.false_or, bne_iff_ne, ne_eq, ite_not]
    by_cases hw : C.WorldGravityZ = 0
    · simp [hw, FVector.ZeroVector, FVector.mul_def]
    · simp only [hw, if_false, FVector.mul_def, zero_mul, FVector.mk.injEq, true_and]
      rw [abs_mul]
      calc C.WorldGravityZ * C.GravityScale
          = (SignOf C.WorldGravityZ * |C.WorldGravityZ|)
            * (SignOf C.GravityScale * |C.GravityScale|) := by
            rw [signOf_mul_abs _ hw, signOf_mul_abs _ hs]
        _ = SignOf C.WorldGravityZ * SignOf C.GravityScale
            * (|C.WorldGravityZ| * |C.GravityScale|) := by ring
  unfold GetGravity GetGravityDirection
  rw [if_pos hs]
  by_cases hd : (!C.CustomGravityDirection.IsZero) = true
  · rw [if_pos hd, if_pos hd, hmag]
  · rw [if_neg hd, if_neg hd]
    have hd0 : C.CustomGravityDirection = FVector.ZeroVector := by
      rw [← FVector.isZero_iff]
      simpa using hd
    cases hU : C.UpdatedComponent with
    | none => exact hworld
    | some U =>
      simp only
      by_cases hp : (!C.GravityPoint.IsZero) = true
      · rw [if_pos hp, if_pos hp]
        have hp0 : C.GravityPoint ≠ FVector.ZeroVector := by
          rw [← FVector.isZero_false_iff]
          simpa using hp
        have hne : C.GravityPoint - U.ComponentLocation ≠ FVector.ZeroVector := by
          intro h
          refine hC ⟨hd0, hp0, by rw [hU]; rfl, ?_⟩
          unfold GetComponentLocation
          rw [hU]
          exact (FVector.sub_eq_zero_iff _ _).1 h
        have hnz : (!(C.GravityPoint - U.ComponentLocation).IsZero) = true := by
          rw [Bool.not_eq_true', FVector.isZero_false_iff]
          exact hne
        simp only [hnz, if_true, Bool.not_false, Bool.true_or]
        rw [hmag]
      · rw [if_neg hp, if_neg hp]
        exact hworld

/-- C30 (amended), at a character at the origin attracted by the gravity point
(3, 4, 0): the gravity is (588, 784, 0), its direction (3/5, 4/5, 0) and its
magnitude 980. -/
theorem C30_getters_agree_off_gravity_point_witness :
    AttractorGravity.GravityScale ≠ 0
      ∧ ¬ GravityPointCoincides AttractorGravity
      ∧ AttractorGravity.GetGravity RatMath = ⟨588, 784, 0⟩
      ∧ AttractorGravity.GetGravityDirection RatMath false = ⟨3 / 5, 4 / 5, 0⟩
      ∧ AttractorGravity.GetGravityMagnitude = 980
      ∧ AttractorGravity.GetGravity RatMath
          = AttractorGravity.GetGravityDirection RatMath false * AttractorGravity.GetGravityMagnitude :=
  ⟨by decide!, by unfold GravityPointCoincides; decide!, by decide!, by decide!, by decide!,
    C30_getters_agree_off_gravity_point RatMath AttractorGravity (by decide!)
      (by unfold GravityPointCoincides; decide!)⟩

/-! ## Launching (C21) -/

theorem FQuat.axisZ_sizeSquared (q : FQuat) (h : q.SizeSquared = 1) : q.AxisZ.SizeSquared = 1 := by
  cases q with
  | mk x y z w =>
    simp only [FQuat.SizeSquared] at h
    simp only [FQuat.AxisZ, FVector.SizeSquared, FVector.add_def, FVector.mul_def, Square]
    have : (y * w * 2 + x * (z * 2)) * (y * w * 2 + x * (z * 2))
        + (x * w * -2 + y * (z * 2)) * (x * w * -2 + y * (z * 2))
        + (w * w - (x * x + y * y + z * z) + z * (z * 2))
          * (w * w - (x * x + y * y + z * z) + z * (z * 2))
        = (x * x + y * y + z * z + w * w) * (x * x + y * y + z * z + w * w) := by ring
    rw [this, h]
    norm_num

/-- Where the code of `GetComponentAxisZ` says it is `FQuat::RotateVector()` with
`FVector(0,0,1)`: the two agree on unit quaternions. -/
theorem FQuat.rotateVector_axisZ (q : FQuat) (h : q.SizeSquared = 1) :
    q.RotateVector ⟨0, 0, 1⟩ = q.AxisZ := by
  cases q with
  | mk x y z w =>
    simp only [FQuat.SizeSquared] at h
    simp only [FQuat.RotateVector, FQuat.AxisZ, FVector.Cross, FVector.add_def, FVector.mul_def,
      FVector.smul_def, Square, FVector.SizeSquared, FVector.mk.injEq]
    refine ⟨by ring, by ring, ?_⟩
    linear_combination (-1 : ℚ) * h

/-- What `LaunchCharacterRotated` launches with, for a unit up axis: with both
flags the launch velocity, with none the sum; with the horizontal override alone
the horizontal part is the launch velocity's and the vertical part stays the
current one, and the other way round with the vertical override alone. -/
theorem launchCharacterRotatedVelocity_parts (Velocity AxisZ LaunchVelocity : FVector)
    (hU : AxisZ.SizeSquared = 1) :
    ADashCharacter.LaunchCharacterRotatedVelocity Velocity AxisZ LaunchVelocity false false
        = Velocity + LaunchVelocity
      ∧ ADashCharacter.LaunchCharacterRotatedVelocity Velocity AxisZ LaunchVelocity true true
        = LaunchVelocity
      ∧ FVector.VectorPlaneProject
          (ADashCharacter.LaunchCharacterRotatedVelocity Velocity AxisZ LaunchVelocity true false)
          AxisZ = FVector.VectorPlaneProject LaunchVelocity AxisZ
      ∧ FVector.Dot
          (ADashCharacter.LaunchCharacterRotatedVelocity Velocity AxisZ LaunchVelocity true false)
          AxisZ = FVector.Dot Velocity AxisZ
      ∧ FVector.VectorPlaneProject
          (ADashCharacter.LaunchCharacterRotatedVelocity Velocity AxisZ LaunchVelocity false true)
          AxisZ = FVector.VectorPlaneProject Velocity AxisZ
      ∧ FVector.Dot
          (ADashCharacter.LaunchCharacterRotatedVelocity Velocity AxisZ LaunchVelocity false true)
          AxisZ = FVector.Dot LaunchVelocity AxisZ := by
  cases AxisZ with
  | mk x y z =>
    cases Velocity with
    | mk a b c =>
      cases LaunchVelocity with
      | mk p q r =>
        simp only [FVector.SizeSquared] at hU
        simp only [ADashCharacter.LaunchCharacterRotatedVelocity, FVector.VectorPlaneProject,
          FVector.ProjectOnToNormal, FVector.Dot, FVector.add_def, FVector.sub_def,
          FVector.mul_def, FVector.mk.injEq, Bool.not_true, Bool.not_false, Bool.and_self,
          Bool.and_true, Bool.and_false, Bool.false_and, Bool.true_and, if_true, if_false,
          Bool.false_eq_true]
        refine ⟨trivial, trivial, ⟨?_, ?_, ?_⟩, ?_, ⟨?_, ?_, ?_⟩, ?_⟩
        · linear_combination (-(x * (a * x + b * y + c * z)) + x * (p * x + q * y + r * z)) * hU
        · linear_combination (-(y * (a * x + b * y + c * z)) + y * (p * x + q * y + r * z)) * hU
        · linear_combination (-(z * (a * x + b * y + c * z)) + z * (p * x + q * y + r * z)) * hU
        · linear_combination ((a * x + b * y + c * z) - (p * x + q * y + r * z)) * hU
        · linear_combination (-(x * (p * x + q * y + r * z)) + x * (a * x + b * y + c * z)) * hU
        · linear_combination (-(y * (p * x + q * y + r * z)) + y * (a * x + b * y + c * z)) * hU
        · linear_combination (-(z * (p * x + q * y + r * z)) + z * (a * x + b * y + c * z)) * hU
        · linear_combination ((p * x + q * y + r * z) - (a * x + b * y + c * z)) * hU

/-- C21 (the code at the failing input). An upright character moving at
(200, 0, 100) is launched with (500, 0, 300). With the horizontal override alone
the velocity handed to `Launch` is (500, 0, 100): its vertical part is the current
100, not 100 + 300. With the vertical override alone it is (200, 0, 300): its
horizontal part is the current (200, 0, 0), not (200, 0, 0) + (500, 0, 0). With no
override it is the sum, with both the launch velocity. -/
theorem C21_launch_drops_the_added_part :
    RisingCharacter.GetComponentQuat.AxisZ = ⟨0, 0, 1⟩
      ∧ ADashCharacter.LaunchCharacterRotatedVelocity RisingCharacter.Velocity
          RisingCharacter.GetComponentQuat.AxisZ ⟨500, 0, 300⟩ true false = ⟨500, 0, 100⟩
      ∧ FVector.Dot
          (ADashCharacter.LaunchCharacterRotatedVelocity RisingCharacter.Velocity
            RisingCharacter.GetComponentQuat.AxisZ ⟨500, 0, 300⟩ true false)
          RisingCharacter.GetComponentQuat.AxisZ
          ≠ FVector.Dot RisingCharacter.Velocity RisingCharacter.GetComponentQuat.AxisZ
            + FVector.Dot ⟨500, 0, 300⟩ RisingCharacter.GetComponentQuat.AxisZ
      ∧ ADashCharacter.LaunchCharacterRotatedVelocity RisingCharacter.Velocity
          RisingCharacter.GetComponentQuat.AxisZ ⟨500, 0, 300⟩ false true = ⟨200, 0, 300⟩
      ∧ FVector.VectorPlaneProject
          (ADashCharacter.LaunchCharacterRotatedVelocity RisingCharacter.Velocity
            RisingCharacter.GetComponentQuat.AxisZ ⟨500, 0, 300⟩ false true)
          RisingCharacter.GetComponentQuat.AxisZ
          ≠ FVector.VectorPlaneProject RisingCharacter.Velocity
              RisingCharacter.GetComponentQuat.AxisZ
            + FVector.VectorPlaneProject ⟨500, 0, 300⟩ RisingCharacter.GetComponentQuat.AxisZ
      ∧ ADashCharacter.LaunchCharacterRotatedVelocity RisingCharacter.Velocity
          RisingCharacter.GetComponentQuat.AxisZ ⟨500, 0, 300⟩ false false = ⟨700, 0, 400⟩
      ∧ ADashCharacter.LaunchCharacterRotatedVelocity RisingCharacter.Velocity
          RisingCharacter.GetComponentQuat.AxisZ ⟨500, 0, 300⟩ true true = ⟨500, 0, 300⟩
      ∧ ∀ (Launch : UDashCharacterMovementComponent → FVector → UDashCharacterMovementComponent)
          (OnLaunched : UDashCharacterMovementComponent → FVector → Bool → Bool →
            UDashCharacterMovementComponent),
          ADashCharacter.LaunchCharacterRotated Launch OnLaunched (some RisingCharacter)
              ⟨500, 0, 300⟩ true false
            = some (OnLaunched (Launch RisingCharacter ⟨500, 0, 100⟩) ⟨500, 0, 300⟩ true false) := by
  refine ⟨by decide!, by decide!, by decide!, by decide!, by decide!, by decide!, by decide!, ?_⟩
  intro Launch OnLaunched
  have h : ADashCharacter.LaunchCharacterRotatedVelocity RisingCharacter.Velocity
      RisingCharacter.GetComponentQuat.AxisZ ⟨500, 0, 300⟩ true false = ⟨500, 0, 100⟩ := by
    decide!
  simp only [ADashCharacter.LaunchCharacterRotated, h]

/-! ## Keeping the ground velocity horizontal (C22) -/

theorem FVector.dot_mul_left (v w : FVector) (s : ℚ) :
    FVector.Dot (v * s) w = FVector.Dot v w * s := by
  simp only [FVector.Dot, FVector.mul_def]
  ring

theorem FVector.sizeSquared_mul (v : FVector) (s : ℚ) :
    (v * s).SizeSquared = v.SizeSquared * (s * s) := by
  simp only [FVector.SizeSquared, FVector.mul_def]
  ring

theorem FVector.dot_planeProject (V N : FVector) (hN : N.SizeSquared = 1) :
    FVector.Dot (FVector.VectorPlaneProject V N) N = 0 := by
  cases V with
  | mk a b c =>
    cases N with
    | mk x y z =>
      simp only [FVector.SizeSquared] at hN
      simp only [FVector.VectorPlaneProject, FVector.ProjectOnToNormal, FVector.Dot,
        FVector.sub_def, FVector.mul_def]
      linear_combination (-(a * x + b * y + c * z)) * hN

theorem FVector.getSafeNormal_multiple (M : FMath) (v : FVector) :
    ∃ s : ℚ, v.GetSafeNormal M = v * s := by
  unfold FVector.GetSafeNormal
  simp only
  split_ifs
  · exact ⟨1, by cases v; simp [FVector.mul_def]⟩
  · exact ⟨0, by simp [FVector.mul_def, FVector.ZeroVector]⟩
  · exact ⟨_, rfl⟩

theorem FVector.getSafeNormal_small (M : FMath) (v : FVector) (h : v.SizeSquared < SMALL_NUMBER) :
    v.GetSafeNormal M = FVector.ZeroVector := by
  unfold FVector.SizeSquared at h
  unfold FVector.GetSafeNormal
  simp only
  have h1 : ¬ v.X * v.X + v.Y * v.Y + v.Z * v.Z = 1 := by
    intro h1
    rw [h1] at h
    norm_num [SMALL_NUMBER] at h
  rw [if_neg h1, if_pos h]

/-- Where the square roots are exact, the safe normal of a vector that is not
shorter than the tolerance is the vector scaled to length one, by the inverse of
its length. -/
theorem FVector.getSafeNormal_exact (M : FMath) (v : FVector)
    (hx : SMALL_NUMBER ≤ v.SizeSquared) (hE : IsExactAt M v.SizeSquared) :
    ∃ k : ℚ, v.GetSafeNormal M = v * k ∧ k * k * v.SizeSquared = 1
      ∧ k * M.Sqrt v.SizeSquared = 1 := by
  obtain ⟨hS, hS0, hI⟩ := hE
  unfold FVector.GetSafeNormal
  simp only
  by_cases h1 : v.X * v.X + v.Y * v.Y + v.Z * v.Z = 1
  · rw [if_pos h1]
    have hv : v.SizeSquared = 1 := h1
    rw [hv] at hS hS0 ⊢
    have hs1 : M.Sqrt 1 = 1 := by nlinarith
    exact ⟨1, by cases v; simp [FVector.mul_def], by norm_num, by rw [hs1]; norm_num⟩
  · have hx2 : ¬ v.X * v.X + v.Y * v.Y + v.Z * v.Z < SMALL_NUMBER := not_lt.2 hx
    rw [if_neg h1, if_neg hx2]
    refine ⟨M.InvSqrt (v.X * v.X + v.Y * v.Y + v.Z * v.Z), rfl, ?_, hI⟩
    have hv : v.X * v.X + v.Y * v.Y + v.Z * v.Z = v.SizeSquared := rfl
    rw [hv]
    calc M.InvSqrt v.SizeSquared * M.InvSqrt v.SizeSquared * v.SizeSquared
        = M.InvSqrt v.SizeSquared * M.InvSqrt v.SizeSquared
          * (M.Sqrt v.SizeSquared * M.Sqrt v.SizeSquared) := by rw [hS]
      _ = (M.InvSqrt v.SizeSquared * M.Sqrt v.SizeSquared)
          * (M.InvSqrt v.SizeSquared * M.Sqrt v.SizeSquared) := by ring
      _ = 1 := by rw [hI]; norm_num

/-- C22 (counterexample). An upright character moving straight up at 100 units per
second, with `bMaintainHorizontalGroundVelocity` false: after
`MaintainHorizontalGroundVelocity` its velocity is zero, of magnitude 0 and not
100. -/
theorem C22_vertical_velocity_counterexample :
    MovingStraightUp.bMaintainHorizontalGroundVelocity = false
      ∧ MovingStraightUp.GetComponentQuat.SizeSquared = 1
      ∧ MovingStraightUp.Velocity.Size RatMath = 100
      ∧ (MovingStraightUp.MaintainHorizontalGroundVelocity RatMath).Velocity = FVector.ZeroVector
      ∧ (MovingStraightUp.MaintainHorizontalGroundVelocity RatMath).Velocity.Size RatMath = 0
      ∧ (MovingStraightUp.MaintainHorizontalGroundVelocity RatMath).Velocity.Size RatMath
          ≠ MovingStraightUp.Velocity.Size RatMath := by
  decide!

/-- The rational square roots of the worked examples do not overshoot at any
non-negative argument: they are accurate there with the relative error 1. -/
theorem ratMath_accurate (x : ℚ) (hx : 0 ≤ x) :
    IsAccurateSqrtAt RatMath 1 x ∧ IsAccurateInvSqrtAt RatMath 1 x := by
  refine ⟨⟨?_, RatMath_Sqrt_sq_le x hx⟩, ⟨?_, RatMath_InvSqrt_sq_mul_le x hx⟩⟩
  · rw [sub_self, zero_mul]
    exact mul_self_nonneg _
  · rw [sub_self]
    exact mul_nonneg (mul_self_nonneg _) hx

/-- The safe normal of a vector that is not shorter than the tolerance has a
squared length as accurate as the inverse square root. -/
theorem getSafeNormal_sizeSquared_accurate (M : FMath) (ε : ℚ) (v : FVector)
    (hx : SMALL_NUMBER ≤ v.SizeSquared) (hA : IsAccurateInvSqrtAt M ε v.SizeSquared) :
    1 - ε ≤ (v.GetSafeNormal M).SizeSquared ∧ (v.GetSafeNormal M).SizeSquared ≤ 1 := by
  obtain ⟨hlo, hhi⟩ := hA
  unfold FVector.GetSafeNormal
  simp only
  by_cases h1 : v.X * v.X + v.Y * v.Y + v.Z * v.Z = 1
  · rw [if_pos h1]
    have hv : v.SizeSquared = 1 := h1
    rw [hv] at hlo hhi ⊢
    constructor
    · linarith
    · exact le_refl 1
  · have hx2 : ¬ v.X * v.X + v.Y * v.Y + v.Z * v.Z < SMALL_NUMBER := not_lt.2 hx
    rw [if_neg h1, if_neg hx2]
    have hv : v.X * v.X + v.Y * v.Y + v.Z * v.Z = v.SizeSquared := rfl
    have hsz : (⟨v.X * M.InvSqrt (v.X * v.X + v.Y * v.Y + v.Z * v.Z),
        v.Y * M.InvSqrt (v.X * v.X + v.Y * v.Y + v.Z * v.Z),
        v.Z * M.InvSqrt (v.X * v.X + v.Y * v.Y + v.Z * v.Z)⟩ : FVector).SizeSquared
        = M.InvSqrt v.SizeSquared * M.InvSqrt v.SizeSquared * v.SizeSquared := by
      rw [hv]
      simp only [FVector.SizeSquared]
      ring
    rw [hsz]
    exact ⟨hlo, hhi⟩

/-- C22 (amended). For a capsule rotated by a unit quaternion, the velocity after
`MaintainHorizontalGroundVelocity` has a zero component along the capsule up axis.
When `bMaintainHorizontalGroundVelocity` is false, a velocity whose part orthogonal
to the up axis is shorter than the tolerance of the safe normal (squared length
below `SMALL_NUMBER`, as for a velocity along the up axis) becomes zero. For every
other velocity the magnitude after the call is the magnitude before it up to the
accuracy of the square roots: with an inverse square root (at the squared length
of the horizontal part) and a square root (at the squared length of the velocity)
that do not overshoot and have the relative error `ε` on the square, the squared
magnitude after the call lies between `(1 - ε)²` times the squared magnitude
before the call and that squared magnitude; the magnitudes are equal where the
roots are exact. -/
theorem C22_maintain_horizontal_ground_velocity (M : FMath) (C : UDashCharacterMovementComponent)
    (hQ : IsUnitQuat C.GetComponentQuat) :
    FVector.Dot (C.MaintainHorizontalGroundVelocity M).Velocity C.GetComponentAxisZ = 0
      ∧ (C.bMaintainHorizontalGroundVelocity = false →
          ((FVector.VectorPlaneProject C.Velocity C.GetComponentAxisZ).SizeSquared < SMALL_NUMBER →
            (C.MaintainHorizontalGroundVelocity M).Velocity = FVector.ZeroVector)
          ∧ (SMALL_NUMBER ≤ (FVector.VectorPlaneProject C.Velocity C.GetComponentAxisZ).SizeSquared →
              ∀ ε : ℚ, 0 ≤ ε → ε ≤ 1 →
                IsAccurateInvSqrtAt M ε
                  (FVector.VectorPlaneProject C.Velocity C.GetComponentAxisZ).SizeSquared →
                IsAccurateSqrtAt M ε C.Velocity.SizeSquared →
                (1 - ε) * (1 - ε) * C.Velocity.SizeSquared
                    ≤ (C.MaintainHorizontalGroundVelocity M).Velocity.SizeSquared
                  ∧ (C.MaintainHorizontalGroundVelocity M).Velocity.SizeSquared
                    ≤ C.Velocity.SizeSquared)
          ∧ (SMALL_NUMBER ≤ (FVector.VectorPlaneProject C.Velocity C.GetComponentAxisZ).SizeSquared →
              IsAccurateInvSqrtAt M 0
                (FVector.VectorPlaneProject C.Velocity C.GetComponentAxisZ).SizeSquared →
              IsAccurateSqrtAt M 0 C.Velocity.SizeSquared →
              (C.MaintainHorizontalGroundVelocity M).Velocity.SizeSquared = C.Velocity.SizeSquared
                ∧ (C.MaintainHorizontalGroundVelocity M).Velocity.Size M = C.Velocity.Size M)) := by
  have hU : C.GetComponentAxisZ.SizeSquared = 1 := FQuat.axisZ_sizeSquared _ hQ
  have hP := FVector.dot_planeProject C.Velocity C.GetComponentAxisZ hU
  have hBound : ∀ ε : ℚ, 0 ≤ ε → ε ≤ 1 →
      SMALL_NUMBER ≤ (FVector.VectorPlaneProject C.Velocity C.GetComponentAxisZ).SizeSquared →
      IsAccurateInvSqrtAt M ε
        (FVector.VectorPlaneProject C.Velocity C.GetComponentAxisZ).SizeSquared →
      IsAccurateSqrtAt M ε C.Velocity.SizeSquared →
      (1 - ε) * (1 - ε) * C.Velocity.SizeSquared
          ≤ ((FVector.VectorPlaneProject C.Velocity C.GetComponentAxisZ).GetSafeNormal M
              * C.Velocity.Size M).SizeSquared
        ∧ ((FVector.VectorPlaneProject C.Velocity C.GetComponentAxisZ).GetSafeNormal M
              * C.Velocity.Size M).SizeSquared ≤ C.Velocity.SizeSquared := by
    intro ε h0 h1 hbig hInv hSqrt
    obtain ⟨hlo, hhi⟩ := getSafeNormal_sizeSquared_accurate M ε _ hbig hInv
    obtain ⟨hslo, hshi⟩ := hSqrt
    have hS : C.Velocity.Size M * C.Velocity.Size M
        = M.Sqrt C.Velocity.SizeSquared * M.Sqrt C.Velocity.SizeSquared := rfl
    have hr : 0 ≤ M.Sqrt C.Velocity.SizeSquared * M.Sqrt C.Velocity.SizeSquared :=
      mul_self_nonneg _
    have he : 0 ≤ 1 - ε := by linarith
    rw [FVector.sizeSquared_mul, hS]
    constructor
    · have a1 : (1 - ε) * ((1 - ε) * C.Velocity.SizeSquared)
          ≤ (1 - ε) * (M.Sqrt C.Velocity.SizeSquared * M.Sqrt C.Velocity.SizeSquared) :=
        mul_le_mul_of_nonneg_left hslo he
      have a2 : (1 - ε) * (M.Sqrt C.Velocity.SizeSquared * M.Sqrt C.Velocity.SizeSquared)
          ≤ ((FVector.VectorPlaneProject C.Velocity C.GetComponentAxisZ).GetSafeNormal
              M).SizeSquared
            * (M.Sqrt C.Velocity.SizeSquared * M.Sqrt C.Velocity.SizeSquared) :=
        mul_le_mul_of_nonneg_right hlo hr
      linarith
    · have a3 : ((FVector.VectorPlaneProject C.Velocity C.GetComponentAxisZ).GetSafeNormal
              M).SizeSquared
            * (M.Sqrt C.Velocity.SizeSquared * M.Sqrt C.Velocity.SizeSquared)
          ≤ 1 * (M.Sqrt C.Velocity.SizeSquared * M.Sqrt C.Velocity.SizeSquared) :=
        mul_le_mul_of_nonneg_right hhi hr
      linarith
  constructor
  · unfold MaintainHorizontalGroundVelocity
    by_cases hb : C.bMaintainHorizontalGroundVelocity = true
    · rw [if_pos hb]
      exact hP
    · rw [if_neg hb]
      obtain ⟨s, hs⟩ := FVector.getSafeNormal_multiple M
        (FVector.VectorPlaneProject C.Velocity C.GetComponentAxisZ)
      simp only [hs, FVector.dot_mul_left, hP, zero_mul]
  · intro hb
    have hb2 : ¬ C.bMaintainHorizontalGroundVelocity = true := by simp [hb]
    unfold MaintainHorizontalGroundVelocity
    rw [if_neg hb2]
    refine ⟨?_, ?_, ?_⟩
    · intro hsmall
      simp only [FVector.getSafeNormal_small M _ hsmall]
      simp [FVector.mul_def, FVector.ZeroVector]
    · intro hbig ε h0 h1 hInv hSqrt
      exact hBound ε h0 h1 hbig hInv hSqrt
    · intro hbig hInv hSqrt
      obtain ⟨hlo, hhi⟩ := hBound 0 (le_refl 0) (by norm_num) hbig hInv hSqrt
      have hsq : ((FVector.VectorPlaneProject C.Velocity C.GetComponentAxisZ).GetSafeNormal M
          * C.Velocity.Size M).SizeSquared = C.Velocity.SizeSquared := by
        apply le_antisymm hhi
        linarith
      refine ⟨hsq, ?_⟩
      show M.Sqrt _ = M.Sqrt _
      exact congrArg M.Sqrt hsq

/-- C22 (amended). At an upright character moving at (3, 0, 4), where the roots
are exact, the velocity becomes (5, 0, 0), of the same magnitude. At the character
moving at (1, 1, 0), of squared speed 2, with the roots of 2 to two digits
(relative error 1/50 on the square), the velocity becomes (49/50, 49/50, 0), whose
squared magnitude is at least (49/50)² times 2. At the character moving straight
up the velocity becomes zero. -/
theorem C22_maintain_horizontal_ground_velocity_witness :
    IsUnitQuat MovingUpAndAlong.GetComponentQuat
      ∧ (MovingUpAndAlong.MaintainHorizontalGroundVelocity RatMath).Velocity = ⟨5, 0, 0⟩
      ∧ FVector.Dot (MovingUpAndAlong.MaintainHorizontalGroundVelocity RatMath).Velocity
          MovingUpAndAlong.GetComponentAxisZ = 0
      ∧ (MovingUpAndAlong.MaintainHorizontalGroundVelocity RatMath).Velocity.Size RatMath
          = MovingUpAndAlong.Velocity.Size RatMath
      ∧ IsAccurateInvSqrtAt RefinedRatMath (1 / 50)
          (FVector.VectorPlaneProject MovingDiagonally.Velocity
            MovingDiagonally.GetComponentAxisZ).SizeSquared
      ∧ IsAccurateSqrtAt RefinedRatMath (1 / 50) MovingDiagonally.Velocity.SizeSquared
      ∧ (MovingDiagonally.MaintainHorizontalGroundVelocity RefinedRatMath).Velocity
          = ⟨49 / 50, 49 / 50, 0⟩
      ∧ ((1 - 1 / 50) * (1 - 1 / 50) * MovingDiagonally.Velocity.SizeSquared
            ≤ (MovingDiagonally.MaintainHorizontalGroundVelocity RefinedRatMath).Velocity.SizeSquared
          ∧ (MovingDiagonally.MaintainHorizontalGroundVelocity RefinedRatMath).Velocity.SizeSquared
            ≤ MovingDiagonally.Velocity.SizeSquared)
      ∧ (MovingStraightUp.MaintainHorizontalGroundVelocity RatMath).Velocity = FVector.ZeroVector :=
  ⟨by unfold IsUnitQuat; decide!, by decide!,
    (C22_maintain_horizontal_ground_velocity RatMath MovingUpAndAlong
      (by unfold IsUnitQuat; decide!)).1,
    (((C22_maintain_horizontal_ground_velocity RatMath MovingUpAndAlong
      (by unfold IsUnitQuat; decide!)).2 (by decide!)).2.2 (by decide!)
        (by unfold IsAccurateInvSqrtAt; decide!) (by unfold IsAccurateSqrtAt; decide!)).2,
    by unfold IsAccurateInvSqrtAt; decide!, by unfold IsAccurateSqrtAt; decide!, by decide!,
    ((C22_maintain_horizontal_ground_velocity RefinedRatMath MovingDiagonally
      (by unfold IsUnitQuat; decide!)).2 (by decide!)).2.1 (by decide!) (1 / 50) (by decide!)
        (by decide!) (by unfold IsAccurateInvSqrtAt; decide!) (by unfold IsAccurateSqrtAt; decide!),
    ((C22_maintain_horizontal_ground_velocity RatMath MovingStraightUp
      (by unfold IsUnitQuat; decide!)).2 (by decide!)).1 (by decide!)⟩

/-! ## Slope boosting (C27) -/

theorem FVector.dot_add_left (a b w : FVector) :
    FVector.Dot (a + b) w = FVector.Dot a w + FVector.Dot b w := by
  simp only [FVector.Dot, FVector.add_def]
  ring

theorem planeSlideVector_keepsHorizontal (Up : FVector) :
    SlideKeepsHorizontal PlaneSlideVector Up := by
  intro D N H hD hN
  cases D with
  | mk a b c =>
    cases N with
    | mk x y z =>
      cases Up with
      | mk u v w =>
        simp only [FVector.Dot] at hD hN
        simp only [PlaneSlideVector, FVector.VectorPlaneProject, FVector.ProjectOnToNormal,
          FVector.Dot, FVector.sub_def, FVector.mul_def]
        linear_combination hD - (a * x + b * y + c * z) * hN

/-- C27. For a capsule rotated by a unit quaternion and a slide vector that keeps
horizontal moves horizontal: when the slide result has a positive component along
the capsule up axis, the vector `HandleSlopeBoosting` returns has a component
along that axis of at most `max 0 ((Delta | up) * Time) + KINDA_SMALL_NUMBER`; and
when that component is not positive it returns the slide result unchanged. -/
theorem C27_slope_boosting_limits_lift (M : FMath)
    (ComputeSlideVector : FVector → ℚ → FVector → FHitResult → FVector)
    (C : UDashCharacterMovementComponent) (SlideResult Delta : FVector) (Time : ℚ)
    (Normal : FVector) (Hit : FHitResult)
    (hQ : IsUnitQuat C.GetComponentQuat)
    (hSlide : SlideKeepsHorizontal ComputeSlideVector C.GetComponentAxisZ) :
    (0 < FVector.Dot SlideResult C.GetComponentAxisZ →
        FVector.Dot (C.HandleSlopeBoosting M ComputeSlideVector SlideResult Delta Time Normal Hit)
            C.GetComponentAxisZ
          ≤ max 0 (FVector.Dot Delta C.GetComponentAxisZ * Time) + KINDA_SMALL_NUMBER)
      ∧ (FVector.Dot SlideResult C.GetComponentAxisZ ≤ 0 →
          C.HandleSlopeBoosting M ComputeSlideVector SlideResult Delta Time Normal Hit
            = SlideResult) := by
  have hU : C.GetComponentAxisZ.SizeSquared = 1 := FQuat.axisZ_sizeSquared _ hQ
  constructor
  · intro hpos
    unfold HandleSlopeBoosting
    simp only
    rw [if_pos hpos]
    by_cases hOver : FVector.Dot SlideResult C.GetComponentAxisZ
        - FVector.Dot Delta C.GetComponentAxisZ * Time > KINDA_SMALL_NUMBER
    · rw [if_pos hOver]
      have hN : FVector.Dot
          ((FVector.VectorPlaneProject Normal C.GetComponentAxisZ).GetSafeNormal M)
          C.GetComponentAxisZ = 0 := by
        obtain ⟨s, hs⟩ := FVector.getSafeNormal_multiple M
          (FVector.VectorPlaneProject Normal C.GetComponentAxisZ)
        rw [hs, FVector.dot_mul_left, FVector.dot_planeProject _ _ hU, zero_mul]
      rw [FVector.dot_add_left, hSlide _ _ Hit (FVector.dot_planeProject _ _ hU) hN, add_zero]
      by_cases hZ : FVector.Dot Delta C.GetComponentAxisZ * Time > 0
      · rw [if_pos hZ, FVector.dot_mul_left, mul_div_cancel₀ _ (ne_of_gt hpos)]
        have := le_max_right 0 (FVector.Dot Delta C.GetComponentAxisZ * Time)
        have hk : (0 : ℚ) < KINDA_SMALL_NUMBER := by norm_num [KINDA_SMALL_NUMBER]
        linarith
      · rw [if_neg hZ]
        have h0 : FVector.Dot FVector.ZeroVector C.GetComponentAxisZ = 0 := by
          simp [FVector.Dot, FVector.ZeroVector]
        rw [h0]
        have := le_max_left 0 (FVector.Dot Delta C.GetComponentAxisZ * Time)
        have hk : (0 : ℚ) < KINDA_SMALL_NUMBER := by norm_num [KINDA_SMALL_NUMBER]
        linarith
    · rw [if_neg hOver]
      have := le_max_right 0 (FVector.Dot Delta C.GetComponentAxisZ * Time)
      linarith [not_lt.1 hOver]
  · intro hle
    unfold HandleSlopeBoosting
    simp only
    rw [if_neg (not_lt.2 hle)]

/-- C27, at an upright character: a slide result (3, 0, 4) of a move (10, 0, 2) of
which half is applied may rise by 1 only, and is returned as (3, 0, 1); a slide
result heading down is returned as it is. -/
theorem C27_slope_boosting_limits_lift_witness :
    IsUnitQuat DefaultComponent.GetComponentQuat
      ∧ SlideKeepsHorizontal PlaneSlideVector DefaultComponent.GetComponentAxisZ
      ∧ 0 < FVector.Dot ⟨3, 0, 4⟩ DefaultComponent.GetComponentAxisZ
      ∧ DefaultComponent.HandleSlopeBoosting RatMath PlaneSlideVector ⟨3, 0, 4⟩ ⟨10, 0, 2⟩
          (1 / 2) ⟨0, 1, 0⟩ SideWallHit = ⟨3, 0, 1⟩
      ∧ FVector.Dot
          (DefaultComponent.HandleSlopeBoosting RatMath PlaneSlideVector ⟨3, 0, 4⟩ ⟨10, 0, 2⟩
            (1 / 2) ⟨0, 1, 0⟩ SideWallHit) DefaultComponent.GetComponentAxisZ
          ≤ max 0 (FVector.Dot ⟨10, 0, 2⟩ DefaultComponent.GetComponentAxisZ * (1 / 2))
            + KINDA_SMALL_NUMBER
      ∧ DefaultComponent.HandleSlopeBoosting RatMath PlaneSlideVector ⟨3, 0, -4⟩ ⟨10, 0, 2⟩
          (1 / 2) ⟨0, 1, 0⟩ SideWallHit = ⟨3, 0, -4⟩ :=
  ⟨by unfold IsUnitQuat; decide!, planeSlideVector_keepsHorizontal _, by decide!, by decide!,
    (C27_slope_boosting_limits_lift RatMath PlaneSlideVector DefaultComponent ⟨3, 0, 4⟩
      ⟨10, 0, 2⟩ (1 / 2) ⟨0, 1, 0⟩ SideWallHit (by unfold IsUnitQuat; decide!)
      (planeSlideVector_keepsHorizontal _)).1 (by decide!),
    (C27_slope_boosting_limits_lift RatMath PlaneSlideVector DefaultComponent ⟨3, 0, -4⟩
      ⟨10, 0, 2⟩ (1 / 2) ⟨0, 1, 0⟩ SideWallHit (by unfold IsUnitQuat; decide!)
      (planeSlideVector_keepsHorizontal _)).2 (by decide!)⟩

/-! ## Air control at walls (C26) -/

theorem FVector.dot_mul_right (v w : FVector) (s : ℚ) :
    FVector.Dot v (w * s) = FVector.Dot v w * s := by
  simp only [FVector.Dot, FVector.mul_def]
  ring

theorem FVector.planeProject_dot (A n w : FVector) :
    FVector.Dot (FVector.VectorPlaneProject A n) w
      = FVector.Dot A w - FVector.Dot n w * FVector.Dot A n := by
  simp only [FVector.VectorPlaneProject, FVector.ProjectOnToNormal, FVector.Dot, FVector.sub_def,
    FVector.mul_def]
  ring

theorem FVector.dot_planeProject_right (A N G : FVector) :
    FVector.Dot A (FVector.VectorPlaneProject N G)
      = FVector.Dot A N - FVector.Dot A G * FVector.Dot N G := by
  simp only [FVector.VectorPlaneProject, FVector.ProjectOnToNormal, FVector.Dot, FVector.sub_def,
    FVector.mul_def]
  ring

theorem FVector.planeProject_sizeSquared (A n : FVector) :
    (FVector.VectorPlaneProject A n).SizeSquared
      = A.SizeSquared - FVector.Dot A n * FVector.Dot A n * (2 - n.SizeSquared) := by
  simp only [FVector.VectorPlaneProject, FVector.ProjectOnToNormal, FVector.Dot, FVector.sub_def,
    FVector.mul_def, FVector.SizeSquared]
  ring

theorem FVector.planeProject_dot_self (N G : FVector) :
    FVector.Dot (FVector.VectorPlaneProject N G) N
      = (FVector.VectorPlaneProject N G).SizeSquared
        + FVector.Dot N G * FVector.Dot (FVector.VectorPlaneProject N G) G := by
  simp only [FVector.VectorPlaneProject, FVector.ProjectOnToNormal, FVector.Dot, FVector.sub_def,
    FVector.mul_def, FVector.SizeSquared]
  ring

theorem FVector.planeProject_by_zero (A : FVector) :
    FVector.VectorPlaneProject A FVector.ZeroVector = A := by
  cases A
  simp [FVector.VectorPlaneProject, FVector.ProjectOnToNormal, FVector.Dot, FVector.sub_def,
    FVector.mul_def, FVector.ZeroVector]

/-- C26 (counterexample). A valid blocking hit on an almost level floor, whose
unit normal opposes the gravity direction (0, 0, -1), and the air control
(-1, 0, 0), orthogonal to gravity and pointing into the surface:
`LimitAirControlEx` returns the air control as it is, which is not tangent to the
surface. -/
theorem C26_nearly_level_hit_counterexample :
    NearlyLevelHit.IsValidBlockingHit = true
      ∧ NearlyLevelHit.Normal.SizeSquared = 1
      ∧ FVector.Dot NearlyLevelHit.Normal ⟨0, 0, -1⟩ < -VERTICAL_SLOPE_NORMAL_Z
      ∧ FVector.Dot ⟨-1, 0, 0⟩ (⟨0, 0, -1⟩ : FVector) = 0
      ∧ FVector.Dot ⟨-1, 0, 0⟩ NearlyLevelHit.Normal < 0
      ∧ LimitAirControlEx RatMath (fun _ _ => false) (1 / 60) ⟨-1, 0, 0⟩ NearlyLevelHit
          ⟨0, 0, -1⟩ false = ⟨-1, 0, 0⟩
      ∧ FVector.Dot
          (LimitAirControlEx RatMath (fun _ _ => false) (1 / 60) ⟨-1, 0, 0⟩ NearlyLevelHit
            ⟨0, 0, -1⟩ false) NearlyLevelHit.Normal ≠ 0 := by
  decide!

/-- The projection of an acceleration `A` orthogonal to the unit gravity direction
`G` on the plane of a multiple `n` of the part of a normal `N` orthogonal to
gravity: it is orthogonal to gravity, and its part along `N` is that of `A` times
`1 - |n|²`. -/
theorem planeProject_on_lateral_multiple (A N G : FVector) (k : ℚ) (hG : G.SizeSquared = 1)
    (hA : FVector.Dot A G = 0) :
    FVector.Dot (FVector.VectorPlaneProject A (FVector.VectorPlaneProject N G * k)) G = 0
      ∧ FVector.Dot (FVector.VectorPlaneProject A (FVector.VectorPlaneProject N G * k)) N
          = FVector.Dot A N * (1 - (FVector.VectorPlaneProject N G * k).SizeSquared) := by
  have e1 : FVector.Dot (FVector.VectorPlaneProject N G) G = 0 := FVector.dot_planeProject N G hG
  have e2 : FVector.Dot A (FVector.VectorPlaneProject N G) = FVector.Dot A N := by
    rw [FVector.dot_planeProject_right, hA, zero_mul, sub_zero]
  have e3 : FVector.Dot (FVector.VectorPlaneProject N G) N
      = (FVector.VectorPlaneProject N G).SizeSquared := by
    rw [FVector.planeProject_dot_self, e1, mul_zero, add_zero]
  constructor
  · rw [FVector.planeProject_dot, FVector.dot_mul_left, e1, hA]
    ring
  · rw [FVector.planeProject_dot, FVector.dot_mul_left, FVector.dot_mul_right, e2, e3,
      FVector.sizeSquared_mul]
    ring

/-- C26 (amended). For a valid blocking hit whose normal opposes the unit gravity
direction and an air control `A` orthogonal to gravity that points into the
surface, `LimitAirControlEx` without the landing spot check returns a vector `R`
that is orthogonal to gravity and whose part along the hit normal is that of `A`
times `1 - |Normal2D|²`, where `Normal2D` is the safe normal the code takes of the
part of the hit normal orthogonal to gravity. Where that part is not shorter than
the tolerance of the safe normal (squared length `h` at least `SMALL_NUMBER`) and
the inverse square root at `h` does not overshoot and has the relative error `ε`
on the square, `R` is no longer than `A` and `ε (A . Normal) ≤ R . Normal ≤ 0`; so
`R` is tangent to the hit surface where the inverse square root is exact. Where
that part is shorter than the tolerance, the air control is returned as it is. For
a valid blocking hit where the air control does not point into the surface, it is
returned as it is, with or without the landing spot check. -/
theorem C26_limit_air_control (M : FMath) (IsValidLandingSpot : FVector → FHitResult → Bool)
    (DeltaTime : ℚ) (A : FVector) (Hit : FHitResult) (G : FVector) :
    (AirControlIntoWall A Hit G →
        FVector.Dot (LimitAirControlEx M IsValidLandingSpot DeltaTime A Hit G false) G = 0
          ∧ FVector.Dot (LimitAirControlEx M IsValidLandingSpot DeltaTime A Hit G false) Hit.Normal
              = FVector.Dot A Hit.Normal
                * (1 - ((FVector.VectorPlaneProject Hit.Normal G).GetSafeNormal M).SizeSquared)
          ∧ (SMALL_NUMBER ≤ (FVector.VectorPlaneProject Hit.Normal G).SizeSquared →
              ∀ ε : ℚ,
                IsAccurateInvSqrtAt M ε (FVector.VectorPlaneProject Hit.Normal G).SizeSquared →
                (LimitAirControlEx M IsValidLandingSpot DeltaTime A Hit G false).SizeSquared
                    ≤ A.SizeSquared
                  ∧ ε * FVector.Dot A Hit.Normal
                    ≤ FVector.Dot (LimitAirControlEx M IsValidLandingSpot DeltaTime A Hit G false)
                        Hit.Normal
                  ∧ FVector.Dot (LimitAirControlEx M IsValidLandingSpot DeltaTime A Hit G false)
                      Hit.Normal ≤ 0)
          ∧ (SMALL_NUMBER ≤ (FVector.VectorPlaneProject Hit.Normal G).SizeSquared →
              IsAccurateInvSqrtAt M 0 (FVector.VectorPlaneProject Hit.Normal G).SizeSquared →
              FVector.Dot (LimitAirControlEx M IsValidLandingSpot DeltaTime A Hit G false)
                Hit.Normal = 0)
          ∧ ((FVector.VectorPlaneProject Hit.Normal G).SizeSquared < SMALL_NUMBER →
              LimitAirControlEx M IsValidLandingSpot DeltaTime A Hit G false = A))
      ∧ (∀ bCheckForValidLandingSpot : Bool, Hit.IsValidBlockingHit = true →
          0 ≤ FVector.Dot A Hit.Normal →
          LimitAirControlEx M IsValidLandingSpot DeltaTime A Hit G bCheckForValidLandingSpot = A) := by
  constructor
  · rintro ⟨hValid, hOpp, hG, hA, hInto⟩
    have c1 : (Hit.IsValidBlockingHit
        && decide (FVector.Dot Hit.Normal G < -VERTICAL_SLOPE_NORMAL_Z)) = true := by
      simp [hValid, hOpp]
    have c2 : ((!false || !IsValidLandingSpot Hit.Location Hit)
        && decide (FVector.Dot A Hit.Normal < 0)) = true := by
      simp [hInto]
    have hR : LimitAirControlEx M IsValidLandingSpot DeltaTime A Hit G false
        = FVector.VectorPlaneProject A
            ((FVector.VectorPlaneProject Hit.Normal G).GetSafeNormal M) := by
      unfold LimitAirControlEx
      rw [if_pos c1, if_pos c2]
    rw [hR]
    obtain ⟨k, hk⟩ := FVector.getSafeNormal_multiple M (FVector.VectorPlaneProject Hit.Normal G)
    have hId := planeProject_on_lateral_multiple A Hit.Normal G k hG hA
    rw [← hk] at hId
    refine ⟨hId.1, hId.2, ?_, ?_, ?_⟩
    · intro hbig ε hAcc
      obtain ⟨hlo, hhi⟩ := getSafeNormal_sizeSquared_accurate M ε _ hbig hAcc
      refine ⟨?_, ?_, ?_⟩
      · rw [FVector.planeProject_sizeSquared]
        nlinarith [mul_self_nonneg (FVector.Dot A
          ((FVector.VectorPlaneProject Hit.Normal G).GetSafeNormal M))]
      · rw [hId.2]
        nlinarith
      · rw [hId.2]
        nlinarith
    · intro hbig hAcc
      obtain ⟨hlo, hhi⟩ := getSafeNormal_sizeSquared_accurate M 0 _ hbig hAcc
      have h1 : ((FVector.VectorPlaneProject Hit.Normal G).GetSafeNormal M).SizeSquared = 1 := by
        linarith
      rw [hId.2, h1]
      ring
    · intro hsmall
      rw [FVector.getSafeNormal_small M _ hsmall, FVector.planeProject_by_zero]
  · intro bCheck hValid hAway
    have hPen : Hit.bStartPenetrating = false := by
      unfold FHitResult.IsValidBlockingHit at hValid
      cases hp : Hit.bStartPenetrating
      · rfl
      · rw [hp] at hValid
        simp at hValid
    have c2 : ¬ ((!bCheck || !IsValidLandingSpot Hit.Location Hit)
        && decide (FVector.Dot A Hit.Normal < 0)) = true := by
      simp [not_lt.2 hAway]
    unfold LimitAirControlEx
    by_cases c1 : (Hit.IsValidBlockingHit
        && decide (FVector.Dot Hit.Normal G < -VERTICAL_SLOPE_NORMAL_Z)) = true
    · rw [if_pos c1, if_neg c2]
    · rw [if_neg c1, hPen]
      simp

/-- C26 (amended), under the gravity direction (0, 0, -1). At a slope of normal
(3/5, 0, 4/5), where the inverse square root is exact, the air control (-1, 2, 0)
is limited to (0, 2, 0), tangent to the slope, and the air control (1, 2, 0),
which points away from the slope, is returned as it is. At the slope of normal
(4/9, 4/9, 7/9), with an inverse square root to three digits, the limited air
control (-1, 0, 0) is orthogonal to gravity and its part along the normal is
within a five-hundredth of what it was. At the almost level floor the air control
(-1, 0, 0) is returned as it is. -/
theorem C26_limit_air_control_witness :
    AirControlIntoWall ⟨-1, 2, 0⟩ SlopeHit ⟨0, 0, -1⟩
      ∧ LimitAirControlEx RatMath (fun _ _ => false) (1 / 60) ⟨-1, 2, 0⟩ SlopeHit ⟨0, 0, -1⟩ false
          = ⟨0, 2, 0⟩
      ∧ FVector.Dot
          (LimitAirControlEx RatMath (fun _ _ => false) (1 / 60) ⟨-1, 2, 0⟩ SlopeHit ⟨0, 0, -1⟩
            false) SlopeHit.Normal = 0
      ∧ AirControlIntoWall ⟨-1, 0, 0⟩ DiagonalSlopeHit ⟨0, 0, -1⟩
      ∧ IsAccurateInvSqrtAt RefinedRatMath (1 / 500)
          (FVector.VectorPlaneProject DiagonalSlopeHit.Normal ⟨0, 0, -1⟩).SizeSquared
      ∧ FVector.Dot
          (LimitAirControlEx RefinedRatMath (fun _ _ => false) (1 / 60) ⟨-1, 0, 0⟩
            DiagonalSlopeHit ⟨0, 0, -1⟩ false) ⟨0, 0, -1⟩ = 0
      ∧ (1 / 500 : ℚ) * FVector.Dot ⟨-1, 0, 0⟩ DiagonalSlopeHit.Normal
          ≤ FVector.Dot
              (LimitAirControlEx RefinedRatMath (fun _ _ => false) (1 / 60) ⟨-1, 0, 0⟩
                DiagonalSlopeHit ⟨0, 0, -1⟩ false) DiagonalSlopeHit.Normal
      ∧ LimitAirControlEx RatMath (fun _ _ => false) (1 / 60) ⟨1, 2, 0⟩ SlopeHit ⟨0, 0, -1⟩ true
          = ⟨1, 2, 0⟩
      ∧ LimitAirControlEx RatMath (fun _ _ => false) (1 / 60) ⟨-1, 0, 0⟩ NearlyLevelHit
          ⟨0, 0, -1⟩ false = ⟨-1, 0, 0⟩ :=
  ⟨by unfold AirControlIntoWall; decide!, by decide!,
    ((C26_limit_air_control RatMath (fun _ _ => false) (1 / 60) ⟨-1, 2, 0⟩ SlopeHit
      ⟨0, 0, -1⟩).1 (by unfold AirControlIntoWall; decide!)).2.2.2.1 (by decide!)
        (by unfold IsAccurateInvSqrtAt; decide!),
    by unfold AirControlIntoWall; decide!, by unfold IsAccurateInvSqrtAt; decide!,
    ((C26_limit_air_control RefinedRatMath (fun _ _ => false) (1 / 60) ⟨-1, 0, 0⟩
      DiagonalSlopeHit ⟨0, 0, -1⟩).1 (by unfold AirControlIntoWall; decide!)).1,
    (((C26_limit_air_control RefinedRatMath (fun _ _ => false) (1 / 60) ⟨-1, 0, 0⟩
      DiagonalSlopeHit ⟨0, 0, -1⟩).1 (by unfold AirControlIntoWall; decide!)).2.2.1 (by decide!)
        (1 / 500) (by unfold IsAccurateInvSqrtAt; decide!)).2.1,
    (C26_limit_air_control RatMath (fun _ _ => false) (1 / 60) ⟨1, 2, 0⟩ SlopeHit
      ⟨0, 0, -1⟩).2 true (by decide!) (by decide!),
    ((C26_limit_air_control RatMath (fun _ _ => false) (1 / 60) ⟨-1, 0, 0⟩ NearlyLevelHit
      ⟨0, 0, -1⟩).1 (by unfold AirControlIntoWall; decide!)).2.2.2.2 (by decide!)⟩

/-! ## The ramp vector (C23, C25) -/

/-- The rotation of a vector `D` orthogonal to the unit vector `P` about the axis
`P ^ (D * k)` by the quaternion of sine `s` and cosine `c`: it turns `D` towards
`-P`. -/
theorem rotate_about_lateral_axis (D P : FVector) (k s c : ℚ) (hP : P.SizeSquared = 1)
    (hO : FVector.Dot D P = 0) :
    (⟨s * (FVector.Cross P (D * k)).X, s * (FVector.Cross P (D * k)).Y,
        s * (FVector.Cross P (D * k)).Z, c⟩ : FQuat).RotateVector D
      = D * (1 - 2 * (s * s) * (k * k * D.SizeSquared))
        + P * (-(2 * (c * s) * (k * D.SizeSquared))) := by
  cases D with
  | mk a b e =>
    cases P with
    | mk x y z =>
      simp only [FVector.SizeSquared] at hP
      simp only [FVector.Dot] at hO
      simp only [FQuat.RotateVector, FVector.Cross, FVector.add_def, FVector.mul_def,
        FVector.smul_def, FVector.SizeSquared, FVector.mk.injEq]
      refine ⟨?_, ?_, ?_⟩
      · linear_combination
          (2 * c * s * k * a + 2 * s * s * k * k * a * (a * x + b * y + e * z)) * hO
            + (-(2 * s * s * k * k * a * (a * a + b * b + e * e))) * hP
      · linear_combination
          (2 * c * s * k * b + 2 * s * s * k * k * b * (a * x + b * y + e * z)) * hO
            + (-(2 * s * s * k * k * b * (a * a + b * b + e * e))) * hP
      · linear_combination
          (2 * c * s * k * e + 2 * s * s * k * k * e * (a * x + b * y + e * z)) * hO
            + (-(2 * s * s * k * k * e * (a * a + b * b + e * e))) * hP

/-- A move that is not orthogonal to a unit normal is not shorter than the
tolerance of the safe normal. -/
theorem sizeSquared_of_not_orthogonal (D N : FVector) (hN : N.SizeSquared = 1)
    (h : |FVector.Dot D N| > THRESH_NORMALS_ARE_ORTHOGONAL) : SMALL_NUMBER ≤ D.SizeSquared := by
  have hcs := cauchy_schwarz3 D.X D.Y D.Z N.X N.Y N.Z
  have hN2 : N.X * N.X + N.Y * N.Y + N.Z * N.Z = 1 := hN
  rw [hN2, mul_one] at hcs
  have hsq : FVector.Dot D N * FVector.Dot D N = |FVector.Dot D N| * |FVector.Dot D N| :=
    (abs_mul_abs_self _).symm
  have ht : (0 : ℚ) ≤ THRESH_NORMALS_ARE_ORTHOGONAL := by norm_num [THRESH_NORMALS_ARE_ORTHOGONAL]
  have hbig : THRESH_NORMALS_ARE_ORTHOGONAL * THRESH_NORMALS_ARE_ORTHOGONAL
      < |FVector.Dot D N| * |FVector.Dot D N| := by nlinarith
  have hD : FVector.Dot D N * FVector.Dot D N ≤ D.SizeSquared := hcs
  have hsmall : SMALL_NUMBER
      ≤ THRESH_NORMALS_ARE_ORTHOGONAL * THRESH_NORMALS_ARE_ORTHOGONAL := by
    norm_num [SMALL_NUMBER, THRESH_NORMALS_ARE_ORTHOGONAL]
  linarith

/-- The ramp vector before it is rescaled: `Delta` turned by the angle between
the floor normal and the plane normal, towards the side opposite to the plane
normal. -/
theorem rampVector_rotated (M : FMath) (T : FTrig) (Delta P : FVector) (d k : ℚ)
    (hP : P.SizeSquared = 1) (hO : FVector.Dot Delta P = 0)
    (hk : Delta.GetSafeNormal M = Delta * k) (hk1 : k * k * Delta.SizeSquared = 1) :
    (FQuat.FromAxisAngle T (FVector.Cross P (Delta.GetSafeNormal M)) (T.Acos d)).RotateVector Delta
      = Delta * (1 - 2 * (T.Sin ((1 / 2 : ℚ) * T.Acos d) * T.Sin ((1 / 2 : ℚ) * T.Acos d)) * 1)
        + P * (-(2 * (T.Cos ((1 / 2 : ℚ) * T.Acos d) * T.Sin ((1 / 2 : ℚ) * T.Acos d))
            * (k * Delta.SizeSquared))) := by
  rw [hk]
  unfold FQuat.FromAxisAngle
  simp only
  rw [rotate_about_lateral_axis Delta P k _ _ hP hO, hk1]

/-- C23 (the code at the failing input). An upright character moves by (5, 0, 0)
on a walkable ramp that rises in that direction, of unit normal
(-336/625, 0, 527/625), found by a sweep. The ramp vector is the move turned
downwards by the angle of the ramp: (527/125, 0, -336/125), or (5, 0, -1680/527)
with `bMaintainHorizontalGroundVelocity`. It points into the ramp and is not
orthogonal to the normal of the ramp. On the ramp of the same slope that descends
in the direction of the move the same vector results, and is orthogonal to the
normal of that ramp. -/
theorem C23_rising_ramp_vector_points_into_ramp :
    ComputesRampVector RampRunner ⟨5, 0, 0⟩ RisingRampHit false
      ∧ FVector.Dot ⟨5, 0, 0⟩ (⟨0, 0, 1⟩ : FVector) = 0
      ∧ RisingRampHit.ImpactNormal.SizeSquared = 1
      ∧ FVector.Dot ⟨5, 0, 0⟩ RisingRampHit.ImpactNormal < 0
      ∧ RampRunner.ComputeGroundMovementDeltaEx RatMath ExampleTrig ⟨5, 0, 0⟩ ⟨0, 0, 1⟩
          RisingRampHit false = ⟨527 / 125, 0, -336 / 125⟩
      ∧ FVector.Dot
          (RampRunner.ComputeGroundMovementDeltaEx RatMath ExampleTrig ⟨5, 0, 0⟩ ⟨0, 0, 1⟩
            RisingRampHit false) RisingRampHit.ImpactNormal ≠ 0
      ∧ DefaultComponent.ComputeGroundMovementDeltaEx RatMath ExampleTrig ⟨5, 0, 0⟩ ⟨0, 0, 1⟩
          RisingRampHit false = ⟨5, 0, -1680 / 527⟩
      ∧ FVector.Dot
          (DefaultComponent.ComputeGroundMovementDeltaEx RatMath ExampleTrig ⟨5, 0, 0⟩ ⟨0, 0, 1⟩
            RisingRampHit false) RisingRampHit.ImpactNormal ≠ 0
      ∧ RampRunner.ComputeGroundMovementDeltaEx RatMath ExampleTrig ⟨5, 0, 0⟩ ⟨0, 0, 1⟩
          DescendingRampHit false = ⟨527 / 125, 0, -336 / 125⟩
      ∧ FVector.Dot
          (RampRunner.ComputeGroundMovementDeltaEx RatMath ExampleTrig ⟨5, 0, 0⟩ ⟨0, 0, 1⟩
            DescendingRampHit false) DescendingRampHit.ImpactNormal = 0
      ∧ RampRunner.ComputeGroundMovementDeltaEx RatMath ExampleTrig ⟨5, 0, 0⟩ ⟨0, 0, 1⟩
          RisingRampHit true = ⟨5, 0, 0⟩ := by
  refine ⟨by unfold ComputesRampVector; decide!, ?_⟩
  decide!

/-- In every case other than that of a ramp vector, `ComputeGroundMovementDeltaEx`
returns `Delta` unchanged. -/
theorem computeGroundMovementDeltaEx_otherwise (M : FMath) (T : FTrig)
    (C : UDashCharacterMovementComponent) (Delta DeltaPlaneNormal : FVector)
    (RampHit : FHitResult) (bHitFromLineTrace : Bool)
    (h : ¬ ComputesRampVector C Delta RampHit bHitFromLineTrace) :
    C.ComputeGroundMovementDeltaEx M T Delta DeltaPlaneNormal RampHit bHitFromLineTrace = Delta := by
  have hcond : ¬ (!bHitFromLineTrace
      && decide (|FVector.Dot Delta RampHit.ImpactNormal| > THRESH_NORMALS_ARE_ORTHOGONAL)
      && C.IsWalkable RampHit) = true := by
    intro hc
    apply h
    simp only [Bool.and_eq_true, Bool.not_eq_true', decide_eq_true_eq] at hc
    exact ⟨hc.1.1, hc.1.2, hc.2⟩
  unfold ComputeGroundMovementDeltaEx
  simp only
  rw [if_neg hcond]

/-- The ramp vector for every ramp: the move turned by the angle between the ramp
normal and the plane normal towards the side opposite to the plane normal,
whichever way the ramp leans; `c` and `s` are the cosine and the sine of half that
angle. Its part along the plane normal is never positive for non-negative `c`
and `s`. -/
theorem computeGroundMovementDeltaEx_turns_down (M : FMath) (T : FTrig)
    (C : UDashCharacterMovementComponent) (Delta DeltaPlaneNormal : FVector)
    (RampHit : FHitResult) (bHitFromLineTrace : Bool)
    (hRamp : ComputesRampVector C Delta RampHit bHitFromLineTrace)
    (hN : RampHit.ImpactNormal.SizeSquared = 1)
    (hP : DeltaPlaneNormal.SizeSquared = 1) (hO : FVector.Dot Delta DeltaPlaneNormal = 0)
    (hE : IsExactAt M Delta.SizeSquared)
    (hb : C.bMaintainHorizontalGroundVelocity = false) :
    FVector.Dot
        (C.ComputeGroundMovementDeltaEx M T Delta DeltaPlaneNormal RampHit bHitFromLineTrace)
        DeltaPlaneNormal
      = -(2 * (T.Cos ((1 / 2 : ℚ) * T.Acos (FVector.Dot RampHit.ImpactNormal DeltaPlaneNormal))
          * T.Sin ((1 / 2 : ℚ) * T.Acos (FVector.Dot RampHit.ImpactNormal DeltaPlaneNormal)))
          * M.Sqrt Delta.SizeSquared) := by
  obtain ⟨hLine, hDot, hWalk⟩ := hRamp
  have hx : SMALL_NUMBER ≤ Delta.SizeSquared := sizeSquared_of_not_orthogonal _ _ hN hDot
  obtain ⟨k, hk, hk1, hk2⟩ := FVector.getSafeNormal_exact M Delta hx hE
  have hcond : (!bHitFromLineTrace
      && decide (|FVector.Dot Delta RampHit.ImpactNormal| > THRESH_NORMALS_ARE_ORTHOGONAL)
      && C.IsWalkable RampHit) = true := by
    simp [hLine, hDot, hWalk]
  have hb2 : ¬ C.bMaintainHorizontalGroundVelocity = true := by simp [hb]
  have hR : C.ComputeGroundMovementDeltaEx M T Delta DeltaPlaneNormal RampHit bHitFromLineTrace
      = (FQuat.FromAxisAngle T (FVector.Cross DeltaPlaneNormal (Delta.GetSafeNormal M))
          (T.Acos (FVector.Dot RampHit.ImpactNormal DeltaPlaneNormal))).RotateVector Delta := by
    unfold ComputeGroundMovementDeltaEx
    simp only
    rw [if_pos hcond, if_neg hb2]
  rw [hR, rampVector_rotated M T Delta DeltaPlaneNormal _ k hP hO hk hk1, FVector.dot_add_left,
    FVector.dot_mul_left, FVector.dot_mul_left, hO, zero_mul, zero_add]
  have hPP : FVector.Dot DeltaPlaneNormal DeltaPlaneNormal = 1 := hP
  rw [hPP, one_mul]
  have hkx : k * Delta.SizeSquared = M.Sqrt Delta.SizeSquared := by
    have hS := hE.1
    calc k * Delta.SizeSquared = k * (M.Sqrt Delta.SizeSquared * M.Sqrt Delta.SizeSquared) := by
          rw [hS]
      _ = (k * M.Sqrt Delta.SizeSquared) * M.Sqrt Delta.SizeSquared := by ring
      _ = M.Sqrt Delta.SizeSquared := by rw [hk2, one_mul]
  rw [hkx]

/-! ## The sub-stepping loops terminate (C29) -/

/-- A pass of the loop of `PhysFalling` after which the loop goes on has counted
one iteration. -/
theorem physFallingPass_next (M : FMath) (E : FEngine) (R : FRootMotionEngine)
    (F : FFallingEngine) (GravityDir FallAcceleration : FVector) (L L2 : FPhysFallingLoop)
    (h : PhysFallingPass M E R F GravityDir FallAcceleration L = FPhysFallingStep.Next L2) :
    L2.Iterations = L.Iterations + 1 := by
  unfold PhysFallingPass PhysFallingSubStep PhysFallingAfterMove at h
  split_ifs at h
  all_goals (cases h; rfl)

theorem physFallingLoop_enough (M : FMath) (E : FEngine) (R : FRootMotionEngine)
    (F : FFallingEngine) (GravityDir FallAcceleration : FVector) (Max : Int) :
    ∀ (fuel : Nat) (L : FPhysFallingLoop), (Max - L.Iterations).toNat ≤ fuel →
      PhysFallingLoop M E R F GravityDir FallAcceleration Max (fuel + 1) L
        = PhysFallingLoop M E R F GravityDir FallAcceleration Max fuel L := by
  intro fuel
  induction fuel with
  | zero =>
    intro L hL
    have hle : ¬ L.Iterations < Max := by omega
    simp [PhysFallingLoop, hle]
  | succ n ih =>
    intro L hL
    rw [PhysFallingLoop]
    conv_rhs => rw [PhysFallingLoop]
    by_cases hc : (decide (L.RemainingTime ≥ MIN_TICK_TIME) && decide (L.Iterations < Max)) = true
    · rw [if_pos hc, if_pos hc]
      cases hStep : PhysFallingPass M E R F GravityDir FallAcceleration L with
      | Returned C => rfl
      | Next L2 =>
        have hIt := physFallingPass_next M E R F GravityDir FallAcceleration L L2 hStep
        exact ih L2 (by omega)
    · rw [if_neg hc, if_neg hc]

theorem physFallingLoopPasses_enough (M : FMath) (E : FEngine) (R : FRootMotionEngine)
    (F : FFallingEngine) (GravityDir FallAcceleration : FVector) (Max : Int) :
    ∀ (fuel : Nat) (L : FPhysFallingLoop), (Max - L.Iterations).toNat ≤ fuel →
      PhysFallingLoopPasses M E R F GravityDir FallAcceleration Max (fuel + 1) L
        = PhysFallingLoopPasses M E R F GravityDir FallAcceleration Max fuel L := by
  intro fuel
  induction fuel with
  | zero =>
    intro L hL
    have hle : ¬ L.Iterations < Max := by omega
    simp [PhysFallingLoopPasses, hle]
  | succ n ih =>
    intro L hL
    rw [PhysFallingLoopPasses]
    conv_rhs => rw [PhysFallingLoopPasses]
    by_cases hc : (decide (L.RemainingTime ≥ MIN_TICK_TIME) && decide (L.Iterations < Max)) = true
    · rw [if_pos hc, if_pos hc]
      cases hStep : PhysFallingPass M E R F GravityDir FallAcceleration L with
      | Returned C => rfl
      | Next L2 =>
        have hIt := physFallingPass_next M E R F GravityDir FallAcceleration L L2 hStep
        simp only
        rw [ih L2 (by omega)]
    · rw [if_neg hc, if_neg hc]

theorem physFallingLoopPasses_le (M : FMath) (E : FEngine) (R : FRootMotionEngine)
    (F : FFallingEngine) (GravityDir FallAcceleration : FVector) (Max : Int) :
    ∀ (fuel : Nat) (L : FPhysFallingLoop),
      PhysFallingLoopPasses M E R F GravityDir FallAcceleration Max fuel L
        ≤ (Max - L.Iterations).toNat := by
  intro fuel
  induction fuel with
  | zero =>
    intro L
    simp [PhysFallingLoopPasses]
  | succ n ih =>
    intro L
    rw [PhysFallingLoopPasses]
    by_cases hc : (decide (L.RemainingTime ≥ MIN_TICK_TIME) && decide (L.Iterations < Max)) = true
    · rw [if_pos hc]
      have hlt : L.Iterations < Max := by
        simp only [Bool.and_eq_true, decide_eq_true_eq] at hc
        exact hc.2
      cases hStep : PhysFallingPass M E R F GravityDir FallAcceleration L with
      | Returned C =>
        simp only
        omega
      | Next L2 =>
        have hIt := physFallingPass_next M E R F GravityDir FallAcceleration L L2 hStep
        have := ih L2
        simp only
        omega
    · rw [if_neg hc]
      exact Nat.zero_le _

theorem physWalkingLoopPasses_enough (M : FMath) (E : FEngine) (Max : Int) :
    ∀ (fuel : Nat) (L : FPhysWalkingLoop), (Max - L.Iterations).toNat ≤ fuel →
      PhysWalkingLoopPasses M E Max (fuel + 1) L = PhysWalkingLoopPasses M E Max fuel L := by
  intro fuel
  induction fuel with
  | zero =>
    intro L hL
    have hle : ¬ L.Iterations < Max := by omega
    simp [PhysWalkingLoopPasses, hle]
  | succ n ih =>
    intro L hL
    rw [PhysWalkingLoopPasses]
    conv_rhs => rw [PhysWalkingLoopPasses]
    by_cases hc : (decide (L.remainingTime ≥ MIN_TICK_TIME) && decide (L.Iterations < Max)
        && L.Component.CanRunWalkingPhysics) = true
    · rw [if_pos hc, if_pos hc]
      cases hStep : PhysWalkingPass M E L with
      | Returned Out => rfl
      | Next L2 =>
        have hIt := physWalkingPass_next M E L L2 hStep
        simp only
        rw [ih L2 (by omega)]
      | Break L2 => rfl
    · rw [if_neg hc, if_neg hc]

theorem physWalkingLoopPasses_le (M : FMath) (E : FEngine) (Max : Int) :
    ∀ (fuel : Nat) (L : FPhysWalkingLoop),
      PhysWalkingLoopPasses M E Max fuel L ≤ (Max - L.Iterations).toNat := by
  intro fuel
  induction fuel with
  | zero =>
    intro L
    simp [PhysWalkingLoopPasses]
  | succ n ih =>
    intro L
    rw [PhysWalkingLoopPasses]
    by_cases hc : (decide (L.remainingTime ≥ MIN_TICK_TIME) && decide (L.Iterations < Max)
        && L.Component.CanRunWalkingPhysics) = true
    · rw [if_pos hc]
      have hlt : L.Iterations < Max := by
        simp only [Bool.and_eq_true, decide_eq_true_eq] at hc
        exact hc.1.2
      cases hStep : PhysWalkingPass M E L with
      | Returned Out =>
        simp only
        omega
      | Next L2 =>
        have hIt := physWalkingPass_next M E L L2 hStep
        have := ih L2
        simp only
        omega
      | Break L2 =>
        simp only
        omega
    · rw [if_neg hc]
      exact Nat.zero_le _

/-- A pass of the loop of `PhysWalking` that runs to its end with the capsule at
the location it started from leaves the loop, with no time remaining; with the
capsule elsewhere the loop goes on. -/
theorem physWalkingEndOfPass_stuck (L : FPhysWalkingLoop) (S : FPhysWalkingSaved)
    (remainingTime : ℚ) (bCheckedFall : Bool) (C : UDashCharacterMovementComponent) :
    (C.GetComponentLocation = S.OldLocation →
        ∃ L2, PhysWalkingEndOfPass L S remainingTime bCheckedFall C = FPhysWalkingStep.Break L2
          ∧ L2.remainingTime = 0 ∧ L2.Iterations = S.Iterations)
      ∧ (C.GetComponentLocation ≠ S.OldLocation →
        ∃ L2, PhysWalkingEndOfPass L S remainingTime bCheckedFall C = FPhysWalkingStep.Next L2
          ∧ L2.remainingTime = remainingTime ∧ L2.Iterations = S.Iterations) := by
  have hLoc : (if C.IsMovingOnGround && !C.bJustTeleported && !C.bHasAnimRootMotion
        && !C.bHasOverrideVelocity && decide (S.timeTick ≥ MIN_TICK_TIME) then
      { C with Velocity := (C.GetComponentLocation - S.OldLocation) / S.timeTick }
    else C).GetComponentLocation = C.GetComponentLocation := by
    split <;> rfl
  constructor
  · intro h
    unfold PhysWalkingEndOfPass
    rw [hLoc, if_pos h]
    exact ⟨_, rfl, rfl, rfl⟩
  · intro h
    unfold PhysWalkingEndOfPass
    rw [hLoc, if_neg h]
    exact ⟨_, rfl, rfl, rfl⟩

/-- After a pass of the loop of `PhysWalking` that ended in `break`, no further
pass is made. -/
theorem physWalkingLoop_break (M : FMath) (E : FEngine) (Max : Int) (fuel : Nat)
    (L L2 : FPhysWalkingLoop)
    (hc : (decide (L.remainingTime ≥ MIN_TICK_TIME) && decide (L.Iterations < Max)
      && L.Component.CanRunWalkingPhysics) = true)
    (hStep : PhysWalkingPass M E L = FPhysWalkingStep.Break L2) :
    PhysWalkingLoop M E Max (fuel + 1) L = PhysWalkingFinish M L2
      ∧ PhysWalkingLoopPasses M E Max (fuel + 1) L = 1 := by
  rw [PhysWalkingLoop, PhysWalkingLoopPasses, if_pos hc, if_pos hc, hStep]
  exact ⟨rfl, rfl⟩

theorem physWalkingLoop_add (M : FMath) (E : FEngine) (Max : Int) (L : FPhysWalkingLoop) :
    ∀ k : Nat,
      PhysWalkingLoop M E Max ((Max - L.Iterations).toNat + k) L
          = PhysWalkingLoop M E Max (Max - L.Iterations).toNat L
        ∧ PhysWalkingLoopPasses M E Max ((Max - L.Iterations).toNat + k) L
          = PhysWalkingLoopPasses M E Max (Max - L.Iterations).toNat L := by
  intro k
  induction k with
  | zero => exact ⟨rfl, rfl⟩
  | succ n ih =>
    rw [← Nat.add_assoc, physWalkingLoop_enough M E Max _ L (Nat.le_add_right _ _),
      physWalkingLoopPasses_enough M E Max _ L (Nat.le_add_right _ _)]
    exact ih

theorem physFallingLoop_add (M : FMath) (E : FEngine) (R : FRootMotionEngine)
    (F : FFallingEngine) (GravityDir FallAcceleration : FVector) (Max : Int)
    (L : FPhysFallingLoop) :
    ∀ k : Nat,
      PhysFallingLoop M E R F GravityDir FallAcceleration Max ((Max - L.Iterations).toNat + k) L
          = PhysFallingLoop M E R F GravityDir FallAcceleration Max (Max - L.Iterations).toNat L
        ∧ PhysFallingLoopPasses M E R F GravityDir FallAcceleration Max
            ((Max - L.Iterations).toNat + k) L
          = PhysFallingLoopPasses M E R F GravityDir FallAcceleration Max
            (Max - L.Iterations).toNat L := by
  intro k
  induction k with
  | zero => exact ⟨rfl, rfl⟩
  | succ n ih =>
    rw [← Nat.add_assoc,
      physFallingLoop_enough M E R F GravityDir FallAcceleration Max _ L (Nat.le_add_right _ _),
      physFallingLoopPasses_enough M E R F GravityDir FallAcceleration Max _ L
        (Nat.le_add_right _ _)]
    exact ih

/-- C29. The loops of `PhysWalking` and `PhysFalling` terminate, for every state,
every behaviour of the engine calls and every bound `MaxSimulationIterations`:
a loop entered with the iteration count `i` makes at most
`max 0 (MaxSimulationIterations - i)` passes, however many it is allowed, and
allowing more than that many changes neither its result nor the number of passes
it makes. Every pass after which the loop goes on, the ledge retry of `PhysWalking`
among them, has counted one iteration. And a pass of `PhysWalking` that runs to
its end with the capsule at the location it started from leaves the loop with no
time remaining, after which no further pass is made. -/
theorem C29_substep_loops_terminate (M : FMath) (E : FEngine) (R : FRootMotionEngine)
    (F : FFallingEngine) (GravityDir FallAcceleration : FVector) (Max : Int) :
    (∀ (L : FPhysWalkingLoop) (n : Nat),
        (PhysWalkingLoopPasses M E Max n L : Int) ≤ max 0 (Max - L.Iterations)
          ∧ PhysWalkingLoop M E Max ((Max - L.Iterations).toNat + n) L
            = PhysWalkingLoop M E Max (Max - L.Iterations).toNat L
          ∧ PhysWalkingLoopPasses M E Max ((Max - L.Iterations).toNat + n) L
            = PhysWalkingLoopPasses M E Max (Max - L.Iterations).toNat L)
      ∧ (∀ (L : FPhysFallingLoop) (n : Nat),
        (PhysFallingLoopPasses M E R F GravityDir FallAcceleration Max n L : Int)
            ≤ max 0 (Max - L.Iterations)
          ∧ PhysFallingLoop M E R F GravityDir FallAcceleration Max
              ((Max - L.Iterations).toNat + n) L
            = PhysFallingLoop M E R F GravityDir FallAcceleration Max (Max - L.Iterations).toNat L
          ∧ PhysFallingLoopPasses M E R F GravityDir FallAcceleration Max
              ((Max - L.Iterations).toNat + n) L
            = PhysFallingLoopPasses M E R F GravityDir FallAcceleration Max
              (Max - L.Iterations).toNat L)
      ∧ (∀ L L2 : FPhysWalkingLoop, PhysWalkingPass M E L = FPhysWalkingStep.Next L2 →
          L2.Iterations = L.Iterations + 1)
      ∧ (∀ L L2 : FPhysFallingLoop,
          PhysFallingPass M E R F GravityDir FallAcceleration L = FPhysFallingStep.Next L2 →
          L2.Iterations = L.Iterations + 1)
      ∧ (∀ (L : FPhysWalkingLoop) (S : FPhysWalkingSaved) (remainingTime : ℚ)
          (bCheckedFall : Bool) (C : UDashCharacterMovementComponent),
          C.GetComponentLocation = S.OldLocation →
          ∃ L2, PhysWalkingEndOfPass L S remainingTime bCheckedFall C = FPhysWalkingStep.Break L2
            ∧ L2.remainingTime = 0 ∧ L2.Iterations = S.Iterations)
      ∧ (∀ (L L2 : FPhysWalkingLoop) (n : Nat),
          (decide (L.remainingTime ≥ MIN_TICK_TIME) && decide (L.Iterations < Max)
            && L.Component.CanRunWalkingPhysics) = true →
          PhysWalkingPass M E L = FPhysWalkingStep.Break L2 →
          PhysWalkingLoop M E Max (n + 1) L = PhysWalkingFinish M L2
            ∧ PhysWalkingLoopPasses M E Max (n + 1) L = 1) := by
  refine ⟨?_, ?_, physWalkingPass_next M E, physFallingPass_next M E R F GravityDir FallAcceleration,
    ?_, ?_⟩
  · intro L n
    refine ⟨?_, physWalkingLoop_add M E Max L n⟩
    have := physWalkingLoopPasses_le M E Max n L
    have h2 : ((Max - L.Iterations).toNat : Int) = max (Max - L.Iterations) 0 :=
      Int.toNat_eq_max _
    rw [max_comm]
    omega
  · intro L n
    refine ⟨?_, physFallingLoop_add M E R F GravityDir FallAcceleration Max L n⟩
    have := physFallingLoopPasses_le M E R F GravityDir FallAcceleration Max n L
    have h2 : ((Max - L.Iterations).toNat : Int) = max (Max - L.Iterations) 0 :=
      Int.toNat_eq_max _
    rw [max_comm]
    omega
  · intro L S rt b C h
    exact (physWalkingEndOfPass_stuck L S rt b C).1 h
  · intro L L2 n hc hStep
    exact physWalkingLoop_break M E Max n L L2 hc hStep

/-- C29, at a bound of 8 iterations. A fall of a sixtieth of a second entered with
the iteration count 5, in sub-steps of half the remaining time: three passes are
made, as many as the bound leaves, whether 3 or 100 are allowed. A walk of a
sixtieth of a second of a character at rest: one pass is made, which ends with the
capsule where it started. -/
theorem C29_substep_loops_terminate_witness :
    PhysFallingLoopPasses RatMath (HalvingEngine PenetratingFloor (FHitResult.Init 1))
        ExampleRootMotion ExampleFallingEngine ⟨0, 0, -1⟩ FVector.ZeroVector 8 100
        FallingLoopStart = 3
      ∧ (PhysFallingLoopPasses RatMath (HalvingEngine PenetratingFloor (FHitResult.Init 1))
          ExampleRootMotion ExampleFallingEngine ⟨0, 0, -1⟩ FVector.ZeroVector 8 100
          FallingLoopStart : Int) ≤ max 0 (8 - FallingLoopStart.Iterations)
      ∧ (PhysFallingLoop RatMath (HalvingEngine PenetratingFloor (FHitResult.Init 1))
          ExampleRootMotion ExampleFallingEngine ⟨0, 0, -1⟩ FVector.ZeroVector 8 3
          FallingLoopStart).Iterations = 8
      ∧ PhysWalkingLoopPasses RatMath (ExampleEngine PenetratingFloor (FHitResult.Init 1)) 8 100
          WalkingLoopStart = 1
      ∧ (PhysWalkingLoopPasses RatMath (ExampleEngine PenetratingFloor (FHitResult.Init 1)) 8 100
          WalkingLoopStart : Int) ≤ max 0 (8 - WalkingLoopStart.Iterations)
      ∧ (PhysWalkingLoop RatMath (ExampleEngine PenetratingFloor (FHitResult.Init 1)) 8 100
          WalkingLoopStart).Iterations = 1 :=
  ⟨by decide!,
    ((C29_substep_loops_terminate RatMath (HalvingEngine PenetratingFloor (FHitResult.Init 1))
      ExampleRootMotion ExampleFallingEngine ⟨0, 0, -1⟩ FVector.ZeroVector 8).2.1
        FallingLoopStart 100).1,
    by decide!, by decide!,
    ((C29_substep_loops_terminate RatMath (ExampleEngine PenetratingFloor (FHitResult.Init 1))
      ExampleRootMotion ExampleFallingEngine ⟨0, 0, -1⟩ FVector.ZeroVector 8).1
        WalkingLoopStart 100).1,
    by decide!⟩

end DashEngine
